import Mathlib

/-!
# yachk: file-name checker

A shallow embedding of `src/main.go` and `src/translit.go`.

Go strings are modelled as `List Char` (the texts that reach the modelled code are
valid UTF-8, so a string is its sequence of runes).  Console output is modelled as the
list of printed lines, tagged by the colour the source prints them in.
-/

namespace Yachk

/-! ## Regular expressions (Go `regexp`, leftmost-first semantics) -/

/-- Abstract syntax of the regular expressions used in `regexpMap`. -/
inductive Re where
  | cls (p : Char → Bool)
  | eps
  | cat (a b : Re)
  | alt (a b : Re)
  | star (greedy : Bool) (r : Re)
  | grp (i : Nat) (r : Re)

/-- Capture groups: the most recent binding of a group index comes first. -/
abbrev Caps := List (Nat × List Char)

/-- Result of a match attempt: remaining input and captures. -/
abbrev MatchRes := Option (List Char × Caps)

/-- Continuation of a backtracking match. -/
abbrev Cont := List Char → Caps → MatchRes

/-- Repetition of `body`; each iteration has to consume input.  A greedy loop prefers
another iteration, a lazy loop prefers to stop. -/
def loop (body : List Char → Caps → Cont → MatchRes) (greedy : Bool) :
    Nat → List Char → Caps → Cont → MatchRes
  | 0, s, c, k => k s c
  | n + 1, s, c, k =>
    if greedy then
      match body s c (fun s1 c1 => if s1.length < s.length then loop body greedy n s1 c1 k else none) with
      | some r => some r
      | none => k s c
    else
      match k s c with
      | some r => some r
      | none => body s c (fun s1 c1 => if s1.length < s.length then loop body greedy n s1 c1 k else none)

/-- Backtracking matcher anchored at the start of `s`: alternatives are tried in priority
order and the first overall success is returned. -/
def Re.run : Re → List Char → Caps → Cont → MatchRes
  | .cls p, s, c, k =>
    match s with
    | [] => none
    | x :: xs => if p x then k xs c else none
  | .eps, s, c, k => k s c
  | .cat a b, s, c, k => Re.run a s c (fun s1 c1 => Re.run b s1 c1 k)
  | .alt a b, s, c, k =>
    match Re.run a s c k with
    | some r => some r
    | none => Re.run b s c k
  | .star g r, s, c, k => loop (Re.run r) g s.length s c k
  | .grp i r, s, c, k =>
    Re.run r s c (fun s1 c1 => k s1 ((i, s.take (s.length - s1.length)) :: c1))

/-- Match of `re` starting exactly at the head of `s`. -/
def Re.matchAt (re : Re) (s : List Char) : MatchRes :=
  re.run s [] (fun s1 c1 => some (s1, c1))

/-- Leftmost match of `re` in `s`, where `s` starts at offset `off` of the whole text:
returns start offset, end offset and the captures (`doExecute`). -/
def Re.exec (re : Re) : List Char → Nat → Option (Nat × Nat × Caps)
  | [], off =>
    match re.matchAt [] with
    | some (_, c) => some (off, off, c)
    | none => none
  | x :: xs, off =>
    match re.matchAt (x :: xs) with
    | some (s1, c) => some (off, off + ((x :: xs).length - s1.length), c)
    | none => Re.exec re xs (off + 1)

/-- Text of capture group `i`; a group that took no part in the match is empty. -/
def capture (c : Caps) (i : Nat) : List Char :=
  match c.find? (fun e => e.1 == i) with
  | some e => e.2
  | none => []

/-- `Regexp.MatchString`. -/
def Re.matchString (re : Re) (s : List Char) : Bool :=
  (re.exec s 0).isSome

/-- Loop of `Regexp.replaceAll` with the template `${i}`; `fuel` bounds the number of
matches. -/
def replaceLoop (re : Re) (i : Nat) (src : List Char) :
    Nat → Nat → Nat → List Char → List Char
  | 0, _, lastMatchEnd, buf => buf ++ src.drop lastMatchEnd
  | fuel + 1, searchPos, lastMatchEnd, buf =>
    if searchPos ≤ src.length then
      match re.exec (src.drop searchPos) searchPos with
      | none => buf ++ src.drop lastMatchEnd
      | some (a0, a1, c) =>
        let buf1 := buf ++ (src.drop lastMatchEnd).take (a0 - lastMatchEnd)
        let buf2 := if a1 > lastMatchEnd ∨ a0 = 0 then buf1 ++ capture c i else buf1
        let next := if searchPos + 1 > a1 then searchPos + 1 else a1
        replaceLoop re i src fuel next a1 buf2
    else buf ++ src.drop lastMatchEnd

/-- `Regexp.ReplaceAllString(src, "${i}")`. -/
def Re.replaceAllString (re : Re) (src : List Char) (i : Nat) : List Char :=
  replaceLoop re i src (src.length + 1) 0 0 []

/-- Loop of `Regexp.allMatches`, collecting the matched substrings. -/
def findLoop (re : Re) (src : List Char) :
    Nat → Nat → Option Nat → List (List Char)
  | 0, _, _ => []
  | fuel + 1, pos, prevMatchEnd =>
    if pos ≤ src.length then
      match re.exec (src.drop pos) pos with
      | none => []
      | some (a0, a1, _) =>
        let accept := !(a1 == pos && some a0 == prevMatchEnd)
        let next := if a1 == pos then pos + 1 else a1
        let tl := findLoop re src fuel next (some a1)
        if accept then (src.drop a0).take (a1 - a0) :: tl else tl
    else []

/-- `Regexp.FindAllString(src, -1)`. -/
def Re.findAllString (re : Re) (src : List Char) : List (List Char) :=
  findLoop re src (src.length + 1) 0 none

/-! ### Building blocks -/

/-- A literal character. -/
def Re.chr (x : Char) : Re := .cls (fun y => y == x)

/-- A literal string. -/
def Re.lit : List Char → Re
  | [] => .eps
  | [x] => Re.chr x
  | x :: xs => .cat (Re.chr x) (Re.lit xs)

/-- The class `\d`. -/
def isDigit (x : Char) : Bool := decide (48 ≤ x.toNat) && decide (x.toNat ≤ 57)

/-- The class `[A-Za-z]`. -/
def isAlpha (x : Char) : Bool :=
  (decide (65 ≤ x.toNat) && decide (x.toNat ≤ 90)) || (decide (97 ≤ x.toNat) && decide (x.toNat ≤ 122))

/-- The class `[0-9A-Za-z]`. -/
def isAlnum (x : Char) : Bool := isDigit x || isAlpha x

/-- The class `.`: any character but a line feed. -/
def isAny (x : Char) : Bool := !(x == '\n')

/-- Digit `\d`. -/
def Re.digit : Re := .cls isDigit

/-- Greedy `.*`. -/
def Re.anyStar : Re := .star true (.cls isAny)

/-- Greedy `r+`. -/
def Re.plus (r : Re) : Re := .cat r (.star true r)

/-- Greedy `r?`. -/
def Re.opt (r : Re) : Re := .alt r .eps

/-- Concatenation of a list of expressions. -/
def Re.seq : List Re → Re
  | [] => .eps
  | [r] => r
  | r :: rs => .cat r (Re.seq rs)

/-- The group `(s\d{2}e\d{2,4})`. -/
def seTag : Re :=
  Re.seq [Re.chr 's', Re.digit, Re.digit, Re.chr 'e', Re.digit, Re.digit,
    Re.opt (.cat Re.digit (Re.opt Re.digit))]

/-- Regular expression `idQ`: `.*?(s\d{2}e\d{2,4})?(?:\_)?coid(\d+).*_q(\d+).*`. -/
def idQ : Re :=
  Re.seq [.star false (.cls isAny), Re.opt (.grp 1 seTag), Re.opt (Re.chr '_'),
    Re.lit "coid".toList, .grp 2 (Re.plus Re.digit), Re.anyStar, Re.lit "_q".toList,
    .grp 3 (Re.plus Re.digit), Re.anyStar]

/-- Regular expression `idQ2`: `.*?(s\d{2}e\d{2,4})?(?:\_)?coid-(\d+).*-q(\d+).*`. -/
def idQ2 : Re :=
  Re.seq [.star false (.cls isAny), Re.opt (.grp 1 seTag), Re.opt (Re.chr '_'),
    Re.lit "coid-".toList, .grp 2 (Re.plus Re.digit), Re.anyStar, Re.lit "-q".toList,
    .grp 3 (Re.plus Re.digit), Re.anyStar]

/-- Regular expression `0v`:
`Stream #(\d+):(\d+)\(([A-Za-z]+)\): Video: ([0-9A-Za-z]+) .*, ([0-9A-Za-z]+), (\d+)x(\d+) \[SAR (\d+):(\d+) DAR (\d+):(\d+)\],.*, ((?:\d+)|(?:\d+\.\d+)) fps,.* (\(default\))?`. -/
def re0v : Re :=
  Re.seq [Re.lit "Stream #".toList, .grp 1 (Re.plus Re.digit), Re.chr ':',
    .grp 2 (Re.plus Re.digit), Re.chr '(', .grp 3 (Re.plus (.cls isAlpha)),
    Re.lit "): Video: ".toList, .grp 4 (Re.plus (.cls isAlnum)), Re.chr ' ', Re.anyStar,
    Re.lit ", ".toList, .grp 5 (Re.plus (.cls isAlnum)), Re.lit ", ".toList,
    .grp 6 (Re.plus Re.digit), Re.chr 'x', .grp 7 (Re.plus Re.digit),
    Re.lit " [SAR ".toList, .grp 8 (Re.plus Re.digit), Re.chr ':', .grp 9 (Re.plus Re.digit),
    Re.lit " DAR ".toList, .grp 10 (Re.plus Re.digit), Re.chr ':', .grp 11 (Re.plus Re.digit),
    Re.lit "],".toList, Re.anyStar, Re.lit ", ".toList,
    .grp 12 (.alt (Re.plus Re.digit) (Re.seq [Re.plus Re.digit, Re.chr '.', Re.plus Re.digit])),
    Re.lit " fps,".toList, Re.anyStar, Re.chr ' ', Re.opt (.grp 13 (Re.lit "(default)".toList))]

/-- Regular expression `1a`:
`Stream #(\d+):(\d+)\(([A-Za-z]+)\): Audio: ([0-9A-Za-z]+) .*, (\d+) Hz, ([0-9A-Za-z\.]+).*,.* (\(default\))*?.*\n(?:.*Metadata:.*\n.*handler_name.*: (.*)?(?:\r\n))*`. -/
def re1a : Re :=
  Re.seq [Re.lit "Stream #".toList, .grp 1 (Re.plus Re.digit), Re.chr ':',
    .grp 2 (Re.plus Re.digit), Re.chr '(', .grp 3 (Re.plus (.cls isAlpha)),
    Re.lit "): Audio: ".toList, .grp 4 (Re.plus (.cls isAlnum)), Re.chr ' ', Re.anyStar,
    Re.lit ", ".toList, .grp 5 (Re.plus Re.digit), Re.lit " Hz, ".toList,
    .grp 6 (Re.plus (.cls (fun x => isAlnum x || x == '.'))), Re.anyStar, Re.chr ',',
    Re.anyStar, Re.chr ' ', .star false (.grp 7 (Re.lit "(default)".toList)), Re.anyStar,
    Re.chr '\n',
    .star true (Re.seq [Re.anyStar, Re.lit "Metadata:".toList, Re.anyStar, Re.chr '\n',
      Re.anyStar, Re.lit "handler_name".toList, Re.anyStar, Re.lit ": ".toList,
      Re.opt (.grp 8 Re.anyStar), Re.lit "\r\n".toList])]

/-! ## `strconv` -/

/-- Errors returned by the modelled library calls. -/
inductive GoErr where
  | errSyntax
  | errRange
  deriving DecidableEq, Repr

/-- Value of a string of decimal digits. -/
def digitsVal (s : List Char) : Nat :=
  s.foldl (fun n x => 10 * n + (x.toNat - 48)) 0

/-- `strconv.Atoi` for the 64-bit `int`: the value and the error.  An out-of-range value
is clamped and reported with `ErrRange`. -/
def atoi (s : List Char) : Int × Option GoErr :=
  let neg := s.head? == some '-'
  let body := if s.head? == some '-' ∨ s.head? == some '+' then s.drop 1 else s
  if body = [] ∨ ¬ (body.all isDigit = true) then (0, some .errSyntax)
  else if neg then
    if digitsVal body > 2 ^ 63 then (-(2 ^ 63 : Int), some .errRange)
    else (-(digitsVal body : Int), none)
  else
    if digitsVal body ≥ 2 ^ 63 then ((2 ^ 63 - 1 : Int), some .errRange)
    else ((digitsVal body : Int), none)

/-- Decimal digits of `n`, most significant first, in front of `acc`. -/
def natDigits : Nat → Nat → List Char → List Char
  | 0, _, acc => acc
  | fuel + 1, n, acc =>
    if n / 10 = 0 then Char.ofNat (48 + n % 10) :: acc
    else natDigits fuel (n / 10) (Char.ofNat (48 + n % 10) :: acc)

/-- `strconv.Itoa`. -/
def itoa : Int → List Char
  | .ofNat n => natDigits (n + 1) n []
  | .negSucc n => '-' :: natDigits (n + 2) (n + 1) []

/-- A `float64` is represented by its shortest decimal text, the string
`strconv.FormatFloat(x, 'f', -1, 64)`. -/
abbrev Float64 := List Char

/-- `strconv.FormatFloat(x, 'f', -1, 64)` on the representation above. -/
def formatFloat (x : Float64) : List Char := x

/-- Drops leading zeros, keeping one digit. -/
def stripLeadingZeros : List Char → List Char
  | '0' :: y :: ys => stripLeadingZeros (y :: ys)
  | s => s

/-- Drops trailing zeros. -/
def stripTrailingZeros (s : List Char) : List Char :=
  (s.reverse.dropWhile (fun x => x == '0')).reverse

/-- Number of binary digits of `n`; `fuel` bounds the number of steps. -/
def bitLen : Nat → Nat → Nat
  | 0, _ => 0
  | fuel + 1, n => if n = 0 then 0 else bitLen fuel (n / 2) + 1

/-- Rounding of the positive rational `num / den` to the nearest `float64`, ties to the
even mantissa: the result is `(q, e)` for the value `q * 2 ^ e / 2 ^ 1076` with
`q < 2 ^ 53`, where `e = 2` for the subnormal numbers and `2047 < e` stands for a value
beyond the largest `float64`. -/
def roundFloat (num den : Nat) : Nat × Nat :=
  let bn := bitLen num num
  let bd := bitLen den den
  let l := if den * 2 ^ bn ≤ num * 2 ^ bd then bn + 1100 - bd else bn + 1100 - bd - 1
  let e := max 2 (l - 76)
  let a := num * 2 ^ (1076 - e)
  let b := den * 2 ^ (e - 1076)
  let q := a / b
  let r := a % b
  let q1 := if b < 2 * r ∨ (2 * r = b ∧ q % 2 = 1) then q + 1 else q
  if q1 = 2 ^ 53 then (2 ^ 52, e + 1) else (q1, e)

/-- The text of `c * 10 ^ p` without exponent: `up` is `p` or zero, `down` is `-p` or
zero. -/
def decimalText (c up down : Nat) : List Char :=
  let ds := natDigits (c + 1) c []
  if down = 0 then ds ++ List.replicate up '0'
  else
    let padded := List.replicate (down + 1 - ds.length) '0' ++ ds
    let ip := padded.take (padded.length - down)
    let fp := stripTrailingZeros (padded.drop (padded.length - down))
    if fp = [] then ip else ip ++ '.' :: fp

/-- The shortest decimal that lies between `lower` and `upper`, the bounds belonging to
the interval when `incl` holds, and among these the one next to `x`; the three numbers
are given as multiples of `1 / scale`.  The decimals `c * 10 ^ p` are tried with `p`
going down from `pmax`, the step `i` standing for `p = pmax - i`. -/
def shortestFrom (x lower upper scale : Nat) (incl : Bool) (pmax : Nat) :
    Nat → Nat → List Char
  | 0, _ => []
  | fuel + 1, i =>
    let up := pmax - i
    let down := i - pmax
    let unit := 10 ^ up * scale
    let t := 10 ^ down
    let c := (x * t) / unit
    let inside := fun (v : Nat) =>
      if incl then decide (lower * t ≤ v) && decide (v ≤ upper * t)
      else decide (lower * t < v) && decide (v < upper * t)
    let okLo := inside (c * unit)
    let okHi := inside ((c + 1) * unit)
    if okLo && okHi then
      if x * t - c * unit < (c + 1) * unit - x * t then decimalText c up down
      else if (c + 1) * unit - x * t < x * t - c * unit then decimalText (c + 1) up down
      else if c % 2 = 0 then decimalText c up down
      else decimalText (c + 1) up down
    else if okLo then decimalText c up down
    else if okHi then decimalText (c + 1) up down
    else shortestFrom x lower upper scale incl pmax fuel (i + 1)

/-- `strconv.FormatFloat(x, 'f', -1, 64)` for the `float64` with the value
`q * 2 ^ e / 2 ^ 1076`, where `0 < q` and `2 ≤ e`: the shortest decimal that
`strconv.ParseFloat` maps back to this `float64`. -/
def shortestText (q e : Nat) : List Char :=
  let s := 1078 - e
  let t := e + s - 1076
  let x := q * 2 ^ t
  let upper := (2 * q + 1) * 2 ^ (t - 1)
  let lower := if q = 2 ^ 52 ∧ 2 < e then (4 * q - 1) * 2 ^ (t - 2) else (2 * q - 1) * 2 ^ (t - 1)
  let whole := x / 2 ^ s
  let pmax := if whole = 0 then 0 else (natDigits (whole + 1) whole []).length
  shortestFrom x lower upper (2 ^ s) (q % 2 == 0) pmax (pmax + 1080) 0

/-- `strconv.ParseFloat(s, 64)` on plain decimal texts `\d+` and `\d+\.\d+`, the only
texts group 12 of `0v` admits; any other text is reported as a syntax error, with the
value 0, here.  The text is rounded to the nearest `float64`; a value that rounds to
infinity is reported with `ErrRange`. -/
def parseFloat (s : List Char) : Float64 × Option GoErr :=
  let ip := s.takeWhile isDigit
  let rest := s.dropWhile isDigit
  let fp := rest.drop 1
  if ip = [] then (['0'], some .errSyntax)
  else if rest = [] ∨ (rest.head? == some '.' ∧ fp ≠ [] ∧ fp.all isDigit = true) then
    if digitsVal (ip ++ fp) = 0 then (['0'], none)
    else
      match roundFloat (digitsVal (ip ++ fp)) (10 ^ fp.length) with
      | (q, e) =>
        if 2047 < e then ("+Inf".toList, some .errRange)
        else if q = 0 then (['0'], none)
        else (shortestText q e, none)
  else (['0'], some .errSyntax)

/-! ## Stream descriptors -/

/-- The struct `video`. -/
structure Video where
  stream : Int × Int
  lang : List Char
  format : List Char
  pixFmt : List Char
  resolution : Int × Int
  sar : Int × Int
  dar : Int × Int
  fps : Float64
  isDefault : Bool
  deriving DecidableEq

/-- The struct `audio`. -/
structure Audio where
  stream : Int × Int
  lang : List Char
  format : List Char
  sampleRate : List Char
  channels : List Char
  isDefault : Bool
  name : List Char
  deriving DecidableEq

/-- Function `parseVideo`: every `err` is overwritten by the next conversion, the one
returned is that of `ParseFloat`. -/
def parseVideo (inp : List Char) : Video × Option GoErr :=
  let stream1 := atoi (re0v.replaceAllString inp 1)
  let stream2 := atoi (re0v.replaceAllString inp 2)
  let lang := re0v.replaceAllString inp 3
  let format := re0v.replaceAllString inp 4
  let pixFmt := re0v.replaceAllString inp 5
  let resolution1 := atoi (re0v.replaceAllString inp 6)
  let resolution2 := atoi (re0v.replaceAllString inp 7)
  let sar1 := atoi (re0v.replaceAllString inp 8)
  let sar2 := atoi (re0v.replaceAllString inp 9)
  let dar1 := atoi (re0v.replaceAllString inp 10)
  let dar2 := atoi (re0v.replaceAllString inp 11)
  let fps := parseFloat (re0v.replaceAllString inp 12)
  let isDefault := decide (re0v.replaceAllString inp 13 ≠ [])
  ({ stream := (stream1.1, stream2.1), lang := lang, format := format, pixFmt := pixFmt,
     resolution := (resolution1.1, resolution2.1), sar := (sar1.1, sar2.1),
     dar := (dar1.1, dar2.1), fps := fps.1, isDefault := isDefault }, fps.2)

/-- Function `parseAudio`: the `err` returned is that of the second stream index. -/
def parseAudio (inp : List Char) : Audio × Option GoErr :=
  let stream1 := atoi (re1a.replaceAllString inp 1)
  let stream2 := atoi (re1a.replaceAllString inp 2)
  let lang := re1a.replaceAllString inp 3
  let format := re1a.replaceAllString inp 4
  let sampleRate := re1a.replaceAllString inp 5
  let channels := re1a.replaceAllString inp 6
  let isDefault := decide (re1a.replaceAllString inp 7 ≠ [])
  let name := re1a.replaceAllString inp 8
  ({ stream := (stream1.1, stream2.1), lang := lang, format := format,
     sampleRate := sampleRate, channels := channels, isDefault := isDefault, name := name },
   stream2.2)

/-! ## `translit.go` -/

/-- The map `ruseng`; a rune that is no key yields the empty string. -/
def ruseng (r : Char) : List Char :=
  match r with
  | 'а' => "a".toList
  | 'б' => "b".toList
  | 'в' => "v".toList
  | 'г' => "g".toList
  | 'д' => "d".toList
  | 'е' => "e".toList
  | 'ё' => "e".toList
  | 'ж' => "zh".toList
  | 'з' => "z".toList
  | 'и' => "i".toList
  | 'й' => "y".toList
  | 'к' => "k".toList
  | 'л' => "l".toList
  | 'м' => "m".toList
  | 'н' => "n".toList
  | 'о' => "o".toList
  | 'п' => "p".toList
  | 'р' => "r".toList
  | 'с' => "s".toList
  | 'т' => "t".toList
  | 'у' => "u".toList
  | 'ф' => "f".toList
  | 'х' => "h".toList
  | 'ц' => "c".toList
  | 'ч' => "ch".toList
  | 'ш' => "sh".toList
  | 'щ' => "sh".toList
  | 'ъ' => ".".toList
  | 'ы' => "y".toList
  | 'ь' => ".".toList
  | 'э' => "e".toList
  | 'ю' => "yu".toList
  | 'я' => "ya".toList
  | _ => []

/-- The string `eng`. -/
def eng : List Char := "abcdefghijklmnopqrstuvwxyz1234567890".toList

/-- The variables `ret`, `sep` and `underscore` of `translit`. -/
structure Acc where
  ret : List Char
  sep : List Char
  underscore : List Char
  deriving DecidableEq

/-- One iteration of the loop `for _, r := range src`. -/
def translitStep (st : Acc) (r : Char) : Acc :=
  let x := if ruseng r = [] ∧ r ∈ eng then [r] else ruseng r
  if x = ['.'] then st
  else if x = [] then { st with sep := st.underscore }
  else { ret := st.ret ++ st.sep ++ x, sep := [], underscore := ['_'] }

/-- The mapping loop of `translit`, returning the final `ret`. -/
def translitLoop (src : List Char) : List Char :=
  (src.foldl translitStep { ret := [], sep := [], underscore := [] }).ret

/-- `isSeparator` of package `strings`: ASCII letters, digits and the underscore are no
separators, every other ASCII rune is.  Runes above 0x7F never reach `Title` in
`translit`; they are taken as no separators here. -/
def isSeparator (r : Char) : Bool :=
  if r.toNat ≤ 0x7F then !(isDigit r || isAlpha r || r == '_') else false

/-- `unicode.ToTitle` on ASCII; other runes are left unchanged here. -/
def toTitle (r : Char) : Char :=
  if 97 ≤ r.toNat ∧ r.toNat ≤ 122 then Char.ofNat (r.toNat - 32) else r

/-- The closure of `strings.Title`: `prev` is the rune seen before. -/
def titleFrom : Char → List Char → List Char
  | _, [] => []
  | prev, r :: rs => (if isSeparator prev then toTitle r else r) :: titleFrom r rs

/-- `strings.Title`. -/
def title (s : List Char) : List Char := titleFrom ' ' s

/-- Function `translit` over a given text transformer `chain` (the value `t` handed to
`transform.String`); the error of the transformer is `nil`. -/
def translitWith (chain : List Char → List Char) (text : List Char) :
    List Char × Option GoErr :=
  (title (translitLoop (chain text)), none)

/-! ### Character data of packages `unicode` and `norm` (Unicode 14.0) -/

/-- A table of rows `first last value` for ranges of runes, kept as a search tree: the
rows of the left subtree lie before the row of the node, those of the right subtree behind
it. -/
inductive Table (α : Type) where
  | leaf : Table α
  | node (left : Table α) (first last : Nat) (value : α) (right : Table α) : Table α

/-- The runes with a canonical combining class other than zero, with their class. -/
def cccTable : Table Nat :=
  .node (.node (.node (.node (.node (.node (.node (.node (.node .leaf 0x300 0x314 230 .leaf) 0x315
  0x315 232 .leaf) 0x316 0x319 220 (.node (.node .leaf 0x31A 0x31A 232 .leaf) 0x31B 0x31B 216 .leaf
  )) 0x31C 0x320 220 (.node (.node (.node .leaf 0x321 0x322 202 .leaf) 0x323 0x326 220 .leaf) 0x327
  0x328 202 (.node (.node .leaf 0x329 0x333 220 .leaf) 0x334 0x338 1 .leaf))) 0x339 0x33C 220 (
  .node (.node (.node (.node .leaf 0x33D 0x344 230 .leaf) 0x345 0x345 240 .leaf) 0x346 0x346 230 (
  .node (.node .leaf 0x347 0x349 220 .leaf) 0x34A 0x34C 230 .leaf)) 0x34D 0x34E 220 (.node (.node (
  .node .leaf 0x350 0x352 230 .leaf) 0x353 0x356 220 .leaf) 0x357 0x357 230 (.node (.node .leaf
  0x358 0x358 232 .leaf) 0x359 0x35A 220 .leaf)))) 0x35B 0x35B 230 (.node (.node (.node (.node (
  .node .leaf 0x35C 0x35C 233 .leaf) 0x35D 0x35E 234 .leaf) 0x35F 0x35F 233 (.node (.node .leaf
  0x360 0x361 234 .leaf) 0x362 0x362 233 .leaf)) 0x363 0x36F 230 (.node (.node (.node .leaf 0x483
  0x487 230 .leaf) 0x591 0x591 220 .leaf) 0x592 0x595 230 (.node (.node .leaf 0x596 0x596 220 .leaf
  ) 0x597 0x599 230 .leaf))) 0x59A 0x59A 222 (.node (.node (.node (.node .leaf 0x59B 0x59B 220
  .leaf) 0x59C 0x5A1 230 .leaf) 0x5A2 0x5A7 220 (.node (.node .leaf 0x5A8 0x5A9 230 .leaf) 0x5AA
  0x5AA 220 .leaf)) 0x5AB 0x5AC 230 (.node (.node (.node .leaf 0x5AD 0x5AD 222 .leaf) 0x5AE 0x5AE
  228 .leaf) 0x5AF 0x5AF 230 (.node (.node .leaf 0x5B0 0x5B0 10 .leaf) 0x5B1 0x5B1 11 .leaf)))))
  0x5B2 0x5B2 12 (.node (.node (.node (.node (.node (.node .leaf 0x5B3 0x5B3 13 .leaf) 0x5B4 0x5B4
  14 .leaf) 0x5B5 0x5B5 15 (.node (.node .leaf 0x5B6 0x5B6 16 .leaf) 0x5B7 0x5B7 17 .leaf)) 0x5B8
  0x5B8 18 (.node (.node (.node .leaf 0x5B9 0x5BA 19 .leaf) 0x5BB 0x5BB 20 .leaf) 0x5BC 0x5BC 21 (
  .node (.node .leaf 0x5BD 0x5BD 22 .leaf) 0x5BF 0x5BF 23 .leaf))) 0x5C1 0x5C1 24 (.node (.node (
  .node (.node .leaf 0x5C2 0x5C2 25 .leaf) 0x5C4 0x5C4 230 .leaf) 0x5C5 0x5C5 220 (.node (.node
  .leaf 0x5C7 0x5C7 18 .leaf) 0x610 0x617 230 .leaf)) 0x618 0x618 30 (.node (.node (.node .leaf
  0x619 0x619 31 .leaf) 0x61A 0x61A 32 .leaf) 0x64B 0x64B 27 (.node (.node .leaf 0x64C 0x64C 28
  .leaf) 0x64D 0x64D 29 .leaf)))) 0x64E 0x64E 30 (.node (.node (.node (.node (.node .leaf 0x64F
  0x64F 31 .leaf) 0x650 0x650 32 .leaf) 0x651 0x651 33 (.node (.node .leaf 0x652 0x652 34 .leaf)
  0x653 0x654 230 .leaf)) 0x655 0x656 220 (.node (.node (.node .leaf 0x657 0x65B 230 .leaf) 0x65C
  0x65C 220 .leaf) 0x65D 0x65E 230 (.node (.node .leaf 0x65F 0x65F 220 .leaf) 0x670 0x670 35 .leaf)
  )) 0x6D6 0x6DC 230 (.node (.node (.node (.node .leaf 0x6DF 0x6E2 230 .leaf) 0x6E3 0x6E3 220 .leaf
  ) 0x6E4 0x6E4 230 (.node (.node .leaf 0x6E7 0x6E8 230 .leaf) 0x6EA 0x6EA 220 .leaf)) 0x6EB 0x6EC
  230 (.node (.node (.node .leaf 0x6ED 0x6ED 220 .leaf) 0x711 0x711 36 .leaf) 0x730 0x730 230 (
  .node (.node .leaf 0x731 0x731 220 .leaf) 0x732 0x733 230 .leaf)))))) 0x734 0x734 220 (.node (
  .node (.node (.node (.node (.node (.node .leaf 0x735 0x736 230 .leaf) 0x737 0x739 220 .leaf)
  0x73A 0x73A 230 (.node (.node .leaf 0x73B 0x73C 220 .leaf) 0x73D 0x73D 230 .leaf)) 0x73E 0x73E
  220 (.node (.node (.node .leaf 0x73F 0x741 230 .leaf) 0x742 0x742 220 .leaf) 0x743 0x743 230 (
  .node (.node .leaf 0x744 0x744 220 .leaf) 0x745 0x745 230 .leaf))) 0x746 0x746 220 (.node (.node
  (.node (.node .leaf 0x747 0x747 230 .leaf) 0x748 0x748 220 .leaf) 0x749 0x74A 230 (.node (.node
  .leaf 0x7EB 0x7F1 230 .leaf) 0x7F2 0x7F2 220 .leaf)) 0x7F3 0x7F3 230 (.node (.node (.node .leaf
  0x7FD 0x7FD 220 .leaf) 0x816 0x819 230 .leaf) 0x81B 0x823 230 (.node (.node .leaf 0x825 0x827 230
  .leaf) 0x829 0x82D 230 .leaf)))) 0x859 0x85B 220 (.node (.node (.node (.node (.node .leaf 0x898
  0x898 230 .leaf) 0x899 0x89B 220 .leaf) 0x89C 0x89F 230 (.node (.node .leaf 0x8CA 0x8CE 230 .leaf
  ) 0x8CF 0x8D3 220 .leaf)) 0x8D4 0x8E1 230 (.node (.node (.node .leaf 0x8E3 0x8E3 220 .leaf) 0x8E4
  0x8E5 230 .leaf) 0x8E6 0x8E6 220 (.node (.node .leaf 0x8E7 0x8E8 230 .leaf) 0x8E9 0x8E9 220 .leaf
  ))) 0x8EA 0x8EC 230 (.node (.node (.node (.node .leaf 0x8ED 0x8EF 220 .leaf) 0x8F0 0x8F0 27 .leaf
  ) 0x8F1 0x8F1 28 (.node (.node .leaf 0x8F2 0x8F2 29 .leaf) 0x8F3 0x8F5 230 .leaf)) 0x8F6 0x8F6
  220 (.node (.node (.node .leaf 0x8F7 0x8F8 230 .leaf) 0x8F9 0x8FA 220 .leaf) 0x8FB 0x8FF 230 (
  .node (.node .leaf 0x93C 0x93C 7 .leaf) 0x94D 0x94D 9 .leaf))))) 0x951 0x951 230 (.node (.node (
  .node (.node (.node (.node .leaf 0x952 0x952 220 .leaf) 0x953 0x954 230 .leaf) 0x9BC 0x9BC 7 (
  .node (.node .leaf 0x9CD 0x9CD 9 .leaf) 0x9FE 0x9FE 230 .leaf)) 0xA3C 0xA3C 7 (.node (.node (
  .node .leaf 0xA4D 0xA4D 9 .leaf) 0xABC 0xABC 7 .leaf) 0xACD 0xACD 9 (.node (.node .leaf 0xB3C
  0xB3C 7 .leaf) 0xB4D 0xB4D 9 .leaf))) 0xBCD 0xBCD 9 (.node (.node (.node (.node .leaf 0xC3C 0xC3C
  7 .leaf) 0xC4D 0xC4D 9 .leaf) 0xC55 0xC55 84 (.node (.node .leaf 0xC56 0xC56 91 .leaf) 0xCBC
  0xCBC 7 .leaf)) 0xCCD 0xCCD 9 (.node (.node (.node .leaf 0xD3B 0xD3C 9 .leaf) 0xD4D 0xD4D 9 .leaf
  ) 0xDCA 0xDCA 9 (.node (.node .leaf 0xE38 0xE39 103 .leaf) 0xE3A 0xE3A 9 .leaf)))) 0xE48 0xE4B
  107 (.node (.node (.node (.node (.node .leaf 0xEB8 0xEB9 118 .leaf) 0xEBA 0xEBA 9 .leaf) 0xEC8
  0xECB 122 (.node (.node .leaf 0xF18 0xF19 220 .leaf) 0xF35 0xF35 220 .leaf)) 0xF37 0xF37 220 (
  .node (.node (.node .leaf 0xF39 0xF39 216 .leaf) 0xF71 0xF71 129 .leaf) 0xF72 0xF72 130 (.node (
  .node .leaf 0xF74 0xF74 132 .leaf) 0xF7A 0xF7D 130 .leaf))) 0xF80 0xF80 130 (.node (.node (.node
  (.node .leaf 0xF82 0xF83 230 .leaf) 0xF84 0xF84 9 .leaf) 0xF86 0xF87 230 (.node (.node .leaf
  0xFC6 0xFC6 220 .leaf) 0x1037 0x1037 7 .leaf)) 0x1039 0x103A 9 (.node (.node (.node .leaf 0x108D
  0x108D 220 .leaf) 0x135D 0x135F 230 .leaf) 0x1714 0x1715 9 (.node (.node .leaf 0x1734 0x1734 9
  .leaf) 0x17D2 0x17D2 9 .leaf))))))) 0x17DD 0x17DD 230 (.node (.node (.node (.node (.node (.node (
  .node (.node .leaf 0x18A9 0x18A9 228 .leaf) 0x1939 0x1939 222 .leaf) 0x193A 0x193A 230 (.node (
  .node .leaf 0x193B 0x193B 220 .leaf) 0x1A17 0x1A17 230 .leaf)) 0x1A18 0x1A18 220 (.node (.node (
  .node .leaf 0x1A60 0x1A60 9 .leaf) 0x1A75 0x1A7C 230 .leaf) 0x1A7F 0x1A7F 220 (.node (.node .leaf
  0x1AB0 0x1AB4 230 .leaf) 0x1AB5 0x1ABA 220 .leaf))) 0x1ABB 0x1ABC 230 (.node (.node (.node (.node
  .leaf 0x1ABD 0x1ABD 220 .leaf) 0x1ABF 0x1AC0 220 .leaf) 0x1AC1 0x1AC2 230 (.node (.node .leaf
  0x1AC3 0x1AC4 220 .leaf) 0x1AC5 0x1AC9 230 .leaf)) 0x1ACA 0x1ACA 220 (.node (.node (.node .leaf
  0x1ACB 0x1ACE 230 .leaf) 0x1B34 0x1B34 7 .leaf) 0x1B44 0x1B44 9 (.node (.node .leaf 0x1B6B 0x1B6B
  230 .leaf) 0x1B6C 0x1B6C 220 .leaf)))) 0x1B6D 0x1B73 230 (.node (.node (.node (.node (.node .leaf
  0x1BAA 0x1BAB 9 .leaf) 0x1BE6 0x1BE6 7 .leaf) 0x1BF2 0x1BF3 9 (.node (.node .leaf 0x1C37 0x1C37 7
  .leaf) 0x1CD0 0x1CD2 230 .leaf)) 0x1CD4 0x1CD4 1 (.node (.node (.node .leaf 0x1CD5 0x1CD9 220
  .leaf) 0x1CDA 0x1CDB 230 .leaf) 0x1CDC 0x1CDF 220 (.node (.node .leaf 0x1CE0 0x1CE0 230 .leaf)
  0x1CE2 0x1CE8 1 .leaf))) 0x1CED 0x1CED 220 (.node (.node (.node (.node .leaf 0x1CF4 0x1CF4 230
  .leaf) 0x1CF8 0x1CF9 230 .leaf) 0x1DC0 0x1DC1 230 (.node (.node .leaf 0x1DC2 0x1DC2 220 .leaf)
  0x1DC3 0x1DC9 230 .leaf)) 0x1DCA 0x1DCA 220 (.node (.node (.node .leaf 0x1DCB 0x1DCC 230 .leaf)
  0x1DCD 0x1DCD 234 .leaf) 0x1DCE 0x1DCE 214 (.node (.node .leaf 0x1DCF 0x1DCF 220 .leaf) 0x1DD0
  0x1DD0 202 .leaf))))) 0x1DD1 0x1DF5 230 (.node (.node (.node (.node (.node (.node .leaf 0x1DF6
  0x1DF6 232 .leaf) 0x1DF7 0x1DF8 228 .leaf) 0x1DF9 0x1DF9 220 (.node (.node .leaf 0x1DFA 0x1DFA
  218 .leaf) 0x1DFB 0x1DFB 230 .leaf)) 0x1DFC 0x1DFC 233 (.node (.node (.node .leaf 0x1DFD 0x1DFD
  220 .leaf) 0x1DFE 0x1DFE 230 .leaf) 0x1DFF 0x1DFF 220 (.node (.node .leaf 0x20D0 0x20D1 230 .leaf
  ) 0x20D2 0x20D3 1 .leaf))) 0x20D4 0x20D7 230 (.node (.node (.node (.node .leaf 0x20D8 0x20DA 1
  .leaf) 0x20DB 0x20DC 230 .leaf) 0x20E1 0x20E1 230 (.node (.node .leaf 0x20E5 0x20E6 1 .leaf)
  0x20E7 0x20E7 230 .leaf)) 0x20E8 0x20E8 220 (.node (.node (.node .leaf 0x20E9 0x20E9 230 .leaf)
  0x20EA 0x20EB 1 .leaf) 0x20EC 0x20EF 220 (.node (.node .leaf 0x20F0 0x20F0 230 .leaf) 0x2CEF
  0x2CF1 230 .leaf)))) 0x2D7F 0x2D7F 9 (.node (.node (.node (.node (.node .leaf 0x2DE0 0x2DFF 230
  .leaf) 0x302A 0x302A 218 .leaf) 0x302B 0x302B 228 (.node (.node .leaf 0x302C 0x302C 232 .leaf)
  0x302D 0x302D 222 .leaf)) 0x302E 0x302F 224 (.node (.node (.node .leaf 0x3099 0x309A 8 .leaf)
  0xA66F 0xA66F 230 .leaf) 0xA674 0xA67D 230 (.node (.node .leaf 0xA69E 0xA69F 230 .leaf) 0xA6F0
  0xA6F1 230 .leaf))) 0xA806 0xA806 9 (.node (.node (.node (.node .leaf 0xA82C 0xA82C 9 .leaf)
  0xA8C4 0xA8C4 9 .leaf) 0xA8E0 0xA8F1 230 (.node (.node .leaf 0xA92B 0xA92D 220 .leaf) 0xA953
  0xA953 9 .leaf)) 0xA9B3 0xA9B3 7 (.node (.node (.node .leaf 0xA9C0 0xA9C0 9 .leaf) 0xAAB0 0xAAB0
  230 .leaf) 0xAAB2 0xAAB3 230 (.node (.node .leaf 0xAAB4 0xAAB4 220 .leaf) 0xAAB7 0xAAB8 230 .leaf
  )))))) 0xAABE 0xAABF 230 (.node (.node (.node (.node (.node (.node (.node .leaf 0xAAC1 0xAAC1 230
  .leaf) 0xAAF6 0xAAF6 9 .leaf) 0xABED 0xABED 9 (.node (.node .leaf 0xFB1E 0xFB1E 26 .leaf) 0xFE20
  0xFE26 230 .leaf)) 0xFE27 0xFE2D 220 (.node (.node (.node .leaf 0xFE2E 0xFE2F 230 .leaf) 0x101FD
  0x101FD 220 .leaf) 0x102E0 0x102E0 220 (.node (.node .leaf 0x10376 0x1037A 230 .leaf) 0x10A0D
  0x10A0D 220 .leaf))) 0x10A0F 0x10A0F 230 (.node (.node (.node (.node .leaf 0x10A38 0x10A38 230
  .leaf) 0x10A39 0x10A39 1 .leaf) 0x10A3A 0x10A3A 220 (.node (.node .leaf 0x10A3F 0x10A3F 9 .leaf)
  0x10AE5 0x10AE5 230 .leaf)) 0x10AE6 0x10AE6 220 (.node (.node (.node .leaf 0x10D24 0x10D27 230
  .leaf) 0x10EAB 0x10EAC 230 .leaf) 0x10F46 0x10F47 220 (.node (.node .leaf 0x10F48 0x10F4A 230
  .leaf) 0x10F4B 0x10F4B 220 .leaf)))) 0x10F4C 0x10F4C 230 (.node (.node (.node (.node (.node .leaf
  0x10F4D 0x10F50 220 .leaf) 0x10F82 0x10F82 230 .leaf) 0x10F83 0x10F83 220 (.node (.node .leaf
  0x10F84 0x10F84 230 .leaf) 0x10F85 0x10F85 220 .leaf)) 0x11046 0x11046 9 (.node (.node (.node
  .leaf 0x11070 0x11070 9 .leaf) 0x1107F 0x1107F 9 .leaf) 0x110B9 0x110B9 9 (.node (.node .leaf
  0x110BA 0x110BA 7 .leaf) 0x11100 0x11102 230 .leaf))) 0x11133 0x11134 9 (.node (.node (.node (
  .node .leaf 0x11173 0x11173 7 .leaf) 0x111C0 0x111C0 9 .leaf) 0x111CA 0x111CA 7 (.node (.node
  .leaf 0x11235 0x11235 9 .leaf) 0x11236 0x11236 7 .leaf)) 0x112E9 0x112E9 7 (.node (.node (.node
  .leaf 0x112EA 0x112EA 9 .leaf) 0x1133B 0x1133C 7 .leaf) 0x1134D 0x1134D 9 (.node (.node .leaf
  0x11366 0x1136C 230 .leaf) 0x11370 0x11374 230 .leaf))))) 0x11442 0x11442 9 (.node (.node (.node
  (.node (.node (.node .leaf 0x11446 0x11446 7 .leaf) 0x1145E 0x1145E 230 .leaf) 0x114C2 0x114C2 9
  (.node (.node .leaf 0x114C3 0x114C3 7 .leaf) 0x115BF 0x115BF 9 .leaf)) 0x115C0 0x115C0 7 (.node (
  .node (.node .leaf 0x1163F 0x1163F 9 .leaf) 0x116B6 0x116B6 9 .leaf) 0x116B7 0x116B7 7 (.node (
  .node .leaf 0x1172B 0x1172B 9 .leaf) 0x11839 0x11839 9 .leaf))) 0x1183A 0x1183A 7 (.node (.node (
  .node (.node .leaf 0x1193D 0x1193E 9 .leaf) 0x11943 0x11943 7 .leaf) 0x119E0 0x119E0 9 (.node (
  .node .leaf 0x11A34 0x11A34 9 .leaf) 0x11A47 0x11A47 9 .leaf)) 0x11A99 0x11A99 9 (.node (.node (
  .node .leaf 0x11C3F 0x11C3F 9 .leaf) 0x11D42 0x11D42 7 .leaf) 0x11D44 0x11D45 9 (.node (.node
  .leaf 0x11D97 0x11D97 9 .leaf) 0x16AF0 0x16AF4 1 .leaf)))) 0x16B30 0x16B36 230 (.node (.node (
  .node (.node (.node .leaf 0x16FF0 0x16FF1 6 .leaf) 0x1BC9E 0x1BC9E 1 .leaf) 0x1D165 0x1D166 216 (
  .node (.node .leaf 0x1D167 0x1D169 1 .leaf) 0x1D16D 0x1D16D 226 .leaf)) 0x1D16E 0x1D172 216 (
  .node (.node (.node .leaf 0x1D17B 0x1D182 220 .leaf) 0x1D185 0x1D189 230 .leaf) 0x1D18A 0x1D18B
  220 (.node (.node .leaf 0x1D1AA 0x1D1AD 230 .leaf) 0x1D242 0x1D244 230 .leaf))) 0x1E000 0x1E006
  230 (.node (.node (.node (.node .leaf 0x1E008 0x1E018 230 .leaf) 0x1E01B 0x1E021 230 .leaf)
  0x1E023 0x1E024 230 (.node (.node .leaf 0x1E026 0x1E02A 230 .leaf) 0x1E130 0x1E136 230 .leaf))
  0x1E2AE 0x1E2AE 230 (.node (.node (.node .leaf 0x1E2EC 0x1E2EF 230 .leaf) 0x1E8D0 0x1E8D6 220
  .leaf) 0x1E944 0x1E949 230 (.node .leaf 0x1E94A 0x1E94A 7 .leaf)))))))

/-- The full canonical decomposition of every rune that has one, Hangul syllables
left out. -/
def decompTable : Table (List Nat) :=
  .node (.node (.node (.node (.node (.node (.node (.node (.node (.node (.node (.node .leaf 0xC0
  0xC0 [0x41, 0x300] .leaf) 0xC1 0xC1 [0x41, 0x301] .leaf) 0xC2 0xC2 [0x41, 0x302] (.node .leaf
  0xC3 0xC3 [0x41, 0x303] .leaf)) 0xC4 0xC4 [0x41, 0x308] (.node (.node .leaf 0xC5 0xC5
  [0x41, 0x30A] .leaf) 0xC7 0xC7 [0x43, 0x327] (.node .leaf 0xC8 0xC8 [0x45, 0x300] .leaf))) 0xC9
  0xC9 [0x45, 0x301] (.node (.node (.node .leaf 0xCA 0xCA [0x45, 0x302] .leaf) 0xCB 0xCB
  [0x45, 0x308] (.node .leaf 0xCC 0xCC [0x49, 0x300] .leaf)) 0xCD 0xCD [0x49, 0x301] (.node (.node
  .leaf 0xCE 0xCE [0x49, 0x302] .leaf) 0xCF 0xCF [0x49, 0x308] (.node .leaf 0xD1 0xD1 [0x4E, 0x303]
  .leaf)))) 0xD2 0xD2 [0x4F, 0x300] (.node (.node (.node (.node .leaf 0xD3 0xD3 [0x4F, 0x301] .leaf
  ) 0xD4 0xD4 [0x4F, 0x302] (.node .leaf 0xD5 0xD5 [0x4F, 0x303] .leaf)) 0xD6 0xD6 [0x4F, 0x308] (
  .node (.node .leaf 0xD9 0xD9 [0x55, 0x300] .leaf) 0xDA 0xDA [0x55, 0x301] (.node .leaf 0xDB 0xDB
  [0x55, 0x302] .leaf))) 0xDC 0xDC [0x55, 0x308] (.node (.node (.node .leaf 0xDD 0xDD [0x59, 0x301]
  .leaf) 0xE0 0xE0 [0x61, 0x300] (.node .leaf 0xE1 0xE1 [0x61, 0x301] .leaf)) 0xE2 0xE2
  [0x61, 0x302] (.node (.node .leaf 0xE3 0xE3 [0x61, 0x303] .leaf) 0xE4 0xE4 [0x61, 0x308] (.node
  .leaf 0xE5 0xE5 [0x61, 0x30A] .leaf))))) 0xE7 0xE7 [0x63, 0x327] (.node (.node (.node (.node (
  .node .leaf 0xE8 0xE8 [0x65, 0x300] .leaf) 0xE9 0xE9 [0x65, 0x301] (.node .leaf 0xEA 0xEA
  [0x65, 0x302] .leaf)) 0xEB 0xEB [0x65, 0x308] (.node (.node .leaf 0xEC 0xEC [0x69, 0x300] .leaf)
  0xED 0xED [0x69, 0x301] (.node .leaf 0xEE 0xEE [0x69, 0x302] .leaf))) 0xEF 0xEF [0x69, 0x308] (
  .node (.node (.node .leaf 0xF1 0xF1 [0x6E, 0x303] .leaf) 0xF2 0xF2 [0x6F, 0x300] (.node .leaf
  0xF3 0xF3 [0x6F, 0x301] .leaf)) 0xF4 0xF4 [0x6F, 0x302] (.node (.node .leaf 0xF5 0xF5
  [0x6F, 0x303] .leaf) 0xF6 0xF6 [0x6F, 0x308] (.node .leaf 0xF9 0xF9 [0x75, 0x300] .leaf)))) 0xFA
  0xFA [0x75, 0x301] (.node (.node (.node (.node .leaf 0xFB 0xFB [0x75, 0x302] .leaf) 0xFC 0xFC
  [0x75, 0x308] (.node .leaf 0xFD 0xFD [0x79, 0x301] .leaf)) 0xFF 0xFF [0x79, 0x308] (.node (.node
  .leaf 0x100 0x100 [0x41, 0x304] .leaf) 0x101 0x101 [0x61, 0x304] (.node .leaf 0x102 0x102
  [0x41, 0x306] .leaf))) 0x103 0x103 [0x61, 0x306] (.node (.node (.node .leaf 0x104 0x104
  [0x41, 0x328] .leaf) 0x105 0x105 [0x61, 0x328] (.node .leaf 0x106 0x106 [0x43, 0x301] .leaf))
  0x107 0x107 [0x63, 0x301] (.node (.node .leaf 0x108 0x108 [0x43, 0x302] .leaf) 0x109 0x109
  [0x63, 0x302] (.node .leaf 0x10A 0x10A [0x43, 0x307] .leaf)))))) 0x10B 0x10B [0x63, 0x307] (.node
  (.node (.node (.node (.node (.node .leaf 0x10C 0x10C [0x43, 0x30C] .leaf) 0x10D 0x10D
  [0x63, 0x30C] (.node .leaf 0x10E 0x10E [0x44, 0x30C] .leaf)) 0x10F 0x10F [0x64, 0x30C] (.node (
  .node .leaf 0x112 0x112 [0x45, 0x304] .leaf) 0x113 0x113 [0x65, 0x304] (.node .leaf 0x114 0x114
  [0x45, 0x306] .leaf))) 0x115 0x115 [0x65, 0x306] (.node (.node (.node .leaf 0x116 0x116
  [0x45, 0x307] .leaf) 0x117 0x117 [0x65, 0x307] (.node .leaf 0x118 0x118 [0x45, 0x328] .leaf))
  0x119 0x119 [0x65, 0x328] (.node (.node .leaf 0x11A 0x11A [0x45, 0x30C] .leaf) 0x11B 0x11B
  [0x65, 0x30C] (.node .leaf 0x11C 0x11C [0x47, 0x302] .leaf)))) 0x11D 0x11D [0x67, 0x302] (.node (
  .node (.node (.node .leaf 0x11E 0x11E [0x47, 0x306] .leaf) 0x11F 0x11F [0x67, 0x306] (.node .leaf
  0x120 0x120 [0x47, 0x307] .leaf)) 0x121 0x121 [0x67, 0x307] (.node (.node .leaf 0x122 0x122
  [0x47, 0x327] .leaf) 0x123 0x123 [0x67, 0x327] (.node .leaf 0x124 0x124 [0x48, 0x302] .leaf)))
  0x125 0x125 [0x68, 0x302] (.node (.node (.node .leaf 0x128 0x128 [0x49, 0x303] .leaf) 0x129 0x129
  [0x69, 0x303] (.node .leaf 0x12A 0x12A [0x49, 0x304] .leaf)) 0x12B 0x12B [0x69, 0x304] (.node (
  .node .leaf 0x12C 0x12C [0x49, 0x306] .leaf) 0x12D 0x12D [0x69, 0x306] (.node .leaf 0x12E 0x12E
  [0x49, 0x328] .leaf))))) 0x12F 0x12F [0x69, 0x328] (.node (.node (.node (.node (.node .leaf 0x130
  0x130 [0x49, 0x307] .leaf) 0x134 0x134 [0x4A, 0x302] (.node .leaf 0x135 0x135 [0x6A, 0x302] .leaf
  )) 0x136 0x136 [0x4B, 0x327] (.node (.node .leaf 0x137 0x137 [0x6B, 0x327] .leaf) 0x139 0x139
  [0x4C, 0x301] (.node .leaf 0x13A 0x13A [0x6C, 0x301] .leaf))) 0x13B 0x13B [0x4C, 0x327] (.node (
  .node (.node .leaf 0x13C 0x13C [0x6C, 0x327] .leaf) 0x13D 0x13D [0x4C, 0x30C] (.node .leaf 0x13E
  0x13E [0x6C, 0x30C] .leaf)) 0x143 0x143 [0x4E, 0x301] (.node (.node .leaf 0x144 0x144
  [0x6E, 0x301] .leaf) 0x145 0x145 [0x4E, 0x327] (.node .leaf 0x146 0x146 [0x6E, 0x327] .leaf))))
  0x147 0x147 [0x4E, 0x30C] (.node (.node (.node (.node .leaf 0x148 0x148 [0x6E, 0x30C] .leaf)
  0x14C 0x14C [0x4F, 0x304] (.node .leaf 0x14D 0x14D [0x6F, 0x304] .leaf)) 0x14E 0x14E
  [0x4F, 0x306] (.node (.node .leaf 0x14F 0x14F [0x6F, 0x306] .leaf) 0x150 0x150 [0x4F, 0x30B] (
  .node .leaf 0x151 0x151 [0x6F, 0x30B] .leaf))) 0x154 0x154 [0x52, 0x301] (.node (.node (.node
  .leaf 0x155 0x155 [0x72, 0x301] .leaf) 0x156 0x156 [0x52, 0x327] (.node .leaf 0x157 0x157
  [0x72, 0x327] .leaf)) 0x158 0x158 [0x52, 0x30C] (.node (.node .leaf 0x159 0x159 [0x72, 0x30C]
  .leaf) 0x15A 0x15A [0x53, 0x301] (.node .leaf 0x15B 0x15B [0x73, 0x301] .leaf))))))) 0x15C 0x15C
  [0x53, 0x302] (.node (.node (.node (.node (.node (.node (.node (.node .leaf 0x15D 0x15D
  [0x73, 0x302] .leaf) 0x15E 0x15E [0x53, 0x327] .leaf) 0x15F 0x15F [0x73, 0x327] (.node .leaf
  0x160 0x160 [0x53, 0x30C] .leaf)) 0x161 0x161 [0x73, 0x30C] (.node (.node .leaf 0x162 0x162
  [0x54, 0x327] .leaf) 0x163 0x163 [0x74, 0x327] (.node .leaf 0x164 0x164 [0x54, 0x30C] .leaf)))
  0x165 0x165 [0x74, 0x30C] (.node (.node (.node .leaf 0x168 0x168 [0x55, 0x303] .leaf) 0x169 0x169
  [0x75, 0x303] (.node .leaf 0x16A 0x16A [0x55, 0x304] .leaf)) 0x16B 0x16B [0x75, 0x304] (.node (
  .node .leaf 0x16C 0x16C [0x55, 0x306] .leaf) 0x16D 0x16D [0x75, 0x306] (.node .leaf 0x16E 0x16E
  [0x55, 0x30A] .leaf)))) 0x16F 0x16F [0x75, 0x30A] (.node (.node (.node (.node .leaf 0x170 0x170
  [0x55, 0x30B] .leaf) 0x171 0x171 [0x75, 0x30B] (.node .leaf 0x172 0x172 [0x55, 0x328] .leaf))
  0x173 0x173 [0x75, 0x328] (.node (.node .leaf 0x174 0x174 [0x57, 0x302] .leaf) 0x175 0x175
  [0x77, 0x302] (.node .leaf 0x176 0x176 [0x59, 0x302] .leaf))) 0x177 0x177 [0x79, 0x302] (.node (
  .node (.node .leaf 0x178 0x178 [0x59, 0x308] .leaf) 0x179 0x179 [0x5A, 0x301] (.node .leaf 0x17A
  0x17A [0x7A, 0x301] .leaf)) 0x17B 0x17B [0x5A, 0x307] (.node (.node .leaf 0x17C 0x17C
  [0x7A, 0x307] .leaf) 0x17D 0x17D [0x5A, 0x30C] (.node .leaf 0x17E 0x17E [0x7A, 0x30C] .leaf)))))
  0x1A0 0x1A0 [0x4F, 0x31B] (.node (.node (.node (.node (.node .leaf 0x1A1 0x1A1 [0x6F, 0x31B]
  .leaf) 0x1AF 0x1AF [0x55, 0x31B] (.node .leaf 0x1B0 0x1B0 [0x75, 0x31B] .leaf)) 0x1CD 0x1CD
  [0x41, 0x30C] (.node (.node .leaf 0x1CE 0x1CE [0x61, 0x30C] .leaf) 0x1CF 0x1CF [0x49, 0x30C] (
  .node .leaf 0x1D0 0x1D0 [0x69, 0x30C] .leaf))) 0x1D1 0x1D1 [0x4F, 0x30C] (.node (.node (.node
  .leaf 0x1D2 0x1D2 [0x6F, 0x30C] .leaf) 0x1D3 0x1D3 [0x55, 0x30C] (.node .leaf 0x1D4 0x1D4
  [0x75, 0x30C] .leaf)) 0x1D5 0x1D5 [0x55, 0x308, 0x304] (.node (.node .leaf 0x1D6 0x1D6
  [0x75, 0x308, 0x304] .leaf) 0x1D7 0x1D7 [0x55, 0x308, 0x301] (.node .leaf 0x1D8 0x1D8
  [0x75, 0x308, 0x301] .leaf)))) 0x1D9 0x1D9 [0x55, 0x308, 0x30C] (.node (.node (.node (.node .leaf
  0x1DA 0x1DA [0x75, 0x308, 0x30C] .leaf) 0x1DB 0x1DB [0x55, 0x308, 0x300] (.node .leaf 0x1DC 0x1DC
  [0x75, 0x308, 0x300] .leaf)) 0x1DE 0x1DE [0x41, 0x308, 0x304] (.node (.node .leaf 0x1DF 0x1DF
  [0x61, 0x308, 0x304] .leaf) 0x1E0 0x1E0 [0x41, 0x307, 0x304] (.node .leaf 0x1E1 0x1E1
  [0x61, 0x307, 0x304] .leaf))) 0x1E2 0x1E2 [0xC6, 0x304] (.node (.node (.node .leaf 0x1E3 0x1E3
  [0xE6, 0x304] .leaf) 0x1E6 0x1E6 [0x47, 0x30C] (.node .leaf 0x1E7 0x1E7 [0x67, 0x30C] .leaf))
  0x1E8 0x1E8 [0x4B, 0x30C] (.node (.node .leaf 0x1E9 0x1E9 [0x6B, 0x30C] .leaf) 0x1EA 0x1EA
  [0x4F, 0x328] (.node .leaf 0x1EB 0x1EB [0x6F, 0x328] .leaf)))))) 0x1EC 0x1EC [0x4F, 0x328, 0x304]
  (.node (.node (.node (.node (.node (.node .leaf 0x1ED 0x1ED [0x6F, 0x328, 0x304] .leaf) 0x1EE
  0x1EE [0x1B7, 0x30C] (.node .leaf 0x1EF 0x1EF [0x292, 0x30C] .leaf)) 0x1F0 0x1F0 [0x6A, 0x30C] (
  .node (.node .leaf 0x1F4 0x1F4 [0x47, 0x301] .leaf) 0x1F5 0x1F5 [0x67, 0x301] (.node .leaf 0x1F8
  0x1F8 [0x4E, 0x300] .leaf))) 0x1F9 0x1F9 [0x6E, 0x300] (.node (.node (.node .leaf 0x1FA 0x1FA
  [0x41, 0x30A, 0x301] .leaf) 0x1FB 0x1FB [0x61, 0x30A, 0x301] (.node .leaf 0x1FC 0x1FC
  [0xC6, 0x301] .leaf)) 0x1FD 0x1FD [0xE6, 0x301] (.node (.node .leaf 0x1FE 0x1FE [0xD8, 0x301]
  .leaf) 0x1FF 0x1FF [0xF8, 0x301] (.node .leaf 0x200 0x200 [0x41, 0x30F] .leaf)))) 0x201 0x201
  [0x61, 0x30F] (.node (.node (.node (.node .leaf 0x202 0x202 [0x41, 0x311] .leaf) 0x203 0x203
  [0x61, 0x311] (.node .leaf 0x204 0x204 [0x45, 0x30F] .leaf)) 0x205 0x205 [0x65, 0x30F] (.node (
  .node .leaf 0x206 0x206 [0x45, 0x311] .leaf) 0x207 0x207 [0x65, 0x311] (.node .leaf 0x208 0x208
  [0x49, 0x30F] .leaf))) 0x209 0x209 [0x69, 0x30F] (.node (.node (.node .leaf 0x20A 0x20A
  [0x49, 0x311] .leaf) 0x20B 0x20B [0x69, 0x311] (.node .leaf 0x20C 0x20C [0x4F, 0x30F] .leaf))
  0x20D 0x20D [0x6F, 0x30F] (.node (.node .leaf 0x20E 0x20E [0x4F, 0x311] .leaf) 0x20F 0x20F
  [0x6F, 0x311] (.node .leaf 0x210 0x210 [0x52, 0x30F] .leaf))))) 0x211 0x211 [0x72, 0x30F] (.node
  (.node (.node (.node (.node .leaf 0x212 0x212 [0x52, 0x311] .leaf) 0x213 0x213 [0x72, 0x311] (
  .node .leaf 0x214 0x214 [0x55, 0x30F] .leaf)) 0x215 0x215 [0x75, 0x30F] (.node (.node .leaf 0x216
  0x216 [0x55, 0x311] .leaf) 0x217 0x217 [0x75, 0x311] (.node .leaf 0x218 0x218 [0x53, 0x326] .leaf
  ))) 0x219 0x219 [0x73, 0x326] (.node (.node (.node .leaf 0x21A 0x21A [0x54, 0x326] .leaf) 0x21B
  0x21B [0x74, 0x326] (.node .leaf 0x21E 0x21E [0x48, 0x30C] .leaf)) 0x21F 0x21F [0x68, 0x30C] (
  .node (.node .leaf 0x226 0x226 [0x41, 0x307] .leaf) 0x227 0x227 [0x61, 0x307] (.node .leaf 0x228
  0x228 [0x45, 0x327] .leaf)))) 0x229 0x229 [0x65, 0x327] (.node (.node (.node (.node .leaf 0x22A
  0x22A [0x4F, 0x308, 0x304] .leaf) 0x22B 0x22B [0x6F, 0x308, 0x304] (.node .leaf 0x22C 0x22C
  [0x4F, 0x303, 0x304] .leaf)) 0x22D 0x22D [0x6F, 0x303, 0x304] (.node (.node .leaf 0x22E 0x22E
  [0x4F, 0x307] .leaf) 0x22F 0x22F [0x6F, 0x307] (.node .leaf 0x230 0x230 [0x4F, 0x307, 0x304]
  .leaf))) 0x231 0x231 [0x6F, 0x307, 0x304] (.node (.node (.node .leaf 0x232 0x232 [0x59, 0x304]
  .leaf) 0x233 0x233 [0x79, 0x304] (.node .leaf 0x340 0x340 [0x300] .leaf)) 0x341 0x341 [0x301] (
  .node (.node .leaf 0x343 0x343 [0x313] .leaf) 0x344 0x344 [0x308, 0x301] (.node .leaf 0x374 0x374
  [0x2B9] .leaf)))))))) 0x37E 0x37E [0x3B] (.node (.node (.node (.node (.node (.node (.node (.node
  (.node .leaf 0x385 0x385 [0xA8, 0x301] .leaf) 0x386 0x386 [0x391, 0x301] .leaf) 0x387 0x387
  [0xB7] (.node .leaf 0x388 0x388 [0x395, 0x301] .leaf)) 0x389 0x389 [0x397, 0x301] (.node (.node
  .leaf 0x38A 0x38A [0x399, 0x301] .leaf) 0x38C 0x38C [0x39F, 0x301] (.node .leaf 0x38E 0x38E
  [0x3A5, 0x301] .leaf))) 0x38F 0x38F [0x3A9, 0x301] (.node (.node (.node .leaf 0x390 0x390
  [0x3B9, 0x308, 0x301] .leaf) 0x3AA 0x3AA [0x399, 0x308] (.node .leaf 0x3AB 0x3AB [0x3A5, 0x308]
  .leaf)) 0x3AC 0x3AC [0x3B1, 0x301] (.node (.node .leaf 0x3AD 0x3AD [0x3B5, 0x301] .leaf) 0x3AE
  0x3AE [0x3B7, 0x301] (.node .leaf 0x3AF 0x3AF [0x3B9, 0x301] .leaf)))) 0x3B0 0x3B0
  [0x3C5, 0x308, 0x301] (.node (.node (.node (.node .leaf 0x3CA 0x3CA [0x3B9, 0x308] .leaf) 0x3CB
  0x3CB [0x3C5, 0x308] (.node .leaf 0x3CC 0x3CC [0x3BF, 0x301] .leaf)) 0x3CD 0x3CD [0x3C5, 0x301] (
  .node (.node .leaf 0x3CE 0x3CE [0x3C9, 0x301] .leaf) 0x3D3 0x3D3 [0x3D2, 0x301] (.node .leaf
  0x3D4 0x3D4 [0x3D2, 0x308] .leaf))) 0x400 0x400 [0x415, 0x300] (.node (.node (.node .leaf 0x401
  0x401 [0x415, 0x308] .leaf) 0x403 0x403 [0x413, 0x301] (.node .leaf 0x407 0x407 [0x406, 0x308]
  .leaf)) 0x40C 0x40C [0x41A, 0x301] (.node (.node .leaf 0x40D 0x40D [0x418, 0x300] .leaf) 0x40E
  0x40E [0x423, 0x306] (.node .leaf 0x419 0x419 [0x418, 0x306] .leaf))))) 0x439 0x439
  [0x438, 0x306] (.node (.node (.node (.node (.node .leaf 0x450 0x450 [0x435, 0x300] .leaf) 0x451
  0x451 [0x435, 0x308] (.node .leaf 0x453 0x453 [0x433, 0x301] .leaf)) 0x457 0x457 [0x456, 0x308] (
  .node (.node .leaf 0x45C 0x45C [0x43A, 0x301] .leaf) 0x45D 0x45D [0x438, 0x300] (.node .leaf
  0x45E 0x45E [0x443, 0x306] .leaf))) 0x476 0x476 [0x474, 0x30F] (.node (.node (.node .leaf 0x477
  0x477 [0x475, 0x30F] .leaf) 0x4C1 0x4C1 [0x416, 0x306] (.node .leaf 0x4C2 0x4C2 [0x436, 0x306]
  .leaf)) 0x4D0 0x4D0 [0x410, 0x306] (.node (.node .leaf 0x4D1 0x4D1 [0x430, 0x306] .leaf) 0x4D2
  0x4D2 [0x410, 0x308] (.node .leaf 0x4D3 0x4D3 [0x430, 0x308] .leaf)))) 0x4D6 0x4D6 [0x415, 0x306]
  (.node (.node (.node (.node .leaf 0x4D7 0x4D7 [0x435, 0x306] .leaf) 0x4DA 0x4DA [0x4D8, 0x308] (
  .node .leaf 0x4DB 0x4DB [0x4D9, 0x308] .leaf)) 0x4DC 0x4DC [0x416, 0x308] (.node (.node .leaf
  0x4DD 0x4DD [0x436, 0x308] .leaf) 0x4DE 0x4DE [0x417, 0x308] (.node .leaf 0x4DF 0x4DF
  [0x437, 0x308] .leaf))) 0x4E2 0x4E2 [0x418, 0x304] (.node (.node (.node .leaf 0x4E3 0x4E3
  [0x438, 0x304] .leaf) 0x4E4 0x4E4 [0x418, 0x308] (.node .leaf 0x4E5 0x4E5 [0x438, 0x308] .leaf))
  0x4E6 0x4E6 [0x41E, 0x308] (.node (.node .leaf 0x4E7 0x4E7 [0x43E, 0x308] .leaf) 0x4EA 0x4EA
  [0x4E8, 0x308] (.node .leaf 0x4EB 0x4EB [0x4E9, 0x308] .leaf)))))) 0x4EC 0x4EC [0x42D, 0x308] (
  .node (.node (.node (.node (.node (.node .leaf 0x4ED 0x4ED [0x44D, 0x308] .leaf) 0x4EE 0x4EE
  [0x423, 0x304] (.node .leaf 0x4EF 0x4EF [0x443, 0x304] .leaf)) 0x4F0 0x4F0 [0x423, 0x308] (.node
  (.node .leaf 0x4F1 0x4F1 [0x443, 0x308] .leaf) 0x4F2 0x4F2 [0x423, 0x30B] (.node .leaf 0x4F3
  0x4F3 [0x443, 0x30B] .leaf))) 0x4F4 0x4F4 [0x427, 0x308] (.node (.node (.node .leaf 0x4F5 0x4F5
  [0x447, 0x308] .leaf) 0x4F8 0x4F8 [0x42B, 0x308] (.node .leaf 0x4F9 0x4F9 [0x44B, 0x308] .leaf))
  0x622 0x622 [0x627, 0x653] (.node (.node .leaf 0x623 0x623 [0x627, 0x654] .leaf) 0x624 0x624
  [0x648, 0x654] (.node .leaf 0x625 0x625 [0x627, 0x655] .leaf)))) 0x626 0x626 [0x64A, 0x654] (
  .node (.node (.node (.node .leaf 0x6C0 0x6C0 [0x6D5, 0x654] .leaf) 0x6C2 0x6C2 [0x6C1, 0x654] (
  .node .leaf 0x6D3 0x6D3 [0x6D2, 0x654] .leaf)) 0x929 0x929 [0x928, 0x93C] (.node (.node .leaf
  0x931 0x931 [0x930, 0x93C] .leaf) 0x934 0x934 [0x933, 0x93C] (.node .leaf 0x958 0x958
  [0x915, 0x93C] .leaf))) 0x959 0x959 [0x916, 0x93C] (.node (.node (.node .leaf 0x95A 0x95A
  [0x917, 0x93C] .leaf) 0x95B 0x95B [0x91C, 0x93C] (.node .leaf 0x95C 0x95C [0x921, 0x93C] .leaf))
  0x95D 0x95D [0x922, 0x93C] (.node (.node .leaf 0x95E 0x95E [0x92B, 0x93C] .leaf) 0x95F 0x95F
  [0x92F, 0x93C] (.node .leaf 0x9CB 0x9CB [0x9C7, 0x9BE] .leaf))))) 0x9CC 0x9CC [0x9C7, 0x9D7] (
  .node (.node (.node (.node (.node .leaf 0x9DC 0x9DC [0x9A1, 0x9BC] .leaf) 0x9DD 0x9DD
  [0x9A2, 0x9BC] (.node .leaf 0x9DF 0x9DF [0x9AF, 0x9BC] .leaf)) 0xA33 0xA33 [0xA32, 0xA3C] (.node
  (.node .leaf 0xA36 0xA36 [0xA38, 0xA3C] .leaf) 0xA59 0xA59 [0xA16, 0xA3C] (.node .leaf 0xA5A
  0xA5A [0xA17, 0xA3C] .leaf))) 0xA5B 0xA5B [0xA1C, 0xA3C] (.node (.node (.node .leaf 0xA5E 0xA5E
  [0xA2B, 0xA3C] .leaf) 0xB48 0xB48 [0xB47, 0xB56] (.node .leaf 0xB4B 0xB4B [0xB47, 0xB3E] .leaf))
  0xB4C 0xB4C [0xB47, 0xB57] (.node (.node .leaf 0xB5C 0xB5C [0xB21, 0xB3C] .leaf) 0xB5D 0xB5D
  [0xB22, 0xB3C] (.node .leaf 0xB94 0xB94 [0xB92, 0xBD7] .leaf)))) 0xBCA 0xBCA [0xBC6, 0xBBE] (
  .node (.node (.node (.node .leaf 0xBCB 0xBCB [0xBC7, 0xBBE] .leaf) 0xBCC 0xBCC [0xBC6, 0xBD7] (
  .node .leaf 0xC48 0xC48 [0xC46, 0xC56] .leaf)) 0xCC0 0xCC0 [0xCBF, 0xCD5] (.node (.node .leaf
  0xCC7 0xCC7 [0xCC6, 0xCD5] .leaf) 0xCC8 0xCC8 [0xCC6, 0xCD6] (.node .leaf 0xCCA 0xCCA
  [0xCC6, 0xCC2] .leaf))) 0xCCB 0xCCB [0xCC6, 0xCC2, 0xCD5] (.node (.node (.node .leaf 0xD4A 0xD4A
  [0xD46, 0xD3E] .leaf) 0xD4B 0xD4B [0xD47, 0xD3E] (.node .leaf 0xD4C 0xD4C [0xD46, 0xD57] .leaf))
  0xDDA 0xDDA [0xDD9, 0xDCA] (.node (.node .leaf 0xDDC 0xDDC [0xDD9, 0xDCF] .leaf) 0xDDD 0xDDD
  [0xDD9, 0xDCF, 0xDCA] (.node .leaf 0xDDE 0xDDE [0xDD9, 0xDDF] .leaf))))))) 0xF43 0xF43
  [0xF42, 0xFB7] (.node (.node (.node (.node (.node (.node (.node (.node .leaf 0xF4D 0xF4D
  [0xF4C, 0xFB7] .leaf) 0xF52 0xF52 [0xF51, 0xFB7] .leaf) 0xF57 0xF57 [0xF56, 0xFB7] (.node .leaf
  0xF5C 0xF5C [0xF5B, 0xFB7] .leaf)) 0xF69 0xF69 [0xF40, 0xFB5] (.node (.node .leaf 0xF73 0xF73
  [0xF71, 0xF72] .leaf) 0xF75 0xF75 [0xF71, 0xF74] (.node .leaf 0xF76 0xF76 [0xFB2, 0xF80] .leaf)))
  0xF78 0xF78 [0xFB3, 0xF80] (.node (.node (.node .leaf 0xF81 0xF81 [0xF71, 0xF80] .leaf) 0xF93
  0xF93 [0xF92, 0xFB7] (.node .leaf 0xF9D 0xF9D [0xF9C, 0xFB7] .leaf)) 0xFA2 0xFA2 [0xFA1, 0xFB7] (
  .node (.node .leaf 0xFA7 0xFA7 [0xFA6, 0xFB7] .leaf) 0xFAC 0xFAC [0xFAB, 0xFB7] (.node .leaf
  0xFB9 0xFB9 [0xF90, 0xFB5] .leaf)))) 0x1026 0x1026 [0x1025, 0x102E] (.node (.node (.node (.node
  .leaf 0x1B06 0x1B06 [0x1B05, 0x1B35] .leaf) 0x1B08 0x1B08 [0x1B07, 0x1B35] (.node .leaf 0x1B0A
  0x1B0A [0x1B09, 0x1B35] .leaf)) 0x1B0C 0x1B0C [0x1B0B, 0x1B35] (.node (.node .leaf 0x1B0E 0x1B0E
  [0x1B0D, 0x1B35] .leaf) 0x1B12 0x1B12 [0x1B11, 0x1B35] (.node .leaf 0x1B3B 0x1B3B
  [0x1B3A, 0x1B35] .leaf))) 0x1B3D 0x1B3D [0x1B3C, 0x1B35] (.node (.node (.node .leaf 0x1B40 0x1B40
  [0x1B3E, 0x1B35] .leaf) 0x1B41 0x1B41 [0x1B3F, 0x1B35] (.node .leaf 0x1B43 0x1B43
  [0x1B42, 0x1B35] .leaf)) 0x1E00 0x1E00 [0x41, 0x325] (.node (.node .leaf 0x1E01 0x1E01
  [0x61, 0x325] .leaf) 0x1E02 0x1E02 [0x42, 0x307] (.node .leaf 0x1E03 0x1E03 [0x62, 0x307] .leaf))
  ))) 0x1E04 0x1E04 [0x42, 0x323] (.node (.node (.node (.node (.node .leaf 0x1E05 0x1E05
  [0x62, 0x323] .leaf) 0x1E06 0x1E06 [0x42, 0x331] (.node .leaf 0x1E07 0x1E07 [0x62, 0x331] .leaf))
  0x1E08 0x1E08 [0x43, 0x327, 0x301] (.node (.node .leaf 0x1E09 0x1E09 [0x63, 0x327, 0x301] .leaf)
  0x1E0A 0x1E0A [0x44, 0x307] (.node .leaf 0x1E0B 0x1E0B [0x64, 0x307] .leaf))) 0x1E0C 0x1E0C
  [0x44, 0x323] (.node (.node (.node .leaf 0x1E0D 0x1E0D [0x64, 0x323] .leaf) 0x1E0E 0x1E0E
  [0x44, 0x331] (.node .leaf 0x1E0F 0x1E0F [0x64, 0x331] .leaf)) 0x1E10 0x1E10 [0x44, 0x327] (.node
  (.node .leaf 0x1E11 0x1E11 [0x64, 0x327] .leaf) 0x1E12 0x1E12 [0x44, 0x32D] (.node .leaf 0x1E13
  0x1E13 [0x64, 0x32D] .leaf)))) 0x1E14 0x1E14 [0x45, 0x304, 0x300] (.node (.node (.node (.node
  .leaf 0x1E15 0x1E15 [0x65, 0x304, 0x300] .leaf) 0x1E16 0x1E16 [0x45, 0x304, 0x301] (.node .leaf
  0x1E17 0x1E17 [0x65, 0x304, 0x301] .leaf)) 0x1E18 0x1E18 [0x45, 0x32D] (.node (.node .leaf 0x1E19
  0x1E19 [0x65, 0x32D] .leaf) 0x1E1A 0x1E1A [0x45, 0x330] (.node .leaf 0x1E1B 0x1E1B [0x65, 0x330]
  .leaf))) 0x1E1C 0x1E1C [0x45, 0x327, 0x306] (.node (.node (.node .leaf 0x1E1D 0x1E1D
  [0x65, 0x327, 0x306] .leaf) 0x1E1E 0x1E1E [0x46, 0x307] (.node .leaf 0x1E1F 0x1E1F [0x66, 0x307]
  .leaf)) 0x1E20 0x1E20 [0x47, 0x304] (.node (.node .leaf 0x1E21 0x1E21 [0x67, 0x304] .leaf) 0x1E22
  0x1E22 [0x48, 0x307] (.node .leaf 0x1E23 0x1E23 [0x68, 0x307] .leaf)))))) 0x1E24 0x1E24
  [0x48, 0x323] (.node (.node (.node (.node (.node (.node .leaf 0x1E25 0x1E25 [0x68, 0x323] .leaf)
  0x1E26 0x1E26 [0x48, 0x308] (.node .leaf 0x1E27 0x1E27 [0x68, 0x308] .leaf)) 0x1E28 0x1E28
  [0x48, 0x327] (.node (.node .leaf 0x1E29 0x1E29 [0x68, 0x327] .leaf) 0x1E2A 0x1E2A [0x48, 0x32E]
  (.node .leaf 0x1E2B 0x1E2B [0x68, 0x32E] .leaf))) 0x1E2C 0x1E2C [0x49, 0x330] (.node (.node (
  .node .leaf 0x1E2D 0x1E2D [0x69, 0x330] .leaf) 0x1E2E 0x1E2E [0x49, 0x308, 0x301] (.node .leaf
  0x1E2F 0x1E2F [0x69, 0x308, 0x301] .leaf)) 0x1E30 0x1E30 [0x4B, 0x301] (.node (.node .leaf 0x1E31
  0x1E31 [0x6B, 0x301] .leaf) 0x1E32 0x1E32 [0x4B, 0x323] (.node .leaf 0x1E33 0x1E33 [0x6B, 0x323]
  .leaf)))) 0x1E34 0x1E34 [0x4B, 0x331] (.node (.node (.node (.node .leaf 0x1E35 0x1E35
  [0x6B, 0x331] .leaf) 0x1E36 0x1E36 [0x4C, 0x323] (.node .leaf 0x1E37 0x1E37 [0x6C, 0x323] .leaf))
  0x1E38 0x1E38 [0x4C, 0x323, 0x304] (.node (.node .leaf 0x1E39 0x1E39 [0x6C, 0x323, 0x304] .leaf)
  0x1E3A 0x1E3A [0x4C, 0x331] (.node .leaf 0x1E3B 0x1E3B [0x6C, 0x331] .leaf))) 0x1E3C 0x1E3C
  [0x4C, 0x32D] (.node (.node (.node .leaf 0x1E3D 0x1E3D [0x6C, 0x32D] .leaf) 0x1E3E 0x1E3E
  [0x4D, 0x301] (.node .leaf 0x1E3F 0x1E3F [0x6D, 0x301] .leaf)) 0x1E40 0x1E40 [0x4D, 0x307] (.node
  (.node .leaf 0x1E41 0x1E41 [0x6D, 0x307] .leaf) 0x1E42 0x1E42 [0x4D, 0x323] (.node .leaf 0x1E43
  0x1E43 [0x6D, 0x323] .leaf))))) 0x1E44 0x1E44 [0x4E, 0x307] (.node (.node (.node (.node (.node
  .leaf 0x1E45 0x1E45 [0x6E, 0x307] .leaf) 0x1E46 0x1E46 [0x4E, 0x323] (.node .leaf 0x1E47 0x1E47
  [0x6E, 0x323] .leaf)) 0x1E48 0x1E48 [0x4E, 0x331] (.node (.node .leaf 0x1E49 0x1E49 [0x6E, 0x331]
  .leaf) 0x1E4A 0x1E4A [0x4E, 0x32D] (.node .leaf 0x1E4B 0x1E4B [0x6E, 0x32D] .leaf))) 0x1E4C
  0x1E4C [0x4F, 0x303, 0x301] (.node (.node (.node .leaf 0x1E4D 0x1E4D [0x6F, 0x303, 0x301] .leaf)
  0x1E4E 0x1E4E [0x4F, 0x303, 0x308] (.node .leaf 0x1E4F 0x1E4F [0x6F, 0x303, 0x308] .leaf)) 0x1E50
  0x1E50 [0x4F, 0x304, 0x300] (.node (.node .leaf 0x1E51 0x1E51 [0x6F, 0x304, 0x300] .leaf) 0x1E52
  0x1E52 [0x4F, 0x304, 0x301] (.node .leaf 0x1E53 0x1E53 [0x6F, 0x304, 0x301] .leaf)))) 0x1E54
  0x1E54 [0x50, 0x301] (.node (.node (.node (.node .leaf 0x1E55 0x1E55 [0x70, 0x301] .leaf) 0x1E56
  0x1E56 [0x50, 0x307] (.node .leaf 0x1E57 0x1E57 [0x70, 0x307] .leaf)) 0x1E58 0x1E58 [0x52, 0x307]
  (.node (.node .leaf 0x1E59 0x1E59 [0x72, 0x307] .leaf) 0x1E5A 0x1E5A [0x52, 0x323] (.node .leaf
  0x1E5B 0x1E5B [0x72, 0x323] .leaf))) 0x1E5C 0x1E5C [0x52, 0x323, 0x304] (.node (.node (.node
  .leaf 0x1E5D 0x1E5D [0x72, 0x323, 0x304] .leaf) 0x1E5E 0x1E5E [0x52, 0x331] (.node .leaf 0x1E5F
  0x1E5F [0x72, 0x331] .leaf)) 0x1E60 0x1E60 [0x53, 0x307] (.node (.node .leaf 0x1E61 0x1E61
  [0x73, 0x307] .leaf) 0x1E62 0x1E62 [0x53, 0x323] (.node .leaf 0x1E63 0x1E63 [0x73, 0x323] .leaf))
  ))))))) 0x1E64 0x1E64 [0x53, 0x301, 0x307] (.node (.node (.node (.node (.node (.node (.node (
  .node (.node (.node .leaf 0x1E65 0x1E65 [0x73, 0x301, 0x307] .leaf) 0x1E66 0x1E66
  [0x53, 0x30C, 0x307] .leaf) 0x1E67 0x1E67 [0x73, 0x30C, 0x307] (.node .leaf 0x1E68 0x1E68
  [0x53, 0x323, 0x307] .leaf)) 0x1E69 0x1E69 [0x73, 0x323, 0x307] (.node (.node .leaf 0x1E6A 0x1E6A
  [0x54, 0x307] .leaf) 0x1E6B 0x1E6B [0x74, 0x307] (.node .leaf 0x1E6C 0x1E6C [0x54, 0x323] .leaf))
  ) 0x1E6D 0x1E6D [0x74, 0x323] (.node (.node (.node .leaf 0x1E6E 0x1E6E [0x54, 0x331] .leaf)
  0x1E6F 0x1E6F [0x74, 0x331] (.node .leaf 0x1E70 0x1E70 [0x54, 0x32D] .leaf)) 0x1E71 0x1E71
  [0x74, 0x32D] (.node (.node .leaf 0x1E72 0x1E72 [0x55, 0x324] .leaf) 0x1E73 0x1E73 [0x75, 0x324]
  (.node .leaf 0x1E74 0x1E74 [0x55, 0x330] .leaf)))) 0x1E75 0x1E75 [0x75, 0x330] (.node (.node (
  .node (.node .leaf 0x1E76 0x1E76 [0x55, 0x32D] .leaf) 0x1E77 0x1E77 [0x75, 0x32D] (.node .leaf
  0x1E78 0x1E78 [0x55, 0x303, 0x301] .leaf)) 0x1E79 0x1E79 [0x75, 0x303, 0x301] (.node (.node .leaf
  0x1E7A 0x1E7A [0x55, 0x304, 0x308] .leaf) 0x1E7B 0x1E7B [0x75, 0x304, 0x308] (.node .leaf 0x1E7C
  0x1E7C [0x56, 0x303] .leaf))) 0x1E7D 0x1E7D [0x76, 0x303] (.node (.node (.node .leaf 0x1E7E
  0x1E7E [0x56, 0x323] .leaf) 0x1E7F 0x1E7F [0x76, 0x323] (.node .leaf 0x1E80 0x1E80 [0x57, 0x300]
  .leaf)) 0x1E81 0x1E81 [0x77, 0x300] (.node (.node .leaf 0x1E82 0x1E82 [0x57, 0x301] .leaf) 0x1E83
  0x1E83 [0x77, 0x301] (.node .leaf 0x1E84 0x1E84 [0x57, 0x308] .leaf))))) 0x1E85 0x1E85
  [0x77, 0x308] (.node (.node (.node (.node (.node .leaf 0x1E86 0x1E86 [0x57, 0x307] .leaf) 0x1E87
  0x1E87 [0x77, 0x307] (.node .leaf 0x1E88 0x1E88 [0x57, 0x323] .leaf)) 0x1E89 0x1E89 [0x77, 0x323]
  (.node (.node .leaf 0x1E8A 0x1E8A [0x58, 0x307] .leaf) 0x1E8B 0x1E8B [0x78, 0x307] (.node .leaf
  0x1E8C 0x1E8C [0x58, 0x308] .leaf))) 0x1E8D 0x1E8D [0x78, 0x308] (.node (.node (.node .leaf
  0x1E8E 0x1E8E [0x59, 0x307] .leaf) 0x1E8F 0x1E8F [0x79, 0x307] (.node .leaf 0x1E90 0x1E90
  [0x5A, 0x302] .leaf)) 0x1E91 0x1E91 [0x7A, 0x302] (.node (.node .leaf 0x1E92 0x1E92 [0x5A, 0x323]
  .leaf) 0x1E93 0x1E93 [0x7A, 0x323] (.node .leaf 0x1E94 0x1E94 [0x5A, 0x331] .leaf)))) 0x1E95
  0x1E95 [0x7A, 0x331] (.node (.node (.node (.node .leaf 0x1E96 0x1E96 [0x68, 0x331] .leaf) 0x1E97
  0x1E97 [0x74, 0x308] (.node .leaf 0x1E98 0x1E98 [0x77, 0x30A] .leaf)) 0x1E99 0x1E99 [0x79, 0x30A]
  (.node (.node .leaf 0x1E9B 0x1E9B [0x17F, 0x307] .leaf) 0x1EA0 0x1EA0 [0x41, 0x323] (.node .leaf
  0x1EA1 0x1EA1 [0x61, 0x323] .leaf))) 0x1EA2 0x1EA2 [0x41, 0x309] (.node (.node (.node .leaf
  0x1EA3 0x1EA3 [0x61, 0x309] .leaf) 0x1EA4 0x1EA4 [0x41, 0x302, 0x301] (.node .leaf 0x1EA5 0x1EA5
  [0x61, 0x302, 0x301] .leaf)) 0x1EA6 0x1EA6 [0x41, 0x302, 0x300] (.node (.node .leaf 0x1EA7 0x1EA7
  [0x61, 0x302, 0x300] .leaf) 0x1EA8 0x1EA8 [0x41, 0x302, 0x309] (.node .leaf 0x1EA9 0x1EA9
  [0x61, 0x302, 0x309] .leaf)))))) 0x1EAA 0x1EAA [0x41, 0x302, 0x303] (.node (.node (.node (.node (
  .node (.node .leaf 0x1EAB 0x1EAB [0x61, 0x302, 0x303] .leaf) 0x1EAC 0x1EAC [0x41, 0x323, 0x302] (
  .node .leaf 0x1EAD 0x1EAD [0x61, 0x323, 0x302] .leaf)) 0x1EAE 0x1EAE [0x41, 0x306, 0x301] (.node
  (.node .leaf 0x1EAF 0x1EAF [0x61, 0x306, 0x301] .leaf) 0x1EB0 0x1EB0 [0x41, 0x306, 0x300] (.node
  .leaf 0x1EB1 0x1EB1 [0x61, 0x306, 0x300] .leaf))) 0x1EB2 0x1EB2 [0x41, 0x306, 0x309] (.node (
  .node (.node .leaf 0x1EB3 0x1EB3 [0x61, 0x306, 0x309] .leaf) 0x1EB4 0x1EB4 [0x41, 0x306, 0x303] (
  .node .leaf 0x1EB5 0x1EB5 [0x61, 0x306, 0x303] .leaf)) 0x1EB6 0x1EB6 [0x41, 0x323, 0x306] (.node
  (.node .leaf 0x1EB7 0x1EB7 [0x61, 0x323, 0x306] .leaf) 0x1EB8 0x1EB8 [0x45, 0x323] (.node .leaf
  0x1EB9 0x1EB9 [0x65, 0x323] .leaf)))) 0x1EBA 0x1EBA [0x45, 0x309] (.node (.node (.node (.node
  .leaf 0x1EBB 0x1EBB [0x65, 0x309] .leaf) 0x1EBC 0x1EBC [0x45, 0x303] (.node .leaf 0x1EBD 0x1EBD
  [0x65, 0x303] .leaf)) 0x1EBE 0x1EBE [0x45, 0x302, 0x301] (.node (.node .leaf 0x1EBF 0x1EBF
  [0x65, 0x302, 0x301] .leaf) 0x1EC0 0x1EC0 [0x45, 0x302, 0x300] (.node .leaf 0x1EC1 0x1EC1
  [0x65, 0x302, 0x300] .leaf))) 0x1EC2 0x1EC2 [0x45, 0x302, 0x309] (.node (.node (.node .leaf
  0x1EC3 0x1EC3 [0x65, 0x302, 0x309] .leaf) 0x1EC4 0x1EC4 [0x45, 0x302, 0x303] (.node .leaf 0x1EC5
  0x1EC5 [0x65, 0x302, 0x303] .leaf)) 0x1EC6 0x1EC6 [0x45, 0x323, 0x302] (.node (.node .leaf 0x1EC7
  0x1EC7 [0x65, 0x323, 0x302] .leaf) 0x1EC8 0x1EC8 [0x49, 0x309] (.node .leaf 0x1EC9 0x1EC9
  [0x69, 0x309] .leaf))))) 0x1ECA 0x1ECA [0x49, 0x323] (.node (.node (.node (.node (.node .leaf
  0x1ECB 0x1ECB [0x69, 0x323] .leaf) 0x1ECC 0x1ECC [0x4F, 0x323] (.node .leaf 0x1ECD 0x1ECD
  [0x6F, 0x323] .leaf)) 0x1ECE 0x1ECE [0x4F, 0x309] (.node (.node .leaf 0x1ECF 0x1ECF [0x6F, 0x309]
  .leaf) 0x1ED0 0x1ED0 [0x4F, 0x302, 0x301] (.node .leaf 0x1ED1 0x1ED1 [0x6F, 0x302, 0x301] .leaf))
  ) 0x1ED2 0x1ED2 [0x4F, 0x302, 0x300] (.node (.node (.node .leaf 0x1ED3 0x1ED3
  [0x6F, 0x302, 0x300] .leaf) 0x1ED4 0x1ED4 [0x4F, 0x302, 0x309] (.node .leaf 0x1ED5 0x1ED5
  [0x6F, 0x302, 0x309] .leaf)) 0x1ED6 0x1ED6 [0x4F, 0x302, 0x303] (.node (.node .leaf 0x1ED7 0x1ED7
  [0x6F, 0x302, 0x303] .leaf) 0x1ED8 0x1ED8 [0x4F, 0x323, 0x302] (.node .leaf 0x1ED9 0x1ED9
  [0x6F, 0x323, 0x302] .leaf)))) 0x1EDA 0x1EDA [0x4F, 0x31B, 0x301] (.node (.node (.node (.node
  .leaf 0x1EDB 0x1EDB [0x6F, 0x31B, 0x301] .leaf) 0x1EDC 0x1EDC [0x4F, 0x31B, 0x300] (.node .leaf
  0x1EDD 0x1EDD [0x6F, 0x31B, 0x300] .leaf)) 0x1EDE 0x1EDE [0x4F, 0x31B, 0x309] (.node (.node .leaf
  0x1EDF 0x1EDF [0x6F, 0x31B, 0x309] .leaf) 0x1EE0 0x1EE0 [0x4F, 0x31B, 0x303] (.node .leaf 0x1EE1
  0x1EE1 [0x6F, 0x31B, 0x303] .leaf))) 0x1EE2 0x1EE2 [0x4F, 0x31B, 0x323] (.node (.node (.node
  .leaf 0x1EE3 0x1EE3 [0x6F, 0x31B, 0x323] .leaf) 0x1EE4 0x1EE4 [0x55, 0x323] (.node .leaf 0x1EE5
  0x1EE5 [0x75, 0x323] .leaf)) 0x1EE6 0x1EE6 [0x55, 0x309] (.node (.node .leaf 0x1EE7 0x1EE7
  [0x75, 0x309] .leaf) 0x1EE8 0x1EE8 [0x55, 0x31B, 0x301] (.node .leaf 0x1EE9 0x1EE9
  [0x75, 0x31B, 0x301] .leaf))))))) 0x1EEA 0x1EEA [0x55, 0x31B, 0x300] (.node (.node (.node (.node
  (.node (.node (.node (.node .leaf 0x1EEB 0x1EEB [0x75, 0x31B, 0x300] .leaf) 0x1EEC 0x1EEC
  [0x55, 0x31B, 0x309] .leaf) 0x1EED 0x1EED [0x75, 0x31B, 0x309] (.node .leaf 0x1EEE 0x1EEE
  [0x55, 0x31B, 0x303] .leaf)) 0x1EEF 0x1EEF [0x75, 0x31B, 0x303] (.node (.node .leaf 0x1EF0 0x1EF0
  [0x55, 0x31B, 0x323] .leaf) 0x1EF1 0x1EF1 [0x75, 0x31B, 0x323] (.node .leaf 0x1EF2 0x1EF2
  [0x59, 0x300] .leaf))) 0x1EF3 0x1EF3 [0x79, 0x300] (.node (.node (.node .leaf 0x1EF4 0x1EF4
  [0x59, 0x323] .leaf) 0x1EF5 0x1EF5 [0x79, 0x323] (.node .leaf 0x1EF6 0x1EF6 [0x59, 0x309] .leaf))
  0x1EF7 0x1EF7 [0x79, 0x309] (.node (.node .leaf 0x1EF8 0x1EF8 [0x59, 0x303] .leaf) 0x1EF9 0x1EF9
  [0x79, 0x303] (.node .leaf 0x1F00 0x1F00 [0x3B1, 0x313] .leaf)))) 0x1F01 0x1F01 [0x3B1, 0x314] (
  .node (.node (.node (.node .leaf 0x1F02 0x1F02 [0x3B1, 0x313, 0x300] .leaf) 0x1F03 0x1F03
  [0x3B1, 0x314, 0x300] (.node .leaf 0x1F04 0x1F04 [0x3B1, 0x313, 0x301] .leaf)) 0x1F05 0x1F05
  [0x3B1, 0x314, 0x301] (.node (.node .leaf 0x1F06 0x1F06 [0x3B1, 0x313, 0x342] .leaf) 0x1F07
  0x1F07 [0x3B1, 0x314, 0x342] (.node .leaf 0x1F08 0x1F08 [0x391, 0x313] .leaf))) 0x1F09 0x1F09
  [0x391, 0x314] (.node (.node (.node .leaf 0x1F0A 0x1F0A [0x391, 0x313, 0x300] .leaf) 0x1F0B
  0x1F0B [0x391, 0x314, 0x300] (.node .leaf 0x1F0C 0x1F0C [0x391, 0x313, 0x301] .leaf)) 0x1F0D
  0x1F0D [0x391, 0x314, 0x301] (.node (.node .leaf 0x1F0E 0x1F0E [0x391, 0x313, 0x342] .leaf)
  0x1F0F 0x1F0F [0x391, 0x314, 0x342] (.node .leaf 0x1F10 0x1F10 [0x3B5, 0x313] .leaf))))) 0x1F11
  0x1F11 [0x3B5, 0x314] (.node (.node (.node (.node (.node .leaf 0x1F12 0x1F12
  [0x3B5, 0x313, 0x300] .leaf) 0x1F13 0x1F13 [0x3B5, 0x314, 0x300] (.node .leaf 0x1F14 0x1F14
  [0x3B5, 0x313, 0x301] .leaf)) 0x1F15 0x1F15 [0x3B5, 0x314, 0x301] (.node (.node .leaf 0x1F18
  0x1F18 [0x395, 0x313] .leaf) 0x1F19 0x1F19 [0x395, 0x314] (.node .leaf 0x1F1A 0x1F1A
  [0x395, 0x313, 0x300] .leaf))) 0x1F1B 0x1F1B [0x395, 0x314, 0x300] (.node (.node (.node .leaf
  0x1F1C 0x1F1C [0x395, 0x313, 0x301] .leaf) 0x1F1D 0x1F1D [0x395, 0x314, 0x301] (.node .leaf
  0x1F20 0x1F20 [0x3B7, 0x313] .leaf)) 0x1F21 0x1F21 [0x3B7, 0x314] (.node (.node .leaf 0x1F22
  0x1F22 [0x3B7, 0x313, 0x300] .leaf) 0x1F23 0x1F23 [0x3B7, 0x314, 0x300] (.node .leaf 0x1F24
  0x1F24 [0x3B7, 0x313, 0x301] .leaf)))) 0x1F25 0x1F25 [0x3B7, 0x314, 0x301] (.node (.node (.node (
  .node .leaf 0x1F26 0x1F26 [0x3B7, 0x313, 0x342] .leaf) 0x1F27 0x1F27 [0x3B7, 0x314, 0x342] (.node
  .leaf 0x1F28 0x1F28 [0x397, 0x313] .leaf)) 0x1F29 0x1F29 [0x397, 0x314] (.node (.node .leaf
  0x1F2A 0x1F2A [0x397, 0x313, 0x300] .leaf) 0x1F2B 0x1F2B [0x397, 0x314, 0x300] (.node .leaf
  0x1F2C 0x1F2C [0x397, 0x313, 0x301] .leaf))) 0x1F2D 0x1F2D [0x397, 0x314, 0x301] (.node (.node (
  .node .leaf 0x1F2E 0x1F2E [0x397, 0x313, 0x342] .leaf) 0x1F2F 0x1F2F [0x397, 0x314, 0x342] (.node
  .leaf 0x1F30 0x1F30 [0x3B9, 0x313] .leaf)) 0x1F31 0x1F31 [0x3B9, 0x314] (.node (.node .leaf
  0x1F32 0x1F32 [0x3B9, 0x313, 0x300] .leaf) 0x1F33 0x1F33 [0x3B9, 0x314, 0x300] (.node .leaf
  0x1F34 0x1F34 [0x3B9, 0x313, 0x301] .leaf)))))) 0x1F35 0x1F35 [0x3B9, 0x314, 0x301] (.node (.node
  (.node (.node (.node (.node .leaf 0x1F36 0x1F36 [0x3B9, 0x313, 0x342] .leaf) 0x1F37 0x1F37
  [0x3B9, 0x314, 0x342] (.node .leaf 0x1F38 0x1F38 [0x399, 0x313] .leaf)) 0x1F39 0x1F39
  [0x399, 0x314] (.node (.node .leaf 0x1F3A 0x1F3A [0x399, 0x313, 0x300] .leaf) 0x1F3B 0x1F3B
  [0x399, 0x314, 0x300] (.node .leaf 0x1F3C 0x1F3C [0x399, 0x313, 0x301] .leaf))) 0x1F3D 0x1F3D
  [0x399, 0x314, 0x301] (.node (.node (.node .leaf 0x1F3E 0x1F3E [0x399, 0x313, 0x342] .leaf)
  0x1F3F 0x1F3F [0x399, 0x314, 0x342] (.node .leaf 0x1F40 0x1F40 [0x3BF, 0x313] .leaf)) 0x1F41
  0x1F41 [0x3BF, 0x314] (.node (.node .leaf 0x1F42 0x1F42 [0x3BF, 0x313, 0x300] .leaf) 0x1F43
  0x1F43 [0x3BF, 0x314, 0x300] (.node .leaf 0x1F44 0x1F44 [0x3BF, 0x313, 0x301] .leaf)))) 0x1F45
  0x1F45 [0x3BF, 0x314, 0x301] (.node (.node (.node (.node .leaf 0x1F48 0x1F48 [0x39F, 0x313] .leaf
  ) 0x1F49 0x1F49 [0x39F, 0x314] (.node .leaf 0x1F4A 0x1F4A [0x39F, 0x313, 0x300] .leaf)) 0x1F4B
  0x1F4B [0x39F, 0x314, 0x300] (.node (.node .leaf 0x1F4C 0x1F4C [0x39F, 0x313, 0x301] .leaf)
  0x1F4D 0x1F4D [0x39F, 0x314, 0x301] (.node .leaf 0x1F50 0x1F50 [0x3C5, 0x313] .leaf))) 0x1F51
  0x1F51 [0x3C5, 0x314] (.node (.node (.node .leaf 0x1F52 0x1F52 [0x3C5, 0x313, 0x300] .leaf)
  0x1F53 0x1F53 [0x3C5, 0x314, 0x300] (.node .leaf 0x1F54 0x1F54 [0x3C5, 0x313, 0x301] .leaf))
  0x1F55 0x1F55 [0x3C5, 0x314, 0x301] (.node (.node .leaf 0x1F56 0x1F56 [0x3C5, 0x313, 0x342] .leaf
  ) 0x1F57 0x1F57 [0x3C5, 0x314, 0x342] (.node .leaf 0x1F59 0x1F59 [0x3A5, 0x314] .leaf))))) 0x1F5B
  0x1F5B [0x3A5, 0x314, 0x300] (.node (.node (.node (.node (.node .leaf 0x1F5D 0x1F5D
  [0x3A5, 0x314, 0x301] .leaf) 0x1F5F 0x1F5F [0x3A5, 0x314, 0x342] (.node .leaf 0x1F60 0x1F60
  [0x3C9, 0x313] .leaf)) 0x1F61 0x1F61 [0x3C9, 0x314] (.node (.node .leaf 0x1F62 0x1F62
  [0x3C9, 0x313, 0x300] .leaf) 0x1F63 0x1F63 [0x3C9, 0x314, 0x300] (.node .leaf 0x1F64 0x1F64
  [0x3C9, 0x313, 0x301] .leaf))) 0x1F65 0x1F65 [0x3C9, 0x314, 0x301] (.node (.node (.node .leaf
  0x1F66 0x1F66 [0x3C9, 0x313, 0x342] .leaf) 0x1F67 0x1F67 [0x3C9, 0x314, 0x342] (.node .leaf
  0x1F68 0x1F68 [0x3A9, 0x313] .leaf)) 0x1F69 0x1F69 [0x3A9, 0x314] (.node (.node .leaf 0x1F6A
  0x1F6A [0x3A9, 0x313, 0x300] .leaf) 0x1F6B 0x1F6B [0x3A9, 0x314, 0x300] (.node .leaf 0x1F6C
  0x1F6C [0x3A9, 0x313, 0x301] .leaf)))) 0x1F6D 0x1F6D [0x3A9, 0x314, 0x301] (.node (.node (.node (
  .node .leaf 0x1F6E 0x1F6E [0x3A9, 0x313, 0x342] .leaf) 0x1F6F 0x1F6F [0x3A9, 0x314, 0x342] (.node
  .leaf 0x1F70 0x1F70 [0x3B1, 0x300] .leaf)) 0x1F71 0x1F71 [0x3B1, 0x301] (.node (.node .leaf
  0x1F72 0x1F72 [0x3B5, 0x300] .leaf) 0x1F73 0x1F73 [0x3B5, 0x301] (.node .leaf 0x1F74 0x1F74
  [0x3B7, 0x300] .leaf))) 0x1F75 0x1F75 [0x3B7, 0x301] (.node (.node (.node .leaf 0x1F76 0x1F76
  [0x3B9, 0x300] .leaf) 0x1F77 0x1F77 [0x3B9, 0x301] (.node .leaf 0x1F78 0x1F78 [0x3BF, 0x300]
  .leaf)) 0x1F79 0x1F79 [0x3BF, 0x301] (.node (.node .leaf 0x1F7A 0x1F7A [0x3C5, 0x300] .leaf)
  0x1F7B 0x1F7B [0x3C5, 0x301] (.node .leaf 0x1F7C 0x1F7C [0x3C9, 0x300] .leaf)))))))) 0x1F7D
  0x1F7D [0x3C9, 0x301] (.node (.node (.node (.node (.node (.node (.node (.node (.node .leaf 0x1F80
  0x1F80 [0x3B1, 0x313, 0x345] .leaf) 0x1F81 0x1F81 [0x3B1, 0x314, 0x345] .leaf) 0x1F82 0x1F82
  [0x3B1, 0x313, 0x300, 0x345] (.node .leaf 0x1F83 0x1F83 [0x3B1, 0x314, 0x300, 0x345] .leaf))
  0x1F84 0x1F84 [0x3B1, 0x313, 0x301, 0x345] (.node (.node .leaf 0x1F85 0x1F85
  [0x3B1, 0x314, 0x301, 0x345] .leaf) 0x1F86 0x1F86 [0x3B1, 0x313, 0x342, 0x345] (.node .leaf
  0x1F87 0x1F87 [0x3B1, 0x314, 0x342, 0x345] .leaf))) 0x1F88 0x1F88 [0x391, 0x313, 0x345] (.node (
  .node (.node .leaf 0x1F89 0x1F89 [0x391, 0x314, 0x345] .leaf) 0x1F8A 0x1F8A
  [0x391, 0x313, 0x300, 0x345] (.node .leaf 0x1F8B 0x1F8B [0x391, 0x314, 0x300, 0x345] .leaf))
  0x1F8C 0x1F8C [0x391, 0x313, 0x301, 0x345] (.node (.node .leaf 0x1F8D 0x1F8D
  [0x391, 0x314, 0x301, 0x345] .leaf) 0x1F8E 0x1F8E [0x391, 0x313, 0x342, 0x345] (.node .leaf
  0x1F8F 0x1F8F [0x391, 0x314, 0x342, 0x345] .leaf)))) 0x1F90 0x1F90 [0x3B7, 0x313, 0x345] (.node (
  .node (.node (.node .leaf 0x1F91 0x1F91 [0x3B7, 0x314, 0x345] .leaf) 0x1F92 0x1F92
  [0x3B7, 0x313, 0x300, 0x345] (.node .leaf 0x1F93 0x1F93 [0x3B7, 0x314, 0x300, 0x345] .leaf))
  0x1F94 0x1F94 [0x3B7, 0x313, 0x301, 0x345] (.node (.node .leaf 0x1F95 0x1F95
  [0x3B7, 0x314, 0x301, 0x345] .leaf) 0x1F96 0x1F96 [0x3B7, 0x313, 0x342, 0x345] (.node .leaf
  0x1F97 0x1F97 [0x3B7, 0x314, 0x342, 0x345] .leaf))) 0x1F98 0x1F98 [0x397, 0x313, 0x345] (.node (
  .node (.node .leaf 0x1F99 0x1F99 [0x397, 0x314, 0x345] .leaf) 0x1F9A 0x1F9A
  [0x397, 0x313, 0x300, 0x345] (.node .leaf 0x1F9B 0x1F9B [0x397, 0x314, 0x300, 0x345] .leaf))
  0x1F9C 0x1F9C [0x397, 0x313, 0x301, 0x345] (.node (.node .leaf 0x1F9D 0x1F9D
  [0x397, 0x314, 0x301, 0x345] .leaf) 0x1F9E 0x1F9E [0x397, 0x313, 0x342, 0x345] (.node .leaf
  0x1F9F 0x1F9F [0x397, 0x314, 0x342, 0x345] .leaf))))) 0x1FA0 0x1FA0 [0x3C9, 0x313, 0x345] (.node
  (.node (.node (.node (.node .leaf 0x1FA1 0x1FA1 [0x3C9, 0x314, 0x345] .leaf) 0x1FA2 0x1FA2
  [0x3C9, 0x313, 0x300, 0x345] (.node .leaf 0x1FA3 0x1FA3 [0x3C9, 0x314, 0x300, 0x345] .leaf))
  0x1FA4 0x1FA4 [0x3C9, 0x313, 0x301, 0x345] (.node (.node .leaf 0x1FA5 0x1FA5
  [0x3C9, 0x314, 0x301, 0x345] .leaf) 0x1FA6 0x1FA6 [0x3C9, 0x313, 0x342, 0x345] (.node .leaf
  0x1FA7 0x1FA7 [0x3C9, 0x314, 0x342, 0x345] .leaf))) 0x1FA8 0x1FA8 [0x3A9, 0x313, 0x345] (.node (
  .node (.node .leaf 0x1FA9 0x1FA9 [0x3A9, 0x314, 0x345] .leaf) 0x1FAA 0x1FAA
  [0x3A9, 0x313, 0x300, 0x345] (.node .leaf 0x1FAB 0x1FAB [0x3A9, 0x314, 0x300, 0x345] .leaf))
  0x1FAC 0x1FAC [0x3A9, 0x313, 0x301, 0x345] (.node (.node .leaf 0x1FAD 0x1FAD
  [0x3A9, 0x314, 0x301, 0x345] .leaf) 0x1FAE 0x1FAE [0x3A9, 0x313, 0x342, 0x345] (.node .leaf
  0x1FAF 0x1FAF [0x3A9, 0x314, 0x342, 0x345] .leaf)))) 0x1FB0 0x1FB0 [0x3B1, 0x306] (.node (.node (
  .node (.node .leaf 0x1FB1 0x1FB1 [0x3B1, 0x304] .leaf) 0x1FB2 0x1FB2 [0x3B1, 0x300, 0x345] (.node
  .leaf 0x1FB3 0x1FB3 [0x3B1, 0x345] .leaf)) 0x1FB4 0x1FB4 [0x3B1, 0x301, 0x345] (.node (.node
  .leaf 0x1FB6 0x1FB6 [0x3B1, 0x342] .leaf) 0x1FB7 0x1FB7 [0x3B1, 0x342, 0x345] (.node .leaf 0x1FB8
  0x1FB8 [0x391, 0x306] .leaf))) 0x1FB9 0x1FB9 [0x391, 0x304] (.node (.node (.node .leaf 0x1FBA
  0x1FBA [0x391, 0x300] .leaf) 0x1FBB 0x1FBB [0x391, 0x301] (.node .leaf 0x1FBC 0x1FBC
  [0x391, 0x345] .leaf)) 0x1FBE 0x1FBE [0x3B9] (.node (.node .leaf 0x1FC1 0x1FC1 [0xA8, 0x342]
  .leaf) 0x1FC2 0x1FC2 [0x3B7, 0x300, 0x345] (.node .leaf 0x1FC3 0x1FC3 [0x3B7, 0x345] .leaf))))))
  0x1FC4 0x1FC4 [0x3B7, 0x301, 0x345] (.node (.node (.node (.node (.node (.node .leaf 0x1FC6 0x1FC6
  [0x3B7, 0x342] .leaf) 0x1FC7 0x1FC7 [0x3B7, 0x342, 0x345] (.node .leaf 0x1FC8 0x1FC8
  [0x395, 0x300] .leaf)) 0x1FC9 0x1FC9 [0x395, 0x301] (.node (.node .leaf 0x1FCA 0x1FCA
  [0x397, 0x300] .leaf) 0x1FCB 0x1FCB [0x397, 0x301] (.node .leaf 0x1FCC 0x1FCC [0x397, 0x345]
  .leaf))) 0x1FCD 0x1FCD [0x1FBF, 0x300] (.node (.node (.node .leaf 0x1FCE 0x1FCE [0x1FBF, 0x301]
  .leaf) 0x1FCF 0x1FCF [0x1FBF, 0x342] (.node .leaf 0x1FD0 0x1FD0 [0x3B9, 0x306] .leaf)) 0x1FD1
  0x1FD1 [0x3B9, 0x304] (.node (.node .leaf 0x1FD2 0x1FD2 [0x3B9, 0x308, 0x300] .leaf) 0x1FD3
  0x1FD3 [0x3B9, 0x308, 0x301] (.node .leaf 0x1FD6 0x1FD6 [0x3B9, 0x342] .leaf)))) 0x1FD7 0x1FD7
  [0x3B9, 0x308, 0x342] (.node (.node (.node (.node .leaf 0x1FD8 0x1FD8 [0x399, 0x306] .leaf)
  0x1FD9 0x1FD9 [0x399, 0x304] (.node .leaf 0x1FDA 0x1FDA [0x399, 0x300] .leaf)) 0x1FDB 0x1FDB
  [0x399, 0x301] (.node (.node .leaf 0x1FDD 0x1FDD [0x1FFE, 0x300] .leaf) 0x1FDE 0x1FDE
  [0x1FFE, 0x301] (.node .leaf 0x1FDF 0x1FDF [0x1FFE, 0x342] .leaf))) 0x1FE0 0x1FE0 [0x3C5, 0x306]
  (.node (.node (.node .leaf 0x1FE1 0x1FE1 [0x3C5, 0x304] .leaf) 0x1FE2 0x1FE2
  [0x3C5, 0x308, 0x300] (.node .leaf 0x1FE3 0x1FE3 [0x3C5, 0x308, 0x301] .leaf)) 0x1FE4 0x1FE4
  [0x3C1, 0x313] (.node (.node .leaf 0x1FE5 0x1FE5 [0x3C1, 0x314] .leaf) 0x1FE6 0x1FE6
  [0x3C5, 0x342] (.node .leaf 0x1FE7 0x1FE7 [0x3C5, 0x308, 0x342] .leaf))))) 0x1FE8 0x1FE8
  [0x3A5, 0x306] (.node (.node (.node (.node (.node .leaf 0x1FE9 0x1FE9 [0x3A5, 0x304] .leaf)
  0x1FEA 0x1FEA [0x3A5, 0x300] (.node .leaf 0x1FEB 0x1FEB [0x3A5, 0x301] .leaf)) 0x1FEC 0x1FEC
  [0x3A1, 0x314] (.node (.node .leaf 0x1FED 0x1FED [0xA8, 0x300] .leaf) 0x1FEE 0x1FEE [0xA8, 0x301]
  (.node .leaf 0x1FEF 0x1FEF [0x60] .leaf))) 0x1FF2 0x1FF2 [0x3C9, 0x300, 0x345] (.node (.node (
  .node .leaf 0x1FF3 0x1FF3 [0x3C9, 0x345] .leaf) 0x1FF4 0x1FF4 [0x3C9, 0x301, 0x345] (.node .leaf
  0x1FF6 0x1FF6 [0x3C9, 0x342] .leaf)) 0x1FF7 0x1FF7 [0x3C9, 0x342, 0x345] (.node (.node .leaf
  0x1FF8 0x1FF8 [0x39F, 0x300] .leaf) 0x1FF9 0x1FF9 [0x39F, 0x301] (.node .leaf 0x1FFA 0x1FFA
  [0x3A9, 0x300] .leaf)))) 0x1FFB 0x1FFB [0x3A9, 0x301] (.node (.node (.node (.node .leaf 0x1FFC
  0x1FFC [0x3A9, 0x345] .leaf) 0x1FFD 0x1FFD [0xB4] (.node .leaf 0x2000 0x2000 [0x2002] .leaf))
  0x2001 0x2001 [0x2003] (.node (.node .leaf 0x2126 0x2126 [0x3A9] .leaf) 0x212A 0x212A [0x4B] (
  .node .leaf 0x212B 0x212B [0x41, 0x30A] .leaf))) 0x219A 0x219A [0x2190, 0x338] (.node (.node (
  .node .leaf 0x219B 0x219B [0x2192, 0x338] .leaf) 0x21AE 0x21AE [0x2194, 0x338] (.node .leaf
  0x21CD 0x21CD [0x21D0, 0x338] .leaf)) 0x21CE 0x21CE [0x21D4, 0x338] (.node (.node .leaf 0x21CF
  0x21CF [0x21D2, 0x338] .leaf) 0x2204 0x2204 [0x2203, 0x338] (.node .leaf 0x2209 0x2209
  [0x2208, 0x338] .leaf))))))) 0x220C 0x220C [0x220B, 0x338] (.node (.node (.node (.node (.node (
  .node (.node .leaf 0x2224 0x2224 [0x2223, 0x338] .leaf) 0x2226 0x2226 [0x2225, 0x338] (.node
  .leaf 0x2241 0x2241 [0x223C, 0x338] .leaf)) 0x2244 0x2244 [0x2243, 0x338] (.node (.node .leaf
  0x2247 0x2247 [0x2245, 0x338] .leaf) 0x2249 0x2249 [0x2248, 0x338] (.node .leaf 0x2260 0x2260
  [0x3D, 0x338] .leaf))) 0x2262 0x2262 [0x2261, 0x338] (.node (.node (.node .leaf 0x226D 0x226D
  [0x224D, 0x338] .leaf) 0x226E 0x226E [0x3C, 0x338] (.node .leaf 0x226F 0x226F [0x3E, 0x338] .leaf
  )) 0x2270 0x2270 [0x2264, 0x338] (.node (.node .leaf 0x2271 0x2271 [0x2265, 0x338] .leaf) 0x2274
  0x2274 [0x2272, 0x338] (.node .leaf 0x2275 0x2275 [0x2273, 0x338] .leaf)))) 0x2278 0x2278
  [0x2276, 0x338] (.node (.node (.node (.node .leaf 0x2279 0x2279 [0x2277, 0x338] .leaf) 0x2280
  0x2280 [0x227A, 0x338] (.node .leaf 0x2281 0x2281 [0x227B, 0x338] .leaf)) 0x2284 0x2284
  [0x2282, 0x338] (.node (.node .leaf 0x2285 0x2285 [0x2283, 0x338] .leaf) 0x2288 0x2288
  [0x2286, 0x338] (.node .leaf 0x2289 0x2289 [0x2287, 0x338] .leaf))) 0x22AC 0x22AC [0x22A2, 0x338]
  (.node (.node (.node .leaf 0x22AD 0x22AD [0x22A8, 0x338] .leaf) 0x22AE 0x22AE [0x22A9, 0x338] (
  .node .leaf 0x22AF 0x22AF [0x22AB, 0x338] .leaf)) 0x22E0 0x22E0 [0x227C, 0x338] (.node (.node
  .leaf 0x22E1 0x22E1 [0x227D, 0x338] .leaf) 0x22E2 0x22E2 [0x2291, 0x338] (.node .leaf 0x22E3
  0x22E3 [0x2292, 0x338] .leaf))))) 0x22EA 0x22EA [0x22B2, 0x338] (.node (.node (.node (.node (
  .node .leaf 0x22EB 0x22EB [0x22B3, 0x338] .leaf) 0x22EC 0x22EC [0x22B4, 0x338] (.node .leaf
  0x22ED 0x22ED [0x22B5, 0x338] .leaf)) 0x2329 0x2329 [0x3008] (.node (.node .leaf 0x232A 0x232A
  [0x3009] .leaf) 0x2ADC 0x2ADC [0x2ADD, 0x338] (.node .leaf 0x304C 0x304C [0x304B, 0x3099] .leaf))
  ) 0x304E 0x304E [0x304D, 0x3099] (.node (.node (.node .leaf 0x3050 0x3050 [0x304F, 0x3099] .leaf)
  0x3052 0x3052 [0x3051, 0x3099] (.node .leaf 0x3054 0x3054 [0x3053, 0x3099] .leaf)) 0x3056 0x3056
  [0x3055, 0x3099] (.node (.node .leaf 0x3058 0x3058 [0x3057, 0x3099] .leaf) 0x305A 0x305A
  [0x3059, 0x3099] (.node .leaf 0x305C 0x305C [0x305B, 0x3099] .leaf)))) 0x305E 0x305E
  [0x305D, 0x3099] (.node (.node (.node (.node .leaf 0x3060 0x3060 [0x305F, 0x3099] .leaf) 0x3062
  0x3062 [0x3061, 0x3099] (.node .leaf 0x3065 0x3065 [0x3064, 0x3099] .leaf)) 0x3067 0x3067
  [0x3066, 0x3099] (.node (.node .leaf 0x3069 0x3069 [0x3068, 0x3099] .leaf) 0x3070 0x3070
  [0x306F, 0x3099] (.node .leaf 0x3071 0x3071 [0x306F, 0x309A] .leaf))) 0x3073 0x3073
  [0x3072, 0x3099] (.node (.node (.node .leaf 0x3074 0x3074 [0x3072, 0x309A] .leaf) 0x3076 0x3076
  [0x3075, 0x3099] (.node .leaf 0x3077 0x3077 [0x3075, 0x309A] .leaf)) 0x3079 0x3079
  [0x3078, 0x3099] (.node (.node .leaf 0x307A 0x307A [0x3078, 0x309A] .leaf) 0x307C 0x307C
  [0x307B, 0x3099] (.node .leaf 0x307D 0x307D [0x307B, 0x309A] .leaf)))))) 0x3094 0x3094
  [0x3046, 0x3099] (.node (.node (.node (.node (.node (.node .leaf 0x309E 0x309E [0x309D, 0x3099]
  .leaf) 0x30AC 0x30AC [0x30AB, 0x3099] (.node .leaf 0x30AE 0x30AE [0x30AD, 0x3099] .leaf)) 0x30B0
  0x30B0 [0x30AF, 0x3099] (.node (.node .leaf 0x30B2 0x30B2 [0x30B1, 0x3099] .leaf) 0x30B4 0x30B4
  [0x30B3, 0x3099] (.node .leaf 0x30B6 0x30B6 [0x30B5, 0x3099] .leaf))) 0x30B8 0x30B8
  [0x30B7, 0x3099] (.node (.node (.node .leaf 0x30BA 0x30BA [0x30B9, 0x3099] .leaf) 0x30BC 0x30BC
  [0x30BB, 0x3099] (.node .leaf 0x30BE 0x30BE [0x30BD, 0x3099] .leaf)) 0x30C0 0x30C0
  [0x30BF, 0x3099] (.node (.node .leaf 0x30C2 0x30C2 [0x30C1, 0x3099] .leaf) 0x30C5 0x30C5
  [0x30C4, 0x3099] (.node .leaf 0x30C7 0x30C7 [0x30C6, 0x3099] .leaf)))) 0x30C9 0x30C9
  [0x30C8, 0x3099] (.node (.node (.node (.node .leaf 0x30D0 0x30D0 [0x30CF, 0x3099] .leaf) 0x30D1
  0x30D1 [0x30CF, 0x309A] (.node .leaf 0x30D3 0x30D3 [0x30D2, 0x3099] .leaf)) 0x30D4 0x30D4
  [0x30D2, 0x309A] (.node (.node .leaf 0x30D6 0x30D6 [0x30D5, 0x3099] .leaf) 0x30D7 0x30D7
  [0x30D5, 0x309A] (.node .leaf 0x30D9 0x30D9 [0x30D8, 0x3099] .leaf))) 0x30DA 0x30DA
  [0x30D8, 0x309A] (.node (.node (.node .leaf 0x30DC 0x30DC [0x30DB, 0x3099] .leaf) 0x30DD 0x30DD
  [0x30DB, 0x309A] (.node .leaf 0x30F4 0x30F4 [0x30A6, 0x3099] .leaf)) 0x30F7 0x30F7
  [0x30EF, 0x3099] (.node (.node .leaf 0x30F8 0x30F8 [0x30F0, 0x3099] .leaf) 0x30F9 0x30F9
  [0x30F1, 0x3099] (.node .leaf 0x30FA 0x30FA [0x30F2, 0x3099] .leaf))))) 0x30FE 0x30FE
  [0x30FD, 0x3099] (.node (.node (.node (.node (.node .leaf 0xF900 0xF900 [0x8C48] .leaf) 0xF901
  0xF901 [0x66F4] (.node .leaf 0xF902 0xF902 [0x8ECA] .leaf)) 0xF903 0xF903 [0x8CC8] (.node (.node
  .leaf 0xF904 0xF904 [0x6ED1] .leaf) 0xF905 0xF905 [0x4E32] (.node .leaf 0xF906 0xF906 [0x53E5]
  .leaf))) 0xF907 0xF907 [0x9F9C] (.node (.node (.node .leaf 0xF908 0xF908 [0x9F9C] .leaf) 0xF909
  0xF909 [0x5951] (.node .leaf 0xF90A 0xF90A [0x91D1] .leaf)) 0xF90B 0xF90B [0x5587] (.node (.node
  .leaf 0xF90C 0xF90C [0x5948] .leaf) 0xF90D 0xF90D [0x61F6] (.node .leaf 0xF90E 0xF90E [0x7669]
  .leaf)))) 0xF90F 0xF90F [0x7F85] (.node (.node (.node (.node .leaf 0xF910 0xF910 [0x863F] .leaf)
  0xF911 0xF911 [0x87BA] (.node .leaf 0xF912 0xF912 [0x88F8] .leaf)) 0xF913 0xF913 [0x908F] (.node
  (.node .leaf 0xF914 0xF914 [0x6A02] .leaf) 0xF915 0xF915 [0x6D1B] (.node .leaf 0xF916 0xF916
  [0x70D9] .leaf))) 0xF917 0xF917 [0x73DE] (.node (.node (.node .leaf 0xF918 0xF918 [0x843D] .leaf)
  0xF919 0xF919 [0x916A] (.node .leaf 0xF91A 0xF91A [0x99F1] .leaf)) 0xF91B 0xF91B [0x4E82] (.node
  (.node .leaf 0xF91C 0xF91C [0x5375] .leaf) 0xF91D 0xF91D [0x6B04] (.node .leaf 0xF91E 0xF91E
  [0x721B] .leaf)))))))))) 0xF91F 0xF91F [0x862D] (.node (.node (.node (.node (.node (.node (.node
  (.node (.node (.node (.node .leaf 0xF920 0xF920 [0x9E1E] .leaf) 0xF921 0xF921 [0x5D50] .leaf)
  0xF922 0xF922 [0x6FEB] (.node .leaf 0xF923 0xF923 [0x85CD] .leaf)) 0xF924 0xF924 [0x8964] (.node
  (.node .leaf 0xF925 0xF925 [0x62C9] .leaf) 0xF926 0xF926 [0x81D8] (.node .leaf 0xF927 0xF927
  [0x881F] .leaf))) 0xF928 0xF928 [0x5ECA] (.node (.node (.node .leaf 0xF929 0xF929 [0x6717] .leaf)
  0xF92A 0xF92A [0x6D6A] (.node .leaf 0xF92B 0xF92B [0x72FC] .leaf)) 0xF92C 0xF92C [0x90CE] (.node
  (.node .leaf 0xF92D 0xF92D [0x4F86] .leaf) 0xF92E 0xF92E [0x51B7] (.node .leaf 0xF92F 0xF92F
  [0x52DE] .leaf)))) 0xF930 0xF930 [0x64C4] (.node (.node (.node (.node .leaf 0xF931 0xF931
  [0x6AD3] .leaf) 0xF932 0xF932 [0x7210] (.node .leaf 0xF933 0xF933 [0x76E7] .leaf)) 0xF934 0xF934
  [0x8001] (.node (.node .leaf 0xF935 0xF935 [0x8606] .leaf) 0xF936 0xF936 [0x865C] (.node .leaf
  0xF937 0xF937 [0x8DEF] .leaf))) 0xF938 0xF938 [0x9732] (.node (.node (.node .leaf 0xF939 0xF939
  [0x9B6F] .leaf) 0xF93A 0xF93A [0x9DFA] (.node .leaf 0xF93B 0xF93B [0x788C] .leaf)) 0xF93C 0xF93C
  [0x797F] (.node (.node .leaf 0xF93D 0xF93D [0x7DA0] .leaf) 0xF93E 0xF93E [0x83C9] (.node .leaf
  0xF93F 0xF93F [0x9304] .leaf))))) 0xF940 0xF940 [0x9E7F] (.node (.node (.node (.node (.node .leaf
  0xF941 0xF941 [0x8AD6] .leaf) 0xF942 0xF942 [0x58DF] (.node .leaf 0xF943 0xF943 [0x5F04] .leaf))
  0xF944 0xF944 [0x7C60] (.node (.node .leaf 0xF945 0xF945 [0x807E] .leaf) 0xF946 0xF946 [0x7262] (
  .node .leaf 0xF947 0xF947 [0x78CA] .leaf))) 0xF948 0xF948 [0x8CC2] (.node (.node (.node .leaf
  0xF949 0xF949 [0x96F7] .leaf) 0xF94A 0xF94A [0x58D8] (.node .leaf 0xF94B 0xF94B [0x5C62] .leaf))
  0xF94C 0xF94C [0x6A13] (.node (.node .leaf 0xF94D 0xF94D [0x6DDA] .leaf) 0xF94E 0xF94E [0x6F0F] (
  .node .leaf 0xF94F 0xF94F [0x7D2F] .leaf)))) 0xF950 0xF950 [0x7E37] (.node (.node (.node (.node
  .leaf 0xF951 0xF951 [0x964B] .leaf) 0xF952 0xF952 [0x52D2] (.node .leaf 0xF953 0xF953 [0x808B]
  .leaf)) 0xF954 0xF954 [0x51DC] (.node (.node .leaf 0xF955 0xF955 [0x51CC] .leaf) 0xF956 0xF956
  [0x7A1C] (.node .leaf 0xF957 0xF957 [0x7DBE] .leaf))) 0xF958 0xF958 [0x83F1] (.node (.node (.node
  .leaf 0xF959 0xF959 [0x9675] .leaf) 0xF95A 0xF95A [0x8B80] (.node .leaf 0xF95B 0xF95B [0x62CF]
  .leaf)) 0xF95C 0xF95C [0x6A02] (.node (.node .leaf 0xF95D 0xF95D [0x8AFE] .leaf) 0xF95E 0xF95E
  [0x4E39] (.node .leaf 0xF95F 0xF95F [0x5BE7] .leaf)))))) 0xF960 0xF960 [0x6012] (.node (.node (
  .node (.node (.node (.node .leaf 0xF961 0xF961 [0x7387] .leaf) 0xF962 0xF962 [0x7570] (.node
  .leaf 0xF963 0xF963 [0x5317] .leaf)) 0xF964 0xF964 [0x78FB] (.node (.node .leaf 0xF965 0xF965
  [0x4FBF] .leaf) 0xF966 0xF966 [0x5FA9] (.node .leaf 0xF967 0xF967 [0x4E0D] .leaf))) 0xF968 0xF968
  [0x6CCC] (.node (.node (.node .leaf 0xF969 0xF969 [0x6578] .leaf) 0xF96A 0xF96A [0x7D22] (.node
  .leaf 0xF96B 0xF96B [0x53C3] .leaf)) 0xF96C 0xF96C [0x585E] (.node (.node .leaf 0xF96D 0xF96D
  [0x7701] .leaf) 0xF96E 0xF96E [0x8449] (.node .leaf 0xF96F 0xF96F [0x8AAA] .leaf)))) 0xF970
  0xF970 [0x6BBA] (.node (.node (.node (.node .leaf 0xF971 0xF971 [0x8FB0] .leaf) 0xF972 0xF972
  [0x6C88] (.node .leaf 0xF973 0xF973 [0x62FE] .leaf)) 0xF974 0xF974 [0x82E5] (.node (.node .leaf
  0xF975 0xF975 [0x63A0] .leaf) 0xF976 0xF976 [0x7565] (.node .leaf 0xF977 0xF977 [0x4EAE] .leaf)))
  0xF978 0xF978 [0x5169] (.node (.node (.node .leaf 0xF979 0xF979 [0x51C9] .leaf) 0xF97A 0xF97A
  [0x6881] (.node .leaf 0xF97B 0xF97B [0x7CE7] .leaf)) 0xF97C 0xF97C [0x826F] (.node (.node .leaf
  0xF97D 0xF97D [0x8AD2] .leaf) 0xF97E 0xF97E [0x91CF] (.node .leaf 0xF97F 0xF97F [0x52F5] .leaf)))
  )) 0xF980 0xF980 [0x5442] (.node (.node (.node (.node (.node .leaf 0xF981 0xF981 [0x5973] .leaf)
  0xF982 0xF982 [0x5EEC] (.node .leaf 0xF983 0xF983 [0x65C5] .leaf)) 0xF984 0xF984 [0x6FFE] (.node
  (.node .leaf 0xF985 0xF985 [0x792A] .leaf) 0xF986 0xF986 [0x95AD] (.node .leaf 0xF987 0xF987
  [0x9A6A] .leaf))) 0xF988 0xF988 [0x9E97] (.node (.node (.node .leaf 0xF989 0xF989 [0x9ECE] .leaf)
  0xF98A 0xF98A [0x529B] (.node .leaf 0xF98B 0xF98B [0x66C6] .leaf)) 0xF98C 0xF98C [0x6B77] (.node
  (.node .leaf 0xF98D 0xF98D [0x8F62] .leaf) 0xF98E 0xF98E [0x5E74] (.node .leaf 0xF98F 0xF98F
  [0x6190] .leaf)))) 0xF990 0xF990 [0x6200] (.node (.node (.node (.node .leaf 0xF991 0xF991
  [0x649A] .leaf) 0xF992 0xF992 [0x6F23] (.node .leaf 0xF993 0xF993 [0x7149] .leaf)) 0xF994 0xF994
  [0x7489] (.node (.node .leaf 0xF995 0xF995 [0x79CA] .leaf) 0xF996 0xF996 [0x7DF4] (.node .leaf
  0xF997 0xF997 [0x806F] .leaf))) 0xF998 0xF998 [0x8F26] (.node (.node (.node .leaf 0xF999 0xF999
  [0x84EE] .leaf) 0xF99A 0xF99A [0x9023] (.node .leaf 0xF99B 0xF99B [0x934A] .leaf)) 0xF99C 0xF99C
  [0x5217] (.node (.node .leaf 0xF99D 0xF99D [0x52A3] .leaf) 0xF99E 0xF99E [0x54BD] (.node .leaf
  0xF99F 0xF99F [0x70C8] .leaf))))))) 0xF9A0 0xF9A0 [0x88C2] (.node (.node (.node (.node (.node (
  .node (.node (.node .leaf 0xF9A1 0xF9A1 [0x8AAA] .leaf) 0xF9A2 0xF9A2 [0x5EC9] .leaf) 0xF9A3
  0xF9A3 [0x5FF5] (.node .leaf 0xF9A4 0xF9A4 [0x637B] .leaf)) 0xF9A5 0xF9A5 [0x6BAE] (.node (.node
  .leaf 0xF9A6 0xF9A6 [0x7C3E] .leaf) 0xF9A7 0xF9A7 [0x7375] (.node .leaf 0xF9A8 0xF9A8 [0x4EE4]
  .leaf))) 0xF9A9 0xF9A9 [0x56F9] (.node (.node (.node .leaf 0xF9AA 0xF9AA [0x5BE7] .leaf) 0xF9AB
  0xF9AB [0x5DBA] (.node .leaf 0xF9AC 0xF9AC [0x601C] .leaf)) 0xF9AD 0xF9AD [0x73B2] (.node (.node
  .leaf 0xF9AE 0xF9AE [0x7469] .leaf) 0xF9AF 0xF9AF [0x7F9A] (.node .leaf 0xF9B0 0xF9B0 [0x8046]
  .leaf)))) 0xF9B1 0xF9B1 [0x9234] (.node (.node (.node (.node .leaf 0xF9B2 0xF9B2 [0x96F6] .leaf)
  0xF9B3 0xF9B3 [0x9748] (.node .leaf 0xF9B4 0xF9B4 [0x9818] .leaf)) 0xF9B5 0xF9B5 [0x4F8B] (.node
  (.node .leaf 0xF9B6 0xF9B6 [0x79AE] .leaf) 0xF9B7 0xF9B7 [0x91B4] (.node .leaf 0xF9B8 0xF9B8
  [0x96B8] .leaf))) 0xF9B9 0xF9B9 [0x60E1] (.node (.node (.node .leaf 0xF9BA 0xF9BA [0x4E86] .leaf)
  0xF9BB 0xF9BB [0x50DA] (.node .leaf 0xF9BC 0xF9BC [0x5BEE] .leaf)) 0xF9BD 0xF9BD [0x5C3F] (.node
  (.node .leaf 0xF9BE 0xF9BE [0x6599] .leaf) 0xF9BF 0xF9BF [0x6A02] (.node .leaf 0xF9C0 0xF9C0
  [0x71CE] .leaf))))) 0xF9C1 0xF9C1 [0x7642] (.node (.node (.node (.node (.node .leaf 0xF9C2 0xF9C2
  [0x84FC] .leaf) 0xF9C3 0xF9C3 [0x907C] (.node .leaf 0xF9C4 0xF9C4 [0x9F8D] .leaf)) 0xF9C5 0xF9C5
  [0x6688] (.node (.node .leaf 0xF9C6 0xF9C6 [0x962E] .leaf) 0xF9C7 0xF9C7 [0x5289] (.node .leaf
  0xF9C8 0xF9C8 [0x677B] .leaf))) 0xF9C9 0xF9C9 [0x67F3] (.node (.node (.node .leaf 0xF9CA 0xF9CA
  [0x6D41] .leaf) 0xF9CB 0xF9CB [0x6E9C] (.node .leaf 0xF9CC 0xF9CC [0x7409] .leaf)) 0xF9CD 0xF9CD
  [0x7559] (.node (.node .leaf 0xF9CE 0xF9CE [0x786B] .leaf) 0xF9CF 0xF9CF [0x7D10] (.node .leaf
  0xF9D0 0xF9D0 [0x985E] .leaf)))) 0xF9D1 0xF9D1 [0x516D] (.node (.node (.node (.node .leaf 0xF9D2
  0xF9D2 [0x622E] .leaf) 0xF9D3 0xF9D3 [0x9678] (.node .leaf 0xF9D4 0xF9D4 [0x502B] .leaf)) 0xF9D5
  0xF9D5 [0x5D19] (.node (.node .leaf 0xF9D6 0xF9D6 [0x6DEA] .leaf) 0xF9D7 0xF9D7 [0x8F2A] (.node
  .leaf 0xF9D8 0xF9D8 [0x5F8B] .leaf))) 0xF9D9 0xF9D9 [0x6144] (.node (.node (.node .leaf 0xF9DA
  0xF9DA [0x6817] .leaf) 0xF9DB 0xF9DB [0x7387] (.node .leaf 0xF9DC 0xF9DC [0x9686] .leaf)) 0xF9DD
  0xF9DD [0x5229] (.node (.node .leaf 0xF9DE 0xF9DE [0x540F] .leaf) 0xF9DF 0xF9DF [0x5C65] (.node
  .leaf 0xF9E0 0xF9E0 [0x6613] .leaf)))))) 0xF9E1 0xF9E1 [0x674E] (.node (.node (.node (.node (
  .node (.node .leaf 0xF9E2 0xF9E2 [0x68A8] .leaf) 0xF9E3 0xF9E3 [0x6CE5] (.node .leaf 0xF9E4
  0xF9E4 [0x7406] .leaf)) 0xF9E5 0xF9E5 [0x75E2] (.node (.node .leaf 0xF9E6 0xF9E6 [0x7F79] .leaf)
  0xF9E7 0xF9E7 [0x88CF] (.node .leaf 0xF9E8 0xF9E8 [0x88E1] .leaf))) 0xF9E9 0xF9E9 [0x91CC] (.node
  (.node (.node .leaf 0xF9EA 0xF9EA [0x96E2] .leaf) 0xF9EB 0xF9EB [0x533F] (.node .leaf 0xF9EC
  0xF9EC [0x6EBA] .leaf)) 0xF9ED 0xF9ED [0x541D] (.node (.node .leaf 0xF9EE 0xF9EE [0x71D0] .leaf)
  0xF9EF 0xF9EF [0x7498] (.node .leaf 0xF9F0 0xF9F0 [0x85FA] .leaf)))) 0xF9F1 0xF9F1 [0x96A3] (
  .node (.node (.node (.node .leaf 0xF9F2 0xF9F2 [0x9C57] .leaf) 0xF9F3 0xF9F3 [0x9E9F] (.node
  .leaf 0xF9F4 0xF9F4 [0x6797] .leaf)) 0xF9F5 0xF9F5 [0x6DCB] (.node (.node .leaf 0xF9F6 0xF9F6
  [0x81E8] .leaf) 0xF9F7 0xF9F7 [0x7ACB] (.node .leaf 0xF9F8 0xF9F8 [0x7B20] .leaf))) 0xF9F9 0xF9F9
  [0x7C92] (.node (.node (.node .leaf 0xF9FA 0xF9FA [0x72C0] .leaf) 0xF9FB 0xF9FB [0x7099] (.node
  .leaf 0xF9FC 0xF9FC [0x8B58] .leaf)) 0xF9FD 0xF9FD [0x4EC0] (.node (.node .leaf 0xF9FE 0xF9FE
  [0x8336] .leaf) 0xF9FF 0xF9FF [0x523A] (.node .leaf 0xFA00 0xFA00 [0x5207] .leaf))))) 0xFA01
  0xFA01 [0x5EA6] (.node (.node (.node (.node (.node .leaf 0xFA02 0xFA02 [0x62D3] .leaf) 0xFA03
  0xFA03 [0x7CD6] (.node .leaf 0xFA04 0xFA04 [0x5B85] .leaf)) 0xFA05 0xFA05 [0x6D1E] (.node (.node
  .leaf 0xFA06 0xFA06 [0x66B4] .leaf) 0xFA07 0xFA07 [0x8F3B] (.node .leaf 0xFA08 0xFA08 [0x884C]
  .leaf))) 0xFA09 0xFA09 [0x964D] (.node (.node (.node .leaf 0xFA0A 0xFA0A [0x898B] .leaf) 0xFA0B
  0xFA0B [0x5ED3] (.node .leaf 0xFA0C 0xFA0C [0x5140] .leaf)) 0xFA0D 0xFA0D [0x55C0] (.node (.node
  .leaf 0xFA10 0xFA10 [0x585A] .leaf) 0xFA12 0xFA12 [0x6674] (.node .leaf 0xFA15 0xFA15 [0x51DE]
  .leaf)))) 0xFA16 0xFA16 [0x732A] (.node (.node (.node (.node .leaf 0xFA17 0xFA17 [0x76CA] .leaf)
  0xFA18 0xFA18 [0x793C] (.node .leaf 0xFA19 0xFA19 [0x795E] .leaf)) 0xFA1A 0xFA1A [0x7965] (.node
  (.node .leaf 0xFA1B 0xFA1B [0x798F] .leaf) 0xFA1C 0xFA1C [0x9756] (.node .leaf 0xFA1D 0xFA1D
  [0x7CBE] .leaf))) 0xFA1E 0xFA1E [0x7FBD] (.node (.node (.node .leaf 0xFA20 0xFA20 [0x8612] .leaf)
  0xFA22 0xFA22 [0x8AF8] (.node .leaf 0xFA25 0xFA25 [0x9038] .leaf)) 0xFA26 0xFA26 [0x90FD] (.node
  (.node .leaf 0xFA2A 0xFA2A [0x98EF] .leaf) 0xFA2B 0xFA2B [0x98FC] (.node .leaf 0xFA2C 0xFA2C
  [0x9928] .leaf)))))))) 0xFA2D 0xFA2D [0x9DB4] (.node (.node (.node (.node (.node (.node (.node (
  .node (.node .leaf 0xFA2E 0xFA2E [0x90DE] .leaf) 0xFA2F 0xFA2F [0x96B7] .leaf) 0xFA30 0xFA30
  [0x4FAE] (.node .leaf 0xFA31 0xFA31 [0x50E7] .leaf)) 0xFA32 0xFA32 [0x514D] (.node (.node .leaf
  0xFA33 0xFA33 [0x52C9] .leaf) 0xFA34 0xFA34 [0x52E4] (.node .leaf 0xFA35 0xFA35 [0x5351] .leaf)))
  0xFA36 0xFA36 [0x559D] (.node (.node (.node .leaf 0xFA37 0xFA37 [0x5606] .leaf) 0xFA38 0xFA38
  [0x5668] (.node .leaf 0xFA39 0xFA39 [0x5840] .leaf)) 0xFA3A 0xFA3A [0x58A8] (.node (.node .leaf
  0xFA3B 0xFA3B [0x5C64] .leaf) 0xFA3C 0xFA3C [0x5C6E] (.node .leaf 0xFA3D 0xFA3D [0x6094] .leaf)))
  ) 0xFA3E 0xFA3E [0x6168] (.node (.node (.node (.node .leaf 0xFA3F 0xFA3F [0x618E] .leaf) 0xFA40
  0xFA40 [0x61F2] (.node .leaf 0xFA41 0xFA41 [0x654F] .leaf)) 0xFA42 0xFA42 [0x65E2] (.node (.node
  .leaf 0xFA43 0xFA43 [0x6691] .leaf) 0xFA44 0xFA44 [0x6885] (.node .leaf 0xFA45 0xFA45 [0x6D77]
  .leaf))) 0xFA46 0xFA46 [0x6E1A] (.node (.node (.node .leaf 0xFA47 0xFA47 [0x6F22] .leaf) 0xFA48
  0xFA48 [0x716E] (.node .leaf 0xFA49 0xFA49 [0x722B] .leaf)) 0xFA4A 0xFA4A [0x7422] (.node (.node
  .leaf 0xFA4B 0xFA4B [0x7891] .leaf) 0xFA4C 0xFA4C [0x793E] (.node .leaf 0xFA4D 0xFA4D [0x7949]
  .leaf))))) 0xFA4E 0xFA4E [0x7948] (.node (.node (.node (.node (.node .leaf 0xFA4F 0xFA4F [0x7950]
  .leaf) 0xFA50 0xFA50 [0x7956] (.node .leaf 0xFA51 0xFA51 [0x795D] .leaf)) 0xFA52 0xFA52 [0x798D]
  (.node (.node .leaf 0xFA53 0xFA53 [0x798E] .leaf) 0xFA54 0xFA54 [0x7A40] (.node .leaf 0xFA55
  0xFA55 [0x7A81] .leaf))) 0xFA56 0xFA56 [0x7BC0] (.node (.node (.node .leaf 0xFA57 0xFA57 [0x7DF4]
  .leaf) 0xFA58 0xFA58 [0x7E09] (.node .leaf 0xFA59 0xFA59 [0x7E41] .leaf)) 0xFA5A 0xFA5A [0x7F72]
  (.node (.node .leaf 0xFA5B 0xFA5B [0x8005] .leaf) 0xFA5C 0xFA5C [0x81ED] (.node .leaf 0xFA5D
  0xFA5D [0x8279] .leaf)))) 0xFA5E 0xFA5E [0x8279] (.node (.node (.node (.node .leaf 0xFA5F 0xFA5F
  [0x8457] .leaf) 0xFA60 0xFA60 [0x8910] (.node .leaf 0xFA61 0xFA61 [0x8996] .leaf)) 0xFA62 0xFA62
  [0x8B01] (.node (.node .leaf 0xFA63 0xFA63 [0x8B39] .leaf) 0xFA64 0xFA64 [0x8CD3] (.node .leaf
  0xFA65 0xFA65 [0x8D08] .leaf))) 0xFA66 0xFA66 [0x8FB6] (.node (.node (.node .leaf 0xFA67 0xFA67
  [0x9038] .leaf) 0xFA68 0xFA68 [0x96E3] (.node .leaf 0xFA69 0xFA69 [0x97FF] .leaf)) 0xFA6A 0xFA6A
  [0x983B] (.node (.node .leaf 0xFA6B 0xFA6B [0x6075] .leaf) 0xFA6C 0xFA6C [0x242EE] (.node .leaf
  0xFA6D 0xFA6D [0x8218] .leaf)))))) 0xFA70 0xFA70 [0x4E26] (.node (.node (.node (.node (.node (
  .node .leaf 0xFA71 0xFA71 [0x51B5] .leaf) 0xFA72 0xFA72 [0x5168] (.node .leaf 0xFA73 0xFA73
  [0x4F80] .leaf)) 0xFA74 0xFA74 [0x5145] (.node (.node .leaf 0xFA75 0xFA75 [0x5180] .leaf) 0xFA76
  0xFA76 [0x52C7] (.node .leaf 0xFA77 0xFA77 [0x52FA] .leaf))) 0xFA78 0xFA78 [0x559D] (.node (.node
  (.node .leaf 0xFA79 0xFA79 [0x5555] .leaf) 0xFA7A 0xFA7A [0x5599] (.node .leaf 0xFA7B 0xFA7B
  [0x55E2] .leaf)) 0xFA7C 0xFA7C [0x585A] (.node (.node .leaf 0xFA7D 0xFA7D [0x58B3] .leaf) 0xFA7E
  0xFA7E [0x5944] (.node .leaf 0xFA7F 0xFA7F [0x5954] .leaf)))) 0xFA80 0xFA80 [0x5A62] (.node (
  .node (.node (.node .leaf 0xFA81 0xFA81 [0x5B28] .leaf) 0xFA82 0xFA82 [0x5ED2] (.node .leaf
  0xFA83 0xFA83 [0x5ED9] .leaf)) 0xFA84 0xFA84 [0x5F69] (.node (.node .leaf 0xFA85 0xFA85 [0x5FAD]
  .leaf) 0xFA86 0xFA86 [0x60D8] (.node .leaf 0xFA87 0xFA87 [0x614E] .leaf))) 0xFA88 0xFA88 [0x6108]
  (.node (.node (.node .leaf 0xFA89 0xFA89 [0x618E] .leaf) 0xFA8A 0xFA8A [0x6160] (.node .leaf
  0xFA8B 0xFA8B [0x61F2] .leaf)) 0xFA8C 0xFA8C [0x6234] (.node (.node .leaf 0xFA8D 0xFA8D [0x63C4]
  .leaf) 0xFA8E 0xFA8E [0x641C] (.node .leaf 0xFA8F 0xFA8F [0x6452] .leaf))))) 0xFA90 0xFA90
  [0x6556] (.node (.node (.node (.node (.node .leaf 0xFA91 0xFA91 [0x6674] .leaf) 0xFA92 0xFA92
  [0x6717] (.node .leaf 0xFA93 0xFA93 [0x671B] .leaf)) 0xFA94 0xFA94 [0x6756] (.node (.node .leaf
  0xFA95 0xFA95 [0x6B79] .leaf) 0xFA96 0xFA96 [0x6BBA] (.node .leaf 0xFA97 0xFA97 [0x6D41] .leaf)))
  0xFA98 0xFA98 [0x6EDB] (.node (.node (.node .leaf 0xFA99 0xFA99 [0x6ECB] .leaf) 0xFA9A 0xFA9A
  [0x6F22] (.node .leaf 0xFA9B 0xFA9B [0x701E] .leaf)) 0xFA9C 0xFA9C [0x716E] (.node (.node .leaf
  0xFA9D 0xFA9D [0x77A7] .leaf) 0xFA9E 0xFA9E [0x7235] (.node .leaf 0xFA9F 0xFA9F [0x72AF] .leaf)))
  ) 0xFAA0 0xFAA0 [0x732A] (.node (.node (.node (.node .leaf 0xFAA1 0xFAA1 [0x7471] .leaf) 0xFAA2
  0xFAA2 [0x7506] (.node .leaf 0xFAA3 0xFAA3 [0x753B] .leaf)) 0xFAA4 0xFAA4 [0x761D] (.node (.node
  .leaf 0xFAA5 0xFAA5 [0x761F] .leaf) 0xFAA6 0xFAA6 [0x76CA] (.node .leaf 0xFAA7 0xFAA7 [0x76DB]
  .leaf))) 0xFAA8 0xFAA8 [0x76F4] (.node (.node (.node .leaf 0xFAA9 0xFAA9 [0x774A] .leaf) 0xFAAA
  0xFAAA [0x7740] (.node .leaf 0xFAAB 0xFAAB [0x78CC] .leaf)) 0xFAAC 0xFAAC [0x7AB1] (.node (.node
  .leaf 0xFAAD 0xFAAD [0x7BC0] .leaf) 0xFAAE 0xFAAE [0x7C7B] (.node .leaf 0xFAAF 0xFAAF [0x7D5B]
  .leaf))))))) 0xFAB0 0xFAB0 [0x7DF4] (.node (.node (.node (.node (.node (.node (.node (.node .leaf
  0xFAB1 0xFAB1 [0x7F3E] .leaf) 0xFAB2 0xFAB2 [0x8005] .leaf) 0xFAB3 0xFAB3 [0x8352] (.node .leaf
  0xFAB4 0xFAB4 [0x83EF] .leaf)) 0xFAB5 0xFAB5 [0x8779] (.node (.node .leaf 0xFAB6 0xFAB6 [0x8941]
  .leaf) 0xFAB7 0xFAB7 [0x8986] (.node .leaf 0xFAB8 0xFAB8 [0x8996] .leaf))) 0xFAB9 0xFAB9 [0x8ABF]
  (.node (.node (.node .leaf 0xFABA 0xFABA [0x8AF8] .leaf) 0xFABB 0xFABB [0x8ACB] (.node .leaf
  0xFABC 0xFABC [0x8B01] .leaf)) 0xFABD 0xFABD [0x8AFE] (.node (.node .leaf 0xFABE 0xFABE [0x8AED]
  .leaf) 0xFABF 0xFABF [0x8B39] (.node .leaf 0xFAC0 0xFAC0 [0x8B8A] .leaf)))) 0xFAC1 0xFAC1
  [0x8D08] (.node (.node (.node (.node .leaf 0xFAC2 0xFAC2 [0x8F38] .leaf) 0xFAC3 0xFAC3 [0x9072] (
  .node .leaf 0xFAC4 0xFAC4 [0x9199] .leaf)) 0xFAC5 0xFAC5 [0x9276] (.node (.node .leaf 0xFAC6
  0xFAC6 [0x967C] .leaf) 0xFAC7 0xFAC7 [0x96E3] (.node .leaf 0xFAC8 0xFAC8 [0x9756] .leaf))) 0xFAC9
  0xFAC9 [0x97DB] (.node (.node (.node .leaf 0xFACA 0xFACA [0x97FF] .leaf) 0xFACB 0xFACB [0x980B] (
  .node .leaf 0xFACC 0xFACC [0x983B] .leaf)) 0xFACD 0xFACD [0x9B12] (.node (.node .leaf 0xFACE
  0xFACE [0x9F9C] .leaf) 0xFACF 0xFACF [0x2284A] (.node .leaf 0xFAD0 0xFAD0 [0x22844] .leaf)))))
  0xFAD1 0xFAD1 [0x233D5] (.node (.node (.node (.node (.node .leaf 0xFAD2 0xFAD2 [0x3B9D] .leaf)
  0xFAD3 0xFAD3 [0x4018] (.node .leaf 0xFAD4 0xFAD4 [0x4039] .leaf)) 0xFAD5 0xFAD5 [0x25249] (.node
  (.node .leaf 0xFAD6 0xFAD6 [0x25CD0] .leaf) 0xFAD7 0xFAD7 [0x27ED3] (.node .leaf 0xFAD8 0xFAD8
  [0x9F43] .leaf))) 0xFAD9 0xFAD9 [0x9F8E] (.node (.node (.node .leaf 0xFB1D 0xFB1D [0x5D9, 0x5B4]
  .leaf) 0xFB1F 0xFB1F [0x5F2, 0x5B7] (.node .leaf 0xFB2A 0xFB2A [0x5E9, 0x5C1] .leaf)) 0xFB2B
  0xFB2B [0x5E9, 0x5C2] (.node (.node .leaf 0xFB2C 0xFB2C [0x5E9, 0x5BC, 0x5C1] .leaf) 0xFB2D
  0xFB2D [0x5E9, 0x5BC, 0x5C2] (.node .leaf 0xFB2E 0xFB2E [0x5D0, 0x5B7] .leaf)))) 0xFB2F 0xFB2F
  [0x5D0, 0x5B8] (.node (.node (.node (.node .leaf 0xFB30 0xFB30 [0x5D0, 0x5BC] .leaf) 0xFB31
  0xFB31 [0x5D1, 0x5BC] (.node .leaf 0xFB32 0xFB32 [0x5D2, 0x5BC] .leaf)) 0xFB33 0xFB33
  [0x5D3, 0x5BC] (.node (.node .leaf 0xFB34 0xFB34 [0x5D4, 0x5BC] .leaf) 0xFB35 0xFB35
  [0x5D5, 0x5BC] (.node .leaf 0xFB36 0xFB36 [0x5D6, 0x5BC] .leaf))) 0xFB38 0xFB38 [0x5D8, 0x5BC] (
  .node (.node (.node .leaf 0xFB39 0xFB39 [0x5D9, 0x5BC] .leaf) 0xFB3A 0xFB3A [0x5DA, 0x5BC] (.node
  .leaf 0xFB3B 0xFB3B [0x5DB, 0x5BC] .leaf)) 0xFB3C 0xFB3C [0x5DC, 0x5BC] (.node (.node .leaf
  0xFB3E 0xFB3E [0x5DE, 0x5BC] .leaf) 0xFB40 0xFB40 [0x5E0, 0x5BC] (.node .leaf 0xFB41 0xFB41
  [0x5E1, 0x5BC] .leaf)))))) 0xFB43 0xFB43 [0x5E3, 0x5BC] (.node (.node (.node (.node (.node (.node
  .leaf 0xFB44 0xFB44 [0x5E4, 0x5BC] .leaf) 0xFB46 0xFB46 [0x5E6, 0x5BC] (.node .leaf 0xFB47 0xFB47
  [0x5E7, 0x5BC] .leaf)) 0xFB48 0xFB48 [0x5E8, 0x5BC] (.node (.node .leaf 0xFB49 0xFB49
  [0x5E9, 0x5BC] .leaf) 0xFB4A 0xFB4A [0x5EA, 0x5BC] (.node .leaf 0xFB4B 0xFB4B [0x5D5, 0x5B9]
  .leaf))) 0xFB4C 0xFB4C [0x5D1, 0x5BF] (.node (.node (.node .leaf 0xFB4D 0xFB4D [0x5DB, 0x5BF]
  .leaf) 0xFB4E 0xFB4E [0x5E4, 0x5BF] (.node .leaf 0x1109A 0x1109A [0x11099, 0x110BA] .leaf))
  0x1109C 0x1109C [0x1109B, 0x110BA] (.node (.node .leaf 0x110AB 0x110AB [0x110A5, 0x110BA] .leaf)
  0x1112E 0x1112E [0x11131, 0x11127] (.node .leaf 0x1112F 0x1112F [0x11132, 0x11127] .leaf))))
  0x1134B 0x1134B [0x11347, 0x1133E] (.node (.node (.node (.node .leaf 0x1134C 0x1134C
  [0x11347, 0x11357] .leaf) 0x114BB 0x114BB [0x114B9, 0x114BA] (.node .leaf 0x114BC 0x114BC
  [0x114B9, 0x114B0] .leaf)) 0x114BE 0x114BE [0x114B9, 0x114BD] (.node (.node .leaf 0x115BA 0x115BA
  [0x115B8, 0x115AF] .leaf) 0x115BB 0x115BB [0x115B9, 0x115AF] (.node .leaf 0x11938 0x11938
  [0x11935, 0x11930] .leaf))) 0x1D15E 0x1D15E [0x1D157, 0x1D165] (.node (.node (.node .leaf 0x1D15F
  0x1D15F [0x1D158, 0x1D165] .leaf) 0x1D160 0x1D160 [0x1D158, 0x1D165, 0x1D16E] (.node .leaf
  0x1D161 0x1D161 [0x1D158, 0x1D165, 0x1D16F] .leaf)) 0x1D162 0x1D162 [0x1D158, 0x1D165, 0x1D170] (
  .node (.node .leaf 0x1D163 0x1D163 [0x1D158, 0x1D165, 0x1D171] .leaf) 0x1D164 0x1D164
  [0x1D158, 0x1D165, 0x1D172] (.node .leaf 0x1D1BB 0x1D1BB [0x1D1B9, 0x1D165] .leaf))))) 0x1D1BC
  0x1D1BC [0x1D1BA, 0x1D165] (.node (.node (.node (.node (.node .leaf 0x1D1BD 0x1D1BD
  [0x1D1B9, 0x1D165, 0x1D16E] .leaf) 0x1D1BE 0x1D1BE [0x1D1BA, 0x1D165, 0x1D16E] (.node .leaf
  0x1D1BF 0x1D1BF [0x1D1B9, 0x1D165, 0x1D16F] .leaf)) 0x1D1C0 0x1D1C0 [0x1D1BA, 0x1D165, 0x1D16F] (
  .node (.node .leaf 0x2F800 0x2F800 [0x4E3D] .leaf) 0x2F801 0x2F801 [0x4E38] (.node .leaf 0x2F802
  0x2F802 [0x4E41] .leaf))) 0x2F803 0x2F803 [0x20122] (.node (.node (.node .leaf 0x2F804 0x2F804
  [0x4F60] .leaf) 0x2F805 0x2F805 [0x4FAE] (.node .leaf 0x2F806 0x2F806 [0x4FBB] .leaf)) 0x2F807
  0x2F807 [0x5002] (.node (.node .leaf 0x2F808 0x2F808 [0x507A] .leaf) 0x2F809 0x2F809 [0x5099] (
  .node .leaf 0x2F80A 0x2F80A [0x50E7] .leaf)))) 0x2F80B 0x2F80B [0x50CF] (.node (.node (.node (
  .node .leaf 0x2F80C 0x2F80C [0x349E] .leaf) 0x2F80D 0x2F80D [0x2063A] (.node .leaf 0x2F80E
  0x2F80E [0x514D] .leaf)) 0x2F80F 0x2F80F [0x5154] (.node (.node .leaf 0x2F810 0x2F810 [0x5164]
  .leaf) 0x2F811 0x2F811 [0x5177] (.node .leaf 0x2F812 0x2F812 [0x2051C] .leaf))) 0x2F813 0x2F813
  [0x34B9] (.node (.node (.node .leaf 0x2F814 0x2F814 [0x5167] .leaf) 0x2F815 0x2F815 [0x518D] (
  .node .leaf 0x2F816 0x2F816 [0x2054B] .leaf)) 0x2F817 0x2F817 [0x5197] (.node (.node .leaf
  0x2F818 0x2F818 [0x51A4] .leaf) 0x2F819 0x2F819 [0x4ECC] (.node .leaf 0x2F81A 0x2F81A [0x51AC]
  .leaf))))))))) 0x2F81B 0x2F81B [0x51B5] (.node (.node (.node (.node (.node (.node (.node (.node (
  .node (.node .leaf 0x2F81C 0x2F81C [0x291DF] .leaf) 0x2F81D 0x2F81D [0x51F5] .leaf) 0x2F81E
  0x2F81E [0x5203] (.node .leaf 0x2F81F 0x2F81F [0x34DF] .leaf)) 0x2F820 0x2F820 [0x523B] (.node (
  .node .leaf 0x2F821 0x2F821 [0x5246] .leaf) 0x2F822 0x2F822 [0x5272] (.node .leaf 0x2F823 0x2F823
  [0x5277] .leaf))) 0x2F824 0x2F824 [0x3515] (.node (.node (.node .leaf 0x2F825 0x2F825 [0x52C7]
  .leaf) 0x2F826 0x2F826 [0x52C9] (.node .leaf 0x2F827 0x2F827 [0x52E4] .leaf)) 0x2F828 0x2F828
  [0x52FA] (.node (.node .leaf 0x2F829 0x2F829 [0x5305] .leaf) 0x2F82A 0x2F82A [0x5306] (.node
  .leaf 0x2F82B 0x2F82B [0x5317] .leaf)))) 0x2F82C 0x2F82C [0x5349] (.node (.node (.node (.node
  .leaf 0x2F82D 0x2F82D [0x5351] .leaf) 0x2F82E 0x2F82E [0x535A] (.node .leaf 0x2F82F 0x2F82F
  [0x5373] .leaf)) 0x2F830 0x2F830 [0x537D] (.node (.node .leaf 0x2F831 0x2F831 [0x537F] .leaf)
  0x2F832 0x2F832 [0x537F] (.node .leaf 0x2F833 0x2F833 [0x537F] .leaf))) 0x2F834 0x2F834 [0x20A2C]
  (.node (.node (.node .leaf 0x2F835 0x2F835 [0x7070] .leaf) 0x2F836 0x2F836 [0x53CA] (.node .leaf
  0x2F837 0x2F837 [0x53DF] .leaf)) 0x2F838 0x2F838 [0x20B63] (.node (.node .leaf 0x2F839 0x2F839
  [0x53EB] .leaf) 0x2F83A 0x2F83A [0x53F1] (.node .leaf 0x2F83B 0x2F83B [0x5406] .leaf))))) 0x2F83C
  0x2F83C [0x549E] (.node (.node (.node (.node (.node .leaf 0x2F83D 0x2F83D [0x5438] .leaf) 0x2F83E
  0x2F83E [0x5448] (.node .leaf 0x2F83F 0x2F83F [0x5468] .leaf)) 0x2F840 0x2F840 [0x54A2] (.node (
  .node .leaf 0x2F841 0x2F841 [0x54F6] .leaf) 0x2F842 0x2F842 [0x5510] (.node .leaf 0x2F843 0x2F843
  [0x5553] .leaf))) 0x2F844 0x2F844 [0x5563] (.node (.node (.node .leaf 0x2F845 0x2F845 [0x5584]
  .leaf) 0x2F846 0x2F846 [0x5584] (.node .leaf 0x2F847 0x2F847 [0x5599] .leaf)) 0x2F848 0x2F848
  [0x55AB] (.node (.node .leaf 0x2F849 0x2F849 [0x55B3] .leaf) 0x2F84A 0x2F84A [0x55C2] (.node
  .leaf 0x2F84B 0x2F84B [0x5716] .leaf)))) 0x2F84C 0x2F84C [0x5606] (.node (.node (.node (.node
  .leaf 0x2F84D 0x2F84D [0x5717] .leaf) 0x2F84E 0x2F84E [0x5651] (.node .leaf 0x2F84F 0x2F84F
  [0x5674] .leaf)) 0x2F850 0x2F850 [0x5207] (.node (.node .leaf 0x2F851 0x2F851 [0x58EE] .leaf)
  0x2F852 0x2F852 [0x57CE] (.node .leaf 0x2F853 0x2F853 [0x57F4] .leaf))) 0x2F854 0x2F854 [0x580D]
  (.node (.node (.node .leaf 0x2F855 0x2F855 [0x578B] .leaf) 0x2F856 0x2F856 [0x5832] (.node .leaf
  0x2F857 0x2F857 [0x5831] .leaf)) 0x2F858 0x2F858 [0x58AC] (.node (.node .leaf 0x2F859 0x2F859
  [0x214E4] .leaf) 0x2F85A 0x2F85A [0x58F2] (.node .leaf 0x2F85B 0x2F85B [0x58F7] .leaf))))))
  0x2F85C 0x2F85C [0x5906] (.node (.node (.node (.node (.node (.node .leaf 0x2F85D 0x2F85D [0x591A]
  .leaf) 0x2F85E 0x2F85E [0x5922] (.node .leaf 0x2F85F 0x2F85F [0x5962] .leaf)) 0x2F860 0x2F860
  [0x216A8] (.node (.node .leaf 0x2F861 0x2F861 [0x216EA] .leaf) 0x2F862 0x2F862 [0x59EC] (.node
  .leaf 0x2F863 0x2F863 [0x5A1B] .leaf))) 0x2F864 0x2F864 [0x5A27] (.node (.node (.node .leaf
  0x2F865 0x2F865 [0x59D8] .leaf) 0x2F866 0x2F866 [0x5A66] (.node .leaf 0x2F867 0x2F867 [0x36EE]
  .leaf)) 0x2F868 0x2F868 [0x36FC] (.node (.node .leaf 0x2F869 0x2F869 [0x5B08] .leaf) 0x2F86A
  0x2F86A [0x5B3E] (.node .leaf 0x2F86B 0x2F86B [0x5B3E] .leaf)))) 0x2F86C 0x2F86C [0x219C8] (.node
  (.node (.node (.node .leaf 0x2F86D 0x2F86D [0x5BC3] .leaf) 0x2F86E 0x2F86E [0x5BD8] (.node .leaf
  0x2F86F 0x2F86F [0x5BE7] .leaf)) 0x2F870 0x2F870 [0x5BF3] (.node (.node .leaf 0x2F871 0x2F871
  [0x21B18] .leaf) 0x2F872 0x2F872 [0x5BFF] (.node .leaf 0x2F873 0x2F873 [0x5C06] .leaf))) 0x2F874
  0x2F874 [0x5F53] (.node (.node (.node .leaf 0x2F875 0x2F875 [0x5C22] .leaf) 0x2F876 0x2F876
  [0x3781] (.node .leaf 0x2F877 0x2F877 [0x5C60] .leaf)) 0x2F878 0x2F878 [0x5C6E] (.node (.node
  .leaf 0x2F879 0x2F879 [0x5CC0] .leaf) 0x2F87A 0x2F87A [0x5C8D] (.node .leaf 0x2F87B 0x2F87B
  [0x21DE4] .leaf))))) 0x2F87C 0x2F87C [0x5D43] (.node (.node (.node (.node (.node .leaf 0x2F87D
  0x2F87D [0x21DE6] .leaf) 0x2F87E 0x2F87E [0x5D6E] (.node .leaf 0x2F87F 0x2F87F [0x5D6B] .leaf))
  0x2F880 0x2F880 [0x5D7C] (.node (.node .leaf 0x2F881 0x2F881 [0x5DE1] .leaf) 0x2F882 0x2F882
  [0x5DE2] (.node .leaf 0x2F883 0x2F883 [0x382F] .leaf))) 0x2F884 0x2F884 [0x5DFD] (.node (.node (
  .node .leaf 0x2F885 0x2F885 [0x5E28] .leaf) 0x2F886 0x2F886 [0x5E3D] (.node .leaf 0x2F887 0x2F887
  [0x5E69] .leaf)) 0x2F888 0x2F888 [0x3862] (.node (.node .leaf 0x2F889 0x2F889 [0x22183] .leaf)
  0x2F88A 0x2F88A [0x387C] (.node .leaf 0x2F88B 0x2F88B [0x5EB0] .leaf)))) 0x2F88C 0x2F88C [0x5EB3]
  (.node (.node (.node (.node .leaf 0x2F88D 0x2F88D [0x5EB6] .leaf) 0x2F88E 0x2F88E [0x5ECA] (.node
  .leaf 0x2F88F 0x2F88F [0x2A392] .leaf)) 0x2F890 0x2F890 [0x5EFE] (.node (.node .leaf 0x2F891
  0x2F891 [0x22331] .leaf) 0x2F892 0x2F892 [0x22331] (.node .leaf 0x2F893 0x2F893 [0x8201] .leaf)))
  0x2F894 0x2F894 [0x5F22] (.node (.node (.node .leaf 0x2F895 0x2F895 [0x5F22] .leaf) 0x2F896
  0x2F896 [0x38C7] (.node .leaf 0x2F897 0x2F897 [0x232B8] .leaf)) 0x2F898 0x2F898 [0x261DA] (.node
  (.node .leaf 0x2F899 0x2F899 [0x5F62] .leaf) 0x2F89A 0x2F89A [0x5F6B] (.node .leaf 0x2F89B
  0x2F89B [0x38E3] .leaf))))))) 0x2F89C 0x2F89C [0x5F9A] (.node (.node (.node (.node (.node (.node
  (.node (.node .leaf 0x2F89D 0x2F89D [0x5FCD] .leaf) 0x2F89E 0x2F89E [0x5FD7] .leaf) 0x2F89F
  0x2F89F [0x5FF9] (.node .leaf 0x2F8A0 0x2F8A0 [0x6081] .leaf)) 0x2F8A1 0x2F8A1 [0x393A] (.node (
  .node .leaf 0x2F8A2 0x2F8A2 [0x391C] .leaf) 0x2F8A3 0x2F8A3 [0x6094] (.node .leaf 0x2F8A4 0x2F8A4
  [0x226D4] .leaf))) 0x2F8A5 0x2F8A5 [0x60C7] (.node (.node (.node .leaf 0x2F8A6 0x2F8A6 [0x6148]
  .leaf) 0x2F8A7 0x2F8A7 [0x614C] (.node .leaf 0x2F8A8 0x2F8A8 [0x614E] .leaf)) 0x2F8A9 0x2F8A9
  [0x614C] (.node (.node .leaf 0x2F8AA 0x2F8AA [0x617A] .leaf) 0x2F8AB 0x2F8AB [0x618E] (.node
  .leaf 0x2F8AC 0x2F8AC [0x61B2] .leaf)))) 0x2F8AD 0x2F8AD [0x61A4] (.node (.node (.node (.node
  .leaf 0x2F8AE 0x2F8AE [0x61AF] .leaf) 0x2F8AF 0x2F8AF [0x61DE] (.node .leaf 0x2F8B0 0x2F8B0
  [0x61F2] .leaf)) 0x2F8B1 0x2F8B1 [0x61F6] (.node (.node .leaf 0x2F8B2 0x2F8B2 [0x6210] .leaf)
  0x2F8B3 0x2F8B3 [0x621B] (.node .leaf 0x2F8B4 0x2F8B4 [0x625D] .leaf))) 0x2F8B5 0x2F8B5 [0x62B1]
  (.node (.node (.node .leaf 0x2F8B6 0x2F8B6 [0x62D4] .leaf) 0x2F8B7 0x2F8B7 [0x6350] (.node .leaf
  0x2F8B8 0x2F8B8 [0x22B0C] .leaf)) 0x2F8B9 0x2F8B9 [0x633D] (.node (.node .leaf 0x2F8BA 0x2F8BA
  [0x62FC] .leaf) 0x2F8BB 0x2F8BB [0x6368] (.node .leaf 0x2F8BC 0x2F8BC [0x6383] .leaf))))) 0x2F8BD
  0x2F8BD [0x63E4] (.node (.node (.node (.node (.node .leaf 0x2F8BE 0x2F8BE [0x22BF1] .leaf)
  0x2F8BF 0x2F8BF [0x6422] (.node .leaf 0x2F8C0 0x2F8C0 [0x63C5] .leaf)) 0x2F8C1 0x2F8C1 [0x63A9] (
  .node (.node .leaf 0x2F8C2 0x2F8C2 [0x3A2E] .leaf) 0x2F8C3 0x2F8C3 [0x6469] (.node .leaf 0x2F8C4
  0x2F8C4 [0x647E] .leaf))) 0x2F8C5 0x2F8C5 [0x649D] (.node (.node (.node .leaf 0x2F8C6 0x2F8C6
  [0x6477] .leaf) 0x2F8C7 0x2F8C7 [0x3A6C] (.node .leaf 0x2F8C8 0x2F8C8 [0x654F] .leaf)) 0x2F8C9
  0x2F8C9 [0x656C] (.node (.node .leaf 0x2F8CA 0x2F8CA [0x2300A] .leaf) 0x2F8CB 0x2F8CB [0x65E3] (
  .node .leaf 0x2F8CC 0x2F8CC [0x66F8] .leaf)))) 0x2F8CD 0x2F8CD [0x6649] (.node (.node (.node (
  .node .leaf 0x2F8CE 0x2F8CE [0x3B19] .leaf) 0x2F8CF 0x2F8CF [0x6691] (.node .leaf 0x2F8D0 0x2F8D0
  [0x3B08] .leaf)) 0x2F8D1 0x2F8D1 [0x3AE4] (.node (.node .leaf 0x2F8D2 0x2F8D2 [0x5192] .leaf)
  0x2F8D3 0x2F8D3 [0x5195] (.node .leaf 0x2F8D4 0x2F8D4 [0x6700] .leaf))) 0x2F8D5 0x2F8D5 [0x669C]
  (.node (.node (.node .leaf 0x2F8D6 0x2F8D6 [0x80AD] .leaf) 0x2F8D7 0x2F8D7 [0x43D9] (.node .leaf
  0x2F8D8 0x2F8D8 [0x6717] .leaf)) 0x2F8D9 0x2F8D9 [0x671B] (.node (.node .leaf 0x2F8DA 0x2F8DA
  [0x6721] .leaf) 0x2F8DB 0x2F8DB [0x675E] (.node .leaf 0x2F8DC 0x2F8DC [0x6753] .leaf))))))
  0x2F8DD 0x2F8DD [0x233C3] (.node (.node (.node (.node (.node (.node .leaf 0x2F8DE 0x2F8DE
  [0x3B49] .leaf) 0x2F8DF 0x2F8DF [0x67FA] (.node .leaf 0x2F8E0 0x2F8E0 [0x6785] .leaf)) 0x2F8E1
  0x2F8E1 [0x6852] (.node (.node .leaf 0x2F8E2 0x2F8E2 [0x6885] .leaf) 0x2F8E3 0x2F8E3 [0x2346D] (
  .node .leaf 0x2F8E4 0x2F8E4 [0x688E] .leaf))) 0x2F8E5 0x2F8E5 [0x681F] (.node (.node (.node .leaf
  0x2F8E6 0x2F8E6 [0x6914] .leaf) 0x2F8E7 0x2F8E7 [0x3B9D] (.node .leaf 0x2F8E8 0x2F8E8 [0x6942]
  .leaf)) 0x2F8E9 0x2F8E9 [0x69A3] (.node (.node .leaf 0x2F8EA 0x2F8EA [0x69EA] .leaf) 0x2F8EB
  0x2F8EB [0x6AA8] (.node .leaf 0x2F8EC 0x2F8EC [0x236A3] .leaf)))) 0x2F8ED 0x2F8ED [0x6ADB] (.node
  (.node (.node (.node .leaf 0x2F8EE 0x2F8EE [0x3C18] .leaf) 0x2F8EF 0x2F8EF [0x6B21] (.node .leaf
  0x2F8F0 0x2F8F0 [0x238A7] .leaf)) 0x2F8F1 0x2F8F1 [0x6B54] (.node (.node .leaf 0x2F8F2 0x2F8F2
  [0x3C4E] .leaf) 0x2F8F3 0x2F8F3 [0x6B72] (.node .leaf 0x2F8F4 0x2F8F4 [0x6B9F] .leaf))) 0x2F8F5
  0x2F8F5 [0x6BBA] (.node (.node (.node .leaf 0x2F8F6 0x2F8F6 [0x6BBB] .leaf) 0x2F8F7 0x2F8F7
  [0x23A8D] (.node .leaf 0x2F8F8 0x2F8F8 [0x21D0B] .leaf)) 0x2F8F9 0x2F8F9 [0x23AFA] (.node (.node
  .leaf 0x2F8FA 0x2F8FA [0x6C4E] .leaf) 0x2F8FB 0x2F8FB [0x23CBC] (.node .leaf 0x2F8FC 0x2F8FC
  [0x6CBF] .leaf))))) 0x2F8FD 0x2F8FD [0x6CCD] (.node (.node (.node (.node (.node .leaf 0x2F8FE
  0x2F8FE [0x6C67] .leaf) 0x2F8FF 0x2F8FF [0x6D16] (.node .leaf 0x2F900 0x2F900 [0x6D3E] .leaf))
  0x2F901 0x2F901 [0x6D77] (.node (.node .leaf 0x2F902 0x2F902 [0x6D41] .leaf) 0x2F903 0x2F903
  [0x6D69] (.node .leaf 0x2F904 0x2F904 [0x6D78] .leaf))) 0x2F905 0x2F905 [0x6D85] (.node (.node (
  .node .leaf 0x2F906 0x2F906 [0x23D1E] .leaf) 0x2F907 0x2F907 [0x6D34] (.node .leaf 0x2F908
  0x2F908 [0x6E2F] .leaf)) 0x2F909 0x2F909 [0x6E6E] (.node (.node .leaf 0x2F90A 0x2F90A [0x3D33]
  .leaf) 0x2F90B 0x2F90B [0x6ECB] (.node .leaf 0x2F90C 0x2F90C [0x6EC7] .leaf)))) 0x2F90D 0x2F90D
  [0x23ED1] (.node (.node (.node (.node .leaf 0x2F90E 0x2F90E [0x6DF9] .leaf) 0x2F90F 0x2F90F
  [0x6F6E] (.node .leaf 0x2F910 0x2F910 [0x23F5E] .leaf)) 0x2F911 0x2F911 [0x23F8E] (.node (.node
  .leaf 0x2F912 0x2F912 [0x6FC6] .leaf) 0x2F913 0x2F913 [0x7039] (.node .leaf 0x2F914 0x2F914
  [0x701E] .leaf))) 0x2F915 0x2F915 [0x701B] (.node (.node (.node .leaf 0x2F916 0x2F916 [0x3D96]
  .leaf) 0x2F917 0x2F917 [0x704A] (.node .leaf 0x2F918 0x2F918 [0x707D] .leaf)) 0x2F919 0x2F919
  [0x7077] (.node (.node .leaf 0x2F91A 0x2F91A [0x70AD] .leaf) 0x2F91B 0x2F91B [0x20525] (.node
  .leaf 0x2F91C 0x2F91C [0x7145] .leaf)))))))) 0x2F91D 0x2F91D [0x24263] (.node (.node (.node (
  .node (.node (.node (.node (.node (.node .leaf 0x2F91E 0x2F91E [0x719C] .leaf) 0x2F91F 0x2F91F
  [0x243AB] .leaf) 0x2F920 0x2F920 [0x7228] (.node .leaf 0x2F921 0x2F921 [0x7235] .leaf)) 0x2F922
  0x2F922 [0x7250] (.node (.node .leaf 0x2F923 0x2F923 [0x24608] .leaf) 0x2F924 0x2F924 [0x7280] (
  .node .leaf 0x2F925 0x2F925 [0x7295] .leaf))) 0x2F926 0x2F926 [0x24735] (.node (.node (.node
  .leaf 0x2F927 0x2F927 [0x24814] .leaf) 0x2F928 0x2F928 [0x737A] (.node .leaf 0x2F929 0x2F929
  [0x738B] .leaf)) 0x2F92A 0x2F92A [0x3EAC] (.node (.node .leaf 0x2F92B 0x2F92B [0x73A5] .leaf)
  0x2F92C 0x2F92C [0x3EB8] (.node .leaf 0x2F92D 0x2F92D [0x3EB8] .leaf)))) 0x2F92E 0x2F92E [0x7447]
  (.node (.node (.node (.node .leaf 0x2F92F 0x2F92F [0x745C] .leaf) 0x2F930 0x2F930 [0x7471] (.node
  .leaf 0x2F931 0x2F931 [0x7485] .leaf)) 0x2F932 0x2F932 [0x74CA] (.node (.node .leaf 0x2F933
  0x2F933 [0x3F1B] .leaf) 0x2F934 0x2F934 [0x7524] (.node .leaf 0x2F935 0x2F935 [0x24C36] .leaf)))
  0x2F936 0x2F936 [0x753E] (.node (.node (.node .leaf 0x2F937 0x2F937 [0x24C92] .leaf) 0x2F938
  0x2F938 [0x7570] (.node .leaf 0x2F939 0x2F939 [0x2219F] .leaf)) 0x2F93A 0x2F93A [0x7610] (.node (
  .node .leaf 0x2F93B 0x2F93B [0x24FA1] .leaf) 0x2F93C 0x2F93C [0x24FB8] (.node .leaf 0x2F93D
  0x2F93D [0x25044] .leaf))))) 0x2F93E 0x2F93E [0x3FFC] (.node (.node (.node (.node (.node .leaf
  0x2F93F 0x2F93F [0x4008] .leaf) 0x2F940 0x2F940 [0x76F4] (.node .leaf 0x2F941 0x2F941 [0x250F3]
  .leaf)) 0x2F942 0x2F942 [0x250F2] (.node (.node .leaf 0x2F943 0x2F943 [0x25119] .leaf) 0x2F944
  0x2F944 [0x25133] (.node .leaf 0x2F945 0x2F945 [0x771E] .leaf))) 0x2F946 0x2F946 [0x771F] (.node
  (.node (.node .leaf 0x2F947 0x2F947 [0x771F] .leaf) 0x2F948 0x2F948 [0x774A] (.node .leaf 0x2F949
  0x2F949 [0x4039] .leaf)) 0x2F94A 0x2F94A [0x778B] (.node (.node .leaf 0x2F94B 0x2F94B [0x4046]
  .leaf) 0x2F94C 0x2F94C [0x4096] (.node .leaf 0x2F94D 0x2F94D [0x2541D] .leaf)))) 0x2F94E 0x2F94E
  [0x784E] (.node (.node (.node (.node .leaf 0x2F94F 0x2F94F [0x788C] .leaf) 0x2F950 0x2F950
  [0x78CC] (.node .leaf 0x2F951 0x2F951 [0x40E3] .leaf)) 0x2F952 0x2F952 [0x25626] (.node (.node
  .leaf 0x2F953 0x2F953 [0x7956] .leaf) 0x2F954 0x2F954 [0x2569A] (.node .leaf 0x2F955 0x2F955
  [0x256C5] .leaf))) 0x2F956 0x2F956 [0x798F] (.node (.node (.node .leaf 0x2F957 0x2F957 [0x79EB]
  .leaf) 0x2F958 0x2F958 [0x412F] (.node .leaf 0x2F959 0x2F959 [0x7A40] .leaf)) 0x2F95A 0x2F95A
  [0x7A4A] (.node (.node .leaf 0x2F95B 0x2F95B [0x7A4F] .leaf) 0x2F95C 0x2F95C [0x2597C] (.node
  .leaf 0x2F95D 0x2F95D [0x25AA7] .leaf)))))) 0x2F95E 0x2F95E [0x25AA7] (.node (.node (.node (.node
  (.node (.node .leaf 0x2F95F 0x2F95F [0x7AEE] .leaf) 0x2F960 0x2F960 [0x4202] (.node .leaf 0x2F961
  0x2F961 [0x25BAB] .leaf)) 0x2F962 0x2F962 [0x7BC6] (.node (.node .leaf 0x2F963 0x2F963 [0x7BC9]
  .leaf) 0x2F964 0x2F964 [0x4227] (.node .leaf 0x2F965 0x2F965 [0x25C80] .leaf))) 0x2F966 0x2F966
  [0x7CD2] (.node (.node (.node .leaf 0x2F967 0x2F967 [0x42A0] .leaf) 0x2F968 0x2F968 [0x7CE8] (
  .node .leaf 0x2F969 0x2F969 [0x7CE3] .leaf)) 0x2F96A 0x2F96A [0x7D00] (.node (.node .leaf 0x2F96B
  0x2F96B [0x25F86] .leaf) 0x2F96C 0x2F96C [0x7D63] (.node .leaf 0x2F96D 0x2F96D [0x4301] .leaf))))
  0x2F96E 0x2F96E [0x7DC7] (.node (.node (.node (.node .leaf 0x2F96F 0x2F96F [0x7E02] .leaf)
  0x2F970 0x2F970 [0x7E45] (.node .leaf 0x2F971 0x2F971 [0x4334] .leaf)) 0x2F972 0x2F972 [0x26228]
  (.node (.node .leaf 0x2F973 0x2F973 [0x26247] .leaf) 0x2F974 0x2F974 [0x4359] (.node .leaf
  0x2F975 0x2F975 [0x262D9] .leaf))) 0x2F976 0x2F976 [0x7F7A] (.node (.node (.node .leaf 0x2F977
  0x2F977 [0x2633E] .leaf) 0x2F978 0x2F978 [0x7F95] (.node .leaf 0x2F979 0x2F979 [0x7FFA] .leaf))
  0x2F97A 0x2F97A [0x8005] (.node (.node .leaf 0x2F97B 0x2F97B [0x264DA] .leaf) 0x2F97C 0x2F97C
  [0x26523] (.node .leaf 0x2F97D 0x2F97D [0x8060] .leaf))))) 0x2F97E 0x2F97E [0x265A8] (.node (
  .node (.node (.node (.node .leaf 0x2F97F 0x2F97F [0x8070] .leaf) 0x2F980 0x2F980 [0x2335F] (.node
  .leaf 0x2F981 0x2F981 [0x43D5] .leaf)) 0x2F982 0x2F982 [0x80B2] (.node (.node .leaf 0x2F983
  0x2F983 [0x8103] .leaf) 0x2F984 0x2F984 [0x440B] (.node .leaf 0x2F985 0x2F985 [0x813E] .leaf)))
  0x2F986 0x2F986 [0x5AB5] (.node (.node (.node .leaf 0x2F987 0x2F987 [0x267A7] .leaf) 0x2F988
  0x2F988 [0x267B5] (.node .leaf 0x2F989 0x2F989 [0x23393] .leaf)) 0x2F98A 0x2F98A [0x2339C] (.node
  (.node .leaf 0x2F98B 0x2F98B [0x8201] .leaf) 0x2F98C 0x2F98C [0x8204] (.node .leaf 0x2F98D
  0x2F98D [0x8F9E] .leaf)))) 0x2F98E 0x2F98E [0x446B] (.node (.node (.node (.node .leaf 0x2F98F
  0x2F98F [0x8291] .leaf) 0x2F990 0x2F990 [0x828B] (.node .leaf 0x2F991 0x2F991 [0x829D] .leaf))
  0x2F992 0x2F992 [0x52B3] (.node (.node .leaf 0x2F993 0x2F993 [0x82B1] .leaf) 0x2F994 0x2F994
  [0x82B3] (.node .leaf 0x2F995 0x2F995 [0x82BD] .leaf))) 0x2F996 0x2F996 [0x82E6] (.node (.node (
  .node .leaf 0x2F997 0x2F997 [0x26B3C] .leaf) 0x2F998 0x2F998 [0x82E5] (.node .leaf 0x2F999
  0x2F999 [0x831D] .leaf)) 0x2F99A 0x2F99A [0x8363] (.node (.node .leaf 0x2F99B 0x2F99B [0x83AD]
  .leaf) 0x2F99C 0x2F99C [0x8323] (.node .leaf 0x2F99D 0x2F99D [0x83BD] .leaf))))))) 0x2F99E
  0x2F99E [0x83E7] (.node (.node (.node (.node (.node (.node (.node .leaf 0x2F99F 0x2F99F [0x8457]
  .leaf) 0x2F9A0 0x2F9A0 [0x8353] (.node .leaf 0x2F9A1 0x2F9A1 [0x83CA] .leaf)) 0x2F9A2 0x2F9A2
  [0x83CC] (.node (.node .leaf 0x2F9A3 0x2F9A3 [0x83DC] .leaf) 0x2F9A4 0x2F9A4 [0x26C36] (.node
  .leaf 0x2F9A5 0x2F9A5 [0x26D6B] .leaf))) 0x2F9A6 0x2F9A6 [0x26CD5] (.node (.node (.node .leaf
  0x2F9A7 0x2F9A7 [0x452B] .leaf) 0x2F9A8 0x2F9A8 [0x84F1] (.node .leaf 0x2F9A9 0x2F9A9 [0x84F3]
  .leaf)) 0x2F9AA 0x2F9AA [0x8516] (.node (.node .leaf 0x2F9AB 0x2F9AB [0x273CA] .leaf) 0x2F9AC
  0x2F9AC [0x8564] (.node .leaf 0x2F9AD 0x2F9AD [0x26F2C] .leaf)))) 0x2F9AE 0x2F9AE [0x455D] (.node
  (.node (.node (.node .leaf 0x2F9AF 0x2F9AF [0x4561] .leaf) 0x2F9B0 0x2F9B0 [0x26FB1] (.node .leaf
  0x2F9B1 0x2F9B1 [0x270D2] .leaf)) 0x2F9B2 0x2F9B2 [0x456B] (.node (.node .leaf 0x2F9B3 0x2F9B3
  [0x8650] .leaf) 0x2F9B4 0x2F9B4 [0x865C] (.node .leaf 0x2F9B5 0x2F9B5 [0x8667] .leaf))) 0x2F9B6
  0x2F9B6 [0x8669] (.node (.node (.node .leaf 0x2F9B7 0x2F9B7 [0x86A9] .leaf) 0x2F9B8 0x2F9B8
  [0x8688] (.node .leaf 0x2F9B9 0x2F9B9 [0x870E] .leaf)) 0x2F9BA 0x2F9BA [0x86E2] (.node (.node
  .leaf 0x2F9BB 0x2F9BB [0x8779] .leaf) 0x2F9BC 0x2F9BC [0x8728] (.node .leaf 0x2F9BD 0x2F9BD
  [0x876B] .leaf))))) 0x2F9BE 0x2F9BE [0x8786] (.node (.node (.node (.node (.node .leaf 0x2F9BF
  0x2F9BF [0x45D7] .leaf) 0x2F9C0 0x2F9C0 [0x87E1] (.node .leaf 0x2F9C1 0x2F9C1 [0x8801] .leaf))
  0x2F9C2 0x2F9C2 [0x45F9] (.node (.node .leaf 0x2F9C3 0x2F9C3 [0x8860] .leaf) 0x2F9C4 0x2F9C4
  [0x8863] (.node .leaf 0x2F9C5 0x2F9C5 [0x27667] .leaf))) 0x2F9C6 0x2F9C6 [0x88D7] (.node (.node (
  .node .leaf 0x2F9C7 0x2F9C7 [0x88DE] .leaf) 0x2F9C8 0x2F9C8 [0x4635] (.node .leaf 0x2F9C9 0x2F9C9
  [0x88FA] .leaf)) 0x2F9CA 0x2F9CA [0x34BB] (.node (.node .leaf 0x2F9CB 0x2F9CB [0x278AE] .leaf)
  0x2F9CC 0x2F9CC [0x27966] (.node .leaf 0x2F9CD 0x2F9CD [0x46BE] .leaf)))) 0x2F9CE 0x2F9CE
  [0x46C7] (.node (.node (.node (.node .leaf 0x2F9CF 0x2F9CF [0x8AA0] .leaf) 0x2F9D0 0x2F9D0
  [0x8AED] (.node .leaf 0x2F9D1 0x2F9D1 [0x8B8A] .leaf)) 0x2F9D2 0x2F9D2 [0x8C55] (.node (.node
  .leaf 0x2F9D3 0x2F9D3 [0x27CA8] .leaf) 0x2F9D4 0x2F9D4 [0x8CAB] (.node .leaf 0x2F9D5 0x2F9D5
  [0x8CC1] .leaf))) 0x2F9D6 0x2F9D6 [0x8D1B] (.node (.node (.node .leaf 0x2F9D7 0x2F9D7 [0x8D77]
  .leaf) 0x2F9D8 0x2F9D8 [0x27F2F] (.node .leaf 0x2F9D9 0x2F9D9 [0x20804] .leaf)) 0x2F9DA 0x2F9DA
  [0x8DCB] (.node (.node .leaf 0x2F9DB 0x2F9DB [0x8DBC] .leaf) 0x2F9DC 0x2F9DC [0x8DF0] (.node
  .leaf 0x2F9DD 0x2F9DD [0x208DE] .leaf)))))) 0x2F9DE 0x2F9DE [0x8ED4] (.node (.node (.node (.node
  (.node (.node .leaf 0x2F9DF 0x2F9DF [0x8F38] .leaf) 0x2F9E0 0x2F9E0 [0x285D2] (.node .leaf
  0x2F9E1 0x2F9E1 [0x285ED] .leaf)) 0x2F9E2 0x2F9E2 [0x9094] (.node (.node .leaf 0x2F9E3 0x2F9E3
  [0x90F1] .leaf) 0x2F9E4 0x2F9E4 [0x9111] (.node .leaf 0x2F9E5 0x2F9E5 [0x2872E] .leaf))) 0x2F9E6
  0x2F9E6 [0x911B] (.node (.node (.node .leaf 0x2F9E7 0x2F9E7 [0x9238] .leaf) 0x2F9E8 0x2F9E8
  [0x92D7] (.node .leaf 0x2F9E9 0x2F9E9 [0x92D8] .leaf)) 0x2F9EA 0x2F9EA [0x927C] (.node (.node
  .leaf 0x2F9EB 0x2F9EB [0x93F9] .leaf) 0x2F9EC 0x2F9EC [0x9415] (.node .leaf 0x2F9ED 0x2F9ED
  [0x28BFA] .leaf)))) 0x2F9EE 0x2F9EE [0x958B] (.node (.node (.node (.node .leaf 0x2F9EF 0x2F9EF
  [0x4995] .leaf) 0x2F9F0 0x2F9F0 [0x95B7] (.node .leaf 0x2F9F1 0x2F9F1 [0x28D77] .leaf)) 0x2F9F2
  0x2F9F2 [0x49E6] (.node (.node .leaf 0x2F9F3 0x2F9F3 [0x96C3] .leaf) 0x2F9F4 0x2F9F4 [0x5DB2] (
  .node .leaf 0x2F9F5 0x2F9F5 [0x9723] .leaf))) 0x2F9F6 0x2F9F6 [0x29145] (.node (.node (.node
  .leaf 0x2F9F7 0x2F9F7 [0x2921A] .leaf) 0x2F9F8 0x2F9F8 [0x4A6E] (.node .leaf 0x2F9F9 0x2F9F9
  [0x4A76] .leaf)) 0x2F9FA 0x2F9FA [0x97E0] (.node (.node .leaf 0x2F9FB 0x2F9FB [0x2940A] .leaf)
  0x2F9FC 0x2F9FC [0x4AB2] (.node .leaf 0x2F9FD 0x2F9FD [0x29496] .leaf))))) 0x2F9FE 0x2F9FE
  [0x980B] (.node (.node (.node (.node (.node .leaf 0x2F9FF 0x2F9FF [0x980B] .leaf) 0x2FA00 0x2FA00
  [0x9829] (.node .leaf 0x2FA01 0x2FA01 [0x295B6] .leaf)) 0x2FA02 0x2FA02 [0x98E2] (.node (.node
  .leaf 0x2FA03 0x2FA03 [0x4B33] .leaf) 0x2FA04 0x2FA04 [0x9929] (.node .leaf 0x2FA05 0x2FA05
  [0x99A7] .leaf))) 0x2FA06 0x2FA06 [0x99C2] (.node (.node (.node .leaf 0x2FA07 0x2FA07 [0x99FE]
  .leaf) 0x2FA08 0x2FA08 [0x4BCE] (.node .leaf 0x2FA09 0x2FA09 [0x29B30] .leaf)) 0x2FA0A 0x2FA0A
  [0x9B12] (.node (.node .leaf 0x2FA0B 0x2FA0B [0x9C40] .leaf) 0x2FA0C 0x2FA0C [0x9CFD] (.node
  .leaf 0x2FA0D 0x2FA0D [0x4CCE] .leaf)))) 0x2FA0E 0x2FA0E [0x4CED] (.node (.node (.node (.node
  .leaf 0x2FA0F 0x2FA0F [0x9D67] .leaf) 0x2FA10 0x2FA10 [0x2A0CE] (.node .leaf 0x2FA11 0x2FA11
  [0x4CF8] .leaf)) 0x2FA12 0x2FA12 [0x2A105] (.node (.node .leaf 0x2FA13 0x2FA13 [0x2A20E] .leaf)
  0x2FA14 0x2FA14 [0x2A291] (.node .leaf 0x2FA15 0x2FA15 [0x9EBB] .leaf))) 0x2FA16 0x2FA16 [0x4D56]
  (.node (.node (.node .leaf 0x2FA17 0x2FA17 [0x9EF9] .leaf) 0x2FA18 0x2FA18 [0x9EFE] (.node .leaf
  0x2FA19 0x2FA19 [0x9F05] .leaf)) 0x2FA1A 0x2FA1A [0x9F0F] (.node (.node .leaf 0x2FA1B 0x2FA1B
  [0x9F16] .leaf) 0x2FA1C 0x2FA1C [0x9F3B] (.node .leaf 0x2FA1D 0x2FA1D [0x2A600] .leaf))))))))))

/-- The primary composites, Hangul syllables left out: for every first rune of a pair the
list of the second runes, each with the composite. -/
def compTable : Table (List (Nat × Nat)) :=
  .node (.node (.node (.node (.node (.node (.node (.node (.node .leaf 0x3C 0x3C [(0x338, 0x226E)]
  .leaf) 0x3D 0x3D [(0x338, 0x2260)] .leaf) 0x3E 0x3E [(0x338, 0x226F)] (.node (.node .leaf 0x41
  0x41 [(0x300, 0xC0), (0x301, 0xC1), (0x302, 0xC2), (0x303, 0xC3), (0x304, 0x100), (0x306, 0x102),
  (0x307, 0x226), (0x308, 0xC4), (0x309, 0x1EA2), (0x30A, 0xC5), (0x30C, 0x1CD), (0x30F, 0x200),
  (0x311, 0x202), (0x323, 0x1EA0), (0x325, 0x1E00), (0x328, 0x104)] .leaf) 0x42 0x42
  [(0x307, 0x1E02), (0x323, 0x1E04), (0x331, 0x1E06)] .leaf)) 0x43 0x43 [(0x301, 0x106),
  (0x302, 0x108), (0x307, 0x10A), (0x30C, 0x10C), (0x327, 0xC7)] (.node (.node (.node .leaf 0x44
  0x44 [(0x307, 0x1E0A), (0x30C, 0x10E), (0x323, 0x1E0C), (0x327, 0x1E10), (0x32D, 0x1E12),
  (0x331, 0x1E0E)] .leaf) 0x45 0x45 [(0x300, 0xC8), (0x301, 0xC9), (0x302, 0xCA), (0x303, 0x1EBC),
  (0x304, 0x112), (0x306, 0x114), (0x307, 0x116), (0x308, 0xCB), (0x309, 0x1EBA), (0x30C, 0x11A),
  (0x30F, 0x204), (0x311, 0x206), (0x323, 0x1EB8), (0x327, 0x228), (0x328, 0x118), (0x32D, 0x1E18),
  (0x330, 0x1E1A)] .leaf) 0x46 0x46 [(0x307, 0x1E1E)] (.node (.node .leaf 0x47 0x47
  [(0x301, 0x1F4), (0x302, 0x11C), (0x304, 0x1E20), (0x306, 0x11E), (0x307, 0x120), (0x30C, 0x1E6),
  (0x327, 0x122)] .leaf) 0x48 0x48 [(0x302, 0x124), (0x307, 0x1E22), (0x308, 0x1E26),
  (0x30C, 0x21E), (0x323, 0x1E24), (0x327, 0x1E28), (0x32E, 0x1E2A)] .leaf))) 0x49 0x49
  [(0x300, 0xCC), (0x301, 0xCD), (0x302, 0xCE), (0x303, 0x128), (0x304, 0x12A), (0x306, 0x12C),
  (0x307, 0x130), (0x308, 0xCF), (0x309, 0x1EC8), (0x30C, 0x1CF), (0x30F, 0x208), (0x311, 0x20A),
  (0x323, 0x1ECA), (0x328, 0x12E), (0x330, 0x1E2C)] (.node (.node (.node (.node .leaf 0x4A 0x4A
  [(0x302, 0x134)] .leaf) 0x4B 0x4B [(0x301, 0x1E30), (0x30C, 0x1E8), (0x323, 0x1E32),
  (0x327, 0x136), (0x331, 0x1E34)] .leaf) 0x4C 0x4C [(0x301, 0x139), (0x30C, 0x13D),
  (0x323, 0x1E36), (0x327, 0x13B), (0x32D, 0x1E3C), (0x331, 0x1E3A)] (.node (.node .leaf 0x4D 0x4D
  [(0x301, 0x1E3E), (0x307, 0x1E40), (0x323, 0x1E42)] .leaf) 0x4E 0x4E [(0x300, 0x1F8),
  (0x301, 0x143), (0x303, 0xD1), (0x307, 0x1E44), (0x30C, 0x147), (0x323, 0x1E46), (0x327, 0x145),
  (0x32D, 0x1E4A), (0x331, 0x1E48)] .leaf)) 0x4F 0x4F [(0x300, 0xD2), (0x301, 0xD3), (0x302, 0xD4),
  (0x303, 0xD5), (0x304, 0x14C), (0x306, 0x14E), (0x307, 0x22E), (0x308, 0xD6), (0x309, 0x1ECE),
  (0x30B, 0x150), (0x30C, 0x1D1), (0x30F, 0x20C), (0x311, 0x20E), (0x31B, 0x1A0), (0x323, 0x1ECC),
  (0x328, 0x1EA)] (.node (.node (.node .leaf 0x50 0x50 [(0x301, 0x1E54), (0x307, 0x1E56)] .leaf)
  0x52 0x52 [(0x301, 0x154), (0x307, 0x1E58), (0x30C, 0x158), (0x30F, 0x210), (0x311, 0x212),
  (0x323, 0x1E5A), (0x327, 0x156), (0x331, 0x1E5E)] .leaf) 0x53 0x53 [(0x301, 0x15A),
  (0x302, 0x15C), (0x307, 0x1E60), (0x30C, 0x160), (0x323, 0x1E62), (0x326, 0x218), (0x327, 0x15E)]
  (.node (.node .leaf 0x54 0x54 [(0x307, 0x1E6A), (0x30C, 0x164), (0x323, 0x1E6C), (0x326, 0x21A),
  (0x327, 0x162), (0x32D, 0x1E70), (0x331, 0x1E6E)] .leaf) 0x55 0x55 [(0x300, 0xD9), (0x301, 0xDA),
  (0x302, 0xDB), (0x303, 0x168), (0x304, 0x16A), (0x306, 0x16C), (0x308, 0xDC), (0x309, 0x1EE6),
  (0x30A, 0x16E), (0x30B, 0x170), (0x30C, 0x1D3), (0x30F, 0x214), (0x311, 0x216), (0x31B, 0x1AF),
  (0x323, 0x1EE4), (0x324, 0x1E72), (0x328, 0x172), (0x32D, 0x1E76), (0x330, 0x1E74)] .leaf))))
  0x56 0x56 [(0x303, 0x1E7C), (0x323, 0x1E7E)] (.node (.node (.node (.node (.node .leaf 0x57 0x57
  [(0x300, 0x1E80), (0x301, 0x1E82), (0x302, 0x174), (0x307, 0x1E86), (0x308, 0x1E84),
  (0x323, 0x1E88)] .leaf) 0x58 0x58 [(0x307, 0x1E8A), (0x308, 0x1E8C)] .leaf) 0x59 0x59
  [(0x300, 0x1EF2), (0x301, 0xDD), (0x302, 0x176), (0x303, 0x1EF8), (0x304, 0x232),
  (0x307, 0x1E8E), (0x308, 0x178), (0x309, 0x1EF6), (0x323, 0x1EF4)] (.node (.node .leaf 0x5A 0x5A
  [(0x301, 0x179), (0x302, 0x1E90), (0x307, 0x17B), (0x30C, 0x17D), (0x323, 0x1E92),
  (0x331, 0x1E94)] .leaf) 0x61 0x61 [(0x300, 0xE0), (0x301, 0xE1), (0x302, 0xE2), (0x303, 0xE3),
  (0x304, 0x101), (0x306, 0x103), (0x307, 0x227), (0x308, 0xE4), (0x309, 0x1EA3), (0x30A, 0xE5),
  (0x30C, 0x1CE), (0x30F, 0x201), (0x311, 0x203), (0x323, 0x1EA1), (0x325, 0x1E01), (0x328, 0x105)]
  .leaf)) 0x62 0x62 [(0x307, 0x1E03), (0x323, 0x1E05), (0x331, 0x1E07)] (.node (.node (.node .leaf
  0x63 0x63 [(0x301, 0x107), (0x302, 0x109), (0x307, 0x10B), (0x30C, 0x10D), (0x327, 0xE7)] .leaf)
  0x64 0x64 [(0x307, 0x1E0B), (0x30C, 0x10F), (0x323, 0x1E0D), (0x327, 0x1E11), (0x32D, 0x1E13),
  (0x331, 0x1E0F)] .leaf) 0x65 0x65 [(0x300, 0xE8), (0x301, 0xE9), (0x302, 0xEA), (0x303, 0x1EBD),
  (0x304, 0x113), (0x306, 0x115), (0x307, 0x117), (0x308, 0xEB), (0x309, 0x1EBB), (0x30C, 0x11B),
  (0x30F, 0x205), (0x311, 0x207), (0x323, 0x1EB9), (0x327, 0x229), (0x328, 0x119), (0x32D, 0x1E19),
  (0x330, 0x1E1B)] (.node (.node .leaf 0x66 0x66 [(0x307, 0x1E1F)] .leaf) 0x67 0x67
  [(0x301, 0x1F5), (0x302, 0x11D), (0x304, 0x1E21), (0x306, 0x11F), (0x307, 0x121), (0x30C, 0x1E7),
  (0x327, 0x123)] .leaf))) 0x68 0x68 [(0x302, 0x125), (0x307, 0x1E23), (0x308, 0x1E27),
  (0x30C, 0x21F), (0x323, 0x1E25), (0x327, 0x1E29), (0x32E, 0x1E2B), (0x331, 0x1E96)] (.node (.node
  (.node (.node .leaf 0x69 0x69 [(0x300, 0xEC), (0x301, 0xED), (0x302, 0xEE), (0x303, 0x129),
  (0x304, 0x12B), (0x306, 0x12D), (0x308, 0xEF), (0x309, 0x1EC9), (0x30C, 0x1D0), (0x30F, 0x209),
  (0x311, 0x20B), (0x323, 0x1ECB), (0x328, 0x12F), (0x330, 0x1E2D)] .leaf) 0x6A 0x6A
  [(0x302, 0x135), (0x30C, 0x1F0)] .leaf) 0x6B 0x6B [(0x301, 0x1E31), (0x30C, 0x1E9),
  (0x323, 0x1E33), (0x327, 0x137), (0x331, 0x1E35)] (.node (.node .leaf 0x6C 0x6C [(0x301, 0x13A),
  (0x30C, 0x13E), (0x323, 0x1E37), (0x327, 0x13C), (0x32D, 0x1E3D), (0x331, 0x1E3B)] .leaf) 0x6D
  0x6D [(0x301, 0x1E3F), (0x307, 0x1E41), (0x323, 0x1E43)] .leaf)) 0x6E 0x6E [(0x300, 0x1F9),
  (0x301, 0x144), (0x303, 0xF1), (0x307, 0x1E45), (0x30C, 0x148), (0x323, 0x1E47), (0x327, 0x146),
  (0x32D, 0x1E4B), (0x331, 0x1E49)] (.node (.node (.node .leaf 0x6F 0x6F [(0x300, 0xF2),
  (0x301, 0xF3), (0x302, 0xF4), (0x303, 0xF5), (0x304, 0x14D), (0x306, 0x14F), (0x307, 0x22F),
  (0x308, 0xF6), (0x309, 0x1ECF), (0x30B, 0x151), (0x30C, 0x1D2), (0x30F, 0x20D), (0x311, 0x20F),
  (0x31B, 0x1A1), (0x323, 0x1ECD), (0x328, 0x1EB)] .leaf) 0x70 0x70 [(0x301, 0x1E55),
  (0x307, 0x1E57)] .leaf) 0x72 0x72 [(0x301, 0x155), (0x307, 0x1E59), (0x30C, 0x159),
  (0x30F, 0x211), (0x311, 0x213), (0x323, 0x1E5B), (0x327, 0x157), (0x331, 0x1E5F)] (.node (.node
  .leaf 0x73 0x73 [(0x301, 0x15B), (0x302, 0x15D), (0x307, 0x1E61), (0x30C, 0x161),
  (0x323, 0x1E63), (0x326, 0x219), (0x327, 0x15F)] .leaf) 0x74 0x74 [(0x307, 0x1E6B),
  (0x308, 0x1E97), (0x30C, 0x165), (0x323, 0x1E6D), (0x326, 0x21B), (0x327, 0x163),
  (0x32D, 0x1E71), (0x331, 0x1E6F)] .leaf))))) 0x75 0x75 [(0x300, 0xF9), (0x301, 0xFA),
  (0x302, 0xFB), (0x303, 0x169), (0x304, 0x16B), (0x306, 0x16D), (0x308, 0xFC), (0x309, 0x1EE7),
  (0x30A, 0x16F), (0x30B, 0x171), (0x30C, 0x1D4), (0x30F, 0x215), (0x311, 0x217), (0x31B, 0x1B0),
  (0x323, 0x1EE5), (0x324, 0x1E73), (0x328, 0x173), (0x32D, 0x1E77), (0x330, 0x1E75)] (.node (.node
  (.node (.node (.node (.node .leaf 0x76 0x76 [(0x303, 0x1E7D), (0x323, 0x1E7F)] .leaf) 0x77 0x77
  [(0x300, 0x1E81), (0x301, 0x1E83), (0x302, 0x175), (0x307, 0x1E87), (0x308, 0x1E85),
  (0x30A, 0x1E98), (0x323, 0x1E89)] .leaf) 0x78 0x78 [(0x307, 0x1E8B), (0x308, 0x1E8D)] (.node (
  .node .leaf 0x79 0x79 [(0x300, 0x1EF3), (0x301, 0xFD), (0x302, 0x177), (0x303, 0x1EF9),
  (0x304, 0x233), (0x307, 0x1E8F), (0x308, 0xFF), (0x309, 0x1EF7), (0x30A, 0x1E99),
  (0x323, 0x1EF5)] .leaf) 0x7A 0x7A [(0x301, 0x17A), (0x302, 0x1E91), (0x307, 0x17C),
  (0x30C, 0x17E), (0x323, 0x1E93), (0x331, 0x1E95)] .leaf)) 0xA8 0xA8 [(0x300, 0x1FED),
  (0x301, 0x385), (0x342, 0x1FC1)] (.node (.node (.node .leaf 0xC2 0xC2 [(0x300, 0x1EA6),
  (0x301, 0x1EA4), (0x303, 0x1EAA), (0x309, 0x1EA8)] .leaf) 0xC4 0xC4 [(0x304, 0x1DE)] .leaf) 0xC5
  0xC5 [(0x301, 0x1FA)] (.node (.node .leaf 0xC6 0xC6 [(0x301, 0x1FC), (0x304, 0x1E2)] .leaf) 0xC7
  0xC7 [(0x301, 0x1E08)] .leaf))) 0xCA 0xCA [(0x300, 0x1EC0), (0x301, 0x1EBE), (0x303, 0x1EC4),
  (0x309, 0x1EC2)] (.node (.node (.node (.node .leaf 0xCF 0xCF [(0x301, 0x1E2E)] .leaf) 0xD4 0xD4
  [(0x300, 0x1ED2), (0x301, 0x1ED0), (0x303, 0x1ED6), (0x309, 0x1ED4)] .leaf) 0xD5 0xD5
  [(0x301, 0x1E4C), (0x304, 0x22C), (0x308, 0x1E4E)] (.node (.node .leaf 0xD6 0xD6 [(0x304, 0x22A)]
  .leaf) 0xD8 0xD8 [(0x301, 0x1FE)] .leaf)) 0xDC 0xDC [(0x300, 0x1DB), (0x301, 0x1D7),
  (0x304, 0x1D5), (0x30C, 0x1D9)] (.node (.node (.node .leaf 0xE2 0xE2 [(0x300, 0x1EA7),
  (0x301, 0x1EA5), (0x303, 0x1EAB), (0x309, 0x1EA9)] .leaf) 0xE4 0xE4 [(0x304, 0x1DF)] .leaf) 0xE5
  0xE5 [(0x301, 0x1FB)] (.node (.node .leaf 0xE6 0xE6 [(0x301, 0x1FD), (0x304, 0x1E3)] .leaf) 0xE7
  0xE7 [(0x301, 0x1E09)] .leaf)))) 0xEA 0xEA [(0x300, 0x1EC1), (0x301, 0x1EBF), (0x303, 0x1EC5),
  (0x309, 0x1EC3)] (.node (.node (.node (.node (.node .leaf 0xEF 0xEF [(0x301, 0x1E2F)] .leaf) 0xF4
  0xF4 [(0x300, 0x1ED3), (0x301, 0x1ED1), (0x303, 0x1ED7), (0x309, 0x1ED5)] .leaf) 0xF5 0xF5
  [(0x301, 0x1E4D), (0x304, 0x22D), (0x308, 0x1E4F)] (.node (.node .leaf 0xF6 0xF6 [(0x304, 0x22B)]
  .leaf) 0xF8 0xF8 [(0x301, 0x1FF)] .leaf)) 0xFC 0xFC [(0x300, 0x1DC), (0x301, 0x1D8),
  (0x304, 0x1D6), (0x30C, 0x1DA)] (.node (.node (.node .leaf 0x102 0x102 [(0x300, 0x1EB0),
  (0x301, 0x1EAE), (0x303, 0x1EB4), (0x309, 0x1EB2)] .leaf) 0x103 0x103 [(0x300, 0x1EB1),
  (0x301, 0x1EAF), (0x303, 0x1EB5), (0x309, 0x1EB3)] .leaf) 0x112 0x112 [(0x300, 0x1E14),
  (0x301, 0x1E16)] (.node (.node .leaf 0x113 0x113 [(0x300, 0x1E15), (0x301, 0x1E17)] .leaf) 0x14C
  0x14C [(0x300, 0x1E50), (0x301, 0x1E52)] .leaf))) 0x14D 0x14D [(0x300, 0x1E51), (0x301, 0x1E53)]
  (.node (.node (.node (.node .leaf 0x15A 0x15A [(0x307, 0x1E64)] .leaf) 0x15B 0x15B
  [(0x307, 0x1E65)] .leaf) 0x160 0x160 [(0x307, 0x1E66)] (.node (.node .leaf 0x161 0x161
  [(0x307, 0x1E67)] .leaf) 0x168 0x168 [(0x301, 0x1E78)] .leaf)) 0x169 0x169 [(0x301, 0x1E79)] (
  .node (.node (.node .leaf 0x16A 0x16A [(0x308, 0x1E7A)] .leaf) 0x16B 0x16B [(0x308, 0x1E7B)]
  .leaf) 0x17F 0x17F [(0x307, 0x1E9B)] (.node .leaf 0x1A0 0x1A0 [(0x300, 0x1EDC), (0x301, 0x1EDA),
  (0x303, 0x1EE0), (0x309, 0x1EDE), (0x323, 0x1EE2)] .leaf)))))) 0x1A1 0x1A1 [(0x300, 0x1EDD),
  (0x301, 0x1EDB), (0x303, 0x1EE1), (0x309, 0x1EDF), (0x323, 0x1EE3)] (.node (.node (.node (.node (
  .node (.node (.node .leaf 0x1AF 0x1AF [(0x300, 0x1EEA), (0x301, 0x1EE8), (0x303, 0x1EEE),
  (0x309, 0x1EEC), (0x323, 0x1EF0)] .leaf) 0x1B0 0x1B0 [(0x300, 0x1EEB), (0x301, 0x1EE9),
  (0x303, 0x1EEF), (0x309, 0x1EED), (0x323, 0x1EF1)] .leaf) 0x1B7 0x1B7 [(0x30C, 0x1EE)] (.node (
  .node .leaf 0x1EA 0x1EA [(0x304, 0x1EC)] .leaf) 0x1EB 0x1EB [(0x304, 0x1ED)] .leaf)) 0x226 0x226
  [(0x304, 0x1E0)] (.node (.node (.node .leaf 0x227 0x227 [(0x304, 0x1E1)] .leaf) 0x228 0x228
  [(0x306, 0x1E1C)] .leaf) 0x229 0x229 [(0x306, 0x1E1D)] (.node (.node .leaf 0x22E 0x22E
  [(0x304, 0x230)] .leaf) 0x22F 0x22F [(0x304, 0x231)] .leaf))) 0x292 0x292 [(0x30C, 0x1EF)] (.node
  (.node (.node (.node .leaf 0x391 0x391 [(0x300, 0x1FBA), (0x301, 0x386), (0x304, 0x1FB9),
  (0x306, 0x1FB8), (0x313, 0x1F08), (0x314, 0x1F09), (0x345, 0x1FBC)] .leaf) 0x395 0x395
  [(0x300, 0x1FC8), (0x301, 0x388), (0x313, 0x1F18), (0x314, 0x1F19)] .leaf) 0x397 0x397
  [(0x300, 0x1FCA), (0x301, 0x389), (0x313, 0x1F28), (0x314, 0x1F29), (0x345, 0x1FCC)] (.node (
  .node .leaf 0x399 0x399 [(0x300, 0x1FDA), (0x301, 0x38A), (0x304, 0x1FD9), (0x306, 0x1FD8),
  (0x308, 0x3AA), (0x313, 0x1F38), (0x314, 0x1F39)] .leaf) 0x39F 0x39F [(0x300, 0x1FF8),
  (0x301, 0x38C), (0x313, 0x1F48), (0x314, 0x1F49)] .leaf)) 0x3A1 0x3A1 [(0x314, 0x1FEC)] (.node (
  .node (.node .leaf 0x3A5 0x3A5 [(0x300, 0x1FEA), (0x301, 0x38E), (0x304, 0x1FE9),
  (0x306, 0x1FE8), (0x308, 0x3AB), (0x314, 0x1F59)] .leaf) 0x3A9 0x3A9 [(0x300, 0x1FFA),
  (0x301, 0x38F), (0x313, 0x1F68), (0x314, 0x1F69), (0x345, 0x1FFC)] .leaf) 0x3AC 0x3AC
  [(0x345, 0x1FB4)] (.node (.node .leaf 0x3AE 0x3AE [(0x345, 0x1FC4)] .leaf) 0x3B1 0x3B1
  [(0x300, 0x1F70), (0x301, 0x3AC), (0x304, 0x1FB1), (0x306, 0x1FB0), (0x313, 0x1F00),
  (0x314, 0x1F01), (0x342, 0x1FB6), (0x345, 0x1FB3)] .leaf)))) 0x3B5 0x3B5 [(0x300, 0x1F72),
  (0x301, 0x3AD), (0x313, 0x1F10), (0x314, 0x1F11)] (.node (.node (.node (.node (.node .leaf 0x3B7
  0x3B7 [(0x300, 0x1F74), (0x301, 0x3AE), (0x313, 0x1F20), (0x314, 0x1F21), (0x342, 0x1FC6),
  (0x345, 0x1FC3)] .leaf) 0x3B9 0x3B9 [(0x300, 0x1F76), (0x301, 0x3AF), (0x304, 0x1FD1),
  (0x306, 0x1FD0), (0x308, 0x3CA), (0x313, 0x1F30), (0x314, 0x1F31), (0x342, 0x1FD6)] .leaf) 0x3BF
  0x3BF [(0x300, 0x1F78), (0x301, 0x3CC), (0x313, 0x1F40), (0x314, 0x1F41)] (.node (.node .leaf
  0x3C1 0x3C1 [(0x313, 0x1FE4), (0x314, 0x1FE5)] .leaf) 0x3C5 0x3C5 [(0x300, 0x1F7A),
  (0x301, 0x3CD), (0x304, 0x1FE1), (0x306, 0x1FE0), (0x308, 0x3CB), (0x313, 0x1F50),
  (0x314, 0x1F51), (0x342, 0x1FE6)] .leaf)) 0x3C9 0x3C9 [(0x300, 0x1F7C), (0x301, 0x3CE),
  (0x313, 0x1F60), (0x314, 0x1F61), (0x342, 0x1FF6), (0x345, 0x1FF3)] (.node (.node (.node .leaf
  0x3CA 0x3CA [(0x300, 0x1FD2), (0x301, 0x390), (0x342, 0x1FD7)] .leaf) 0x3CB 0x3CB
  [(0x300, 0x1FE2), (0x301, 0x3B0), (0x342, 0x1FE7)] .leaf) 0x3CE 0x3CE [(0x345, 0x1FF4)] (.node (
  .node .leaf 0x3D2 0x3D2 [(0x301, 0x3D3), (0x308, 0x3D4)] .leaf) 0x406 0x406 [(0x308, 0x407)]
  .leaf))) 0x410 0x410 [(0x306, 0x4D0), (0x308, 0x4D2)] (.node (.node (.node (.node .leaf 0x413
  0x413 [(0x301, 0x403)] .leaf) 0x415 0x415 [(0x300, 0x400), (0x306, 0x4D6), (0x308, 0x401)] .leaf)
  0x416 0x416 [(0x306, 0x4C1), (0x308, 0x4DC)] (.node (.node .leaf 0x417 0x417 [(0x308, 0x4DE)]
  .leaf) 0x418 0x418 [(0x300, 0x40D), (0x304, 0x4E2), (0x306, 0x419), (0x308, 0x4E4)] .leaf)) 0x41A
  0x41A [(0x301, 0x40C)] (.node (.node (.node .leaf 0x41E 0x41E [(0x308, 0x4E6)] .leaf) 0x423 0x423
  [(0x304, 0x4EE), (0x306, 0x40E), (0x308, 0x4F0), (0x30B, 0x4F2)] .leaf) 0x427 0x427
  [(0x308, 0x4F4)] (.node .leaf 0x42B 0x42B [(0x308, 0x4F8)] .leaf))))) 0x42D 0x42D
  [(0x308, 0x4EC)] (.node (.node (.node (.node (.node (.node .leaf 0x430 0x430 [(0x306, 0x4D1),
  (0x308, 0x4D3)] .leaf) 0x433 0x433 [(0x301, 0x453)] .leaf) 0x435 0x435 [(0x300, 0x450),
  (0x306, 0x4D7), (0x308, 0x451)] (.node (.node .leaf 0x436 0x436 [(0x306, 0x4C2), (0x308, 0x4DD)]
  .leaf) 0x437 0x437 [(0x308, 0x4DF)] .leaf)) 0x438 0x438 [(0x300, 0x45D), (0x304, 0x4E3),
  (0x306, 0x439), (0x308, 0x4E5)] (.node (.node (.node .leaf 0x43A 0x43A [(0x301, 0x45C)] .leaf)
  0x43E 0x43E [(0x308, 0x4E7)] .leaf) 0x443 0x443 [(0x304, 0x4EF), (0x306, 0x45E), (0x308, 0x4F1),
  (0x30B, 0x4F3)] (.node (.node .leaf 0x447 0x447 [(0x308, 0x4F5)] .leaf) 0x44B 0x44B
  [(0x308, 0x4F9)] .leaf))) 0x44D 0x44D [(0x308, 0x4ED)] (.node (.node (.node (.node .leaf 0x456
  0x456 [(0x308, 0x457)] .leaf) 0x474 0x474 [(0x30F, 0x476)] .leaf) 0x475 0x475 [(0x30F, 0x477)] (
  .node (.node .leaf 0x4D8 0x4D8 [(0x308, 0x4DA)] .leaf) 0x4D9 0x4D9 [(0x308, 0x4DB)] .leaf)) 0x4E8
  0x4E8 [(0x308, 0x4EA)] (.node (.node (.node .leaf 0x4E9 0x4E9 [(0x308, 0x4EB)] .leaf) 0x627 0x627
  [(0x653, 0x622), (0x654, 0x623), (0x655, 0x625)] .leaf) 0x648 0x648 [(0x654, 0x624)] (.node (
  .node .leaf 0x64A 0x64A [(0x654, 0x626)] .leaf) 0x6C1 0x6C1 [(0x654, 0x6C2)] .leaf)))) 0x6D2
  0x6D2 [(0x654, 0x6D3)] (.node (.node (.node (.node (.node .leaf 0x6D5 0x6D5 [(0x654, 0x6C0)]
  .leaf) 0x928 0x928 [(0x93C, 0x929)] .leaf) 0x930 0x930 [(0x93C, 0x931)] (.node (.node .leaf 0x933
  0x933 [(0x93C, 0x934)] .leaf) 0x9C7 0x9C7 [(0x9BE, 0x9CB), (0x9D7, 0x9CC)] .leaf)) 0xB47 0xB47
  [(0xB3E, 0xB4B), (0xB56, 0xB48), (0xB57, 0xB4C)] (.node (.node (.node .leaf 0xB92 0xB92
  [(0xBD7, 0xB94)] .leaf) 0xBC6 0xBC6 [(0xBBE, 0xBCA), (0xBD7, 0xBCC)] .leaf) 0xBC7 0xBC7
  [(0xBBE, 0xBCB)] (.node (.node .leaf 0xC46 0xC46 [(0xC56, 0xC48)] .leaf) 0xCBF 0xCBF
  [(0xCD5, 0xCC0)] .leaf))) 0xCC6 0xCC6 [(0xCC2, 0xCCA), (0xCD5, 0xCC7), (0xCD6, 0xCC8)] (.node (
  .node (.node (.node .leaf 0xCCA 0xCCA [(0xCD5, 0xCCB)] .leaf) 0xD46 0xD46 [(0xD3E, 0xD4A),
  (0xD57, 0xD4C)] .leaf) 0xD47 0xD47 [(0xD3E, 0xD4B)] (.node (.node .leaf 0xDD9 0xDD9
  [(0xDCA, 0xDDA), (0xDCF, 0xDDC), (0xDDF, 0xDDE)] .leaf) 0xDDC 0xDDC [(0xDCA, 0xDDD)] .leaf))
  0x1025 0x1025 [(0x102E, 0x1026)] (.node (.node (.node .leaf 0x1B05 0x1B05 [(0x1B35, 0x1B06)]
  .leaf) 0x1B07 0x1B07 [(0x1B35, 0x1B08)] .leaf) 0x1B09 0x1B09 [(0x1B35, 0x1B0A)] (.node .leaf
  0x1B0B 0x1B0B [(0x1B35, 0x1B0C)] .leaf))))))) 0x1B0D 0x1B0D [(0x1B35, 0x1B0E)] (.node (.node (
  .node (.node (.node (.node (.node (.node .leaf 0x1B11 0x1B11 [(0x1B35, 0x1B12)] .leaf) 0x1B3A
  0x1B3A [(0x1B35, 0x1B3B)] .leaf) 0x1B3C 0x1B3C [(0x1B35, 0x1B3D)] (.node (.node .leaf 0x1B3E
  0x1B3E [(0x1B35, 0x1B40)] .leaf) 0x1B3F 0x1B3F [(0x1B35, 0x1B41)] .leaf)) 0x1B42 0x1B42
  [(0x1B35, 0x1B43)] (.node (.node (.node .leaf 0x1E36 0x1E36 [(0x304, 0x1E38)] .leaf) 0x1E37
  0x1E37 [(0x304, 0x1E39)] .leaf) 0x1E5A 0x1E5A [(0x304, 0x1E5C)] (.node (.node .leaf 0x1E5B 0x1E5B
  [(0x304, 0x1E5D)] .leaf) 0x1E62 0x1E62 [(0x307, 0x1E68)] .leaf))) 0x1E63 0x1E63 [(0x307, 0x1E69)]
  (.node (.node (.node (.node .leaf 0x1EA0 0x1EA0 [(0x302, 0x1EAC), (0x306, 0x1EB6)] .leaf) 0x1EA1
  0x1EA1 [(0x302, 0x1EAD), (0x306, 0x1EB7)] .leaf) 0x1EB8 0x1EB8 [(0x302, 0x1EC6)] (.node (.node
  .leaf 0x1EB9 0x1EB9 [(0x302, 0x1EC7)] .leaf) 0x1ECC 0x1ECC [(0x302, 0x1ED8)] .leaf)) 0x1ECD
  0x1ECD [(0x302, 0x1ED9)] (.node (.node (.node .leaf 0x1F00 0x1F00 [(0x300, 0x1F02),
  (0x301, 0x1F04), (0x342, 0x1F06), (0x345, 0x1F80)] .leaf) 0x1F01 0x1F01 [(0x300, 0x1F03),
  (0x301, 0x1F05), (0x342, 0x1F07), (0x345, 0x1F81)] .leaf) 0x1F02 0x1F02 [(0x345, 0x1F82)] (.node
  (.node .leaf 0x1F03 0x1F03 [(0x345, 0x1F83)] .leaf) 0x1F04 0x1F04 [(0x345, 0x1F84)] .leaf))))
  0x1F05 0x1F05 [(0x345, 0x1F85)] (.node (.node (.node (.node (.node .leaf 0x1F06 0x1F06
  [(0x345, 0x1F86)] .leaf) 0x1F07 0x1F07 [(0x345, 0x1F87)] .leaf) 0x1F08 0x1F08 [(0x300, 0x1F0A),
  (0x301, 0x1F0C), (0x342, 0x1F0E), (0x345, 0x1F88)] (.node (.node .leaf 0x1F09 0x1F09
  [(0x300, 0x1F0B), (0x301, 0x1F0D), (0x342, 0x1F0F), (0x345, 0x1F89)] .leaf) 0x1F0A 0x1F0A
  [(0x345, 0x1F8A)] .leaf)) 0x1F0B 0x1F0B [(0x345, 0x1F8B)] (.node (.node (.node .leaf 0x1F0C
  0x1F0C [(0x345, 0x1F8C)] .leaf) 0x1F0D 0x1F0D [(0x345, 0x1F8D)] .leaf) 0x1F0E 0x1F0E
  [(0x345, 0x1F8E)] (.node (.node .leaf 0x1F0F 0x1F0F [(0x345, 0x1F8F)] .leaf) 0x1F10 0x1F10
  [(0x300, 0x1F12), (0x301, 0x1F14)] .leaf))) 0x1F11 0x1F11 [(0x300, 0x1F13), (0x301, 0x1F15)] (
  .node (.node (.node (.node .leaf 0x1F18 0x1F18 [(0x300, 0x1F1A), (0x301, 0x1F1C)] .leaf) 0x1F19
  0x1F19 [(0x300, 0x1F1B), (0x301, 0x1F1D)] .leaf) 0x1F20 0x1F20 [(0x300, 0x1F22), (0x301, 0x1F24),
  (0x342, 0x1F26), (0x345, 0x1F90)] (.node (.node .leaf 0x1F21 0x1F21 [(0x300, 0x1F23),
  (0x301, 0x1F25), (0x342, 0x1F27), (0x345, 0x1F91)] .leaf) 0x1F22 0x1F22 [(0x345, 0x1F92)] .leaf))
  0x1F23 0x1F23 [(0x345, 0x1F93)] (.node (.node (.node .leaf 0x1F24 0x1F24 [(0x345, 0x1F94)] .leaf)
  0x1F25 0x1F25 [(0x345, 0x1F95)] .leaf) 0x1F26 0x1F26 [(0x345, 0x1F96)] (.node (.node .leaf 0x1F27
  0x1F27 [(0x345, 0x1F97)] .leaf) 0x1F28 0x1F28 [(0x300, 0x1F2A), (0x301, 0x1F2C), (0x342, 0x1F2E),
  (0x345, 0x1F98)] .leaf))))) 0x1F29 0x1F29 [(0x300, 0x1F2B), (0x301, 0x1F2D), (0x342, 0x1F2F),
  (0x345, 0x1F99)] (.node (.node (.node (.node (.node (.node .leaf 0x1F2A 0x1F2A [(0x345, 0x1F9A)]
  .leaf) 0x1F2B 0x1F2B [(0x345, 0x1F9B)] .leaf) 0x1F2C 0x1F2C [(0x345, 0x1F9C)] (.node (.node .leaf
  0x1F2D 0x1F2D [(0x345, 0x1F9D)] .leaf) 0x1F2E 0x1F2E [(0x345, 0x1F9E)] .leaf)) 0x1F2F 0x1F2F
  [(0x345, 0x1F9F)] (.node (.node (.node .leaf 0x1F30 0x1F30 [(0x300, 0x1F32), (0x301, 0x1F34),
  (0x342, 0x1F36)] .leaf) 0x1F31 0x1F31 [(0x300, 0x1F33), (0x301, 0x1F35), (0x342, 0x1F37)] .leaf)
  0x1F38 0x1F38 [(0x300, 0x1F3A), (0x301, 0x1F3C), (0x342, 0x1F3E)] (.node (.node .leaf 0x1F39
  0x1F39 [(0x300, 0x1F3B), (0x301, 0x1F3D), (0x342, 0x1F3F)] .leaf) 0x1F40 0x1F40 [(0x300, 0x1F42),
  (0x301, 0x1F44)] .leaf))) 0x1F41 0x1F41 [(0x300, 0x1F43), (0x301, 0x1F45)] (.node (.node (.node (
  .node .leaf 0x1F48 0x1F48 [(0x300, 0x1F4A), (0x301, 0x1F4C)] .leaf) 0x1F49 0x1F49
  [(0x300, 0x1F4B), (0x301, 0x1F4D)] .leaf) 0x1F50 0x1F50 [(0x300, 0x1F52), (0x301, 0x1F54),
  (0x342, 0x1F56)] (.node (.node .leaf 0x1F51 0x1F51 [(0x300, 0x1F53), (0x301, 0x1F55),
  (0x342, 0x1F57)] .leaf) 0x1F59 0x1F59 [(0x300, 0x1F5B), (0x301, 0x1F5D), (0x342, 0x1F5F)] .leaf))
  0x1F60 0x1F60 [(0x300, 0x1F62), (0x301, 0x1F64), (0x342, 0x1F66), (0x345, 0x1FA0)] (.node (.node
  (.node .leaf 0x1F61 0x1F61 [(0x300, 0x1F63), (0x301, 0x1F65), (0x342, 0x1F67), (0x345, 0x1FA1)]
  .leaf) 0x1F62 0x1F62 [(0x345, 0x1FA2)] .leaf) 0x1F63 0x1F63 [(0x345, 0x1FA3)] (.node (.node .leaf
  0x1F64 0x1F64 [(0x345, 0x1FA4)] .leaf) 0x1F65 0x1F65 [(0x345, 0x1FA5)] .leaf)))) 0x1F66 0x1F66
  [(0x345, 0x1FA6)] (.node (.node (.node (.node (.node .leaf 0x1F67 0x1F67 [(0x345, 0x1FA7)] .leaf)
  0x1F68 0x1F68 [(0x300, 0x1F6A), (0x301, 0x1F6C), (0x342, 0x1F6E), (0x345, 0x1FA8)] .leaf) 0x1F69
  0x1F69 [(0x300, 0x1F6B), (0x301, 0x1F6D), (0x342, 0x1F6F), (0x345, 0x1FA9)] (.node (.node .leaf
  0x1F6A 0x1F6A [(0x345, 0x1FAA)] .leaf) 0x1F6B 0x1F6B [(0x345, 0x1FAB)] .leaf)) 0x1F6C 0x1F6C
  [(0x345, 0x1FAC)] (.node (.node (.node .leaf 0x1F6D 0x1F6D [(0x345, 0x1FAD)] .leaf) 0x1F6E 0x1F6E
  [(0x345, 0x1FAE)] .leaf) 0x1F6F 0x1F6F [(0x345, 0x1FAF)] (.node (.node .leaf 0x1F70 0x1F70
  [(0x345, 0x1FB2)] .leaf) 0x1F74 0x1F74 [(0x345, 0x1FC2)] .leaf))) 0x1F7C 0x1F7C [(0x345, 0x1FF2)]
  (.node (.node (.node (.node .leaf 0x1FB6 0x1FB6 [(0x345, 0x1FB7)] .leaf) 0x1FBF 0x1FBF
  [(0x300, 0x1FCD), (0x301, 0x1FCE), (0x342, 0x1FCF)] .leaf) 0x1FC6 0x1FC6 [(0x345, 0x1FC7)] (.node
  (.node .leaf 0x1FF6 0x1FF6 [(0x345, 0x1FF7)] .leaf) 0x1FFE 0x1FFE [(0x300, 0x1FDD),
  (0x301, 0x1FDE), (0x342, 0x1FDF)] .leaf)) 0x2190 0x2190 [(0x338, 0x219A)] (.node (.node (.node
  .leaf 0x2192 0x2192 [(0x338, 0x219B)] .leaf) 0x2194 0x2194 [(0x338, 0x21AE)] .leaf) 0x21D0 0x21D0
  [(0x338, 0x21CD)] (.node .leaf 0x21D2 0x21D2 [(0x338, 0x21CF)] .leaf)))))) 0x21D4 0x21D4
  [(0x338, 0x21CE)] (.node (.node (.node (.node (.node (.node (.node .leaf 0x2203 0x2203
  [(0x338, 0x2204)] .leaf) 0x2208 0x2208 [(0x338, 0x2209)] .leaf) 0x220B 0x220B [(0x338, 0x220C)] (
  .node (.node .leaf 0x2223 0x2223 [(0x338, 0x2224)] .leaf) 0x2225 0x2225 [(0x338, 0x2226)] .leaf))
  0x223C 0x223C [(0x338, 0x2241)] (.node (.node (.node .leaf 0x2243 0x2243 [(0x338, 0x2244)] .leaf)
  0x2245 0x2245 [(0x338, 0x2247)] .leaf) 0x2248 0x2248 [(0x338, 0x2249)] (.node (.node .leaf 0x224D
  0x224D [(0x338, 0x226D)] .leaf) 0x2261 0x2261 [(0x338, 0x2262)] .leaf))) 0x2264 0x2264
  [(0x338, 0x2270)] (.node (.node (.node (.node .leaf 0x2265 0x2265 [(0x338, 0x2271)] .leaf) 0x2272
  0x2272 [(0x338, 0x2274)] .leaf) 0x2273 0x2273 [(0x338, 0x2275)] (.node (.node .leaf 0x2276 0x2276
  [(0x338, 0x2278)] .leaf) 0x2277 0x2277 [(0x338, 0x2279)] .leaf)) 0x227A 0x227A [(0x338, 0x2280)]
  (.node (.node (.node .leaf 0x227B 0x227B [(0x338, 0x2281)] .leaf) 0x227C 0x227C [(0x338, 0x22E0)]
  .leaf) 0x227D 0x227D [(0x338, 0x22E1)] (.node (.node .leaf 0x2282 0x2282 [(0x338, 0x2284)] .leaf)
  0x2283 0x2283 [(0x338, 0x2285)] .leaf)))) 0x2286 0x2286 [(0x338, 0x2288)] (.node (.node (.node (
  .node (.node .leaf 0x2287 0x2287 [(0x338, 0x2289)] .leaf) 0x2291 0x2291 [(0x338, 0x22E2)] .leaf)
  0x2292 0x2292 [(0x338, 0x22E3)] (.node (.node .leaf 0x22A2 0x22A2 [(0x338, 0x22AC)] .leaf) 0x22A8
  0x22A8 [(0x338, 0x22AD)] .leaf)) 0x22A9 0x22A9 [(0x338, 0x22AE)] (.node (.node (.node .leaf
  0x22AB 0x22AB [(0x338, 0x22AF)] .leaf) 0x22B2 0x22B2 [(0x338, 0x22EA)] .leaf) 0x22B3 0x22B3
  [(0x338, 0x22EB)] (.node (.node .leaf 0x22B4 0x22B4 [(0x338, 0x22EC)] .leaf) 0x22B5 0x22B5
  [(0x338, 0x22ED)] .leaf))) 0x3046 0x3046 [(0x3099, 0x3094)] (.node (.node (.node (.node .leaf
  0x304B 0x304B [(0x3099, 0x304C)] .leaf) 0x304D 0x304D [(0x3099, 0x304E)] .leaf) 0x304F 0x304F
  [(0x3099, 0x3050)] (.node (.node .leaf 0x3051 0x3051 [(0x3099, 0x3052)] .leaf) 0x3053 0x3053
  [(0x3099, 0x3054)] .leaf)) 0x3055 0x3055 [(0x3099, 0x3056)] (.node (.node (.node .leaf 0x3057
  0x3057 [(0x3099, 0x3058)] .leaf) 0x3059 0x3059 [(0x3099, 0x305A)] .leaf) 0x305B 0x305B
  [(0x3099, 0x305C)] (.node .leaf 0x305D 0x305D [(0x3099, 0x305E)] .leaf))))) 0x305F 0x305F
  [(0x3099, 0x3060)] (.node (.node (.node (.node (.node (.node .leaf 0x3061 0x3061
  [(0x3099, 0x3062)] .leaf) 0x3064 0x3064 [(0x3099, 0x3065)] .leaf) 0x3066 0x3066
  [(0x3099, 0x3067)] (.node (.node .leaf 0x3068 0x3068 [(0x3099, 0x3069)] .leaf) 0x306F 0x306F
  [(0x3099, 0x3070), (0x309A, 0x3071)] .leaf)) 0x3072 0x3072 [(0x3099, 0x3073), (0x309A, 0x3074)] (
  .node (.node (.node .leaf 0x3075 0x3075 [(0x3099, 0x3076), (0x309A, 0x3077)] .leaf) 0x3078 0x3078
  [(0x3099, 0x3079), (0x309A, 0x307A)] .leaf) 0x307B 0x307B [(0x3099, 0x307C), (0x309A, 0x307D)] (
  .node (.node .leaf 0x309D 0x309D [(0x3099, 0x309E)] .leaf) 0x30A6 0x30A6 [(0x3099, 0x30F4)] .leaf
  ))) 0x30AB 0x30AB [(0x3099, 0x30AC)] (.node (.node (.node (.node .leaf 0x30AD 0x30AD
  [(0x3099, 0x30AE)] .leaf) 0x30AF 0x30AF [(0x3099, 0x30B0)] .leaf) 0x30B1 0x30B1
  [(0x3099, 0x30B2)] (.node (.node .leaf 0x30B3 0x30B3 [(0x3099, 0x30B4)] .leaf) 0x30B5 0x30B5
  [(0x3099, 0x30B6)] .leaf)) 0x30B7 0x30B7 [(0x3099, 0x30B8)] (.node (.node (.node .leaf 0x30B9
  0x30B9 [(0x3099, 0x30BA)] .leaf) 0x30BB 0x30BB [(0x3099, 0x30BC)] .leaf) 0x30BD 0x30BD
  [(0x3099, 0x30BE)] (.node (.node .leaf 0x30BF 0x30BF [(0x3099, 0x30C0)] .leaf) 0x30C1 0x30C1
  [(0x3099, 0x30C2)] .leaf)))) 0x30C4 0x30C4 [(0x3099, 0x30C5)] (.node (.node (.node (.node (.node
  .leaf 0x30C6 0x30C6 [(0x3099, 0x30C7)] .leaf) 0x30C8 0x30C8 [(0x3099, 0x30C9)] .leaf) 0x30CF
  0x30CF [(0x3099, 0x30D0), (0x309A, 0x30D1)] (.node (.node .leaf 0x30D2 0x30D2 [(0x3099, 0x30D3),
  (0x309A, 0x30D4)] .leaf) 0x30D5 0x30D5 [(0x3099, 0x30D6), (0x309A, 0x30D7)] .leaf)) 0x30D8 0x30D8
  [(0x3099, 0x30D9), (0x309A, 0x30DA)] (.node (.node (.node .leaf 0x30DB 0x30DB [(0x3099, 0x30DC),
  (0x309A, 0x30DD)] .leaf) 0x30EF 0x30EF [(0x3099, 0x30F7)] .leaf) 0x30F0 0x30F0 [(0x3099, 0x30F8)]
  (.node (.node .leaf 0x30F1 0x30F1 [(0x3099, 0x30F9)] .leaf) 0x30F2 0x30F2 [(0x3099, 0x30FA)]
  .leaf))) 0x30FD 0x30FD [(0x3099, 0x30FE)] (.node (.node (.node (.node .leaf 0x11099 0x11099
  [(0x110BA, 0x1109A)] .leaf) 0x1109B 0x1109B [(0x110BA, 0x1109C)] .leaf) 0x110A5 0x110A5
  [(0x110BA, 0x110AB)] (.node (.node .leaf 0x11131 0x11131 [(0x11127, 0x1112E)] .leaf) 0x11132
  0x11132 [(0x11127, 0x1112F)] .leaf)) 0x11347 0x11347 [(0x1133E, 0x1134B), (0x11357, 0x1134C)] (
  .node (.node (.node .leaf 0x114B9 0x114B9 [(0x114B0, 0x114BC), (0x114BA, 0x114BB),
  (0x114BD, 0x114BE)] .leaf) 0x115B8 0x115B8 [(0x115AF, 0x115BA)] .leaf) 0x115B9 0x115B9
  [(0x115AF, 0x115BB)] (.node .leaf 0x11935 0x11935 [(0x11930, 0x11938)] .leaf)))))))

/-- The range table `unicode.Mn`. -/
def mnTable : Table Unit :=
  .node (.node (.node (.node (.node (.node (.node (.node (.node .leaf 0x300 0x36F () .leaf) 0x483
  0x487 () .leaf) 0x591 0x5BD () (.node (.node .leaf 0x5BF 0x5BF () .leaf) 0x5C1 0x5C2 () .leaf))
  0x5C4 0x5C5 () (.node (.node (.node .leaf 0x5C7 0x5C7 () .leaf) 0x610 0x61A () .leaf) 0x64B 0x65F
  () (.node .leaf 0x670 0x670 () .leaf))) 0x6D6 0x6DC () (.node (.node (.node (.node .leaf 0x6DF
  0x6E4 () .leaf) 0x6E7 0x6E8 () .leaf) 0x6EA 0x6ED () (.node (.node .leaf 0x711 0x711 () .leaf)
  0x730 0x74A () .leaf)) 0x7A6 0x7B0 () (.node (.node (.node .leaf 0x7EB 0x7F3 () .leaf) 0x7FD
  0x7FD () .leaf) 0x816 0x819 () (.node .leaf 0x81B 0x823 () .leaf)))) 0x825 0x827 () (.node (.node
  (.node (.node (.node .leaf 0x829 0x82D () .leaf) 0x859 0x85B () .leaf) 0x898 0x89F () (.node (
  .node .leaf 0x8CA 0x8E1 () .leaf) 0x8E3 0x902 () .leaf)) 0x93A 0x93A () (.node (.node (.node
  .leaf 0x93C 0x93C () .leaf) 0x941 0x948 () .leaf) 0x94D 0x94D () (.node .leaf 0x951 0x957 ()
  .leaf))) 0x962 0x963 () (.node (.node (.node (.node .leaf 0x981 0x981 () .leaf) 0x9BC 0x9BC ()
  .leaf) 0x9C1 0x9C4 () (.node .leaf 0x9CD 0x9CD () .leaf)) 0x9E2 0x9E3 () (.node (.node (.node
  .leaf 0x9FE 0x9FE () .leaf) 0xA01 0xA02 () .leaf) 0xA3C 0xA3C () (.node .leaf 0xA41 0xA42 ()
  .leaf))))) 0xA47 0xA48 () (.node (.node (.node (.node (.node (.node .leaf 0xA4B 0xA4D () .leaf)
  0xA51 0xA51 () .leaf) 0xA70 0xA71 () (.node (.node .leaf 0xA75 0xA75 () .leaf) 0xA81 0xA82 ()
  .leaf)) 0xABC 0xABC () (.node (.node (.node .leaf 0xAC1 0xAC5 () .leaf) 0xAC7 0xAC8 () .leaf)
  0xACD 0xACD () (.node .leaf 0xAE2 0xAE3 () .leaf))) 0xAFA 0xAFF () (.node (.node (.node (.node
  .leaf 0xB01 0xB01 () .leaf) 0xB3C 0xB3C () .leaf) 0xB3F 0xB3F () (.node .leaf 0xB41 0xB44 ()
  .leaf)) 0xB4D 0xB4D () (.node (.node (.node .leaf 0xB55 0xB56 () .leaf) 0xB62 0xB63 () .leaf)
  0xB82 0xB82 () (.node .leaf 0xBC0 0xBC0 () .leaf)))) 0xBCD 0xBCD () (.node (.node (.node (.node (
  .node .leaf 0xC00 0xC00 () .leaf) 0xC04 0xC04 () .leaf) 0xC3C 0xC3C () (.node (.node .leaf 0xC3E
  0xC40 () .leaf) 0xC46 0xC48 () .leaf)) 0xC4A 0xC4D () (.node (.node (.node .leaf 0xC55 0xC56 ()
  .leaf) 0xC62 0xC63 () .leaf) 0xC81 0xC81 () (.node .leaf 0xCBC 0xCBC () .leaf))) 0xCBF 0xCBF () (
  .node (.node (.node (.node .leaf 0xCC6 0xCC6 () .leaf) 0xCCC 0xCCD () .leaf) 0xCE2 0xCE3 () (
  .node .leaf 0xD00 0xD01 () .leaf)) 0xD3B 0xD3C () (.node (.node (.node .leaf 0xD41 0xD44 () .leaf
  ) 0xD4D 0xD4D () .leaf) 0xD62 0xD63 () (.node .leaf 0xD81 0xD81 () .leaf)))))) 0xDCA 0xDCA () (
  .node (.node (.node (.node (.node (.node (.node .leaf 0xDD2 0xDD4 () .leaf) 0xDD6 0xDD6 () .leaf)
  0xE31 0xE31 () (.node (.node .leaf 0xE34 0xE3A () .leaf) 0xE47 0xE4E () .leaf)) 0xEB1 0xEB1 () (
  .node (.node (.node .leaf 0xEB4 0xEBC () .leaf) 0xEC8 0xECD () .leaf) 0xF18 0xF19 () (.node .leaf
  0xF35 0xF35 () .leaf))) 0xF37 0xF37 () (.node (.node (.node (.node .leaf 0xF39 0xF39 () .leaf)
  0xF71 0xF7E () .leaf) 0xF80 0xF84 () (.node .leaf 0xF86 0xF87 () .leaf)) 0xF8D 0xF97 () (.node (
  .node (.node .leaf 0xF99 0xFBC () .leaf) 0xFC6 0xFC6 () .leaf) 0x102D 0x1030 () (.node .leaf
  0x1032 0x1037 () .leaf)))) 0x1039 0x103A () (.node (.node (.node (.node (.node .leaf 0x103D
  0x103E () .leaf) 0x1058 0x1059 () .leaf) 0x105E 0x1060 () (.node (.node .leaf 0x1071 0x1074 ()
  .leaf) 0x1082 0x1082 () .leaf)) 0x1085 0x1086 () (.node (.node (.node .leaf 0x108D 0x108D ()
  .leaf) 0x109D 0x109D () .leaf) 0x135D 0x135F () (.node .leaf 0x1712 0x1714 () .leaf))) 0x1732
  0x1733 () (.node (.node (.node (.node .leaf 0x1752 0x1753 () .leaf) 0x1772 0x1773 () .leaf)
  0x17B4 0x17B5 () (.node .leaf 0x17B7 0x17BD () .leaf)) 0x17C6 0x17C6 () (.node (.node (.node
  .leaf 0x17C9 0x17D3 () .leaf) 0x17DD 0x17DD () .leaf) 0x180B 0x180D () (.node .leaf 0x180F 0x180F
  () .leaf))))) 0x1885 0x1886 () (.node (.node (.node (.node (.node (.node .leaf 0x18A9 0x18A9 ()
  .leaf) 0x1920 0x1922 () .leaf) 0x1927 0x1928 () (.node (.node .leaf 0x1932 0x1932 () .leaf)
  0x1939 0x193B () .leaf)) 0x1A17 0x1A18 () (.node (.node (.node .leaf 0x1A1B 0x1A1B () .leaf)
  0x1A56 0x1A56 () .leaf) 0x1A58 0x1A5E () (.node .leaf 0x1A60 0x1A60 () .leaf))) 0x1A62 0x1A62 ()
  (.node (.node (.node (.node .leaf 0x1A65 0x1A6C () .leaf) 0x1A73 0x1A7C () .leaf) 0x1A7F 0x1A7F
  () (.node .leaf 0x1AB0 0x1ABD () .leaf)) 0x1ABF 0x1ACE () (.node (.node (.node .leaf 0x1B00
  0x1B03 () .leaf) 0x1B34 0x1B34 () .leaf) 0x1B36 0x1B3A () (.node .leaf 0x1B3C 0x1B3C () .leaf))))
  0x1B42 0x1B42 () (.node (.node (.node (.node (.node .leaf 0x1B6B 0x1B73 () .leaf) 0x1B80 0x1B81
  () .leaf) 0x1BA2 0x1BA5 () (.node (.node .leaf 0x1BA8 0x1BA9 () .leaf) 0x1BAB 0x1BAD () .leaf))
  0x1BE6 0x1BE6 () (.node (.node (.node .leaf 0x1BE8 0x1BE9 () .leaf) 0x1BED 0x1BED () .leaf)
  0x1BEF 0x1BF1 () (.node .leaf 0x1C2C 0x1C33 () .leaf))) 0x1C36 0x1C37 () (.node (.node (.node (
  .node .leaf 0x1CD0 0x1CD2 () .leaf) 0x1CD4 0x1CE0 () .leaf) 0x1CE2 0x1CE8 () (.node .leaf 0x1CED
  0x1CED () .leaf)) 0x1CF4 0x1CF4 () (.node (.node (.node .leaf 0x1CF8 0x1CF9 () .leaf) 0x1DC0
  0x1DFF () .leaf) 0x20D0 0x20DC () (.node .leaf 0x20E1 0x20E1 () .leaf))))))) 0x20E5 0x20F0 () (
  .node (.node (.node (.node (.node (.node (.node (.node .leaf 0x2CEF 0x2CF1 () .leaf) 0x2D7F
  0x2D7F () .leaf) 0x2DE0 0x2DFF () (.node (.node .leaf 0x302A 0x302D () .leaf) 0x3099 0x309A ()
  .leaf)) 0xA66F 0xA66F () (.node (.node (.node .leaf 0xA674 0xA67D () .leaf) 0xA69E 0xA69F ()
  .leaf) 0xA6F0 0xA6F1 () (.node .leaf 0xA802 0xA802 () .leaf))) 0xA806 0xA806 () (.node (.node (
  .node (.node .leaf 0xA80B 0xA80B () .leaf) 0xA825 0xA826 () .leaf) 0xA82C 0xA82C () (.node .leaf
  0xA8C4 0xA8C5 () .leaf)) 0xA8E0 0xA8F1 () (.node (.node (.node .leaf 0xA8FF 0xA8FF () .leaf)
  0xA926 0xA92D () .leaf) 0xA947 0xA951 () (.node .leaf 0xA980 0xA982 () .leaf)))) 0xA9B3 0xA9B3 ()
  (.node (.node (.node (.node (.node .leaf 0xA9B6 0xA9B9 () .leaf) 0xA9BC 0xA9BD () .leaf) 0xA9E5
  0xA9E5 () (.node (.node .leaf 0xAA29 0xAA2E () .leaf) 0xAA31 0xAA32 () .leaf)) 0xAA35 0xAA36 () (
  .node (.node (.node .leaf 0xAA43 0xAA43 () .leaf) 0xAA4C 0xAA4C () .leaf) 0xAA7C 0xAA7C () (.node
  .leaf 0xAAB0 0xAAB0 () .leaf))) 0xAAB2 0xAAB4 () (.node (.node (.node (.node .leaf 0xAAB7 0xAAB8
  () .leaf) 0xAABE 0xAABF () .leaf) 0xAAC1 0xAAC1 () (.node .leaf 0xAAEC 0xAAED () .leaf)) 0xAAF6
  0xAAF6 () (.node (.node (.node .leaf 0xABE5 0xABE5 () .leaf) 0xABE8 0xABE8 () .leaf) 0xABED
  0xABED () (.node .leaf 0xFB1E 0xFB1E () .leaf))))) 0xFE00 0xFE0F () (.node (.node (.node (.node (
  .node (.node .leaf 0xFE20 0xFE2F () .leaf) 0x101FD 0x101FD () .leaf) 0x102E0 0x102E0 () (.node (
  .node .leaf 0x10376 0x1037A () .leaf) 0x10A01 0x10A03 () .leaf)) 0x10A05 0x10A06 () (.node (.node
  (.node .leaf 0x10A0C 0x10A0F () .leaf) 0x10A38 0x10A3A () .leaf) 0x10A3F 0x10A3F () (.node .leaf
  0x10AE5 0x10AE6 () .leaf))) 0x10D24 0x10D27 () (.node (.node (.node (.node .leaf 0x10EAB 0x10EAC
  () .leaf) 0x10F46 0x10F50 () .leaf) 0x10F82 0x10F85 () (.node .leaf 0x11001 0x11001 () .leaf))
  0x11038 0x11046 () (.node (.node (.node .leaf 0x11070 0x11070 () .leaf) 0x11073 0x11074 () .leaf)
  0x1107F 0x11081 () (.node .leaf 0x110B3 0x110B6 () .leaf)))) 0x110B9 0x110BA () (.node (.node (
  .node (.node (.node .leaf 0x110C2 0x110C2 () .leaf) 0x11100 0x11102 () .leaf) 0x11127 0x1112B ()
  (.node (.node .leaf 0x1112D 0x11134 () .leaf) 0x11173 0x11173 () .leaf)) 0x11180 0x11181 () (
  .node (.node (.node .leaf 0x111B6 0x111BE () .leaf) 0x111C9 0x111CC () .leaf) 0x111CF 0x111CF ()
  (.node .leaf 0x1122F 0x11231 () .leaf))) 0x11234 0x11234 () (.node (.node (.node (.node .leaf
  0x11236 0x11237 () .leaf) 0x1123E 0x1123E () .leaf) 0x112DF 0x112DF () (.node .leaf 0x112E3
  0x112EA () .leaf)) 0x11300 0x11301 () (.node (.node (.node .leaf 0x1133B 0x1133C () .leaf)
  0x11340 0x11340 () .leaf) 0x11366 0x1136C () (.node .leaf 0x11370 0x11374 () .leaf)))))) 0x11438
  0x1143F () (.node (.node (.node (.node (.node (.node (.node .leaf 0x11442 0x11444 () .leaf)
  0x11446 0x11446 () .leaf) 0x1145E 0x1145E () (.node (.node .leaf 0x114B3 0x114B8 () .leaf)
  0x114BA 0x114BA () .leaf)) 0x114BF 0x114C0 () (.node (.node (.node .leaf 0x114C2 0x114C3 () .leaf
  ) 0x115B2 0x115B5 () .leaf) 0x115BC 0x115BD () (.node .leaf 0x115BF 0x115C0 () .leaf))) 0x115DC
  0x115DD () (.node (.node (.node (.node .leaf 0x11633 0x1163A () .leaf) 0x1163D 0x1163D () .leaf)
  0x1163F 0x11640 () (.node .leaf 0x116AB 0x116AB () .leaf)) 0x116AD 0x116AD () (.node (.node (
  .node .leaf 0x116B0 0x116B5 () .leaf) 0x116B7 0x116B7 () .leaf) 0x1171D 0x1171F () (.node .leaf
  0x11722 0x11725 () .leaf)))) 0x11727 0x1172B () (.node (.node (.node (.node (.node .leaf 0x1182F
  0x11837 () .leaf) 0x11839 0x1183A () .leaf) 0x1193B 0x1193C () (.node (.node .leaf 0x1193E
  0x1193E () .leaf) 0x11943 0x11943 () .leaf)) 0x119D4 0x119D7 () (.node (.node (.node .leaf
  0x119DA 0x119DB () .leaf) 0x119E0 0x119E0 () .leaf) 0x11A01 0x11A0A () (.node .leaf 0x11A33
  0x11A38 () .leaf))) 0x11A3B 0x11A3E () (.node (.node (.node (.node .leaf 0x11A47 0x11A47 () .leaf
  ) 0x11A51 0x11A56 () .leaf) 0x11A59 0x11A5B () (.node .leaf 0x11A8A 0x11A96 () .leaf)) 0x11A98
  0x11A99 () (.node (.node (.node .leaf 0x11C30 0x11C36 () .leaf) 0x11C38 0x11C3D () .leaf) 0x11C3F
  0x11C3F () (.node .leaf 0x11C92 0x11CA7 () .leaf))))) 0x11CAA 0x11CB0 () (.node (.node (.node (
  .node (.node (.node .leaf 0x11CB2 0x11CB3 () .leaf) 0x11CB5 0x11CB6 () .leaf) 0x11D31 0x11D36 ()
  (.node (.node .leaf 0x11D3A 0x11D3A () .leaf) 0x11D3C 0x11D3D () .leaf)) 0x11D3F 0x11D45 () (
  .node (.node (.node .leaf 0x11D47 0x11D47 () .leaf) 0x11D90 0x11D91 () .leaf) 0x11D95 0x11D95 ()
  (.node .leaf 0x11D97 0x11D97 () .leaf))) 0x11EF3 0x11EF4 () (.node (.node (.node (.node .leaf
  0x16AF0 0x16AF4 () .leaf) 0x16B30 0x16B36 () .leaf) 0x16F4F 0x16F4F () (.node .leaf 0x16F8F
  0x16F92 () .leaf)) 0x16FE4 0x16FE4 () (.node (.node (.node .leaf 0x1BC9D 0x1BC9E () .leaf)
  0x1CF00 0x1CF2D () .leaf) 0x1CF30 0x1CF46 () (.node .leaf 0x1D167 0x1D169 () .leaf)))) 0x1D17B
  0x1D182 () (.node (.node (.node (.node (.node .leaf 0x1D185 0x1D18B () .leaf) 0x1D1AA 0x1D1AD ()
  .leaf) 0x1D242 0x1D244 () (.node (.node .leaf 0x1DA00 0x1DA36 () .leaf) 0x1DA3B 0x1DA6C () .leaf)
  ) 0x1DA75 0x1DA75 () (.node (.node (.node .leaf 0x1DA84 0x1DA84 () .leaf) 0x1DA9B 0x1DA9F ()
  .leaf) 0x1DAA1 0x1DAAF () (.node .leaf 0x1E000 0x1E006 () .leaf))) 0x1E008 0x1E018 () (.node (
  .node (.node (.node .leaf 0x1E01B 0x1E021 () .leaf) 0x1E023 0x1E024 () .leaf) 0x1E026 0x1E02A ()
  (.node .leaf 0x1E130 0x1E136 () .leaf)) 0x1E2AE 0x1E2AE () (.node (.node (.node .leaf 0x1E2EC
  0x1E2EF () .leaf) 0x1E8D0 0x1E8D6 () .leaf) 0x1E944 0x1E94A () (.node .leaf 0xE0100 0xE01EF ()
  .leaf)))))))

/-- The lower-case mappings of `unicode.CaseRanges`, with the value `(stride, lower)`: the
runes `first`, `first + stride`, ... up to `last` are mapped, `first` to `lower` and the
others by the same offset. -/
def lowerTable : Table (Nat × Nat) :=
  .node (.node (.node (.node (.node (.node (.node (.node .leaf 0x41 0x5A (1, 0x61) .leaf) 0xC0 0xD6
  (1, 0xE0) .leaf) 0xD8 0xDE (1, 0xF8) (.node (.node .leaf 0x100 0x12E (2, 0x101) .leaf) 0x130
  0x130 (1, 0x69) .leaf)) 0x132 0x136 (2, 0x133) (.node (.node (.node .leaf 0x139 0x147 (2, 0x13A)
  .leaf) 0x14A 0x176 (2, 0x14B) .leaf) 0x178 0x178 (1, 0xFF) (.node (.node .leaf 0x179 0x17D
  (2, 0x17A) .leaf) 0x181 0x181 (1, 0x253) .leaf))) 0x182 0x184 (2, 0x183) (.node (.node (.node (
  .node .leaf 0x186 0x186 (1, 0x254) .leaf) 0x187 0x187 (1, 0x188) .leaf) 0x189 0x18A (1, 0x256) (
  .node (.node .leaf 0x18B 0x18B (1, 0x18C) .leaf) 0x18E 0x18E (1, 0x1DD) .leaf)) 0x18F 0x18F
  (1, 0x259) (.node (.node (.node .leaf 0x190 0x190 (1, 0x25B) .leaf) 0x191 0x191 (1, 0x192) .leaf)
  0x193 0x193 (1, 0x260) (.node .leaf 0x194 0x194 (1, 0x263) .leaf)))) 0x196 0x196 (1, 0x269) (
  .node (.node (.node (.node (.node .leaf 0x197 0x197 (1, 0x268) .leaf) 0x198 0x198 (1, 0x199)
  .leaf) 0x19C 0x19C (1, 0x26F) (.node (.node .leaf 0x19D 0x19D (1, 0x272) .leaf) 0x19F 0x19F
  (1, 0x275) .leaf)) 0x1A0 0x1A4 (2, 0x1A1) (.node (.node (.node .leaf 0x1A6 0x1A6 (1, 0x280) .leaf
  ) 0x1A7 0x1A7 (1, 0x1A8) .leaf) 0x1A9 0x1A9 (1, 0x283) (.node (.node .leaf 0x1AC 0x1AC (1, 0x1AD)
  .leaf) 0x1AE 0x1AE (1, 0x288) .leaf))) 0x1AF 0x1AF (1, 0x1B0) (.node (.node (.node (.node .leaf
  0x1B1 0x1B2 (1, 0x28A) .leaf) 0x1B3 0x1B5 (2, 0x1B4) .leaf) 0x1B7 0x1B7 (1, 0x292) (.node (.node
  .leaf 0x1B8 0x1B8 (1, 0x1B9) .leaf) 0x1BC 0x1BC (1, 0x1BD) .leaf)) 0x1C4 0x1C4 (1, 0x1C6) (.node
  (.node (.node .leaf 0x1C5 0x1C5 (1, 0x1C6) .leaf) 0x1C7 0x1C7 (1, 0x1C9) .leaf) 0x1C8 0x1C8
  (1, 0x1C9) (.node .leaf 0x1CA 0x1CA (1, 0x1CC) .leaf))))) 0x1CB 0x1DB (2, 0x1CC) (.node (.node (
  .node (.node (.node (.node .leaf 0x1DE 0x1EE (2, 0x1DF) .leaf) 0x1F1 0x1F1 (1, 0x1F3) .leaf)
  0x1F2 0x1F4 (2, 0x1F3) (.node (.node .leaf 0x1F6 0x1F6 (1, 0x195) .leaf) 0x1F7 0x1F7 (1, 0x1BF)
  .leaf)) 0x1F8 0x21E (2, 0x1F9) (.node (.node (.node .leaf 0x220 0x220 (1, 0x19E) .leaf) 0x222
  0x232 (2, 0x223) .leaf) 0x23A 0x23A (1, 0x2C65) (.node (.node .leaf 0x23B 0x23B (1, 0x23C) .leaf)
  0x23D 0x23D (1, 0x19A) .leaf))) 0x23E 0x23E (1, 0x2C66) (.node (.node (.node (.node .leaf 0x241
  0x241 (1, 0x242) .leaf) 0x243 0x243 (1, 0x180) .leaf) 0x244 0x244 (1, 0x289) (.node (.node .leaf
  0x245 0x245 (1, 0x28C) .leaf) 0x246 0x24E (2, 0x247) .leaf)) 0x370 0x372 (2, 0x371) (.node (.node
  (.node .leaf 0x376 0x376 (1, 0x377) .leaf) 0x37F 0x37F (1, 0x3F3) .leaf) 0x386 0x386 (1, 0x3AC) (
  .node .leaf 0x388 0x38A (1, 0x3AD) .leaf)))) 0x38C 0x38C (1, 0x3CC) (.node (.node (.node (.node (
  .node .leaf 0x38E 0x38F (1, 0x3CD) .leaf) 0x391 0x3A1 (1, 0x3B1) .leaf) 0x3A3 0x3AB (1, 0x3C3) (
  .node (.node .leaf 0x3CF 0x3CF (1, 0x3D7) .leaf) 0x3D8 0x3EE (2, 0x3D9) .leaf)) 0x3F4 0x3F4
  (1, 0x3B8) (.node (.node (.node .leaf 0x3F7 0x3F7 (1, 0x3F8) .leaf) 0x3F9 0x3F9 (1, 0x3F2) .leaf)
  0x3FA 0x3FA (1, 0x3FB) (.node (.node .leaf 0x3FD 0x3FF (1, 0x37B) .leaf) 0x400 0x40F (1, 0x450)
  .leaf))) 0x410 0x42F (1, 0x430) (.node (.node (.node (.node .leaf 0x460 0x480 (2, 0x461) .leaf)
  0x48A 0x4BE (2, 0x48B) .leaf) 0x4C0 0x4C0 (1, 0x4CF) (.node (.node .leaf 0x4C1 0x4CD (2, 0x4C2)
  .leaf) 0x4D0 0x52E (2, 0x4D1) .leaf)) 0x531 0x556 (1, 0x561) (.node (.node (.node .leaf 0x10A0
  0x10C5 (1, 0x2D00) .leaf) 0x10C7 0x10C7 (1, 0x2D27) .leaf) 0x10CD 0x10CD (1, 0x2D2D) (.node .leaf
  0x13A0 0x13EF (1, 0xAB70) .leaf)))))) 0x13F0 0x13F5 (1, 0x13F8) (.node (.node (.node (.node (
  .node (.node (.node .leaf 0x1C90 0x1CBA (1, 0x10D0) .leaf) 0x1CBD 0x1CBF (1, 0x10FD) .leaf)
  0x1E00 0x1E94 (2, 0x1E01) (.node (.node .leaf 0x1E9E 0x1E9E (1, 0xDF) .leaf) 0x1EA0 0x1EFE
  (2, 0x1EA1) .leaf)) 0x1F08 0x1F0F (1, 0x1F00) (.node (.node (.node .leaf 0x1F18 0x1F1D
  (1, 0x1F10) .leaf) 0x1F28 0x1F2F (1, 0x1F20) .leaf) 0x1F38 0x1F3F (1, 0x1F30) (.node (.node .leaf
  0x1F48 0x1F4D (1, 0x1F40) .leaf) 0x1F59 0x1F5F (2, 0x1F51) .leaf))) 0x1F68 0x1F6F (1, 0x1F60) (
  .node (.node (.node (.node .leaf 0x1F88 0x1F8F (1, 0x1F80) .leaf) 0x1F98 0x1F9F (1, 0x1F90) .leaf
  ) 0x1FA8 0x1FAF (1, 0x1FA0) (.node (.node .leaf 0x1FB8 0x1FB9 (1, 0x1FB0) .leaf) 0x1FBA 0x1FBB
  (1, 0x1F70) .leaf)) 0x1FBC 0x1FBC (1, 0x1FB3) (.node (.node (.node .leaf 0x1FC8 0x1FCB
  (1, 0x1F72) .leaf) 0x1FCC 0x1FCC (1, 0x1FC3) .leaf) 0x1FD8 0x1FD9 (1, 0x1FD0) (.node .leaf 0x1FDA
  0x1FDB (1, 0x1F76) .leaf)))) 0x1FE8 0x1FE9 (1, 0x1FE0) (.node (.node (.node (.node (.node .leaf
  0x1FEA 0x1FEB (1, 0x1F7A) .leaf) 0x1FEC 0x1FEC (1, 0x1FE5) .leaf) 0x1FF8 0x1FF9 (1, 0x1F78) (
  .node (.node .leaf 0x1FFA 0x1FFB (1, 0x1F7C) .leaf) 0x1FFC 0x1FFC (1, 0x1FF3) .leaf)) 0x2126
  0x2126 (1, 0x3C9) (.node (.node (.node .leaf 0x212A 0x212A (1, 0x6B) .leaf) 0x212B 0x212B
  (1, 0xE5) .leaf) 0x2132 0x2132 (1, 0x214E) (.node (.node .leaf 0x2160 0x216F (1, 0x2170) .leaf)
  0x2183 0x2183 (1, 0x2184) .leaf))) 0x24B6 0x24CF (1, 0x24D0) (.node (.node (.node (.node .leaf
  0x2C00 0x2C2F (1, 0x2C30) .leaf) 0x2C60 0x2C60 (1, 0x2C61) .leaf) 0x2C62 0x2C62 (1, 0x26B) (.node
  (.node .leaf 0x2C63 0x2C63 (1, 0x1D7D) .leaf) 0x2C64 0x2C64 (1, 0x27D) .leaf)) 0x2C67 0x2C6B
  (2, 0x2C68) (.node (.node (.node .leaf 0x2C6D 0x2C6D (1, 0x251) .leaf) 0x2C6E 0x2C6E (1, 0x271)
  .leaf) 0x2C6F 0x2C6F (1, 0x250) (.node .leaf 0x2C70 0x2C70 (1, 0x252) .leaf))))) 0x2C72 0x2C72
  (1, 0x2C73) (.node (.node (.node (.node (.node (.node .leaf 0x2C75 0x2C75 (1, 0x2C76) .leaf)
  0x2C7E 0x2C7F (1, 0x23F) .leaf) 0x2C80 0x2CE2 (2, 0x2C81) (.node (.node .leaf 0x2CEB 0x2CED
  (2, 0x2CEC) .leaf) 0x2CF2 0x2CF2 (1, 0x2CF3) .leaf)) 0xA640 0xA66C (2, 0xA641) (.node (.node (
  .node .leaf 0xA680 0xA69A (2, 0xA681) .leaf) 0xA722 0xA72E (2, 0xA723) .leaf) 0xA732 0xA76E
  (2, 0xA733) (.node (.node .leaf 0xA779 0xA77B (2, 0xA77A) .leaf) 0xA77D 0xA77D (1, 0x1D79) .leaf)
  )) 0xA77E 0xA786 (2, 0xA77F) (.node (.node (.node (.node .leaf 0xA78B 0xA78B (1, 0xA78C) .leaf)
  0xA78D 0xA78D (1, 0x265) .leaf) 0xA790 0xA792 (2, 0xA791) (.node (.node .leaf 0xA796 0xA7A8
  (2, 0xA797) .leaf) 0xA7AA 0xA7AA (1, 0x266) .leaf)) 0xA7AB 0xA7AB (1, 0x25C) (.node (.node (.node
  .leaf 0xA7AC 0xA7AC (1, 0x261) .leaf) 0xA7AD 0xA7AD (1, 0x26C) .leaf) 0xA7AE 0xA7AE (1, 0x26A) (
  .node .leaf 0xA7B0 0xA7B0 (1, 0x29E) .leaf)))) 0xA7B1 0xA7B1 (1, 0x287) (.node (.node (.node (
  .node (.node .leaf 0xA7B2 0xA7B2 (1, 0x29D) .leaf) 0xA7B3 0xA7B3 (1, 0xAB53) .leaf) 0xA7B4 0xA7C2
  (2, 0xA7B5) (.node (.node .leaf 0xA7C4 0xA7C4 (1, 0xA794) .leaf) 0xA7C5 0xA7C5 (1, 0x282) .leaf))
  0xA7C6 0xA7C6 (1, 0x1D8E) (.node (.node (.node .leaf 0xA7C7 0xA7C9 (2, 0xA7C8) .leaf) 0xA7D0
  0xA7D0 (1, 0xA7D1) .leaf) 0xA7D6 0xA7D8 (2, 0xA7D7) (.node .leaf 0xA7F5 0xA7F5 (1, 0xA7F6) .leaf)
  )) 0xFF21 0xFF3A (1, 0xFF41) (.node (.node (.node (.node .leaf 0x10400 0x10427 (1, 0x10428) .leaf
  ) 0x104B0 0x104D3 (1, 0x104D8) .leaf) 0x10570 0x1057A (1, 0x10597) (.node (.node .leaf 0x1057C
  0x1058A (1, 0x105A3) .leaf) 0x1058C 0x10592 (1, 0x105B3) .leaf)) 0x10594 0x10595 (1, 0x105BB) (
  .node (.node (.node .leaf 0x10C80 0x10CB2 (1, 0x10CC0) .leaf) 0x118A0 0x118BF (1, 0x118C0) .leaf)
  0x16E40 0x16E5F (1, 0x16E60) (.node .leaf 0x1E900 0x1E921 (1, 0x1E922) .leaf))))))

/-- The row of a table whose range holds the rune `n`, as `(first, value)`. -/
def Table.find {α : Type} (n : Nat) : Table α → Option (Nat × α)
  | .leaf => none
  | .node l lo hi v r =>
    if n < lo then l.find n else if hi < n then r.find n else some (lo, v)

/-- Canonical combining class of a rune. -/
def ccc (r : Char) : Nat :=
  match cccTable.find r.toNat with
  | some (_, v) => v
  | none => 0

/-- Full canonical decomposition of one rune: Hangul syllables by arithmetic, the other
runes by `decompTable`; a rune without decomposition stands for itself. -/
def decompose (r : Char) : List Char :=
  let n := r.toNat
  if 0xAC00 ≤ n ∧ n ≤ 0xD7A3 then
    let s := n - 0xAC00
    let l := Char.ofNat (0x1100 + s / 588)
    let v := Char.ofNat (0x1161 + (s % 588) / 28)
    if s % 28 = 0 then [l, v] else [l, v, Char.ofNat (0x11A7 + s % 28)]
  else
    match decompTable.find n with
    | some (_, ds) => ds.map Char.ofNat
    | none => [r]

/-- Decomposition of every rune of a text. -/
def decomposeAll : List Char → List Char
  | [] => []
  | r :: rs => decompose r ++ decomposeAll rs

/-- One step of the canonical ordering, on the reversed output: a rune with a combining
class other than zero moves in front of the runes of a higher class that precede it. -/
def insertMark (c : Char) : List Char → List Char
  | [] => [c]
  | x :: xs => if ccc c ≠ 0 ∧ ccc c < ccc x then x :: insertMark c xs else c :: x :: xs

/-- Canonical ordering of a decomposed text. -/
def reorder (s : List Char) : List Char :=
  (s.foldl (fun acc c => insertMark c acc) []).reverse

/-- Canonical decomposition `norm.NFD` of Unicode Standard Annex 15: the full
decomposition of every rune, followed by the canonical ordering.  Package `norm` moreover
breaks a run of more than 30 non-starters with the rune U+034F; that is not part of this
definition. -/
def nfd (s : List Char) : List Char := reorder (decomposeAll s)

/-- The composite of a second rune in the list of a first rune. -/
def findSecond (n : Nat) : List (Nat × Nat) → Option Nat
  | [] => none
  | (y, z) :: rest => if y = n then some z else findSecond n rest

/-- Primary composite of a pair of runes, if there is one: Hangul syllables by
arithmetic, the other pairs by `compTable`. -/
def combine (a b : Char) : Option Char :=
  let m := a.toNat
  let n := b.toNat
  if 0x1100 ≤ m ∧ m ≤ 0x1112 then
    if 0x1161 ≤ n ∧ n ≤ 0x1175 then
      some (Char.ofNat (0xAC00 + ((m - 0x1100) * 21 + (n - 0x1161)) * 28))
    else none
  else if 0xAC00 ≤ m ∧ m ≤ 0xD7A3 then
    if (m - 0xAC00) % 28 = 0 ∧ 0x11A8 ≤ n ∧ n ≤ 0x11C2 then
      some (Char.ofNat (m + (n - 0x11A7)))
    else none
  else
    match compTable.find m with
    | some (_, ps) =>
      match findSecond n ps with
      | some z => some (Char.ofNat z)
      | none => none
    | none => none

/-- Whether the rune `c` is blocked from the starter: `pend` holds the non-starters
that follow the starter in the output, the latest first, and `c` is blocked when its
combining class is not higher than the class of the latest one. -/
def blocked (pend : List Char) (c : Char) : Bool :=
  match pend with
  | [] => false
  | l :: _ => decide (ccc c ≤ ccc l)

/-- Canonical composition after the starter `st`, which is followed in the output by the
non-starters `pend` (the latest first) that did not combine with it: a rune that is not
blocked and has a primary composite with the starter replaces the starter by it; another
rune with combining class zero becomes the next starter; another non-starter is kept. -/
def composeFrom : Char → List Char → List Char → List Char
  | st, pend, [] => st :: pend.reverse
  | st, pend, c :: cs =>
    match (if blocked pend c then none else combine st c) with
    | some z => composeFrom z pend cs
    | none =>
      if ccc c = 0 then st :: pend.reverse ++ composeFrom c [] cs
      else composeFrom st (c :: pend) cs

/-- Canonical composition of a decomposed and ordered text; non-starters before the
first starter are kept. -/
def compose : List Char → List Char
  | [] => []
  | c :: cs => if ccc c = 0 then composeFrom c [] cs else c :: compose cs

/-- Canonical composition `norm.NFC` of Unicode Standard Annex 15: `norm.NFD` followed by
the composition of every starter with the runes behind it that are not blocked. -/
def nfc (s : List Char) : List Char := compose (nfd s)

/-- `unicode.ToLower`. -/
def toLower (r : Char) : Char :=
  if r.toNat ≤ 0x7F then
    if 65 ≤ r.toNat ∧ r.toNat ≤ 90 then Char.ofNat (r.toNat + 32) else r
  else
    match lowerTable.find r.toNat with
    | some (lo, stride, lower) =>
      if (r.toNat - lo) % stride = 0 then Char.ofNat (lower + (r.toNat - lo)) else r
    | none => r

/-- The mapping `replaceY`. -/
def replaceY (r : Char) : Char :=
  if r = 'й' then 'y' else r

/-- Membership in `unicode.Mn`. -/
def isMn (r : Char) : Bool := (mnTable.find r.toNat).isSome

/-- The transformer `t` of `translit`: `ReplaceIllFormed`, `NFC`, `ToLower`, `replaceY`,
`NFD`, removal of `Mn`, `NFC`.  A `List Char` is well formed, so the first stage changes
nothing. -/
def textChain (text : List Char) : List Char :=
  nfc ((nfd (((nfc text).map toLower).map replaceY)).filter (fun r => !isMn r))

/-- Function `translit`. -/
def translit (text : List Char) : List Char × Option GoErr :=
  translitWith textChain text

/-! ## `main.go`: the loop over the input files -/

/-- One `consolePrint` call: the text printed, tagged by its colour escape (`31` red,
`33` yellow, `32` green, none plain); colour codes and line ends are left out.  A
run-time panic ends the transcript.  The line `unsupported` stands for a pattern of
line 308 that is outside the fragment covered by `compile` below; it cannot arise for
tokens extracted by `idQ` or `idQ2` and descriptors produced by `parseVideo` and
`parseAudio`. -/
inductive Line where
  | plain (text : List Char)
  | red (text : List Char)
  | yellow (text : List Char)
  | green (text : List Char)
  | panic (text : List Char)
  | unsupported (text : List Char)
  deriving DecidableEq

/-- Warning printed at line 255. -/
def msgQHigh : List Char :=
  "\"Q\" value might be too high, the number should be greater then zero.".toList

/-- Warning printed at line 258. -/
def msgQLow : List Char :=
  "\"Q\" value might be too low, the number should be equal to zero.".toList

/-- Warning printed at line 263. -/
def msg720 : List Char := "Horizontal resolution is 720. Input SAR might be wrong.".toList

/-- Error printed at line 268. -/
def msgSar : List Char := "SAR is not 1:1.".toList

/-- Error printed at line 274. -/
def msgChannels (channels : List Char) : List Char :=
  "Audio track has ".toList ++ channels ++ " channels.".toList

/-- Error printed at line 290. -/
def msgSeason : List Char :=
  "Season and episode numbers must follow \"s(\\d\x7b2\x7d)e(\\d\x7b2,4\x7d)\" rule.".toList

/-- Token extraction of lines 179 to 188: `se`, `id` and `q`. -/
def extractTokens (baseName : List Char) : List Char × List Char × List Char :=
  if idQ.matchString baseName then
    (idQ.replaceAllString baseName 1, idQ.replaceAllString baseName 2,
      idQ.replaceAllString baseName 3)
  else if idQ2.matchString baseName then
    (idQ2.replaceAllString baseName 1, idQ2.replaceAllString baseName 2,
      idQ2.replaceAllString baseName 3)
  else ([], [], [])

/-- First byte of the UTF-8 encoding of a rune. -/
def firstByte (r : Char) : Nat :=
  if r.toNat < 0x80 then r.toNat
  else if r.toNat < 0x800 then 0xC0 + r.toNat / 64
  else if r.toNat < 0x10000 then 0xE0 + r.toNat / 4096
  else 0xF0 + r.toNat / 262144

/-- The conversion `string(audio.lang[0])` for a language whose first rune is `r`. -/
def byteString (r : Char) : List Char := [Char.ofNat (firstByte r)]

/-- The value `fps` of lines 282 and 283. -/
def fpsDigits (v : Video) : List Char :=
  (formatFloat v.fps).filter (fun x => !(x == '.'))

/-- The technical part shared by both forms of `outputName`. -/
def techPart (q : List Char) (v : Video) (l : Char) : List Char :=
  "__q".toList ++ q ++ "_r".toList ++ itoa v.resolution.1 ++ "x".toList ++
    itoa v.resolution.2 ++ "p".toList ++ fpsDigits v ++ "_a".toList ++ byteString l ++
    "2".toList ++ ".mp4".toList

/-- The name `outputName` of line 299; `se` is the value after lines 286 to 294. -/
def exactName (movieName se id movieYear q : List Char) (v : Video) (l : Char) : List Char :=
  movieName ++ se ++ "_coid".toList ++ id ++ "_".toList ++ movieYear ++ techPart q v l

/-- The pattern `outputName` of line 308. -/
def patternText (se id q : List Char) (v : Video) (l : Char) : List Char :=
  ".*".toList ++ se ++ "_coid".toList ++ id ++ "_".toList ++ ".*".toList ++ techPart q v l

/-- Characters with a special meaning in a regular expression. -/
def isMeta (x : Char) : Bool := x ∈ "\\.+*?()|[]\x7b\x7d^$".toList

/-- The atoms of a pattern made of literal characters, `.` and the postfix `*`; any other
use of a special character is outside the fragment. -/
def compileAtoms : List Char → Option (List Re)
  | [] => some []
  | [x] =>
    if x = '.' then some [.cls isAny]
    else if isMeta x then none
    else some [Re.chr x]
  | x :: y :: rest =>
    if y = '*' then
      if x = '.' then (compileAtoms rest).map (fun rs => Re.star true (.cls isAny) :: rs)
      else if isMeta x then none
      else (compileAtoms rest).map (fun rs => Re.star true (Re.chr x) :: rs)
    else
      if x = '.' then (compileAtoms (y :: rest)).map (fun rs => Re.cls isAny :: rs)
      else if isMeta x then none
      else (compileAtoms (y :: rest)).map (fun rs => Re.chr x :: rs)

/-- `regexp.MustCompile` on the fragment above. -/
def compile (pattern : List Char) : Option Re :=
  (compileAtoms pattern).map Re.seq

/-- Lines 296 to 317: construction of `outputName` and comparison with `baseName`;
`se` is the value after lines 286 to 294. -/
def compareName (kp : Bool) (baseName se id q movieName movieYear : List Char)
    (v : Video) (a : Audio) : List Line :=
  match a.lang with
  | [] => [.panic "runtime error: index out of range [0] with length 0".toList]
  | l :: _ =>
    if kp then
      if baseName = exactName movieName se id movieYear q v l then
        [.green "FileName is correct.".toList, .plain []]
      else
        [.plain ("OUTPUT: ".toList ++ exactName movieName se id movieYear q v l),
          .red "FileName is wrong.".toList, .plain []]
    else
      match compile (patternText se id q v l) with
      | none => [.unsupported (patternText se id q v l)]
      | some re =>
        if re.matchString baseName then
          [.green "Video and audio parameters in input fileName are correct.".toList, .plain []]
        else
          [.plain ("OUTPUT: ".toList ++ patternText se id q v l),
            .red "Video or audio parameters in input fileName are wrong.".toList, .plain []]

/-- Lines 251 to 264: the warnings about the quality token and the width. -/
def warnings (q : List Char) (v : Video) : List Line :=
  (if v.resolution.1 < 1900 ∧ v.resolution.2 < 1040 ∧ (atoi q).1 = 0 then
      [Line.yellow msgQHigh] else []) ++
  (if (v.resolution.1 ≥ 1900 ∨ v.resolution.2 ≥ 1040) ∧ (atoi q).1 > 0 then
      [Line.yellow msgQLow] else []) ++
  (if v.resolution.1 = 720 then [Line.yellow msg720] else [])

/-- Lines 266 to 317: the hard failures and the comparison of the name. -/
def verdict (kp : Bool) (baseName se id q movieName movieYear movieType : List Char)
    (v : Video) (a : Audio) : List Line :=
  if v.sar.1 ≠ v.sar.2 then [Line.red msgSar]
  else if a.channels ≠ "stereo".toList then [Line.red (msgChannels a.channels)]
  else if movieType ≠ "SHOW".toList then
    compareName kp baseName [] id q movieName movieYear v a
  else if se = [] then [Line.red msgSeason]
  else compareName kp baseName ('_' :: se) id q movieName movieYear v a

/-- Lines 251 to 317: the checks for standard compliance of one file, given the value
of `kp`, the tokens, the catalog data and the parsed streams. -/
def checks (kp : Bool) (baseName se id q movieName movieYear movieType : List Char)
    (v : Video) (a : Audio) : List Line :=
  warnings q v ++ verdict kp baseName se id q movieName movieYear movieType v a

/-- What `getMetaFromKP(id)` returns for one file. -/
structure KpResult where
  movieName : List Char
  movieYear : List Char
  movieType : List Char
  err : Option (List Char)
  deriving DecidableEq

/-- What the environment supplies for one argument of the program: the base name of
line 173, the result of the catalog call, the error text and the combined output of
`ffmpeg`. -/
structure FileInput where
  baseName : List Char
  kpResult : KpResult
  probeErr : Option (List Char)
  probe : List Char
  deriving DecidableEq

/-- Lines 195 to 203: the new value of `kp` and the lines printed. -/
def catalogStep (kp : Bool) (r : KpResult) : Bool × List Line :=
  if r.movieName = [] ∨ r.movieYear = [] ∨ r.movieType = [] then
    (false,
      (match r.err with
       | some e => [Line.red (e ++ ".".toList)]
       | none => []) ++
      [Line.yellow "getMetaFromKP: Could not get data from KinoPoisk".toList])
  else (kp, [])

/-- Lines 205 to 210: the line printed for an error of the `ffmpeg` call. -/
def probeStep (err : Option (List Char)) : List Line :=
  match err with
  | some e => if e ≠ "exit status 1".toList then [Line.red e] else []
  | none => []

/-- Lines 212 to 317 for one file. -/
def streamsStep (kp : Bool) (baseName se id q : List Char) (r : KpResult)
    (probe : List Char) : List Line :=
  let videoStrings := re0v.findAllString probe
  if videoStrings.length > 1 then
    [Line.red "More then one video stream.".toList] ++ videoStrings.map Line.plain ++
      [Line.plain []]
  else
    match videoStrings with
    | [] => [Line.red "No video stream found.".toList]
    | vs :: _ =>
      if (parseVideo vs).2 ≠ none then [Line.red "Could not parse video stream.".toList]
      else
        let audioStrings := re1a.findAllString probe
        if audioStrings.length > 1 then
          [Line.red "More then one audio stream.".toList] ++ audioStrings.map Line.plain
        else
          match audioStrings with
          | [] => [Line.red "No audio stream found.".toList]
          | as :: _ =>
            if (parseAudio as).2 ≠ none then
              [Line.red "Could not parse audio stream.".toList]
            else
              checks kp baseName se id q r.movieName r.movieYear r.movieType
                (parseVideo vs).1 (parseAudio as).1

/-- The body of the loop of `main` for one file: the value of `kp` after it and the
lines printed. -/
def pass (kp : Bool) (f : FileInput) : Bool × List Line :=
  let tok := extractTokens f.baseName
  if tok.2.1 = f.baseName ∨ tok.2.1 = [] ∨ tok.2.2 = f.baseName ∨ tok.2.2 = [] then
    (kp, [Line.plain ("INPUT:  ".toList ++ f.baseName), Line.red "FileName is wrong.".toList,
      Line.plain "MUST BE: .*coid(\\d+)_q(\\d+).*".toList])
  else
    ((catalogStep kp f.kpResult).1,
      [Line.plain ("INPUT:  ".toList ++ f.baseName)] ++ (catalogStep kp f.kpResult).2 ++
        probeStep f.probeErr ++
        streamsStep (catalogStep kp f.kpResult).1 f.baseName tok.1 tok.2.1 tok.2.2
          f.kpResult f.probe)

/-- Whether a line is a run-time panic. -/
def Line.isPanic : Line → Bool
  | .panic _ => true
  | _ => false

/-- The loop `for _, fileName := range args` with the variable `kp`, followed by the
final prompt; the outputs are kept per file.  A panic ends the program. -/
def mainLoop : Bool → List FileInput → List (List Line)
  | _, [] => [[Line.plain "Press 'Enter' to continue...".toList]]
  | kp, f :: fs =>
    if (pass kp f).2.any Line.isPanic then [(pass kp f).2]
    else (pass kp f).2 :: mainLoop (pass kp f).1 fs

/-- Function `main`: one block of lines per input file, then the prompt. -/
def main (args : List FileInput) : List (List Line) :=
  if args.length < 1 then
    [[Line.red "No arguments were provided.".toList, Line.plain "USAGE: yachk inputFile".toList]]
  else mainLoop true args

/-! ## Example inputs -/

/-- A video stream of 1280x720 with square pixels. -/
def videoB : Video :=
  { stream := (0, 0), lang := "und".toList, format := "h264".toList,
    pixFmt := "yuv420p".toList, resolution := (1280, 720), sar := (1, 1), dar := (16, 9),
    fps := "25".toList, isDefault := true }

/-- A video stream of 720x576 with sample aspect ratio 16:15. -/
def videoC : Video :=
  { stream := (0, 0), lang := "und".toList, format := "h264".toList,
    pixFmt := "yuv420p".toList, resolution := (720, 576), sar := (16, 15), dar := (4, 3),
    fps := "25".toList, isDefault := true }

/-- A video stream of 1920x1080 at 23.976 fps with square pixels. -/
def videoF : Video :=
  { stream := (0, 0), lang := "und".toList, format := "h264".toList,
    pixFmt := "yuv420p".toList, resolution := (1920, 1080), sar := (1, 1), dar := (16, 9),
    fps := "23.976".toList, isDefault := true }

/-- A stereo audio stream in Russian. -/
def audioStereo : Audio :=
  { stream := (0, 1), lang := "rus".toList, format := "aac".toList,
    sampleRate := "48000".toList, channels := "stereo".toList, isDefault := false,
    name := [] }

/-- An audio stream with the channel layout `5.1`. -/
def audioSurround : Audio :=
  { stream := (0, 1), lang := "rus".toList, format := "ac3".toList,
    sampleRate := "48000".toList, channels := "5.1".toList, isDefault := false,
    name := [] }

/-- Output of `ffmpeg` for a file with one 1920x1080 video stream at 23.976 fps and one
stereo audio stream. -/
def probeF : List Char :=
  ("Input #0, mov,mp4,m4a,3gp,3g2,mj2, from 'in.mp4':\n" ++
   "  Duration: 00:00:10.00, start: 0.000000, bitrate: 5000 kb/s\n" ++
   "    Stream #0:0(und): Video: h264 (High) (avc1 / 0x31637661), yuv420p, 1920x1080 [SAR 1:1 DAR 16:9], 4831 kb/s, 23.976 fps, 23.98 tbr, 24k tbn, 47.95 tbc (default)\n" ++
   "    Stream #0:1(rus): Audio: aac (LC) (mp4a / 0x6134706D), 48000 Hz, stereo, fltp, 192 kb/s (default)\n" ++
   "At least one output file must be specified\n").toList

/-- A file whose catalog lookup fails. -/
def fileNoCatalog : FileInput :=
  { baseName := "Film_coid1_2000__q0_r1920x1080p23976_ar2.mp4".toList,
    kpResult := { movieName := [], movieYear := [], movieType := [],
                  err := some "clientID for KinoPoisk api is not provided".toList },
    probeErr := some "exit status 1".toList, probe := probeF }

/-- A file whose catalog lookup succeeds and whose name carries a wrong title and a
wrong year. -/
def fileWrongTitle : FileInput :=
  { baseName := "Wrong_coid12345_2005__q0_r1920x1080p23976_ar2.mp4".toList,
    kpResult := { movieName := "Matrica".toList, movieYear := "1999".toList,
                  movieType := "MOVIE".toList, err := none },
    probeErr := some "exit status 1".toList, probe := probeF }

/-- A matched video stream line whose width does not fit into 64 bits. -/
def videoLineHuge : List Char :=
  "Stream #0:0(und): Video: h264 (High) (avc1 / 0x31637661), yuv420p, 99999999999999999999x1080 [SAR 1:1 DAR 16:9], 4831 kb/s, 25 fps, 25 tbr, 12800 tbn, 50 tbc (default)".toList

/-- A matched audio stream line whose first stream index does not fit into 64 bits. -/
def audioLineHuge : List Char :=
  "Stream #99999999999999999999:1(rus): Audio: aac (LC) (mp4a / 0x6134706D), 48000 Hz, stereo, fltp, 192 kb/s (default)\n".toList

/-- Output of `ffmpeg` for a file with two audio streams and no video stream. -/
def probeTwoAudio : List Char :=
  ("Input #0, matroska,webm, from 'in.mka':\n" ++
   "  Duration: 00:00:10.00, start: 0.000000, bitrate: 384 kb/s\n" ++
   "    Stream #0:0(rus): Audio: aac (LC), 48000 Hz, stereo, fltp, 192 kb/s (default)\n" ++
   "    Stream #0:1(eng): Audio: aac (LC), 48000 Hz, stereo, fltp, 192 kb/s\n" ++
   "At least one output file must be specified\n").toList

/-- The video stream line of `probeF`. -/
def videoLineF : List Char :=
  "Stream #0:0(und): Video: h264 (High) (avc1 / 0x31637661), yuv420p, 1920x1080 [SAR 1:1 DAR 16:9], 4831 kb/s, 23.976 fps, 23.98 tbr, 24k tbn, 47.95 tbc (default)".toList

/-- The audio stream line of `probeF`. -/
def audioLineF : List Char :=
  "Stream #0:1(rus): Audio: aac (LC) (mp4a / 0x6134706D), 48000 Hz, stereo, fltp, 192 kb/s (default)\n".toList

/-! ## Predicates used to state the properties -/

/-- ASCII lowercase letter. -/
def isLower (x : Char) : Bool := decide (97 ≤ x.toNat) && decide (x.toNat ≤ 122)

/-- ASCII uppercase letter. -/
def isUpper (x : Char) : Bool := decide (65 ≤ x.toNat) && decide (x.toNat ≤ 90)

/-- The underscore-delimited words of a string. -/
def underscoreWords : List Char → List (List Char)
  | [] => [[]]
  | x :: xs =>
    if x = '_' then [] :: underscoreWords xs
    else
      match underscoreWords xs with
      | [] => [[x]]
      | w :: ws => (x :: w) :: ws

/-- Whether a word starts with an uppercase letter. -/
def startsUpper : List Char → Bool
  | [] => false
  | x :: _ => isUpper x

/-- A character of a slug before title-casing. -/
def isSlugChar (x : Char) : Bool := isLower x || isDigit x || x == '_'

/-- Invariant of the loop of `translit`: `ret` is made of lowercase letters, digits and
underscores, does not start with an underscore, and `sep` and `underscore` are empty or
an underscore, the latter only once `ret` is not empty. -/
def Acc.ok (st : Acc) : Prop :=
  (∀ c ∈ st.ret, isSlugChar c = true) ∧
  (∀ c, st.ret.head? = some c → (isLower c || isDigit c) = true) ∧
  (st.sep = [] ∨ (st.sep = ['_'] ∧ st.ret ≠ [])) ∧
  (st.underscore = [] ∨ (st.underscore = ['_'] ∧ st.ret ≠ []))

/-- Whether `a` is directly followed by `b` somewhere in the list. -/
def adj (a b : Char) : List Char → Bool
  | [] => false
  | [_] => false
  | x :: y :: rest => (x == a && y == b) || adj a b (y :: rest)

/-- The struct `movie`, as decoded from the reply of the catalog. -/
structure Movie where
  years : List Int
  title : List Char
  originalTitle : List Char
  type : List Char
  deriving DecidableEq

/-- Text of an error value. -/
def GoErr.text : GoErr → List Char
  | .errSyntax => "invalid syntax".toList
  | .errRange => "value out of range".toList

/-- What a call yields: the returned value, or a run-time panic. -/
inductive Outcome (α : Type) where
  | ret (a : α)
  | panic (text : List Char)
  deriving DecidableEq

/-- Lines 146 to 157 of `getMetaFromKP`: the steps after a successful `json.Unmarshal`
into `m`, over the text transformer `chain` of `translit`. -/
def getMetaDecoded (chain : List Char → List Char) (m : Movie) : Outcome KpResult :=
  match (if m.title = [] then translitWith chain m.originalTitle
         else translitWith chain m.title) with
  | (_, some e) =>
    .ret { movieName := [], movieYear := [], movieType := [],
           err := some ("TRANSLIT error: ".toList ++ e.text) }
  | (movieName, none) =>
    match m.years with
    | [] => .panic "runtime error: index out of range [0] with length 0".toList
    | y :: _ =>
      .ret { movieName := movieName, movieYear := itoa y, movieType := m.type, err := none }

/-- A decoded catalog record without release years. -/
def movieNoYears : Movie :=
  { years := [], title := "Матрица".toList, originalTitle := "The Matrix".toList,
    type := "MOVIE".toList }

/-- The string `x` that the loop of `translit` computes for the rune `r`. -/
def loopOut (r : Char) : List Char :=
  if ruseng r = [] ∧ r ∈ eng then [r] else ruseng r

/-- Second invariant of the loop of `translit`: `ret` does not end with an underscore and
has no two adjacent underscores. -/
def Acc.tidy (st : Acc) : Prop :=
  (∀ c, st.ret.getLast? = some c → c ≠ '_') ∧ adj '_' '_' st.ret = false

/-- Whether every row of a table satisfies `p`. -/
def Table.all {α : Type} (p : Nat → Nat → α → Bool) : Table α → Bool
  | .leaf => true
  | .node l lo hi v r => l.all p && (p lo hi v && r.all p)

/-- The rows of a table, from left to right. -/
def Table.rows {α : Type} : Table α → List (Nat × Nat × α)
  | .leaf => []
  | .node l lo hi v r => l.rows ++ (lo, hi, v) :: r.rows

/-- Whether a table is a search tree whose rows are ranges between `lo` and `hi`. -/
def Table.within {α : Type} (lo hi : Nat) : Table α → Bool
  | .leaf => true
  | .node l a b _ r =>
    decide (lo ≤ a) && decide (a ≤ b) && decide (b < hi) && l.within lo a && r.within (b + 1) hi

/-- The stages of the transformer `t` after the first `NFC` and before the last one. -/
def chainTail (s : List Char) : List Char :=
  (nfd ((s.map toLower).map replaceY)).filter (fun r => !isMn r)

/-! ## Properties of the checks -/

theorem warnings_yellow (q : List Char) (v : Video) :
    ∀ x ∈ warnings q v, x = Line.yellow msgQHigh ∨ x = Line.yellow msgQLow ∨
      x = Line.yellow msg720 := by
  intro x hx
  unfold warnings at hx
  simp only [List.mem_append] at hx
  rcases hx with (hx | hx) | hx
  · split at hx <;> simp_all
  · split at hx <;> simp_all
  · split at hx <;> simp_all

theorem compareName_not_yellow (kp : Bool) (baseName se id q movieName movieYear : List Char)
    (v : Video) (a : Audio) (t : List Char) :
    Line.yellow t ∉ compareName kp baseName se id q movieName movieYear v a := by
  unfold compareName
  split
  · simp
  · split
    · split <;> simp
    · split
      · simp
      · split <;> simp

theorem byteString_alpha (l : Char) (h : isAlpha l = true) : byteString l = [l] := by
  have hl : l.toNat < 0x80 := by
    simp only [isAlpha, Bool.or_eq_true, Bool.and_eq_true, decide_eq_true_eq] at h
    omega
  simp [byteString, firstByte, hl, Char.ofNat_toNat]

theorem checks_of_square_stereo (kp : Bool)
    (baseName se id q movieName movieYear movieType : List Char) (v : Video) (a : Audio)
    (hsar : v.sar.1 = v.sar.2) (hst : a.channels = "stereo".toList) :
    checks kp baseName se id q movieName movieYear movieType v a =
      warnings q v ++
        (if movieType ≠ "SHOW".toList then
          compareName kp baseName [] id q movieName movieYear v a
         else if se = [] then [Line.red msgSeason]
         else compareName kp baseName ('_' :: se) id q movieName movieYear v a) := by
  unfold checks verdict
  simp only [hsar, hst, ne_eq, not_true_eq_false, if_false]

theorem compareName_exact (baseName se id q movieName movieYear : List Char)
    (v : Video) (a : Audio) (l : Char) (rest : List Char) (hl : a.lang = l :: rest) :
    compareName true baseName se id q movieName movieYear v a =
      if baseName = exactName movieName se id movieYear q v l then
        [.green "FileName is correct.".toList, .plain []]
      else
        [.plain ("OUTPUT: ".toList ++ exactName movieName se id movieYear q v l),
          .red "FileName is wrong.".toList, .plain []] := by
  unfold compareName
  rw [hl]
  simp

/-- C1: in exact mode (`kp` true) the name built for the catalog slug `Matrica`, year
`1999`, type `MOVIE`, id `12345`, q `0`, a 1920x1080 video of 23.976 fps and a stereo
audio track in language `rus` is `Matrica_coid12345_1999__q0_r1920x1080p23976_ar2.mp4`;
in general, once the square-pixel, stereo and episode-tag rules are passed, the name is
slug, `_` and `se` for a `SHOW` only, `_coid`, id, `_`, year, `__q`, q, `_r`, width, `x`,
height, `p`, the fps text without its decimal point, `_a`, the first letter of the audio
language, `2` and `.mp4`, and the file is reported correct iff the base name equals it. -/
theorem c1_exact_name :
    (∀ (v : Video) (a : Audio) (baseName se : List Char),
      v.resolution = (1920, 1080) → v.fps = "23.976".toList → v.sar.1 = v.sar.2 →
      a.lang = "rus".toList → a.channels = "stereo".toList →
      checks true baseName se "12345".toList "0".toList "Matrica".toList "1999".toList
          "MOVIE".toList v a =
        if baseName = "Matrica_coid12345_1999__q0_r1920x1080p23976_ar2.mp4".toList then
          [Line.green "FileName is correct.".toList, Line.plain []]
        else
          [Line.plain
              "OUTPUT: Matrica_coid12345_1999__q0_r1920x1080p23976_ar2.mp4".toList,
            Line.red "FileName is wrong.".toList, Line.plain []]) ∧
    (∀ (baseName se id q movieName movieYear movieType : List Char) (v : Video)
        (a : Audio) (l : Char) (rest : List Char),
      v.sar.1 = v.sar.2 → a.channels = "stereo".toList → a.lang = l :: rest →
      isAlpha l = true → (movieType = "SHOW".toList → se ≠ []) →
      ∃ w : List Line, (∀ x ∈ w, ∃ t, x = Line.yellow t) ∧
        checks true baseName se id q movieName movieYear movieType v a =
          w ++
          (if baseName =
              movieName ++ (if movieType = "SHOW".toList then '_' :: se else []) ++
                "_coid".toList ++ id ++ "_".toList ++ movieYear ++ "__q".toList ++ q ++
                "_r".toList ++ itoa v.resolution.1 ++ "x".toList ++ itoa v.resolution.2 ++
                "p".toList ++ (formatFloat v.fps).filter (fun x => !(x == '.')) ++
                "_a".toList ++ [l] ++ "2".toList ++ ".mp4".toList then
            [Line.green "FileName is correct.".toList, Line.plain []]
          else
            [Line.plain ("OUTPUT: ".toList ++
                (movieName ++ (if movieType = "SHOW".toList then '_' :: se else []) ++
                "_coid".toList ++ id ++ "_".toList ++ movieYear ++ "__q".toList ++ q ++
                "_r".toList ++ itoa v.resolution.1 ++ "x".toList ++ itoa v.resolution.2 ++
                "p".toList ++ (formatFloat v.fps).filter (fun x => !(x == '.')) ++
                "_a".toList ++ [l] ++ "2".toList ++ ".mp4".toList)),
              Line.red "FileName is wrong.".toList, Line.plain []])) := by
  constructor
  · intro v a baseName se hres hfps hsar hlang hst
    rw [checks_of_square_stereo _ _ _ _ _ _ _ _ _ _ hsar hst,
      compareName_exact _ _ _ _ _ _ v a 'r' "us".toList hlang]
    have hw : warnings "0".toList v = [] := by
      unfold warnings
      rw [hres]
      decide
    have hn : exactName "Matrica".toList [] "12345".toList "1999".toList "0".toList v 'r' =
        "Matrica_coid12345_1999__q0_r1920x1080p23976_ar2.mp4".toList := by
      unfold exactName techPart fpsDigits formatFloat
      rw [hres, hfps]
      decide
    rw [hw, hn, if_pos (by decide)]
    rfl
  · intro baseName se id q movieName movieYear movieType v a l rest hsar hst hl hal hse
    refine ⟨warnings q v, fun x hx => ?_, ?_⟩
    · rcases warnings_yellow q v x hx with h | h | h <;> exact ⟨_, h⟩
    · rw [checks_of_square_stereo _ _ _ _ _ _ _ _ _ _ hsar hst]
      congr 1
      by_cases hT : movieType = "SHOW".toList
      · rw [if_neg (by simpa using hT), if_neg (hse hT), if_pos hT,
          compareName_exact _ _ _ _ _ _ v a l rest hl]
        simp only [exactName, techPart, fpsDigits, byteString_alpha l hal,
          List.append_assoc]
      · rw [if_pos hT, if_neg hT, compareName_exact _ _ _ _ _ _ v a l rest hl]
        simp only [exactName, techPart, fpsDigits, byteString_alpha l hal,
          List.append_assoc]

theorem c1_exact_name_witness :
    checks true "x.mp4".toList [] "12345".toList "0".toList "Matrica".toList "1999".toList
        "MOVIE".toList videoF audioStereo =
      [Line.plain "OUTPUT: Matrica_coid12345_1999__q0_r1920x1080p23976_ar2.mp4".toList,
        Line.red "FileName is wrong.".toList, Line.plain []] :=
  (c1_exact_name.1 videoF audioStereo "x.mp4".toList [] rfl rfl rfl rfl rfl).trans
    (if_neg (by decide))

theorem verdict_not_yellow (kp : Bool)
    (baseName se id q movieName movieYear movieType : List Char) (v : Video) (a : Audio)
    (t : List Char) :
    Line.yellow t ∉ verdict kp baseName se id q movieName movieYear movieType v a := by
  unfold verdict
  split
  · simp
  · split
    · simp
    · split
      · exact compareName_not_yellow _ _ _ _ _ _ _ _ _ _
      · split
        · simp
        · exact compareName_not_yellow _ _ _ _ _ _ _ _ _ _

theorem verdict_ne_nil (kp : Bool)
    (baseName se id q movieName movieYear movieType : List Char) (v : Video) (a : Audio) :
    verdict kp baseName se id q movieName movieYear movieType v a ≠ [] := by
  have hc : ∀ se1, compareName kp baseName se1 id q movieName movieYear v a ≠ [] := by
    intro se1
    unfold compareName
    split
    · simp
    · split
      · split <;> simp
      · split
        · simp
        · split <;> simp
  unfold verdict
  split
  · simp
  · split
    · simp
    · split
      · exact hc _
      · split
        · simp
        · exact hc _

theorem compareName_red (kp : Bool) (baseName se id q movieName movieYear : List Char)
    (v : Video) (a : Audio) (t : List Char)
    (h : Line.red t ∈ compareName kp baseName se id q movieName movieYear v a) :
    t = "FileName is wrong.".toList ∨
      t = "Video or audio parameters in input fileName are wrong.".toList := by
  unfold compareName at h
  split at h
  · simp at h
  · split at h
    · split at h <;> simp at h
      exact Or.inl h
    · split at h
      · simp at h
      · split at h <;> simp at h
        exact Or.inr h

theorem msgChannels_head (c : List Char) : (msgChannels c).head? = some 'A' := rfl

theorem compareName_no_channels (kp : Bool)
    (baseName se id q movieName movieYear : List Char) (v : Video) (a : Audio)
    (c : List Char) :
    Line.red (msgChannels c) ∉ compareName kp baseName se id q movieName movieYear v a := by
  intro h
  have hh := msgChannels_head c
  rcases compareName_red _ _ _ _ _ _ _ _ _ _ h with h1 | h1 <;>
    · rw [h1] at hh
      revert hh
      decide

theorem compareName_no_sar (kp : Bool)
    (baseName se id q movieName movieYear : List Char) (v : Video) (a : Audio) :
    Line.red msgSar ∉ compareName kp baseName se id q movieName movieYear v a := by
  intro h
  rcases compareName_red _ _ _ _ _ _ _ _ _ _ h with h1 | h1 <;>
    · revert h1
      decide

/-- C5 (counterexample): for a 1280x720 video with SAR 1:1, stereo audio and quality
token `0` the width-720 warning is not printed; the only finding is the quality
warning. -/
theorem c5_scenario_b_counterexample :
    Line.yellow msg720 ∉
        checks true "Film_coid1_2000__q0_r1280x720p25_ar2.mp4".toList [] "1".toList
          "0".toList "Film".toList "2000".toList "MOVIE".toList videoB audioStereo ∧
      checks true "Film_coid1_2000__q0_r1280x720p25_ar2.mp4".toList [] "1".toList
          "0".toList "Film".toList "2000".toList "MOVIE".toList videoB audioStereo =
        [Line.yellow msgQHigh, Line.green "FileName is correct.".toList, Line.plain []] := by
  decide

/-- C5 (amended): for a video descriptor of width 1280 and height 720 with SAR 1:1,
stereo audio and quality token `0`, the checks print exactly one warning, the quality
warning for sub-HD, and then go on to the episode-tag rule and the name comparison: no
width-720 warning, no square-pixel failure and no stereo failure is printed. -/
theorem c5_scenario_b (kp : Bool) (baseName se id movieName movieYear movieType : List Char)
    (v : Video) (a : Audio) (hres : v.resolution = (1280, 720))
    (hsar : v.sar.1 = v.sar.2) (hst : a.channels = "stereo".toList) :
    ∃ rest : List Line,
      checks kp baseName se id "0".toList movieName movieYear movieType v a =
        Line.yellow msgQHigh :: rest ∧
      (∀ t, Line.yellow t ∉ rest) ∧ Line.red msgSar ∉ rest ∧
      (∀ c, Line.red (msgChannels c) ∉ rest) := by
  have hw : warnings "0".toList v = [Line.yellow msgQHigh] := by
    unfold warnings
    rw [hres]
    decide
  refine ⟨verdict kp baseName se id "0".toList movieName movieYear movieType v a, ?_,
    fun t => verdict_not_yellow _ _ _ _ _ _ _ _ _ _ _, ?_, ?_⟩
  · unfold checks
    rw [hw]
    rfl
  · unfold verdict
    simp only [hsar, hst, ne_eq, not_true_eq_false, if_false]
    split
    · exact compareName_no_sar _ _ _ _ _ _ _ _ _
    · split
      · simp only [List.mem_singleton, Line.red.injEq]
        decide
      · exact compareName_no_sar _ _ _ _ _ _ _ _ _
  · intro c
    unfold verdict
    simp only [hsar, hst, ne_eq, not_true_eq_false, if_false]
    split
    · exact compareName_no_channels _ _ _ _ _ _ _ _ _ _
    · split
      · simp only [List.mem_singleton, Line.red.injEq]
        intro h
        have hh := msgChannels_head c
        rw [h] at hh
        revert hh
        decide
      · exact compareName_no_channels _ _ _ _ _ _ _ _ _ _

theorem c5_scenario_b_witness :
    ∃ rest : List Line,
      checks false "a.mp4".toList [] "1".toList "0".toList [] [] [] videoB audioStereo =
        Line.yellow msgQHigh :: rest ∧
      (∀ t, Line.yellow t ∉ rest) ∧ Line.red msgSar ∉ rest ∧
      (∀ c, Line.red (msgChannels c) ∉ rest) :=
  c5_scenario_b false "a.mp4".toList [] "1".toList [] [] [] videoB audioStereo rfl rfl rfl

/-- C7: when the SAR numerator differs from the SAR denominator the checks print the
warnings of rules 1 and 2 and then end with the hard failure `SAR is not 1:1.`; nothing
is printed after it (no stereo failure, no episode-tag failure, no name comparison),
whatever the audio layout and the tokens are. -/
theorem c7_square_pixel (kp : Bool)
    (baseName se id q movieName movieYear movieType : List Char) (v : Video) (a : Audio)
    (hsar : v.sar.1 ≠ v.sar.2) :
    checks kp baseName se id q movieName movieYear movieType v a =
      (if v.resolution.1 < 1900 ∧ v.resolution.2 < 1040 ∧ (atoi q).1 = 0 then
          [Line.yellow msgQHigh] else []) ++
      (if (v.resolution.1 ≥ 1900 ∨ v.resolution.2 ≥ 1040) ∧ (atoi q).1 > 0 then
          [Line.yellow msgQLow] else []) ++
      (if v.resolution.1 = 720 then [Line.yellow msg720] else []) ++
      [Line.red "SAR is not 1:1.".toList] := by
  unfold checks verdict warnings
  rw [if_pos hsar]
  rfl

theorem c7_square_pixel_witness :
    checks true "Film_coid1_2000__q0_r720x576p25_ar6.mp4".toList [] "1".toList "0".toList
        "Film".toList "2000".toList "SHOW".toList videoC audioSurround =
      [Line.yellow msgQHigh, Line.yellow msg720, Line.red "SAR is not 1:1.".toList] :=
  (c7_square_pixel true "Film_coid1_2000__q0_r720x576p25_ar6.mp4".toList [] "1".toList
    "0".toList "Film".toList "2000".toList "SHOW".toList videoC audioSurround
    (by decide)).trans (by decide)

/-- C8: with SAR numerator equal to the denominator and a channel layout other than
`stereo`, the checks end (after the warnings) with the hard failure
`Audio track has <layout> channels.` carrying the actual layout name, and no name is
built or compared; with the layout `stereo` that failure is never printed. -/
theorem c8_stereo :
    (∀ (kp : Bool) (baseName se id q movieName movieYear movieType : List Char)
        (v : Video) (a : Audio),
      v.sar.1 = v.sar.2 → a.channels ≠ "stereo".toList →
      ∃ w : List Line, (∀ x ∈ w, ∃ t, x = Line.yellow t) ∧
        checks kp baseName se id q movieName movieYear movieType v a =
          w ++ [Line.red ("Audio track has ".toList ++ a.channels ++ " channels.".toList)]) ∧
    (∀ (kp : Bool) (baseName se id q movieName movieYear movieType : List Char)
        (v : Video) (a : Audio),
      a.channels = "stereo".toList →
      ∀ c : List Char,
        Line.red ("Audio track has ".toList ++ c ++ " channels.".toList) ∉
          checks kp baseName se id q movieName movieYear movieType v a) := by
  constructor
  · intro kp baseName se id q movieName movieYear movieType v a hsar hst
    refine ⟨warnings q v, fun x hx => ?_, ?_⟩
    · rcases warnings_yellow q v x hx with h | h | h <;> exact ⟨_, h⟩
    · unfold checks verdict
      rw [if_neg (by simpa using hsar), if_pos hst]
      rfl
  · intro kp baseName se id q movieName movieYear movieType v a hst c hmem
    have hc : Line.red (msgChannels c) ∈
        checks kp baseName se id q movieName movieYear movieType v a := hmem
    unfold checks at hc
    rcases List.mem_append.1 hc with h | h
    · rcases warnings_yellow q v _ h with h1 | h1 | h1 <;> cases h1
    · unfold verdict at h
      have hh := msgChannels_head c
      split at h
      · simp only [List.mem_singleton, Line.red.injEq] at h
        rw [h] at hh
        revert hh
        decide
      · rw [if_neg (not_not.2 hst)] at h
        split at h
        · exact compareName_no_channels _ _ _ _ _ _ _ _ _ _ h
        · split at h
          · simp only [List.mem_singleton, Line.red.injEq] at h
            rw [h] at hh
            revert hh
            decide
          · exact compareName_no_channels _ _ _ _ _ _ _ _ _ _ h

theorem c8_stereo_witness :
    (∃ w : List Line, (∀ x ∈ w, ∃ t, x = Line.yellow t) ∧
        checks true "a.mp4".toList [] "1".toList "0".toList "Film".toList "2000".toList
            "MOVIE".toList videoF audioSurround =
          w ++ [Line.red ("Audio track has ".toList ++ "5.1".toList ++
            " channels.".toList)]) ∧
      Line.red ("Audio track has ".toList ++ "stereo".toList ++ " channels.".toList) ∉
        checks true "a.mp4".toList [] "1".toList "0".toList "Film".toList "2000".toList
          "MOVIE".toList videoF audioStereo :=
  ⟨c8_stereo.1 true "a.mp4".toList [] "1".toList "0".toList "Film".toList "2000".toList
      "MOVIE".toList videoF audioSurround rfl (by decide),
    c8_stereo.2 true "a.mp4".toList [] "1".toList "0".toList "Film".toList "2000".toList
      "MOVIE".toList videoF audioStereo rfl "stereo".toList⟩

/-- C9: for an input that passes the square-pixel and stereo rules, content type `SHOW`
with an empty season/episode tag ends (after the warnings) with the hard failure that
requires the tag and no name is compared; for a content type other than `SHOW` the tag
is dropped: the outcome is the same for every tag and the name is built and compared
with an empty season/episode segment. -/
theorem c9_episode_tag :
    (∀ (kp : Bool) (baseName id q movieName movieYear : List Char) (v : Video) (a : Audio),
      v.sar.1 = v.sar.2 → a.channels = "stereo".toList →
      ∃ w : List Line, (∀ x ∈ w, ∃ t, x = Line.yellow t) ∧
        checks kp baseName [] id q movieName movieYear "SHOW".toList v a =
          w ++ [Line.red msgSeason]) ∧
    (∀ (kp : Bool) (baseName se id q movieName movieYear movieType : List Char)
        (v : Video) (a : Audio),
      v.sar.1 = v.sar.2 → a.channels = "stereo".toList → movieType ≠ "SHOW".toList →
      checks kp baseName se id q movieName movieYear movieType v a =
          checks kp baseName [] id q movieName movieYear movieType v a ∧
        ∃ w : List Line, (∀ x ∈ w, ∃ t, x = Line.yellow t) ∧
          checks kp baseName se id q movieName movieYear movieType v a =
            w ++ compareName kp baseName [] id q movieName movieYear v a) := by
  constructor
  · intro kp baseName id q movieName movieYear v a hsar hst
    refine ⟨warnings q v, fun x hx => ?_, ?_⟩
    · rcases warnings_yellow q v x hx with h | h | h <;> exact ⟨_, h⟩
    · rw [checks_of_square_stereo _ _ _ _ _ _ _ _ _ _ hsar hst]
      simp
  · intro kp baseName se id q movieName movieYear movieType v a hsar hst hT
    have h1 : ∀ se1, checks kp baseName se1 id q movieName movieYear movieType v a =
        warnings q v ++ compareName kp baseName [] id q movieName movieYear v a := by
      intro se1
      rw [checks_of_square_stereo _ _ _ _ _ _ _ _ _ _ hsar hst, if_pos hT]
    refine ⟨(h1 se).trans (h1 []).symm, warnings q v, fun x hx => ?_, h1 se⟩
    rcases warnings_yellow q v x hx with h | h | h <;> exact ⟨_, h⟩

theorem c9_episode_tag_witness :
    (∃ w : List Line, (∀ x ∈ w, ∃ t, x = Line.yellow t) ∧
        checks true "a.mp4".toList [] "1".toList "0".toList "Film".toList "2000".toList
            "SHOW".toList videoF audioStereo =
          w ++ [Line.red msgSeason]) ∧
      checks true "a.mp4".toList "s01e02".toList "1".toList "0".toList "Film".toList
          "2000".toList "MOVIE".toList videoF audioStereo =
        checks true "a.mp4".toList [] "1".toList "0".toList "Film".toList
          "2000".toList "MOVIE".toList videoF audioStereo :=
  ⟨c9_episode_tag.1 true "a.mp4".toList "1".toList "0".toList "Film".toList "2000".toList
      videoF audioStereo rfl rfl,
    (c9_episode_tag.2 true "a.mp4".toList "s01e02".toList "1".toList "0".toList
      "Film".toList "2000".toList "MOVIE".toList videoF audioStereo rfl rfl (by decide)).1⟩

/-- C10: the first quality warning is printed iff width < 1900, height < 1040 and the
parsed quality token is 0; the second iff (width >= 1900 or height >= 1040) and the
parsed token is > 0; the two are never printed together; and after them the checks go
on with the width-720 rule and the later rules, which always print something. -/
theorem c10_quality_tier (kp : Bool)
    (baseName se id q movieName movieYear movieType : List Char) (v : Video) (a : Audio) :
    (Line.yellow msgQHigh ∈ checks kp baseName se id q movieName movieYear movieType v a ↔
      v.resolution.1 < 1900 ∧ v.resolution.2 < 1040 ∧ (atoi q).1 = 0) ∧
    (Line.yellow msgQLow ∈ checks kp baseName se id q movieName movieYear movieType v a ↔
      (v.resolution.1 ≥ 1900 ∨ v.resolution.2 ≥ 1040) ∧ (atoi q).1 > 0) ∧
    ¬ (Line.yellow msgQHigh ∈ checks kp baseName se id q movieName movieYear movieType v a ∧
      Line.yellow msgQLow ∈ checks kp baseName se id q movieName movieYear movieType v a) ∧
    ∃ rest : List Line, rest ≠ [] ∧ (∀ t, Line.yellow t ∉ rest) ∧
      (v.sar.1 ≠ v.sar.2 → rest = [Line.red msgSar]) ∧
      checks kp baseName se id q movieName movieYear movieType v a =
        (if v.resolution.1 < 1900 ∧ v.resolution.2 < 1040 ∧ (atoi q).1 = 0 then
            [Line.yellow msgQHigh] else []) ++
        (if (v.resolution.1 ≥ 1900 ∨ v.resolution.2 ≥ 1040) ∧ (atoi q).1 > 0 then
            [Line.yellow msgQLow] else []) ++
        (if v.resolution.1 = 720 then [Line.yellow msg720] else []) ++ rest := by
  have hv := verdict_not_yellow kp baseName se id q movieName movieYear movieType v a
  have h1 : Line.yellow msgQHigh ∈
      checks kp baseName se id q movieName movieYear movieType v a ↔
      v.resolution.1 < 1900 ∧ v.resolution.2 < 1040 ∧ (atoi q).1 = 0 := by
    unfold checks warnings
    simp only [List.mem_append, hv, or_false]
    have e1 : msgQHigh ≠ msgQLow := by decide
    have e2 : msgQHigh ≠ msg720 := by decide
    split <;> split <;> split <;> simp_all
  have h2 : Line.yellow msgQLow ∈
      checks kp baseName se id q movieName movieYear movieType v a ↔
      (v.resolution.1 ≥ 1900 ∨ v.resolution.2 ≥ 1040) ∧ (atoi q).1 > 0 := by
    unfold checks warnings
    simp only [List.mem_append, hv, or_false]
    have e1 : msgQLow ≠ msgQHigh := by decide
    have e2 : msgQLow ≠ msg720 := by decide
    split <;> split <;> split <;> simp_all
  refine ⟨h1, h2, ?_, verdict kp baseName se id q movieName movieYear movieType v a,
    verdict_ne_nil _ _ _ _ _ _ _ _ _ _, hv, ?_, rfl⟩
  · rw [h1, h2]
    rintro ⟨⟨ha, hb, hc⟩, hd, he⟩
    omega
  · intro hsar
    unfold verdict
    rw [if_pos hsar]

set_option exponentiation.threshold 1024 in
set_option maxRecDepth 1000000 in
/-- C2 (code at the failing input): the same file, whose catalog lookup succeeds, is
compared in exact mode and reported wrong when it is the only argument, and is compared
in pattern mode and reported correct when a file whose lookup failed precedes it. -/
theorem c2_kp_carried_over :
    main [fileWrongTitle] =
        [[Line.plain "INPUT:  Wrong_coid12345_2005__q0_r1920x1080p23976_ar2.mp4".toList,
          Line.plain "OUTPUT: Matrica_coid12345_1999__q0_r1920x1080p23976_ar2.mp4".toList,
          Line.red "FileName is wrong.".toList, Line.plain []],
         [Line.plain "Press 'Enter' to continue...".toList]] ∧
      main [fileNoCatalog, fileWrongTitle] =
        [[Line.plain "INPUT:  Film_coid1_2000__q0_r1920x1080p23976_ar2.mp4".toList,
          Line.red "clientID for KinoPoisk api is not provided.".toList,
          Line.yellow "getMetaFromKP: Could not get data from KinoPoisk".toList,
          Line.green "Video and audio parameters in input fileName are correct.".toList,
          Line.plain []],
         [Line.plain "INPUT:  Wrong_coid12345_2005__q0_r1920x1080p23976_ar2.mp4".toList,
          Line.green "Video and audio parameters in input fileName are correct.".toList,
          Line.plain []],
         [Line.plain "Press 'Enter' to continue...".toList]] := by
  decide

set_option exponentiation.threshold 1024 in
set_option maxRecDepth 1000000 in
/-- C6 (code at the failing input): on a matched video line whose width overflows,
`Atoi` fails for the width but `parseVideo` returns a nil error; on a matched audio line
whose first stream index overflows, `Atoi` fails for it but `parseAudio` returns a nil
error. -/
theorem c6_parse_error_lost :
    (re0v.findAllString videoLineHuge = [videoLineHuge] ∧
      (atoi (re0v.replaceAllString videoLineHuge 6)).2 = some GoErr.errRange ∧
      (parseVideo videoLineHuge).2 = none ∧
      (parseVideo videoLineHuge).1.resolution = (9223372036854775807, 1080)) ∧
    (re1a.findAllString audioLineHuge = [audioLineHuge] ∧
      (atoi (re1a.replaceAllString audioLineHuge 1)).2 = some GoErr.errRange ∧
      (parseAudio audioLineHuge).2 = none) := by
  decide

/-! ## Properties of `translit` -/

theorem ruseng_shape (r : Char) :
    ruseng r = ['.'] ∨ ∀ c ∈ ruseng r, isLower c = true := by
  unfold ruseng
  split <;> first
    | (left; rfl)
    | (right; decide)

theorem eng_shape (r : Char) (h : r ∈ eng) : (isLower r || isDigit r) = true := by
  have hall : ∀ x ∈ eng, (isLower x || isDigit x) = true := by decide
  exact hall r h

theorem translitStep_ok (st : Acc) (r : Char) (h : st.ok) : (translitStep st r).ok := by
  obtain ⟨h1, h2, h3, h4⟩ := h
  have key : ∀ x : List Char, x ≠ [] → (∀ c ∈ x, (isLower c || isDigit c) = true) →
      Acc.ok { ret := st.ret ++ st.sep ++ x, sep := [], underscore := ['_'] } := by
    intro x hx hxc
    refine ⟨?_, ?_, Or.inl rfl, Or.inr ⟨rfl, by simp [hx]⟩⟩
    · intro c hc
      simp only [List.mem_append] at hc
      rcases hc with (hc | hc) | hc
      · exact h1 c hc
      · rcases h3 with h3 | ⟨h3, _⟩
        · rw [h3] at hc
          cases hc
        · rw [h3] at hc
          simp only [List.mem_singleton] at hc
          rw [hc]
          decide
      · have := hxc c hc
        simp only [isSlugChar, Bool.or_eq_true] at this ⊢
        exact Or.inl this
    · intro c hc
      cases hret : st.ret with
      | nil =>
        rcases h3 with h3 | ⟨_, h3⟩
        · rw [hret, h3] at hc
          cases x with
          | nil => exact absurd rfl hx
          | cons y ys =>
            simp only [List.nil_append, List.head?_cons, Option.some.injEq] at hc
            exact hxc c (by rw [← hc]; exact List.mem_cons_self _ _)
        · exact absurd hret h3
      | cons y ys =>
        rw [hret] at hc
        simp only [List.cons_append, List.head?_cons, Option.some.injEq] at hc
        exact h2 c (by rw [hret, ← hc]; rfl)
  unfold translitStep
  by_cases he : ruseng r = [] ∧ r ∈ eng
  · simp only [he, and_self, if_true]
    rw [if_neg (by
      intro hdot
      have := eng_shape r he.2
      rw [List.cons.injEq] at hdot
      rw [hdot.1] at this
      revert this
      decide)]
    rw [if_neg (by simp)]
    exact key [r] (by simp) (by
      intro c hc
      simp only [List.mem_singleton] at hc
      rw [hc]
      exact eng_shape r he.2)
  · simp only [he, if_false]
    split
    · exact ⟨h1, h2, h3, h4⟩
    · split
      · exact ⟨h1, h2, h4, h4⟩
      · rename_i hdot hne
        rcases ruseng_shape r with hs | hs
        · exact absurd hs hdot
        · exact key (ruseng r) hne (by
            intro c hc
            simp only [Bool.or_eq_true]
            exact Or.inl (hs c hc))

theorem foldl_translitStep_ok (src : List Char) (st : Acc) (h : st.ok) :
    (src.foldl translitStep st).ok := by
  induction src generalizing st with
  | nil => exact h
  | cons r rs ih => exact ih _ (translitStep_ok st r h)

theorem translitLoop_ok (src : List Char) :
    (∀ c ∈ translitLoop src, isSlugChar c = true) ∧
      ∀ c, (translitLoop src).head? = some c → (isLower c || isDigit c) = true := by
  have h0 : Acc.ok { ret := [], sep := [], underscore := [] } :=
    ⟨by simp, by simp, Or.inl rfl, Or.inl rfl⟩
  have h := foldl_translitStep_ok src _ h0
  exact ⟨h.1, h.2.1⟩

theorem isSeparator_slugChar (c : Char) (h : isSlugChar c = true) :
    isSeparator c = false := by
  simp only [isSlugChar, isLower, isDigit, Bool.or_eq_true, Bool.and_eq_true,
    decide_eq_true_eq, beq_iff_eq] at h
  unfold isSeparator
  split
  · rcases h with (h | h) | h
    · simp [isAlpha, h.1, h.2]
    · simp [isDigit, h.1, h.2]
    · simp [h]
  · rfl

theorem titleFrom_slug (prev : Char) (s : List Char) (hp : isSeparator prev = false)
    (hs : ∀ c ∈ s, isSlugChar c = true) : titleFrom prev s = s := by
  induction s generalizing prev with
  | nil => rfl
  | cons x xs ih =>
    unfold titleFrom
    rw [hp, ih x (isSeparator_slugChar x (hs x (List.mem_cons_self _ _)))
      (fun c hc => hs c (List.mem_cons_of_mem _ hc))]
    rfl

theorem title_slug (x : Char) (xs : List Char)
    (hs : ∀ c ∈ x :: xs, isSlugChar c = true) : title (x :: xs) = toTitle x :: xs := by
  unfold title titleFrom
  rw [titleFrom_slug x xs (isSeparator_slugChar x (hs x (List.mem_cons_self _ _)))
    (fun c hc => hs c (List.mem_cons_of_mem _ hc))]
  rfl

theorem toTitle_lowerOrDigit (x : Char) (h : (isLower x || isDigit x) = true) :
    (isUpper (toTitle x) || isDigit (toTitle x)) = true := by
  simp only [isLower, isDigit, Bool.or_eq_true, Bool.and_eq_true, decide_eq_true_eq] at h
  unfold toTitle
  rcases h with h | h
  · rw [if_pos h]
    have hx : x = Char.ofNat x.toNat := (Char.ofNat_toNat x).symm
    obtain ⟨h1, h2⟩ := h
    generalize x.toNat = n at h1 h2 hx
    interval_cases n <;> decide
  · rw [if_neg (by omega)]
    simp [isDigit, h.1, h.2]

theorem translitWith_shape (chain : List Char → List Char) (text : List Char) :
    (translitWith chain text).1 = [] ∨
      ∃ (x : Char) (xs : List Char),
        translitLoop (chain text) = x :: xs ∧
        (translitWith chain text).1 = toTitle x :: xs ∧
        (isUpper (toTitle x) || isDigit (toTitle x)) = true ∧
        ∀ c ∈ xs, (isLower c || isDigit c || c == '_') = true := by
  obtain ⟨h1, h2⟩ := translitLoop_ok (chain text)
  unfold translitWith
  cases hret : translitLoop (chain text) with
  | nil => exact Or.inl rfl
  | cons x xs =>
    rw [hret] at h1 h2
    refine Or.inr ⟨x, xs, rfl, title_slug x xs h1, toTitle_lowerOrDigit x (h2 x rfl), ?_⟩
    intro c hc
    exact h1 c (List.mem_cons_of_mem _ hc)

/-- C4 (counterexample): the three-word title `война и мир` yields `Voyna_i_mir`, whose
second and third words start with a lowercase letter. -/
theorem c4_words_not_capitalised :
    (translit "война и мир".toList).1 = "Voyna_i_mir".toList ∧
      ¬ ((underscoreWords (translit "война и мир".toList).1).all startsUpper = true) := by
  decide

/-- C4 (amended): whatever the text transformer yields, the string returned by
`translit` is empty, or its first character is an uppercase ASCII letter or a digit and
every later character is a lowercase ASCII letter, a digit or an underscore: only the
first character of the whole string is title-cased, and it is the title case of the
first character of the loop result. -/
theorem c4_title_first_only (chain : List Char → List Char) (text : List Char) :
    (translitWith chain text).1 = [] ∨
      ∃ (x : Char) (xs : List Char),
        translitLoop (chain text) = x :: xs ∧
        (translitWith chain text).1 = toTitle x :: xs ∧
        (isUpper (toTitle x) || isDigit (toTitle x)) = true ∧
        ∀ c ∈ xs, (isLower c || isDigit c || c == '_') = true :=
  translitWith_shape chain text

/-! ## Properties of the matcher -/

theorem run_cls_cons (p : Char → Bool) (x : Char) (xs : List Char) (c : Caps) (k : Cont) :
    Re.run (.cls p) (x :: xs) c k = if p x = true then k xs c else none := rfl

theorem run_cat (a b : Re) (s : List Char) (c : Caps) (k : Cont) :
    Re.run (.cat a b) s c k = Re.run a s c (fun s1 c1 => Re.run b s1 c1 k) := rfl

theorem lit_cons_cons (x y : Char) (ys : List Char) :
    Re.lit (x :: y :: ys) = .cat (Re.chr x) (Re.lit (y :: ys)) := rfl

theorem run_lit_append (w s : List Char) (c : Caps) (k : Cont) :
    Re.run (Re.lit w) (w ++ s) c k = k s c := by
  induction w with
  | nil => rfl
  | cons x xs ih =>
    cases xs with
    | nil => simp [Re.lit, Re.chr, Re.run]
    | cons y ys =>
      rw [lit_cons_cons, run_cat]
      simp only [Re.chr, List.cons_append, run_cls_cons, beq_self_eq_true, if_true]
      exact ih

theorem run_lit_some (w s : List Char) (c : Caps) (k : Cont) (r : List Char × Caps)
    (h : Re.run (Re.lit w) s c k = some r) : ∃ t, s = w ++ t ∧ k t c = some r := by
  induction w generalizing s with
  | nil => exact ⟨s, rfl, h⟩
  | cons x xs ih =>
    cases s with
    | nil =>
      cases xs with
      | nil => simp [Re.lit, Re.chr, Re.run] at h
      | cons y ys => simp [Re.lit, Re.chr, Re.run] at h
    | cons z zs =>
      cases xs with
      | nil =>
        simp only [Re.lit, Re.chr, run_cls_cons, beq_iff_eq] at h
        split at h
        · rename_i hz
          exact ⟨zs, by rw [hz]; rfl, h⟩
        · cases h
      | cons y ys =>
        rw [lit_cons_cons, run_cat] at h
        simp only [Re.chr, run_cls_cons, beq_iff_eq] at h
        split at h
        · rename_i hz
          obtain ⟨t, ht, hk⟩ := ih zs h
          exact ⟨t, by rw [hz, ht]; rfl, hk⟩
        · cases h

theorem loop_cls_prov (p : Char → Bool) (g : Bool) (n : Nat) (s : List Char) (c : Caps)
    (k : Cont) (r : List Char × Caps)
    (h : loop (Re.run (.cls p)) g n s c k = some r) : ∃ t, t <:+ s ∧ k t c = some r := by
  induction n generalizing s r with
  | zero => exact ⟨s, List.suffix_refl s, h⟩
  | succ n ih =>
    have hbody : ∀ r1, Re.run (.cls p) s c
        (fun s1 c1 => if s1.length < s.length then loop (Re.run (.cls p)) g n s1 c1 k
          else none) = some r1 → ∃ t, t <:+ s ∧ k t c = some r1 := by
      intro r1 hb
      cases s with
      | nil => simp [Re.run] at hb
      | cons x xs =>
        rw [run_cls_cons] at hb
        split at hb
        · simp only [List.length_cons, Nat.lt_succ_self, if_true] at hb
          obtain ⟨t, ht, hk⟩ := ih xs _ hb
          exact ⟨t, ht.trans (List.suffix_cons x xs), hk⟩
        · cases hb
    rw [loop] at h
    cases g with
    | true =>
      simp only [if_true] at h
      split at h
      · rename_i r1 hb
        cases h
        exact hbody _ hb
      · exact ⟨s, List.suffix_refl s, h⟩
    | false =>
      simp only [Bool.false_eq_true, if_false] at h
      split at h
      · rename_i r1 hk
        cases h
        exact ⟨s, List.suffix_refl s, hk⟩
      · exact hbody _ h

theorem loop_cls_greedy (p : Char → Bool) (ds rest : List Char) (n : Nat) (c : Caps)
    (k : Cont) (r : List Char × Caps) (hds : ∀ x ∈ ds, p x = true)
    (hrest : ∀ y, rest.head? = some y → p y = false) (hn : ds.length ≤ n)
    (hk : k rest c = some r) :
    loop (Re.run (.cls p)) true n (ds ++ rest) c k = some r := by
  induction ds generalizing n with
  | nil =>
    cases n with
    | zero => exact hk
    | succ n =>
      rw [loop]
      simp only [if_true, List.nil_append]
      cases rest with
      | nil => simpa [Re.run] using hk
      | cons y ys =>
        rw [run_cls_cons, hrest y rfl]
        simpa using hk
  | cons d ds ih =>
    cases n with
    | zero => simp at hn
    | succ n =>
      rw [loop]
      simp only [if_true, List.cons_append, run_cls_cons, hds d (List.mem_cons_self _ _),
        List.length_cons, Nat.lt_succ_self]
      rw [ih n (fun x hx => hds x (List.mem_cons_of_mem _ hx))
        (by simpa using hn)]

theorem loop_cls_success (p : Char → Bool) (g : Bool) (pre rest : List Char) (n : Nat)
    (c : Caps) (k : Cont) (r : List Char × Caps) (hpre : ∀ x ∈ pre, p x = true)
    (hn : pre.length ≤ n) (hk : k rest c = some r) :
    ∃ r1, loop (Re.run (.cls p)) g n (pre ++ rest) c k = some r1 := by
  induction pre generalizing n with
  | nil =>
    cases n with
    | zero => exact ⟨r, hk⟩
    | succ n =>
      rw [loop]
      cases g with
      | true =>
        simp only [if_true, List.nil_append]
        split
        · exact ⟨_, rfl⟩
        · exact ⟨r, hk⟩
      | false =>
        simp only [Bool.false_eq_true, if_false, List.nil_append, hk]
        exact ⟨r, rfl⟩
  | cons d ds ih =>
    cases n with
    | zero => simp at hn
    | succ n =>
      obtain ⟨r1, hr1⟩ := ih n (fun x hx => hpre x (List.mem_cons_of_mem _ hx))
        (by simpa using hn)
      rw [loop]
      cases g with
      | true =>
        simp only [if_true, List.cons_append, run_cls_cons,
          hpre d (List.mem_cons_self _ _), List.length_cons, Nat.lt_succ_self, hr1]
        exact ⟨r1, rfl⟩
      | false =>
        simp only [Bool.false_eq_true, if_false, List.cons_append, run_cls_cons,
          hpre d (List.mem_cons_self _ _), List.length_cons, Nat.lt_succ_self, hr1]
        split
        · exact ⟨_, rfl⟩
        · exact ⟨r1, rfl⟩

theorem loop_prov (body : List Char → Caps → Cont → MatchRes) (g : Bool)
    (hbody : ∀ s c k r, body s c k = some r → ∃ t c1, t <:+ s ∧ k t c1 = some r)
    (n : Nat) (s : List Char) (c : Caps) (k : Cont) (r : List Char × Caps)
    (h : loop body g n s c k = some r) : ∃ t c1, t <:+ s ∧ k t c1 = some r := by
  induction n generalizing s c r with
  | zero => exact ⟨s, c, List.suffix_refl s, h⟩
  | succ n ih =>
    have hb : ∀ r1, body s c
        (fun s1 c1 => if s1.length < s.length then loop body g n s1 c1 k else none) =
          some r1 → ∃ t c1, t <:+ s ∧ k t c1 = some r1 := by
      intro r1 hb
      obtain ⟨t, c1, ht, hk⟩ := hbody _ _ _ _ hb
      split at hk
      · obtain ⟨t2, c2, ht2, hk2⟩ := ih t c1 _ hk
        exact ⟨t2, c2, ht2.trans ht, hk2⟩
      · cases hk
    rw [loop] at h
    cases g with
    | true =>
      simp only [if_true] at h
      split at h
      · rename_i r1 hb1
        cases h
        exact hb _ hb1
      · exact ⟨s, c, List.suffix_refl s, h⟩
    | false =>
      simp only [Bool.false_eq_true, if_false] at h
      split at h
      · rename_i r1 hk
        cases h
        exact ⟨s, c, List.suffix_refl s, hk⟩
      · exact hb _ h

theorem run_prov (re : Re) (s : List Char) (c : Caps) (k : Cont) (r : List Char × Caps)
    (h : Re.run re s c k = some r) : ∃ t c1, t <:+ s ∧ k t c1 = some r := by
  induction re generalizing s c k r with
  | cls p =>
    cases s with
    | nil => simp [Re.run] at h
    | cons x xs =>
      rw [run_cls_cons] at h
      split at h
      · exact ⟨xs, c, List.suffix_cons x xs, h⟩
      · cases h
  | eps => exact ⟨s, c, List.suffix_refl s, h⟩
  | cat a b iha ihb =>
    rw [run_cat] at h
    obtain ⟨t1, c1, ht1, h1⟩ := iha _ _ _ _ h
    obtain ⟨t2, c2, ht2, h2⟩ := ihb _ _ _ _ h1
    exact ⟨t2, c2, ht2.trans ht1, h2⟩
  | alt a b iha ihb =>
    rw [Re.run] at h
    split at h
    · rename_i r1 h1
      cases h
      exact iha _ _ _ _ h1
    · exact ihb _ _ _ _ h
  | star g body ih =>
    rw [Re.run] at h
    exact loop_prov _ g (fun s c k r hb => ih s c k r hb) _ _ _ _ _ h
  | grp i body ih =>
    rw [Re.run] at h
    obtain ⟨t, c1, ht, hk⟩ := ih _ _ _ _ h
    exact ⟨t, _, ht, hk⟩

theorem run_grp (i : Nat) (re : Re) (s : List Char) (c : Caps) (k : Cont) :
    Re.run (.grp i re) s c k =
      Re.run re s c (fun s1 c1 => k s1 ((i, s.take (s.length - s1.length)) :: c1)) := rfl

theorem run_star (g : Bool) (re : Re) (s : List Char) (c : Caps) (k : Cont) :
    Re.run (.star g re) s c k = loop (Re.run re) g s.length s c k := rfl

theorem run_opt_none (re : Re) (s : List Char) (c : Caps) (k : Cont)
    (h : Re.run re s c k = none) : Re.run (Re.opt re) s c k = k s c := by
  show (match Re.run re s c k with
    | some r => some r
    | none => Re.run .eps s c k) = k s c
  rw [h]
  rfl

theorem run_opt_some (re : Re) (s : List Char) (c : Caps) (k : Cont) (r : List Char × Caps)
    (h : Re.run re s c k = some r) : Re.run (Re.opt re) s c k = some r := by
  show (match Re.run re s c k with
    | some r => some r
    | none => Re.run .eps s c k) = some r
  rw [h]

theorem run_anyStar_end (s : List Char) (c : Caps) (k : Cont) (r : List Char × Caps)
    (hs : ∀ x ∈ s, isAny x = true) (hk : k [] c = some r) :
    Re.run Re.anyStar s c k = some r := by
  have h := loop_cls_greedy isAny s [] s.length c k r hs (by simp) (Nat.le_refl _) hk
  rw [List.append_nil] at h
  exact h

theorem take_length_sub (a b : List Char) :
    List.take ((a ++ b).length - b.length) (a ++ b) = a := by
  rw [List.length_append, Nat.add_sub_cancel]
  exact List.take_left' rfl

theorem run_grp_plus (i : Nat) (p : Char → Bool) (ds rest : List Char) (c : Caps)
    (k : Cont) (r : List Char × Caps) (hne : ds ≠ []) (hds : ∀ x ∈ ds, p x = true)
    (hrest : ∀ y, rest.head? = some y → p y = false)
    (hk : k rest ((i, ds) :: c) = some r) :
    Re.run (.grp i (Re.plus (.cls p))) (ds ++ rest) c k = some r := by
  cases ds with
  | nil => exact absurd rfl hne
  | cons d ds =>
    rw [run_grp, Re.plus, run_cat]
    simp only [List.cons_append, run_cls_cons, hds d (List.mem_cons_self _ _), if_true,
      run_star]
    apply loop_cls_greedy p ds rest _ c _ r
      (fun x hx => hds x (List.mem_cons_of_mem _ hx)) hrest (by simp)
    have ht := take_length_sub (d :: ds) rest
    simp only [List.cons_append] at ht
    simp only [ht]
    exact hk

theorem run_grp_plus_some (i : Nat) (p : Char → Bool) (x : Re) (s : List Char) (c : Caps)
    (k : Cont) (r : List Char × Caps)
    (h : Re.run (.cat (.grp i (Re.plus (.cls p))) x) s c k = some r) :
    ∃ d t, s = d :: t ∧ p d = true := by
  cases s with
  | nil => simp [Re.run, Re.plus] at h
  | cons d t =>
    rw [run_cat, run_grp, Re.plus, run_cat, run_cls_cons] at h
    split at h
    · rename_i hd
      exact ⟨d, t, rfl, hd⟩
    · cases h

theorem exec_of_matchAt (re : Re) (s s1 : List Char) (c : Caps) (off : Nat)
    (h : re.matchAt s = some (s1, c)) (hs : s ≠ []) :
    re.exec s off = some (off, off + (s.length - s1.length), c) := by
  cases s with
  | nil => exact absurd rfl hs
  | cons x xs =>
    rw [Re.exec, h]

theorem replaceAllString_full (re : Re) (s : List Char) (c : Caps) (i : Nat)
    (h : re.matchAt s = some ([], c)) (hs : s ≠ []) (hnil : re.matchAt [] = none) :
    re.replaceAllString s i = capture c i := by
  have hlen : 0 < s.length := List.length_pos.2 hs
  have he := exec_of_matchAt re s [] c 0 h hs
  simp only [List.length_nil, Nat.sub_zero, Nat.zero_add] at he
  have he2 : re.exec [] s.length = none := by
    rw [Re.exec, hnil]
  unfold Re.replaceAllString
  rw [replaceLoop]
  simp only [Nat.zero_le, if_true, List.drop_zero, he, Nat.sub_self, List.take_zero,
    List.append_nil, List.nil_append, gt_iff_lt, hlen, true_or]
  rw [if_neg (by omega)]
  obtain ⟨m, hm⟩ : ∃ m, s.length = m + 1 := ⟨s.length - 1, by omega⟩
  rw [hm, replaceLoop, ← hm]
  simp only [Nat.le_refl, if_true, List.drop_length, he2, List.append_nil]

theorem matchString_of_matchAt (re : Re) (s s1 : List Char) (c : Caps)
    (h : re.matchAt s = some (s1, c)) (hs : s ≠ []) : re.matchString s = true := by
  unfold Re.matchString
  rw [exec_of_matchAt re s s1 c 0 h hs]
  rfl

/-! ## The expression `idQ` on names of the canonical shape -/

theorem seTag_underscore (xs : List Char) (c : Caps) (k : Cont) :
    Re.run (.grp 1 seTag) ('_' :: xs) c k = none := rfl

theorem idQ_groupQ (q tail : List Char) (c : Caps) (hq : q ≠ [])
    (hqd : ∀ x ∈ q, isDigit x = true) (htail : ∀ x ∈ tail, isAny x = true)
    (hth : ∀ y, tail.head? = some y → isDigit y = false) :
    Re.run (Re.seq [.grp 3 (Re.plus Re.digit), Re.anyStar]) (q ++ tail) c
      (fun s1 c1 => some (s1, c1)) = some ([], (3, q) :: c) := by
  show Re.run (.cat (.grp 3 (Re.plus (.cls isDigit))) Re.anyStar) (q ++ tail) c _ = _
  rw [run_cat]
  exact run_grp_plus 3 isDigit q tail c _ _ hq hqd hth
    (run_anyStar_end tail _ _ _ htail rfl)

theorem idQ_afterId (mid q tail : List Char) (c : Caps) (hq : q ≠ [])
    (hqd : ∀ x ∈ q, isDigit x = true) (htail : ∀ x ∈ tail, isAny x = true)
    (hth : ∀ y, tail.head? = some y → isDigit y = false)
    (hmid : ∀ x ∈ mid, isAny x = true)
    (huq : ∀ t d r, t <:+ mid ++ '_' :: 'q' :: (q ++ tail) → t = '_' :: 'q' :: d :: r →
      isDigit d = true → t = '_' :: 'q' :: (q ++ tail)) :
    Re.run (Re.seq [Re.anyStar, Re.lit "_q".toList, .grp 3 (Re.plus Re.digit), Re.anyStar])
      (mid ++ '_' :: 'q' :: (q ++ tail)) c (fun s1 c1 => some (s1, c1)) =
        some ([], (3, q) :: c) := by
  have hA := idQ_groupQ q tail c hq hqd htail hth
  have hK : (fun s1 c1 => Re.run (.cat (Re.lit ['_', 'q'])
      (Re.seq [.grp 3 (Re.plus Re.digit), Re.anyStar])) s1 c1 (fun s1 c1 => some (s1, c1)))
      ('_' :: 'q' :: (q ++ tail)) c = some ([], (3, q) :: c) := by
    show Re.run (.cat (Re.lit ['_', 'q']) _) (['_', 'q'] ++ (q ++ tail)) c _ = _
    rw [run_cat, run_lit_append]
    exact hA
  show Re.run (.cat (.star true (.cls isAny)) (.cat (Re.lit ['_', 'q'])
    (Re.seq [.grp 3 (Re.plus Re.digit), Re.anyStar]))) _ c _ = _
  rw [run_cat, run_star]
  obtain ⟨r1, hr1⟩ := loop_cls_success isAny true mid ('_' :: 'q' :: (q ++ tail))
    (mid ++ '_' :: 'q' :: (q ++ tail)).length c
    (fun s1 c1 => Re.run (.cat (Re.lit ['_', 'q'])
      (Re.seq [.grp 3 (Re.plus Re.digit), Re.anyStar])) s1 c1 (fun s1 c1 => some (s1, c1)))
    _ hmid (by simp) hK
  rw [hr1]
  obtain ⟨t, ht, hkt⟩ := loop_cls_prov _ _ _ _ _ _ _ hr1
  simp only [run_cat] at hkt
  obtain ⟨t1, ht1, hk1⟩ := run_lit_some _ _ _ _ _ hkt
  have hk1' : Re.run (.cat (.grp 3 (Re.plus (.cls isDigit))) Re.anyStar) t1 c
      (fun s1 c1 => some (s1, c1)) = some r1 := hk1
  obtain ⟨d, t2, ht2, hd⟩ := run_grp_plus_some 3 isDigit _ _ _ _ _ hk1'
  have hu := huq t d t2 ht (by rw [ht1, ht2]; rfl) hd
  rw [ht1] at hu
  have ht1q : t1 = q ++ tail := by
    simpa using hu
  rw [ht1q] at hk1
  rw [← hk1]
  exact hA.symm ▸ rfl

theorem idQ_fromId (id mid q tail : List Char) (c : Caps) (hid : id ≠ [])
    (hidd : ∀ x ∈ id, isDigit x = true) (hq : q ≠ [])
    (hqd : ∀ x ∈ q, isDigit x = true) (htail : ∀ x ∈ tail, isAny x = true)
    (hth : ∀ y, tail.head? = some y → isDigit y = false)
    (hmid : ∀ x ∈ mid, isAny x = true)
    (hmh : ∀ y, mid.head? = some y → isDigit y = false)
    (huq : ∀ t d r, t <:+ mid ++ '_' :: 'q' :: (q ++ tail) → t = '_' :: 'q' :: d :: r →
      isDigit d = true → t = '_' :: 'q' :: (q ++ tail)) :
    Re.run (Re.seq [.grp 2 (Re.plus Re.digit), Re.anyStar, Re.lit "_q".toList,
        .grp 3 (Re.plus Re.digit), Re.anyStar])
      (id ++ (mid ++ '_' :: 'q' :: (q ++ tail))) c (fun s1 c1 => some (s1, c1)) =
        some ([], (3, q) :: (2, id) :: c) := by
  show Re.run (.cat (.grp 2 (Re.plus (.cls isDigit)))
    (Re.seq [Re.anyStar, Re.lit "_q".toList, .grp 3 (Re.plus Re.digit), Re.anyStar])) _ c _ = _
  rw [run_cat]
  refine run_grp_plus 2 isDigit id _ c _ _ hid hidd ?_
    (idQ_afterId mid q tail _ hq hqd htail hth hmid huq)
  intro y hy
  cases mid with
  | nil =>
    simp only [List.nil_append, List.head?_cons, Option.some.injEq] at hy
    rw [← hy]
    decide
  | cons m ms => exact hmh y (by simpa using hy)

theorem idQ_front_prov (s id mid q tail : List Char) (c : Caps) (r : List Char × Caps)
    (hid : id ≠ [])
    (hidd : ∀ x ∈ id, isDigit x = true) (hq : q ≠ [])
    (hqd : ∀ x ∈ q, isDigit x = true) (htail : ∀ x ∈ tail, isAny x = true)
    (hth : ∀ y, tail.head? = some y → isDigit y = false)
    (hmid : ∀ x ∈ mid, isAny x = true)
    (hmh : ∀ y, mid.head? = some y → isDigit y = false)
    (huq : ∀ t d r, t <:+ mid ++ '_' :: 'q' :: (q ++ tail) → t = '_' :: 'q' :: d :: r →
      isDigit d = true → t = '_' :: 'q' :: (q ++ tail))
    (huc : ∀ t d r, t <:+ s → t = 'c' :: 'o' :: 'i' :: 'd' :: d :: r → isDigit d = true →
      t = 'c' :: 'o' :: 'i' :: 'd' :: (id ++ (mid ++ '_' :: 'q' :: (q ++ tail))))
    (h : Re.run (Re.seq [Re.opt (.grp 1 seTag), Re.opt (Re.chr '_'), Re.lit "coid".toList,
        .grp 2 (Re.plus Re.digit), Re.anyStar, Re.lit "_q".toList,
        .grp 3 (Re.plus Re.digit), Re.anyStar]) s c (fun s1 c1 => some (s1, c1)) = some r) :
    r.1 = [] ∧ capture r.2 2 = id ∧ capture r.2 3 = q := by
  have h0 : Re.run (.cat (Re.opt (.grp 1 seTag)) (.cat (Re.opt (Re.chr '_'))
      (.cat (Re.lit ['c', 'o', 'i', 'd']) (.cat (.grp 2 (Re.plus (.cls isDigit)))
        (Re.seq [Re.anyStar, Re.lit "_q".toList, .grp 3 (Re.plus Re.digit),
          Re.anyStar]))))) s c (fun s1 c1 => some (s1, c1)) = some r := h
  rw [run_cat] at h0
  obtain ⟨t1, c1, ht1, h1⟩ := run_prov _ _ _ _ _ h0
  rw [run_cat] at h1
  obtain ⟨t2, c2, ht2, h2⟩ := run_prov _ _ _ _ _ h1
  rw [run_cat] at h2
  obtain ⟨t3, ht3, h3⟩ := run_lit_some _ _ _ _ _ h2
  obtain ⟨d, t4, ht4, hd⟩ := run_grp_plus_some 2 isDigit _ _ _ _ _ h3
  have hu := huc t2 d t4 (ht2.trans ht1) (by rw [ht3, ht4]; rfl) hd
  rw [ht3] at hu
  have ht3' : t3 = id ++ (mid ++ '_' :: 'q' :: (q ++ tail)) := by
    simpa using hu
  rw [ht3'] at h3
  have hC := idQ_fromId id mid q tail c2 hid hidd hq hqd htail hth hmid hmh huq
  have hC' : Re.run (.cat (.grp 2 (Re.plus (.cls isDigit)))
      (Re.seq [Re.anyStar, Re.lit "_q".toList, .grp 3 (Re.plus Re.digit), Re.anyStar]))
      (id ++ (mid ++ '_' :: 'q' :: (q ++ tail))) c2 (fun s1 c1 => some (s1, c1)) =
        some ([], (3, q) :: (2, id) :: c2) := hC
  rw [hC'] at h3
  cases h3
  simp [capture]

theorem idQ_matchAt (pre id mid q tail : List Char)
    (hpre : ∀ x ∈ pre, isAny x = true) (hid : id ≠ [])
    (hidd : ∀ x ∈ id, isDigit x = true) (hq : q ≠ [])
    (hqd : ∀ x ∈ q, isDigit x = true) (htail : ∀ x ∈ tail, isAny x = true)
    (hth : ∀ y, tail.head? = some y → isDigit y = false)
    (hmid : ∀ x ∈ mid, isAny x = true)
    (hmh : ∀ y, mid.head? = some y → isDigit y = false)
    (huq : ∀ t d r, t <:+ mid ++ '_' :: 'q' :: (q ++ tail) → t = '_' :: 'q' :: d :: r →
      isDigit d = true → t = '_' :: 'q' :: (q ++ tail))
    (huc : ∀ t d r,
      t <:+ pre ++ '_' :: 'c' :: 'o' :: 'i' :: 'd' :: (id ++ (mid ++ '_' :: 'q' :: (q ++ tail))) →
      t = 'c' :: 'o' :: 'i' :: 'd' :: d :: r → isDigit d = true →
      t = 'c' :: 'o' :: 'i' :: 'd' :: (id ++ (mid ++ '_' :: 'q' :: (q ++ tail)))) :
    ∃ caps, idQ.matchAt
        (pre ++ '_' :: 'c' :: 'o' :: 'i' :: 'd' :: (id ++ (mid ++ '_' :: 'q' :: (q ++ tail)))) =
          some ([], caps) ∧ capture caps 2 = id ∧ capture caps 3 = q := by
  have hC := idQ_fromId id mid q tail [] hid hidd hq hqd htail hth hmid hmh huq
  have h2 : Re.run (.cat (Re.lit ['c', 'o', 'i', 'd']) (Re.seq [.grp 2 (Re.plus Re.digit),
      Re.anyStar, Re.lit "_q".toList, .grp 3 (Re.plus Re.digit), Re.anyStar]))
      (['c', 'o', 'i', 'd'] ++ (id ++ (mid ++ '_' :: 'q' :: (q ++ tail)))) []
      (fun s1 c1 => some (s1, c1)) = some ([], (3, q) :: (2, id) :: []) := by
    rw [run_cat, run_lit_append]
    exact hC
  have h3 : Re.run (.cat (Re.opt (Re.chr '_')) (.cat (Re.lit ['c', 'o', 'i', 'd'])
      (Re.seq [.grp 2 (Re.plus Re.digit),
      Re.anyStar, Re.lit "_q".toList, .grp 3 (Re.plus Re.digit), Re.anyStar])))
      ('_' :: 'c' :: 'o' :: 'i' :: 'd' :: (id ++ (mid ++ '_' :: 'q' :: (q ++ tail)))) []
      (fun s1 c1 => some (s1, c1)) = some ([], (3, q) :: (2, id) :: []) := by
    rw [run_cat]
    apply run_opt_some
    rw [Re.chr, run_cls_cons]
    simpa using h2
  have h4 : (fun s1 c1 => Re.run (Re.seq [Re.opt (.grp 1 seTag), Re.opt (Re.chr '_'),
      Re.lit "coid".toList, .grp 2 (Re.plus Re.digit), Re.anyStar, Re.lit "_q".toList,
      .grp 3 (Re.plus Re.digit), Re.anyStar]) s1 c1 (fun s1 c1 => some (s1, c1)))
      ('_' :: 'c' :: 'o' :: 'i' :: 'd' :: (id ++ (mid ++ '_' :: 'q' :: (q ++ tail)))) [] =
        some ([], (3, q) :: (2, id) :: []) := by
    show Re.run (.cat (Re.opt (.grp 1 seTag)) (.cat (Re.opt (Re.chr '_'))
      (.cat (Re.lit ['c', 'o', 'i', 'd']) (Re.seq [.grp 2 (Re.plus Re.digit),
      Re.anyStar, Re.lit "_q".toList, .grp 3 (Re.plus Re.digit), Re.anyStar])))) _ [] _ = _
    rw [run_cat, run_opt_none _ _ _ _ (seTag_underscore _ _ _)]
    exact h3
  unfold Re.matchAt
  show ∃ caps, Re.run (.cat (.star false (.cls isAny)) (Re.seq [Re.opt (.grp 1 seTag),
      Re.opt (Re.chr '_'), Re.lit "coid".toList, .grp 2 (Re.plus Re.digit), Re.anyStar,
      Re.lit "_q".toList, .grp 3 (Re.plus Re.digit), Re.anyStar])) _ [] _ = _ ∧ _
  rw [run_cat, run_star]
  obtain ⟨r1, hr1⟩ := loop_cls_success isAny false pre
    ('_' :: 'c' :: 'o' :: 'i' :: 'd' :: (id ++ (mid ++ '_' :: 'q' :: (q ++ tail))))
    (pre ++ '_' :: 'c' :: 'o' :: 'i' :: 'd' :: (id ++ (mid ++ '_' :: 'q' :: (q ++ tail)))).length
    [] (fun s1 c1 => Re.run (Re.seq [Re.opt (.grp 1 seTag), Re.opt (Re.chr '_'),
      Re.lit "coid".toList, .grp 2 (Re.plus Re.digit), Re.anyStar, Re.lit "_q".toList,
      .grp 3 (Re.plus Re.digit), Re.anyStar]) s1 c1 (fun s1 c1 => some (s1, c1)))
    _ hpre (by simp) h4
  obtain ⟨t, ht, hkt⟩ := loop_cls_prov _ _ _ _ _ _ _ hr1
  have hD := idQ_front_prov t id mid q tail [] r1 hid hidd hq hqd htail hth hmid hmh huq
    (fun t1 d r h1 h2 h3 => huc t1 d r (h1.trans ht) h2 h3) hkt
  refine ⟨r1.2, ?_, hD.2.1, hD.2.2⟩
  rw [hr1, ← hD.1]

/-! ## Occurrences of `coid` and `_q` in a canonical name -/

theorem adj_cons_cons (a b x y : Char) (r : List Char) :
    adj a b (x :: y :: r) = ((x == a && y == b) || adj a b (y :: r)) := rfl

theorem adj_cons_ne (a b x : Char) (s : List Char) (hx : x ≠ a) :
    adj a b (x :: s) = adj a b s := by
  cases s with
  | nil => rfl
  | cons y ys =>
    rw [adj_cons_cons]
    simp [hx]

theorem adj_append_of_ne (a b : Char) (s t : List Char) (hs : ∀ x ∈ s, x ≠ a) :
    adj a b (s ++ t) = adj a b t := by
  induction s with
  | nil => rfl
  | cons x xs ih =>
    rw [List.cons_append, adj_cons_ne a b x _ (hs x (List.mem_cons_self _ _))]
    exact ih (fun y hy => hs y (List.mem_cons_of_mem _ hy))

theorem adj_of_suffix (a b : Char) (t s : List Char) (h : t <:+ s)
    (ht : adj a b t = true) : adj a b s = true := by
  induction s with
  | nil =>
    rw [List.suffix_nil] at h
    rw [h] at ht
    exact ht
  | cons x xs ih =>
    rcases List.suffix_cons_iff.1 h with h1 | h1
    · rw [← h1]
      exact ht
    · have h2 := ih h1
      cases xs with
      | nil => simp [adj] at h2
      | cons y ys =>
        rw [adj_cons_cons, h2]
        simp

theorem suffix_append_cases (t s u : List Char) (h : t <:+ s ++ u) :
    t <:+ u ∨ ∃ s1, s1 ≠ [] ∧ s1 <:+ s ∧ t = s1 ++ u := by
  induction s with
  | nil => exact Or.inl h
  | cons x xs ih =>
    rcases List.suffix_cons_iff.1 h with h1 | h1
    · exact Or.inr ⟨x :: xs, by simp, List.suffix_refl _, h1⟩
    · rcases ih h1 with h2 | ⟨s1, hne, hs, ht⟩
      · exact Or.inl h2
      · exact Or.inr ⟨s1, hne, hs.trans (List.suffix_cons x xs), ht⟩

theorem suffix_unique_pair (a b y : Char) (t s u r : List Char)
    (h : t <:+ s ++ y :: u) (ht : t = a :: b :: r)
    (hs : adj a b (s ++ [y]) = false) (hu : adj a b u = false) : t = y :: u := by
  have hadj : adj a b t = true := by
    rw [ht, adj_cons_cons]
    simp
  rcases suffix_append_cases t s (y :: u) h with h1 | ⟨s1, hne, hsuf, hts⟩
  · rcases List.suffix_cons_iff.1 h1 with h2 | h2
    · exact h2
    · rw [adj_of_suffix a b t u h2 hadj] at hu
      cases hu
  · exfalso
    have h3 : adj a b (s1 ++ [y]) = true := by
      cases s1 with
      | nil => exact absurd rfl hne
      | cons x xs =>
        rw [ht] at hts
        cases xs with
        | nil =>
          simp only [List.cons_append, List.nil_append, List.cons.injEq] at hts
          obtain ⟨hx, hy, _⟩ := hts
          rw [← hx, ← hy]
          simp [adj]
        | cons z zs =>
          simp only [List.cons_append, List.cons.injEq] at hts
          obtain ⟨hx, hz, _⟩ := hts
          rw [← hx, ← hz]
          simp [adj_cons_cons]
    have h4 : s1 ++ [y] <:+ s ++ [y] := by
      obtain ⟨w, hw⟩ := hsuf
      exact ⟨w, by rw [← hw, List.append_assoc]⟩
    rw [adj_of_suffix a b _ _ h4 h3] at hs
    cases hs

theorem coid_unique (slug se id rest t r : List Char) (d : Char)
    (hslug : ∀ d, isDigit d = true → ¬ (['c', 'o', 'i', 'd', d] <:+: slug))
    (hse : se = [] ∨ ∃ tag, se = '_' :: tag ∧ ∀ x ∈ tag, x ≠ 'c')
    (hrest : adj 'c' 'o' ('o' :: 'i' :: 'd' :: (id ++ rest)) = false)
    (ht : t <:+ (slug ++ se) ++ '_' :: 'c' :: 'o' :: 'i' :: 'd' :: (id ++ rest))
    (hshape : t = 'c' :: 'o' :: 'i' :: 'd' :: d :: r) (hd : isDigit d = true) :
    t = 'c' :: 'o' :: 'i' :: 'd' :: (id ++ rest) := by
  have hadj : adj 'c' 'o' t = true := by
    rw [hshape, adj_cons_cons]
    simp
  have hM : t <:+ '_' :: 'c' :: 'o' :: 'i' :: 'd' :: (id ++ rest) →
      t = 'c' :: 'o' :: 'i' :: 'd' :: (id ++ rest) := by
    intro h
    rcases List.suffix_cons_iff.1 h with h1 | h1
    · rw [hshape] at h1
      simp at h1
    · rcases List.suffix_cons_iff.1 h1 with h2 | h2
      · exact h2
      · rw [adj_of_suffix _ _ _ _ h2 hadj] at hrest
        cases hrest
  rw [List.append_assoc] at ht
  rcases suffix_append_cases t slug _ ht with h1 | ⟨s1, hne, hsuf, hts⟩
  · rcases hse with hse | ⟨tag, hse, htag⟩
    · rw [hse] at h1
      exact hM h1
    · rw [hse, List.cons_append] at h1
      rcases List.suffix_cons_iff.1 h1 with h2 | h2
      · rw [hshape] at h2
        simp at h2
      · rcases suffix_append_cases t tag _ h2 with h3 | ⟨s2, hne2, hsuf2, hts2⟩
        · exact hM h3
        · exfalso
          cases s2 with
          | nil => exact hne2 rfl
          | cons x xs =>
            rw [hshape] at hts2
            simp only [List.cons_append, List.cons.injEq] at hts2
            exact htag x (hsuf2.subset (List.mem_cons_self _ _)) hts2.1.symm
  · exfalso
    have hX : ∃ X, se ++ '_' :: 'c' :: 'o' :: 'i' :: 'd' :: (id ++ rest) = '_' :: X := by
      rcases hse with hse | ⟨tag, hse, _⟩
      · exact ⟨_, by rw [hse]; rfl⟩
      · exact ⟨_, by rw [hse]; rfl⟩
    obtain ⟨X, hX⟩ := hX
    rw [hX, hshape] at hts
    rcases s1 with _ | ⟨a1, _ | ⟨a2, _ | ⟨a3, _ | ⟨a4, _ | ⟨a5, s2⟩⟩⟩⟩⟩
    · exact hne rfl
    · simp at hts
    · simp at hts
    · simp at hts
    · simp only [List.cons_append, List.nil_append, List.cons.injEq] at hts
      obtain ⟨_, _, _, _, h5, _⟩ := hts
      rw [h5] at hd
      revert hd
      decide
    · simp only [List.cons_append, List.cons.injEq] at hts
      obtain ⟨h1, h2, h3, h4, h5, _⟩ := hts
      obtain ⟨w, hw⟩ := hsuf
      refine hslug d hd ⟨w, s2, ?_⟩
      rw [← hw, ← h1, ← h2, ← h3, ← h4, ← h5]
      simp

/-! ## Token extraction on canonical names -/

theorem isDigit_ofNat (k : Nat) (h : k < 10) : isDigit (Char.ofNat (48 + k)) = true := by
  interval_cases k <;> rfl

theorem natDigits_digits (fuel n : Nat) (acc : List Char)
    (hacc : ∀ x ∈ acc, isDigit x = true) : ∀ x ∈ natDigits fuel n acc, isDigit x = true := by
  induction fuel generalizing n acc with
  | zero => exact hacc
  | succ fuel ih =>
    have hcons : ∀ x ∈ Char.ofNat (48 + n % 10) :: acc, isDigit x = true := by
      intro x hx
      rcases List.mem_cons.1 hx with h | h
      · rw [h]
        exact isDigit_ofNat _ (Nat.mod_lt _ (by decide))
      · exact hacc x h
    rw [natDigits]
    split
    · exact hcons
    · exact ih _ _ hcons

theorem itoa_chars (i : Int) : ∀ x ∈ itoa i, isDigit x = true ∨ x = '-' := by
  intro x hx
  cases i with
  | ofNat n => exact Or.inl (natDigits_digits _ _ [] (by simp) x hx)
  | negSucc n =>
    rcases List.mem_cons.1 hx with h | h
    · exact Or.inr h
    · exact Or.inl (natDigits_digits _ _ [] (by simp) x h)

theorem numChar_facts (x : Char) (h : isDigit x = true ∨ x = '-') :
    isAny x = true ∧ x ≠ '_' ∧ x ≠ 'c' ∧ x ≠ 'q' := by
  rcases h with h | h
  · refine ⟨?_, ?_, ?_, ?_⟩
    · simp only [isAny, Bool.not_eq_true', beq_eq_false_iff_ne]
      intro e
      rw [e] at h
      revert h
      decide
    all_goals
      intro e
      rw [e] at h
      revert h
      decide
  · rw [h]
    decide

theorem fpsDigits_digits (v : Video) (h : ∀ x ∈ v.fps, isDigit x = true ∨ x = '.') :
    ∀ x ∈ fpsDigits v, isDigit x = true := by
  intro x hx
  unfold fpsDigits formatFloat at hx
  rw [List.mem_filter] at hx
  rcases h x hx.1 with h1 | h1
  · exact h1
  · rw [h1] at hx
    simp at hx

theorem translitWith_isAny (chain : List Char → List Char) (text : List Char) :
    ∀ x ∈ (translitWith chain text).1, isAny x = true := by
  intro x hx
  simp only [isAny, Bool.not_eq_true', beq_eq_false_iff_ne]
  intro e
  rcases translitWith_shape chain text with h | ⟨y, ys, _, h, hy, hys⟩
  · rw [h] at hx
    cases hx
  · rw [h] at hx
    rcases List.mem_cons.1 hx with h1 | h1
    · rw [← h1, e] at hy
      revert hy
      decide
    · have := hys x h1
      rw [e] at this
      revert this
      decide

theorem idQ_matchAt_nil : idQ.matchAt [] = none := rfl

theorem extractTokens_canonical (slug se id year q : List Char) (v : Video) (l : Char)
    (hany : ∀ x ∈ slug, isAny x = true)
    (hslug : ∀ d, isDigit d = true → ¬ (['c', 'o', 'i', 'd', d] <:+: slug))
    (hse : se = [] ∨ ∃ tag, se = '_' :: tag ∧
      ∀ x ∈ tag, x = 's' ∨ x = 'e' ∨ isDigit x = true)
    (hid : id ≠ []) (hidd : ∀ x ∈ id, isDigit x = true)
    (hq : q ≠ []) (hqd : ∀ x ∈ q, isDigit x = true)
    (hyear : ∀ x ∈ year, isDigit x = true ∨ x = '-')
    (hfps : ∀ x ∈ v.fps, isDigit x = true ∨ x = '.') (hl : isAlpha l = true) :
    (extractTokens (exactName slug se id year q v l)).2.1 = id ∧
      (extractTokens (exactName slug se id year q v l)).2.2 = q := by
  have hW := fun x hx => numChar_facts x (itoa_chars v.resolution.1 x hx)
  have hH := fun x hx => numChar_facts x (itoa_chars v.resolution.2 x hx)
  have hF := fun x hx => numChar_facts x (Or.inl (fpsDigits_digits v hfps x hx))
  have hY := fun x hx => numChar_facts x (hyear x hx)
  have hI := fun x hx => numChar_facts x (Or.inl (hidd x hx))
  have hQ := fun x hx => numChar_facts x (Or.inl (hqd x hx))
  have hlf : isAny l = true ∧ l ≠ '_' := by
    constructor
    · simp only [isAny, Bool.not_eq_true', beq_eq_false_iff_ne]
      intro e
      rw [e] at hl
      revert hl
      decide
    · intro e
      rw [e] at hl
      revert hl
      decide
  have hsef : ∀ x ∈ se, isAny x = true := by
    intro x hx
    rcases hse with h | ⟨tag, h, htag⟩
    · rw [h] at hx
      cases hx
    · rw [h] at hx
      rcases List.mem_cons.1 hx with h1 | h1
      · rw [h1]
        rfl
      · rcases htag x h1 with h2 | h2 | h2
        · rw [h2]
          rfl
        · rw [h2]
          rfl
        · exact (numChar_facts x (Or.inl h2)).1
  have hsec : se = [] ∨ ∃ tag, se = '_' :: tag ∧ ∀ x ∈ tag, x ≠ 'c' := by
    rcases hse with h | ⟨tag, h, htag⟩
    · exact Or.inl h
    · refine Or.inr ⟨tag, h, fun x hx => ?_⟩
      rcases htag x hx with h2 | h2 | h2
      · rw [h2]
        decide
      · rw [h2]
        decide
      · exact (numChar_facts x (Or.inl h2)).2.2.1
  obtain ⟨tail, htail⟩ : ∃ tail, tail = '_' :: 'r' :: (itoa v.resolution.1 ++
      'x' :: (itoa v.resolution.2 ++ 'p' :: (fpsDigits v ++
        '_' :: 'a' :: l :: ['2', '.', 'm', 'p', '4']))) := ⟨_, rfl⟩
  have hname : exactName slug se id year q v l =
      (slug ++ se) ++ '_' :: 'c' :: 'o' :: 'i' :: 'd' ::
        (id ++ (('_' :: (year ++ ['_'])) ++ '_' :: 'q' :: (q ++ tail))) := by
    rw [htail]
    simp [exactName, techPart, byteString_alpha l hl, List.append_assoc]
  have htany : ∀ x ∈ tail, isAny x = true := by
    intro x hx
    rw [htail] at hx
    simp only [List.mem_cons, List.mem_append] at hx
    rcases hx with h | h | h | h | h | h | h | h | h | h | h
    · rw [h]; rfl
    · rw [h]; rfl
    · exact (hW x h).1
    · rw [h]; rfl
    · exact (hH x h).1
    · rw [h]; rfl
    · exact (hF x h).1
    · rw [h]; rfl
    · rw [h]; rfl
    · rw [h]; exact hlf.1
    · revert h
      simp only [List.mem_cons, List.mem_singleton, List.not_mem_nil, or_false]
      rintro (h | h | h | h | h) <;> (rw [h]; rfl)
  have hth : ∀ y, tail.head? = some y → isDigit y = false := by
    intro y hy
    rw [htail] at hy
    simp only [List.head?_cons, Option.some.injEq] at hy
    rw [← hy]
    rfl
  have hmid : ∀ x ∈ '_' :: (year ++ ['_']), isAny x = true := by
    intro x hx
    simp only [List.mem_cons, List.mem_append, List.mem_singleton, List.not_mem_nil,
      or_false] at hx
    rcases hx with h | h | h
    · rw [h]; rfl
    · exact (hY x h).1
    · rw [h]; rfl
  have hmh : ∀ y, ('_' :: (year ++ ['_'])).head? = some y → isDigit y = false := by
    intro y hy
    simp only [List.head?_cons, Option.some.injEq] at hy
    rw [← hy]
    rfl
  have htq : adj '_' 'q' tail = false := by
    rw [htail, adj_cons_cons, adj_cons_ne '_' 'q' 'r' _ (by decide),
      adj_append_of_ne _ _ _ _ (fun x hx => (hW x hx).2.1),
      adj_cons_ne '_' 'q' 'x' _ (by decide),
      adj_append_of_ne _ _ _ _ (fun x hx => (hH x hx).2.1),
      adj_cons_ne '_' 'q' 'p' _ (by decide),
      adj_append_of_ne _ _ _ _ (fun x hx => (hF x hx).2.1),
      adj_cons_cons, adj_cons_ne '_' 'q' 'a' _ (by decide),
      adj_cons_ne '_' 'q' l _ hlf.2]
    rfl
  have huq : ∀ t d r, t <:+ ('_' :: (year ++ ['_'])) ++ '_' :: 'q' :: (q ++ tail) →
      t = '_' :: 'q' :: d :: r → isDigit d = true → t = '_' :: 'q' :: (q ++ tail) := by
    intro t d r ht hshape _
    refine suffix_unique_pair '_' 'q' '_' t _ _ _ ht hshape ?_ ?_
    · have h1 : adj '_' 'q' ((year ++ ['_']) ++ ['_']) = false := by
        rw [List.append_assoc, adj_append_of_ne _ _ _ _ (fun x hx => (hY x hx).2.1)]
        rfl
      cases year with
      | nil => rfl
      | cons y ys =>
        have hy := (hY y (List.mem_cons_self _ _)).2.2.2
        have h2 : adj '_' 'q' (y :: ((ys ++ ['_']) ++ ['_'])) = false := h1
        show adj '_' 'q' ('_' :: y :: ((ys ++ ['_']) ++ ['_'])) = false
        rw [adj_cons_cons, h2]
        simp [hy]
    · rw [adj_cons_ne '_' 'q' 'q' _ (by decide),
        adj_append_of_ne _ _ _ _ (fun x hx => (hQ x hx).2.1)]
      exact htq
  have hco : adj 'c' 'o' ('o' :: 'i' :: 'd' ::
      (id ++ (('_' :: (year ++ ['_'])) ++ '_' :: 'q' :: (q ++ tail)))) = false := by
    rw [htail, adj_cons_ne 'c' 'o' 'o' _ (by decide), adj_cons_ne 'c' 'o' 'i' _ (by decide),
      adj_cons_ne 'c' 'o' 'd' _ (by decide),
      adj_append_of_ne _ _ _ _ (fun x hx => (hI x hx).2.2.1), List.cons_append,
      adj_cons_ne 'c' 'o' '_' _ (by decide), List.append_assoc,
      adj_append_of_ne _ _ _ _ (fun x hx => (hY x hx).2.2.1), List.cons_append,
      List.nil_append,
      adj_cons_ne 'c' 'o' '_' _ (by decide), adj_cons_ne 'c' 'o' '_' _ (by decide),
      adj_cons_ne 'c' 'o' 'q' _ (by decide),
      adj_append_of_ne _ _ _ _ (fun x hx => (hQ x hx).2.2.1),
      adj_cons_ne 'c' 'o' '_' _ (by decide), adj_cons_ne 'c' 'o' 'r' _ (by decide),
      adj_append_of_ne _ _ _ _ (fun x hx => (hW x hx).2.2.1),
      adj_cons_ne 'c' 'o' 'x' _ (by decide),
      adj_append_of_ne _ _ _ _ (fun x hx => (hH x hx).2.2.1),
      adj_cons_ne 'c' 'o' 'p' _ (by decide),
      adj_append_of_ne _ _ _ _ (fun x hx => (hF x hx).2.2.1),
      adj_cons_ne 'c' 'o' '_' _ (by decide), adj_cons_ne 'c' 'o' 'a' _ (by decide),
      adj_cons_cons]
    simp [adj]
  have huc : ∀ t d r, t <:+ (slug ++ se) ++ '_' :: 'c' :: 'o' :: 'i' :: 'd' ::
        (id ++ (('_' :: (year ++ ['_'])) ++ '_' :: 'q' :: (q ++ tail))) →
      t = 'c' :: 'o' :: 'i' :: 'd' :: d :: r → isDigit d = true →
      t = 'c' :: 'o' :: 'i' :: 'd' ::
        (id ++ (('_' :: (year ++ ['_'])) ++ '_' :: 'q' :: (q ++ tail))) :=
    fun t d r ht hshape hd => coid_unique slug se id _ t r d hslug hsec hco ht hshape hd
  obtain ⟨caps, hm, h2, h3⟩ := idQ_matchAt (slug ++ se) id ('_' :: (year ++ ['_'])) q tail
    (fun x hx => (List.mem_append.1 hx).elim (hany x) (hsef x)) hid hidd hq hqd htany hth
    hmid hmh huq huc
  rw [← hname] at hm
  have hne : exactName slug se id year q v l ≠ [] := by
    rw [hname]
    simp
  unfold extractTokens
  rw [if_pos (matchString_of_matchAt idQ _ _ _ hm hne),
    replaceAllString_full idQ _ caps 2 hm hne idQ_matchAt_nil,
    replaceAllString_full idQ _ caps 3 hm hne idQ_matchAt_nil]
  exact ⟨h2, h3⟩

set_option maxRecDepth 1000000 in
/-- C3 (counterexample): the title `acoid7` gives the slug `Acoid7`; from the canonical
name built with this slug and the id `12345` the extraction returns the id `7`. -/
theorem c3_slug_with_coid :
    (translit "acoid7".toList).1 = "Acoid7".toList ∧
      exactName (translit "acoid7".toList).1 [] "12345".toList "1999".toList "0".toList
          videoF 'r' =
        "Acoid7_coid12345_1999__q0_r1920x1080p23976_ar2.mp4".toList ∧
      (extractTokens (exactName (translit "acoid7".toList).1 [] "12345".toList
        "1999".toList "0".toList videoF 'r')).2.1 = "7".toList ∧
      (extractTokens (exactName (translit "acoid7".toList).1 [] "12345".toList
        "1999".toList "0".toList videoF 'r')).2.1 ≠ "12345".toList := by
  decide

/-- C3 (amended): for every slug returned by `translit` that does not contain `coid`
directly followed by a digit, every season/episode segment (empty, or `_` and a tag made
of `s`, `e` and digits), every non-empty digit string `id` and `q`, every year made of
digits and `-`, every resolution, every fps text of digits and `.` and every audio
language starting with an ASCII letter, the extraction of lines 179 to 188 applied to the
exact-mode name built from them returns the same `id` and the same `q`. -/
theorem c3_extract_canonical (chain : List Char → List Char)
    (text se id year q : List Char) (v : Video) (l : Char)
    (hslug : ∀ d, isDigit d = true →
      ¬ (['c', 'o', 'i', 'd', d] <:+: (translitWith chain text).1))
    (hse : se = [] ∨ ∃ tag, se = '_' :: tag ∧
      ∀ x ∈ tag, x = 's' ∨ x = 'e' ∨ isDigit x = true)
    (hid : id ≠ []) (hidd : ∀ x ∈ id, isDigit x = true)
    (hq : q ≠ []) (hqd : ∀ x ∈ q, isDigit x = true)
    (hyear : ∀ x ∈ year, isDigit x = true ∨ x = '-')
    (hfps : ∀ x ∈ v.fps, isDigit x = true ∨ x = '.') (hl : isAlpha l = true) :
    (extractTokens (exactName (translitWith chain text).1 se id year q v l)).2.1 = id ∧
      (extractTokens (exactName (translitWith chain text).1 se id year q v l)).2.2 = q :=
  extractTokens_canonical _ se id year q v l (translitWith_isAny chain text) hslug hse
    hid hidd hq hqd hyear hfps hl

theorem c3_extract_canonical_witness :
    (extractTokens (exactName (translitWith textChain "Матрица".toList).1
        "_s01e02".toList "12345".toList "1999".toList "0".toList videoF 'r')).2.1 =
        "12345".toList ∧
      (extractTokens (exactName (translitWith textChain "Матрица".toList).1
        "_s01e02".toList "12345".toList "1999".toList "0".toList videoF 'r')).2.2 =
        "0".toList :=
  c3_extract_canonical textChain "Матрица".toList "_s01e02".toList "12345".toList
    "1999".toList "0".toList videoF 'r'
    (by
      rintro d _ ⟨u, w, h⟩
      have ho : 'o' ∈ (translitWith textChain "Матрица".toList).1 := by
        rw [← h]
        simp
      revert ho
      decide)
    (Or.inr ⟨"s01e02".toList, rfl, by decide⟩)
    (by decide) (by decide) (by decide) (by decide) (by decide) (by decide) (by decide)

/-! ## Catalog decoding and stream counting -/

/-- C14: `translit("Матрица")` returns `("Matrica", nil)`. -/
theorem c14_translit_matrica : translit "Матрица".toList = ("Matrica".toList, none) := by
  decide

/-- C20 (code at the failing input): for a decoded record with an empty list of years
the step after decoding neither returns a triple nor an error: `m.Years[0]` panics with
an index out of range; with the years `[1999]` the same record yields `Matrica`, `1999`
and `MOVIE`. -/
theorem c20_empty_years_panic :
    getMetaDecoded textChain movieNoYears =
        Outcome.panic "runtime error: index out of range [0] with length 0".toList ∧
      getMetaDecoded textChain { movieNoYears with years := [1999] } =
        Outcome.ret { movieName := "Matrica".toList, movieYear := "1999".toList,
                      movieType := "MOVIE".toList, err := none } := by
  decide

set_option maxRecDepth 1000000 in
/-- C12 (counterexample): the probe text `probeTwoAudio` has no match of the video
grammar and two matches of the audio grammar; the file ends with
`No video stream found.`, the audio grammar is not counted and the message
`More then one audio stream.` with the two matched lines is not printed. -/
theorem c12_audio_not_counted :
    re0v.findAllString probeTwoAudio = [] ∧
      (re1a.findAllString probeTwoAudio).length = 2 ∧
      streamsStep true "a.mp4".toList [] "1".toList "0".toList
          { movieName := "Film".toList, movieYear := "2000".toList,
            movieType := "MOVIE".toList, err := none } probeTwoAudio =
        [Line.red "No video stream found.".toList] ∧
      Line.red "More then one audio stream.".toList ∉
        streamsStep true "a.mp4".toList [] "1".toList "0".toList
          { movieName := "Film".toList, movieYear := "2000".toList,
            movieType := "MOVIE".toList, err := none } probeTwoAudio := by
  decide

/-- C12 (amended): the video grammar is counted first: with no match the file ends with
`No video stream found.`, with two or more matches with `More then one video stream.`
followed by every matched line, and with one match that does not parse with
`Could not parse video stream.`; only with exactly one video match that parses is the
audio grammar counted, in the same way; the checks receive the parsed descriptors only
when both grammars have exactly one match, and whenever one of the two counts is not
one the output does not depend on the tokens or the catalog data. -/
theorem c12_exactly_one_stream (kp : Bool) (baseName se id q : List Char) (r : KpResult)
    (probe : List Char) :
    (re0v.findAllString probe = [] →
      streamsStep kp baseName se id q r probe =
        [Line.red "No video stream found.".toList]) ∧
    (2 ≤ (re0v.findAllString probe).length →
      streamsStep kp baseName se id q r probe =
        [Line.red "More then one video stream.".toList] ++
          (re0v.findAllString probe).map Line.plain ++ [Line.plain []]) ∧
    (∀ vs, re0v.findAllString probe = [vs] → (parseVideo vs).2 ≠ none →
      streamsStep kp baseName se id q r probe =
        [Line.red "Could not parse video stream.".toList]) ∧
    (∀ vs, re0v.findAllString probe = [vs] → (parseVideo vs).2 = none →
      (re1a.findAllString probe = [] →
        streamsStep kp baseName se id q r probe =
          [Line.red "No audio stream found.".toList]) ∧
      (2 ≤ (re1a.findAllString probe).length →
        streamsStep kp baseName se id q r probe =
          [Line.red "More then one audio stream.".toList] ++
            (re1a.findAllString probe).map Line.plain) ∧
      (∀ as, re1a.findAllString probe = [as] → (parseAudio as).2 ≠ none →
        streamsStep kp baseName se id q r probe =
          [Line.red "Could not parse audio stream.".toList]) ∧
      (∀ as, re1a.findAllString probe = [as] → (parseAudio as).2 = none →
        streamsStep kp baseName se id q r probe =
          checks kp baseName se id q r.movieName r.movieYear r.movieType
            (parseVideo vs).1 (parseAudio as).1)) ∧
    ((re0v.findAllString probe).length ≠ 1 ∨ (re1a.findAllString probe).length ≠ 1 →
      ∀ (kp1 : Bool) (baseName1 se1 id1 q1 : List Char) (r1 : KpResult),
        streamsStep kp baseName se id q r probe =
          streamsStep kp1 baseName1 se1 id1 q1 r1 probe) := by
  refine ⟨?_, ?_, ?_, ?_, ?_⟩
  · intro h
    unfold streamsStep
    simp [h]
  · intro h
    unfold streamsStep
    simp only
    rw [if_pos (by omega)]
  · intro vs hv hpv
    unfold streamsStep
    simp [hv, hpv]
  · intro vs hv hpv
    refine ⟨?_, ?_, ?_, ?_⟩
    · intro ha
      unfold streamsStep
      simp [hv, hpv, ha]
    · intro ha
      unfold streamsStep
      simp only [hv, hpv]
      simp only [List.length_singleton, gt_iff_lt, Nat.lt_irrefl, if_false, ne_eq,
        not_true_eq_false]
      rw [if_pos (by omega)]
    · intro as ha hpa
      unfold streamsStep
      simp [hv, hpv, ha, hpa]
    · intro as ha hpa
      unfold streamsStep
      simp [hv, hpv, ha, hpa]
  · intro h kp1 baseName1 se1 id1 q1 r1
    unfold streamsStep
    simp only
    by_cases hv2 : (re0v.findAllString probe).length > 1
    · rw [if_pos hv2, if_pos hv2]
    · rw [if_neg hv2, if_neg hv2]
      cases hvs : re0v.findAllString probe with
      | nil => rfl
      | cons vs rest =>
        have hrest : rest = [] := by
          rw [hvs] at hv2
          cases rest with
          | nil => rfl
          | cons _ _ => simp at hv2
        simp only
        by_cases hp : (parseVideo vs).2 ≠ none
        · rw [if_pos hp, if_pos hp]
        · rw [if_neg hp, if_neg hp]
          by_cases ha2 : (re1a.findAllString probe).length > 1
          · rw [if_pos ha2, if_pos ha2]
          · rw [if_neg ha2, if_neg ha2]
            cases has : re1a.findAllString probe with
            | nil => rfl
            | cons as arest =>
              exfalso
              rw [has] at ha2
              rw [hvs, hrest, has] at h
              cases arest with
              | nil => simp at h
              | cons _ _ => simp at ha2

set_option maxRecDepth 1000000 in
set_option exponentiation.threshold 1024 in
theorem c12_exactly_one_stream_witness :
    (re0v.findAllString probeF = [videoLineF] ∧ (parseVideo videoLineF).2 = none ∧
      re1a.findAllString probeF = [audioLineF] ∧ (parseAudio audioLineF).2 = none ∧
      streamsStep true "x.mp4".toList [] "12345".toList "0".toList
          { movieName := "Matrica".toList, movieYear := "1999".toList,
            movieType := "MOVIE".toList, err := none } probeF =
        checks true "x.mp4".toList [] "12345".toList "0".toList "Matrica".toList
          "1999".toList "MOVIE".toList (parseVideo videoLineF).1 (parseAudio audioLineF).1) ∧
    (re0v.findAllString probeTwoAudio = [] ∧
      streamsStep true "x.mp4".toList [] "12345".toList "0".toList
          { movieName := "Matrica".toList, movieYear := "1999".toList,
            movieType := "MOVIE".toList, err := none } probeTwoAudio =
        [Line.red "No video stream found.".toList]) :=
  ⟨⟨by decide, by decide, by decide, by decide,
    ((c12_exactly_one_stream true "x.mp4".toList [] "12345".toList "0".toList
        { movieName := "Matrica".toList, movieYear := "1999".toList,
          movieType := "MOVIE".toList, err := none } probeF).2.2.2.1
      videoLineF (by decide) (by decide)).2.2.2 audioLineF (by decide) (by decide)⟩,
   ⟨by decide,
    (c12_exactly_one_stream true "x.mp4".toList [] "12345".toList "0".toList
        { movieName := "Matrica".toList, movieYear := "1999".toList,
          movieType := "MOVIE".toList, err := none } probeTwoAudio).1 (by decide)⟩⟩

/-! ## The text transformer of `translit` -/

theorem translitStep_eq (st : Acc) (r : Char) :
    translitStep st r =
      if loopOut r = ['.'] then st
      else if loopOut r = [] then { st with sep := st.underscore }
      else { ret := st.ret ++ st.sep ++ loopOut r, sep := [], underscore := ['_'] } := rfl

theorem decomposeAll_append (a b : List Char) :
    decomposeAll (a ++ b) = decomposeAll a ++ decomposeAll b := by
  induction a with
  | nil => rfl
  | cons r rs ih => rw [List.cons_append, decomposeAll, decomposeAll, ih, List.append_assoc]

theorem insertMark_starter (c : Char) (acc : List Char) (hc : ccc c = 0) :
    insertMark c acc = c :: acc := by
  cases acc with
  | nil => rfl
  | cons x xs =>
    rw [insertMark, if_neg]
    intro h
    exact h.1 hc

theorem insertMark_append_starter (c S : Char) (xs ys : List Char) (hS : ccc S = 0) :
    insertMark c (xs ++ S :: ys) = insertMark c xs ++ S :: ys := by
  induction xs with
  | nil =>
    have h : insertMark c (S :: ys) = c :: S :: ys := by
      rw [insertMark, if_neg]
      intro h
      rw [hS] at h
      exact Nat.not_lt_zero _ h.2
    rw [List.nil_append, h]
    rfl
  | cons x xs ih =>
    rw [List.cons_append, insertMark, insertMark]
    by_cases h : ccc c ≠ 0 ∧ ccc c < ccc x
    · rw [if_pos h, if_pos h, ih, List.cons_append]
    · rw [if_neg h, if_neg h]
      rfl

theorem foldl_insertMark_append_starter (b : List Char) (S : Char) (acc ys : List Char)
    (hS : ccc S = 0) :
    b.foldl (fun acc c => insertMark c acc) (acc ++ S :: ys) =
      b.foldl (fun acc c => insertMark c acc) acc ++ S :: ys := by
  induction b generalizing acc with
  | nil => rfl
  | cons c cs ih =>
    rw [List.foldl_cons, List.foldl_cons, insertMark_append_starter c S acc ys hS, ih]

/-- The canonical ordering does not move runes across a starter. -/
theorem reorder_append_starter (a b : List Char) (S : Char) (hS : ccc S = 0) :
    reorder (a ++ S :: b) = reorder a ++ S :: reorder b := by
  unfold reorder
  rw [List.foldl_append, List.foldl_cons, insertMark_starter S _ hS]
  have h := foldl_insertMark_append_starter b S []
    (a.foldl (fun acc c => insertMark c acc) []) hS
  rw [List.nil_append] at h
  rw [h, List.reverse_append, List.reverse_cons, List.append_assoc]
  rfl

theorem mem_insertMark (c x : Char) (l : List Char) :
    x ∈ insertMark c l ↔ x = c ∨ x ∈ l := by
  induction l with
  | nil => simp [insertMark]
  | cons y ys ih =>
    rw [insertMark]
    by_cases h : ccc c ≠ 0 ∧ ccc c < ccc y
    · rw [if_pos h, List.mem_cons, ih, List.mem_cons]
      tauto
    · rw [if_neg h, List.mem_cons]

theorem mem_foldl_insertMark (w acc : List Char) (x : Char) :
    x ∈ w.foldl (fun acc c => insertMark c acc) acc ↔ x ∈ w ∨ x ∈ acc := by
  induction w generalizing acc with
  | nil => simp
  | cons c cs ih =>
    rw [List.foldl_cons, ih, mem_insertMark, List.mem_cons]
    tauto

/-- The canonical ordering keeps the runes of the text. -/
theorem mem_reorder (w : List Char) (x : Char) : x ∈ reorder w ↔ x ∈ w := by
  unfold reorder
  rw [List.mem_reverse, mem_foldl_insertMark]
  simp

theorem insertMark_of_le (c : Char) (lo : List Char) (d : Char)
    (hlo : ∀ x ∈ lo, ccc x ≠ 0 ∧ ccc x < ccc d) (hc : ¬ (ccc c ≠ 0 ∧ ccc c < ccc d)) :
    insertMark c lo = c :: lo := by
  cases lo with
  | nil => rfl
  | cons x xs =>
    rw [insertMark, if_neg]
    intro h
    have hx := (hlo x (List.mem_cons_self _ _)).2
    exact hc ⟨h.1, Nat.lt_trans h.2 hx⟩

theorem insertMark_mark (c d : Char) (hi lo : List Char)
    (hlo : ∀ x ∈ lo, ccc x ≠ 0 ∧ ccc x < ccc d) :
    ∃ hi1 lo1, insertMark c (hi ++ d :: lo) = hi1 ++ d :: lo1 ∧
      insertMark c (hi ++ lo) = hi1 ++ lo1 ∧ ∀ x ∈ lo1, ccc x ≠ 0 ∧ ccc x < ccc d := by
  induction hi with
  | nil =>
    by_cases h : ccc c ≠ 0 ∧ ccc c < ccc d
    · refine ⟨[], insertMark c lo, ?_, rfl, ?_⟩
      · rw [List.nil_append, insertMark, if_pos h]
        rfl
      · intro x hx
        rw [mem_insertMark] at hx
        rcases hx with hx | hx
        · rw [hx]
          exact h
        · exact hlo x hx
    · refine ⟨[c], lo, ?_, ?_, hlo⟩
      · rw [List.nil_append, insertMark, if_neg h]
        rfl
      · rw [List.nil_append, insertMark_of_le c lo d hlo h]
        rfl
  | cons y ys ih =>
    obtain ⟨hi1, lo1, h1, h2, h3⟩ := ih
    by_cases h : ccc c ≠ 0 ∧ ccc c < ccc y
    · refine ⟨y :: hi1, lo1, ?_, ?_, h3⟩
      · rw [List.cons_append, insertMark, if_pos h, h1]
        rfl
      · rw [List.cons_append, insertMark, if_pos h, h2]
        rfl
    · refine ⟨c :: y :: ys, lo, ?_, ?_, hlo⟩
      · rw [List.cons_append, insertMark, if_neg h]
        rfl
      · rw [List.cons_append, insertMark, if_neg h]
        rfl

theorem foldl_insertMark_mark (w : List Char) (d : Char) (hi lo : List Char)
    (hlo : ∀ x ∈ lo, ccc x ≠ 0 ∧ ccc x < ccc d) :
    ∃ hi1 lo1, w.foldl (fun acc c => insertMark c acc) (hi ++ d :: lo) = hi1 ++ d :: lo1 ∧
      w.foldl (fun acc c => insertMark c acc) (hi ++ lo) = hi1 ++ lo1 ∧
      ∀ x ∈ lo1, ccc x ≠ 0 ∧ ccc x < ccc d := by
  induction w generalizing hi lo with
  | nil => exact ⟨hi, lo, rfl, rfl, hlo⟩
  | cons c cs ih =>
    obtain ⟨hi1, lo1, h1, h2, h3⟩ := insertMark_mark c d hi lo hlo
    rw [List.foldl_cons, List.foldl_cons, h1, h2]
    exact ih hi1 lo1 h3

/-- The canonical ordering of a text behind a leading rune `d`: the runes that move in
front of `d` are non-starters of a lower class, and without `d` the text is ordered in
the same way. -/
theorem reorder_mark (d : Char) (w : List Char) :
    ∃ lo hi, reorder (d :: w) = lo ++ d :: hi ∧ reorder w = lo ++ hi ∧
      ∀ x ∈ lo, ccc x ≠ 0 ∧ ccc x < ccc d := by
  obtain ⟨hi1, lo1, h1, h2, h3⟩ := foldl_insertMark_mark w d [] [] (by simp)
  refine ⟨lo1.reverse, hi1.reverse, ?_, ?_, ?_⟩
  · unfold reorder
    rw [List.foldl_cons]
    show (w.foldl (fun acc c => insertMark c acc) ([] ++ d :: [])).reverse = _
    rw [h1, List.reverse_append, List.reverse_cons, List.append_assoc]
    rfl
  · unfold reorder
    show (w.foldl (fun acc c => insertMark c acc) ([] ++ [])).reverse = _
    rw [h2, List.reverse_append]
  · intro x hx
    exact h3 x (List.mem_reverse.1 hx)

theorem reorder_nil : reorder [] = [] := rfl

theorem compose_nonstarters (lo rest : List Char) (h : ∀ x ∈ lo, ccc x ≠ 0) :
    compose (lo ++ rest) = lo ++ compose rest := by
  induction lo with
  | nil => rfl
  | cons x xs ih =>
    rw [List.cons_append, compose,
      if_neg (h x (List.mem_cons_self _ _)),
      ih (fun y hy => h y (List.mem_cons_of_mem _ hy))]
    rfl

theorem compose_starter (S : Char) (B : List Char) (hS : ccc S = 0) :
    compose (S :: B) = composeFrom S [] B := by
  rw [compose, if_pos hS]

theorem composeFrom_append_starter (A : List Char) (st : Char) (pend : List Char) (S : Char)
    (B : List Char) (hS : ccc S = 0) (hn : ∀ x, combine x S = none) :
    composeFrom st pend (A ++ S :: B) = composeFrom st pend A ++ composeFrom S [] B := by
  induction A generalizing st pend with
  | nil =>
    rw [List.nil_append, composeFrom, composeFrom]
    have h : (if blocked pend S = true then none else combine st S) = none := by
      split
      · rfl
      · exact hn st
    rw [h]
    simp only
    rw [if_pos hS]
  | cons c cs ih =>
    rw [List.cons_append, composeFrom, composeFrom]
    cases hm : (if blocked pend c = true then none else combine st c) with
    | some z => exact ih z pend
    | none =>
      simp only
      by_cases hc : ccc c = 0
      · rw [if_pos hc, if_pos hc, ih c [], List.append_assoc]
      · rw [if_neg hc, if_neg hc]
        exact ih st (c :: pend)

/-- The composition does not reach across a starter that is the second rune of no
primary composite. -/
theorem compose_append_starter (A : List Char) (S : Char) (B : List Char) (hS : ccc S = 0)
    (hn : ∀ x, combine x S = none) :
    compose (A ++ S :: B) = compose A ++ composeFrom S [] B := by
  induction A with
  | nil =>
    rw [List.nil_append, compose_starter S B hS]
    simp [compose]
  | cons c cs ih =>
    rw [List.cons_append, compose, compose]
    by_cases hc : ccc c = 0
    · rw [if_pos hc, if_pos hc, composeFrom_append_starter cs c [] S B hS hn]
    · rw [if_neg hc, if_neg hc, ih]
      rfl

/-- A starter that combines with none of the non-starters that follow it, nor with the
next starter, stays as it is. -/
theorem composeFrom_lead (run : List Char) (st : Char) (pend rest : List Char)
    (hrun : ∀ x ∈ run, ccc x ≠ 0 ∧ combine st x = none)
    (hrest : rest = [] ∨ ∃ S t, rest = S :: t ∧ ccc S = 0 ∧ combine st S = none) :
    composeFrom st pend (run ++ rest) = st :: pend.reverse ++ compose (run ++ rest) := by
  induction run generalizing pend with
  | nil =>
    rcases hrest with h | ⟨S, t, h, hS, hn⟩
    · rw [h]
      simp [composeFrom, compose]
    · rw [h, List.nil_append, composeFrom, compose_starter S t hS]
      have h2 : (if blocked pend S = true then none else combine st S) = none := by
        split
        · rfl
        · exact hn
      rw [h2]
      simp only
      rw [if_pos hS]
  | cons x xs ih =>
    obtain ⟨hx, hn⟩ := hrun x (List.mem_cons_self _ _)
    rw [List.cons_append, composeFrom, compose, if_neg hx]
    have h2 : (if blocked pend x = true then none else combine st x) = none := by
      split
      · rfl
      · exact hn
    rw [h2]
    simp only
    rw [if_neg hx, ih (x :: pend) (fun y hy => hrun y (List.mem_cons_of_mem _ hy)),
      List.reverse_cons]
    simp

theorem composeFrom_inert (w : List Char) (st : Char) (pend : List Char)
    (h : ∀ x, combine st x = none) :
    composeFrom st pend w = st :: pend.reverse ++ compose w := by
  induction w generalizing pend with
  | nil => simp [composeFrom, compose]
  | cons c cs ih =>
    rw [composeFrom, compose]
    have h2 : (if blocked pend c = true then none else combine st c) = none := by
      split
      · rfl
      · exact h c
    rw [h2]
    simp only
    by_cases hc : ccc c = 0
    · rw [if_pos hc, if_pos hc]
    · rw [if_neg hc, if_neg hc, ih (c :: pend), List.reverse_cons]
      simp

theorem blocked_of_lt (pend : List Char) (d : Char) (h : ∀ x ∈ pend, ccc x < ccc d) :
    blocked pend d = false := by
  cases pend with
  | nil => rfl
  | cons l ls =>
    have := h l (List.mem_cons_self _ _)
    simp only [blocked, decide_eq_false_iff_not, not_le]
    exact this

/-- A mark that combines with the starter does so behind non-starters of a lower class
that do not combine with the starter. -/
theorem composeFrom_mark (lo : List Char) (st d z : Char) (pend hi : List Char)
    (hc : combine st d = some z)
    (hpend : ∀ x ∈ pend, ccc x < ccc d)
    (hlo : ∀ x ∈ lo, (ccc x ≠ 0 ∧ ccc x < ccc d) ∧ combine st x = none) :
    composeFrom st pend (lo ++ d :: hi) = composeFrom z (lo.reverse ++ pend) hi := by
  induction lo generalizing pend with
  | nil =>
    rw [List.nil_append, composeFrom, blocked_of_lt pend d hpend]
    simp only [Bool.false_eq_true, if_false, hc]
    rfl
  | cons x xs ih =>
    obtain ⟨⟨hx, hxd⟩, hn⟩ := hlo x (List.mem_cons_self _ _)
    rw [List.cons_append, composeFrom]
    have h2 : (if blocked pend x = true then none else combine st x) = none := by
      split
      · rfl
      · exact hn
    rw [h2]
    simp only
    rw [if_neg hx, ih (x :: pend) ?_ (fun y hy => hlo y (List.mem_cons_of_mem _ hy)),
      List.reverse_cons, List.append_assoc]
    · rfl
    · intro y hy
      rcases List.mem_cons.1 hy with h | h
      · rw [h]
        exact hxd
      · exact hpend y h

/-- Composition of a text in which the starter `b` is followed by the mark `d`: the two
become their primary composite `z`, and the text before `b` and the text behind `d` are
composed as they are on their own. -/
theorem compose_reorder_pair (b d z : Char) (U V : List Char)
    (hb : ccc b = 0) (hbn : ∀ x, combine x b = none) (hbd : combine b d = some z)
    (hlow : ∀ x, ccc x ≠ 0 → ccc x < ccc d → combine b x = none)
    (hz : ∀ x, combine z x = none) :
    compose (reorder (U ++ b :: d :: V)) =
      compose (reorder U) ++ z :: compose (reorder V) := by
  obtain ⟨lo, hi, h1, h2, h3⟩ := reorder_mark d V
  rw [reorder_append_starter U (d :: V) b hb, h1, h2,
    compose_append_starter _ b _ hb hbn,
    composeFrom_mark lo b d z [] hi hbd (by simp)
      (fun x hx => ⟨h3 x hx, hlow x (h3 x hx).1 (h3 x hx).2⟩),
    composeFrom_inert hi z _ hz, List.append_nil, List.reverse_reverse,
    compose_nonstarters lo hi (fun x hx => (h3 x hx).1)]
  simp

/-! ### Facts of the character data -/

theorem Table.find_of_all {α : Type} (p : Nat → Nat → α → Bool) (t : Table α) (n lo : Nat)
    (v : α) (h : t.all p = true) (hf : t.find n = some (lo, v)) :
    ∃ hi, p lo hi v = true ∧ lo ≤ n ∧ n ≤ hi := by
  induction t with
  | leaf => simp [Table.find] at hf
  | node l a b w r ihl ihr =>
    simp only [Table.all, Bool.and_eq_true] at h
    rw [Table.find] at hf
    by_cases h1 : n < a
    · rw [if_pos h1] at hf
      exact ihl h.1 hf
    · rw [if_neg h1] at hf
      by_cases h2 : b < n
      · rw [if_pos h2] at hf
        exact ihr h.2.2 hf
      · rw [if_neg h2] at hf
        simp only [Option.some.injEq, Prod.mk.injEq] at hf
        obtain ⟨e1, e2⟩ := hf
        subst e1
        subst e2
        exact ⟨b, h.2.1, Nat.le_of_not_lt h1, Nat.le_of_not_lt h2⟩

theorem Table.rows_within {α : Type} (t : Table α) (lo hi : Nat) (h : t.within lo hi = true)
    (a b : Nat) (v : α) (hm : (a, b, v) ∈ t.rows) : lo ≤ a ∧ a ≤ b ∧ b < hi := by
  induction t generalizing lo hi with
  | leaf => simp [Table.rows] at hm
  | node l x y w r ihl ihr =>
    simp only [Table.within, Bool.and_eq_true, decide_eq_true_eq] at h
    obtain ⟨⟨⟨⟨h1, h2⟩, h3⟩, h4⟩, h5⟩ := h
    simp only [Table.rows, List.mem_append, List.mem_cons, Prod.mk.injEq] at hm
    rcases hm with hm | ⟨e1, e2, _⟩ | hm
    · have := ihl lo x h4 hm
      omega
    · omega
    · have := ihr (y + 1) hi h5 hm
      omega

/-- In a search tree `find` yields the row whose range holds the rune. -/
theorem Table.find_of_mem {α : Type} (t : Table α) (lo hi : Nat)
    (h : t.within lo hi = true) (a b : Nat) (v : α) (hm : (a, b, v) ∈ t.rows) (n : Nat)
    (h1 : a ≤ n) (h2 : n ≤ b) : t.find n = some (a, v) := by
  induction t generalizing lo hi with
  | leaf => simp [Table.rows] at hm
  | node l x y w r ihl ihr =>
    have hw := h
    simp only [Table.within, Bool.and_eq_true, decide_eq_true_eq] at hw
    obtain ⟨⟨⟨⟨w1, w2⟩, w3⟩, w4⟩, w5⟩ := hw
    simp only [Table.rows, List.mem_append, List.mem_cons, Prod.mk.injEq] at hm
    rw [Table.find]
    rcases hm with hm | ⟨e1, e2, e3⟩ | hm
    · have := Table.rows_within l lo x w4 a b v hm
      rw [if_pos (by omega)]
      exact ihl lo x w4 hm
    · rw [if_neg (by omega), if_neg (by omega), e1, e3]
    · have := Table.rows_within r (y + 1) hi w5 a b v hm
      rw [if_neg (by omega), if_pos (by omega)]
      exact ihr (y + 1) hi w5 hm

/-- The five tables are search trees over the runes. -/
theorem tables_within :
    cccTable.within 0 0x110000 = true ∧ decompTable.within 0 0x110000 = true ∧
      compTable.within 0 0x110000 = true ∧ mnTable.within 0 0x110000 = true ∧
      lowerTable.within 0 0x110000 = true := by
  decide

set_option maxRecDepth 100000 in
theorem decompTable_heads :
    decompTable.all (fun k _ ds => (mnTable.find k).isSome ||
      (match ds with
       | [] => false
       | f :: _ => ccc (Char.ofNat f) == 0)) = true := by
  decide

set_option maxRecDepth 100000 in
theorem decompTable_keys : decompTable.all (fun k _ _ => decide (128 ≤ k)) = true := by
  decide

set_option maxRecDepth 100000 in
theorem cccTable_keys : cccTable.all (fun k _ _ => decide (128 ≤ k)) = true := by decide

set_option maxRecDepth 100000 in
theorem mnTable_keys : mnTable.all (fun k _ _ => decide (128 ≤ k)) = true := by decide

set_option maxRecDepth 100000 in
theorem compTable_seconds :
    compTable.all (fun _ _ ps => ps.all (fun e => decide (128 ≤ e.1))) = true := by decide

set_option maxRecDepth 100000 in
theorem hangul_lead_ccc :
    ((List.range 19).all fun k => ccc (Char.ofNat (0x1100 + k)) == 0) = true := by decide

theorem ccc_eq_zero_of_find (c : Char) (h : cccTable.find c.toNat = none) : ccc c = 0 := by
  unfold ccc
  rw [h]

theorem ascii_ccc (c : Char) (h : c.toNat < 128) : ccc c = 0 := by
  apply ccc_eq_zero_of_find
  cases hf : cccTable.find c.toNat with
  | none => rfl
  | some e =>
    obtain ⟨lo, v⟩ := e
    obtain ⟨hi, h1, h2, _⟩ := Table.find_of_all _ _ _ _ _ cccTable_keys hf
    simp only [decide_eq_true_eq] at h1
    omega

theorem ascii_isMn (c : Char) (h : c.toNat < 128) : isMn c = false := by
  unfold isMn
  cases hf : mnTable.find c.toNat with
  | none => rfl
  | some e =>
    obtain ⟨lo, v⟩ := e
    obtain ⟨hi, h1, h2, _⟩ := Table.find_of_all _ _ _ _ _ mnTable_keys hf
    simp only [decide_eq_true_eq] at h1
    omega

theorem ascii_decompose (c : Char) (h : c.toNat < 128) : decompose c = [c] := by
  unfold decompose
  simp only
  rw [if_neg (by omega)]
  cases hf : decompTable.find c.toNat with
  | none => rfl
  | some e =>
    obtain ⟨lo, v⟩ := e
    obtain ⟨hi, h1, h2, _⟩ := Table.find_of_all _ _ _ _ _ decompTable_keys hf
    simp only [decide_eq_true_eq] at h1
    omega

theorem findSecond_mem (n z : Nat) (ps : List (Nat × Nat)) (h : findSecond n ps = some z) :
    (n, z) ∈ ps := by
  induction ps with
  | nil => simp [findSecond] at h
  | cons e rest ih =>
    obtain ⟨y, w⟩ := e
    rw [findSecond] at h
    by_cases hy : y = n
    · rw [if_pos hy] at h
      simp only [Option.some.injEq] at h
      rw [hy, h]
      exact List.mem_cons_self _ _
    · rw [if_neg hy] at h
      exact List.mem_cons_of_mem _ (ih h)

/-- The second rune of a primary composite satisfies every property that holds for the
Hangul vowels and trailing consonants and for the second runes of `compTable`. -/
theorem combine_second (q : Nat → Bool)
    (hq : compTable.all (fun _ _ ps => ps.all (fun e => q e.1)) = true)
    (hh : ∀ n, 0x1161 ≤ n → n ≤ 0x11C2 → q n = true) (a b z : Char)
    (h : combine a b = some z) : q b.toNat = true := by
  unfold combine at h
  simp only at h
  split at h
  · split at h
    · rename_i h1
      exact hh _ h1.1 (by omega)
    · simp at h
  · split at h
    · split at h
      · rename_i h1
        exact hh _ (by omega) h1.2.2
      · simp at h
    · cases hf : compTable.find a.toNat with
      | none => simp [hf] at h
      | some e =>
        obtain ⟨lo, ps⟩ := e
        obtain ⟨hi, h1, _, _⟩ := Table.find_of_all _ _ _ _ _ hq hf
        rw [hf] at h
        simp only at h
        cases hs : findSecond b.toNat ps with
        | none => simp [hs] at h
        | some w =>
          have hm := findSecond_mem _ _ _ hs
          rw [List.all_eq_true] at h1
          exact h1 _ hm

theorem compTable_seconds_cyr :
    compTable.all (fun _ _ ps => ps.all (fun e =>
      !(e.1 == 0x438 || e.1 == 0x418 || e.1 == 0x435 || e.1 == 0x415))) = true := by
  decide

theorem ascii_not_second (c : Char) (h : c.toNat < 128) (x : Char) : combine x c = none := by
  cases hc : combine x c with
  | none => rfl
  | some z =>
    have := combine_second (fun n => decide (128 ≤ n)) compTable_seconds
      (fun n h1 _ => by simp only [decide_eq_true_eq]; omega) x c z hc
    simp only [decide_eq_true_eq] at this
    omega

theorem cyr_not_second (c : Char)
    (h : c.toNat = 0x438 ∨ c.toNat = 0x418 ∨ c.toNat = 0x435 ∨ c.toNat = 0x415) (x : Char) :
    combine x c = none := by
  cases hc : combine x c with
  | none => rfl
  | some z =>
    have := combine_second (fun n => !(n == 0x438 || n == 0x418 || n == 0x435 || n == 0x415))
      compTable_seconds_cyr
      (fun n h1 h2 => by
        simp only [Bool.not_eq_true', Bool.or_eq_false_iff, beq_eq_false_iff_ne, ne_eq]
        omega) x c z hc
    simp only [Bool.not_eq_true', Bool.or_eq_false_iff, beq_eq_false_iff_ne, ne_eq] at this
    omega

/-- The second runes with which a rune below the Hangul blocks combines are those of
its row of `compTable`. -/
theorem combine_first (a : Char) (lo : Nat) (ps : List (Nat × Nat)) (P : Char → Prop)
    (ha : a.toNat < 0x1100) (hf : compTable.find a.toNat = some (lo, ps))
    (hP : ∀ e ∈ ps, P (Char.ofNat e.1)) (x z : Char) (h : combine a x = some z) : P x := by
  unfold combine at h
  simp only at h
  rw [if_neg (by omega), if_neg (by omega), hf] at h
  simp only at h
  cases hs : findSecond x.toNat ps with
  | none => simp [hs] at h
  | some w =>
    have hm := hP _ (findSecond_mem _ _ _ hs)
    simp only [Char.ofNat_toNat] at hm
    exact hm

theorem combine_first_none (a : Char) (ha : a.toNat < 0x1100)
    (hf : compTable.find a.toNat = none) (x : Char) : combine a x = none := by
  unfold combine
  simp only
  rw [if_neg (by omega), if_neg (by omega), hf]

/-- A rune outside `unicode.Mn` either has no decomposition or has a decomposition that
begins with a starter. -/
theorem decompose_head (c : Char) (h : isMn c = false) :
    decompose c = [c] ∨ ∃ f t, decompose c = f :: t ∧ ccc f = 0 := by
  unfold decompose
  simp only
  split
  · rename_i hr
    have hl : ccc (Char.ofNat (0x1100 + (c.toNat - 0xAC00) / 588)) = 0 := by
      have hk : (c.toNat - 0xAC00) / 588 < 19 := by omega
      have := List.all_eq_true.1 hangul_lead_ccc _ (List.mem_range.2 hk)
      simpa using this
    right
    split
    · exact ⟨_, _, rfl, hl⟩
    · exact ⟨_, _, rfl, hl⟩
  · cases hf : decompTable.find c.toNat with
    | none => exact Or.inl rfl
    | some e =>
      obtain ⟨lo, ds⟩ := e
      obtain ⟨hi, h1, h2, h3⟩ := Table.find_of_all _ _ _ _ _ decompTable_heads hf
      right
      simp only
      have hlo : lo = c.toNat := by
        have := Table.find_of_all (fun a b _ => decide (a = b)) decompTable c.toNat lo ds
          (by decide) hf
        obtain ⟨hi1, e1, e2, e3⟩ := this
        simp only [decide_eq_true_eq] at e1
        omega
      rw [hlo] at h1
      unfold isMn at h
      rw [h, Bool.false_or] at h1
      cases ds with
      | nil => simp at h1
      | cons f t =>
        simp only [beq_iff_eq] at h1
        exact ⟨Char.ofNat f, t.map Char.ofNat, rfl, h1⟩

theorem textChain_eq (text : List Char) : textChain text = nfc (chainTail (nfc text)) := rfl

theorem decomposeAll_cons (r : Char) (rs : List Char) :
    decomposeAll (r :: rs) = decompose r ++ decomposeAll rs := rfl

/-- The first `NFC` on a text in which the starter `b` is followed by the mark `d`. -/
theorem nfc_pair (b d z : Char) (u v : List Char)
    (hdb : decompose b = [b]) (hdd : decompose d = [d])
    (hb : ccc b = 0) (hbn : ∀ x, combine x b = none) (hbd : combine b d = some z)
    (hlow : ∀ x, ccc x ≠ 0 → ccc x < ccc d → combine b x = none)
    (hz : ∀ x, combine z x = none) :
    nfc (u ++ b :: d :: v) = nfc u ++ z :: nfc v := by
  unfold nfc nfd
  rw [decomposeAll_append, decomposeAll_cons, decomposeAll_cons, hdb, hdd]
  simp only [List.cons_append, List.nil_append]
  exact compose_reorder_pair b d z _ _ hb hbn hbd hlow hz

/-- The first `NFC` on a text with the primary composite `z` of `b` and `d`. -/
theorem nfc_composite (b d z : Char) (u v : List Char)
    (hdz : decompose z = [b, d])
    (hb : ccc b = 0) (hbn : ∀ x, combine x b = none) (hbd : combine b d = some z)
    (hlow : ∀ x, ccc x ≠ 0 → ccc x < ccc d → combine b x = none)
    (hz : ∀ x, combine z x = none) :
    nfc (u ++ z :: v) = nfc u ++ z :: nfc v := by
  unfold nfc nfd
  rw [decomposeAll_append, decomposeAll_cons, hdz]
  simp only [List.cons_append, List.nil_append]
  exact compose_reorder_pair b d z _ _ hb hbn hbd hlow hz

/-- The stages between the two `NFC` at a rune that becomes the starter `y`, which has
no decomposition and is no mark. -/
theorem chainTail_plain (x y : Char) (a b : List Char)
    (hx : replaceY (toLower x) = y) (hd : decompose y = [y]) (hc : ccc y = 0)
    (hm : isMn y = false) :
    chainTail (a ++ x :: b) = chainTail a ++ y :: chainTail b := by
  unfold chainTail nfd
  rw [List.map_append, List.map_append, List.map_cons, List.map_cons, hx,
    decomposeAll_append, decomposeAll_cons, hd, List.cons_append, List.nil_append]
  rw [reorder_append_starter _ _ y hc, List.filter_append, List.filter_cons, hm]
  rfl

/-- The stages between the two `NFC` at a rune that is decomposed into the starter `e`
and the mark `m`: the mark is removed. -/
theorem chainTail_marked (x y e m : Char) (a b : List Char)
    (hx : replaceY (toLower x) = y) (hd : decompose y = [e, m]) (hc : ccc e = 0)
    (he : isMn e = false) (hm : isMn m = true) :
    chainTail (a ++ x :: b) = chainTail a ++ e :: chainTail b := by
  unfold chainTail nfd
  rw [List.map_append, List.map_append, List.map_cons, List.map_cons, hx,
    decomposeAll_append, decomposeAll_cons, hd, List.cons_append, List.cons_append,
    List.nil_append]
  obtain ⟨lo, hi, h1, h2, _⟩ := reorder_mark m (decomposeAll ((b.map toLower).map replaceY))
  rw [reorder_append_starter _ _ e hc, h1, h2, List.filter_append, List.filter_cons, he]
  simp [List.filter_append, List.filter_cons, hm]

/-- The decomposition of a text without runes of `unicode.Mn` begins with non-starters
outside `unicode.Mn`, which are followed by a starter or by nothing. -/
theorem decomposeAll_lead (s : List Char) (h : ∀ c ∈ s, isMn c = false) :
    ∃ run rest, decomposeAll s = run ++ rest ∧ (∀ x ∈ run, ccc x ≠ 0 ∧ isMn x = false) ∧
      (rest = [] ∨ ∃ S t, rest = S :: t ∧ ccc S = 0) := by
  induction s with
  | nil => exact ⟨[], [], rfl, by simp, Or.inl rfl⟩
  | cons c cs ih =>
    have hc := h c (List.mem_cons_self _ _)
    rw [decomposeAll_cons]
    rcases decompose_head c hc with hd | ⟨f, t, hd, hf⟩
    · rw [hd]
      by_cases h0 : ccc c = 0
      · exact ⟨[], c :: decomposeAll cs, rfl, by simp, Or.inr ⟨c, _, rfl, h0⟩⟩
      · obtain ⟨run, rest, e1, e2, e3⟩ := ih (fun x hx => h x (List.mem_cons_of_mem _ hx))
        refine ⟨c :: run, rest, ?_, ?_, e3⟩
        · rw [e1]
          rfl
        · intro x hx
          rcases List.mem_cons.1 hx with e | e
          · rw [e]
            exact ⟨h0, hc⟩
          · exact e2 x e
    · rw [hd]
      exact ⟨[], f :: (t ++ decomposeAll cs), rfl, by simp, Or.inr ⟨f, _, rfl, hf⟩⟩

/-- The last `NFC` at a starter `p` that has no decomposition, is the second rune of no
primary composite and combines only with non-starters of `unicode.Mn`, in front of a text
without runes of `unicode.Mn`. -/
theorem nfc_lead (p : Char) (a b : List Char)
    (hd : decompose p = [p]) (hc : ccc p = 0) (hn : ∀ x, combine x p = none)
    (hp : ∀ x z, combine p x = some z → isMn x = true ∧ ccc x ≠ 0)
    (hb : ∀ c ∈ b, isMn c = false) :
    nfc (a ++ p :: b) = nfc a ++ p :: nfc b := by
  have hnone : ∀ x, (isMn x = false ∨ ccc x = 0) → combine p x = none := by
    intro x hx
    cases hcx : combine p x with
    | none => rfl
    | some z =>
      obtain ⟨h1, h2⟩ := hp x z hcx
      rcases hx with hx | hx
      · rw [hx] at h1
        exact absurd h1 (by simp)
      · exact absurd hx h2
  unfold nfc nfd
  rw [decomposeAll_append, decomposeAll_cons, hd, List.cons_append, List.nil_append]
  rw [reorder_append_starter _ _ p hc, compose_append_starter _ p _ hc hn]
  obtain ⟨run, rest, e1, e2, e3⟩ := decomposeAll_lead b hb
  rw [e1]
  have hrun : ∀ x ∈ reorder run, ccc x ≠ 0 ∧ combine p x = none := by
    intro x hx
    rw [mem_reorder] at hx
    exact ⟨(e2 x hx).1, hnone x (Or.inl (e2 x hx).2)⟩
  rcases e3 with e3 | ⟨S, t, e3, hS⟩
  · rw [e3, List.append_nil]
    have := composeFrom_lead (reorder run) p [] [] hrun (Or.inl rfl)
    rw [List.append_nil] at this
    rw [this]
    rfl
  · rw [e3, reorder_append_starter run t S hS,
      composeFrom_lead (reorder run) p [] (S :: reorder t) hrun
        (Or.inr ⟨S, _, rfl, hS, hnone S (Or.inr hS)⟩)]
    rfl

theorem chainTail_not_mn (s : List Char) : ∀ c ∈ chainTail s, isMn c = false := by
  intro c hc
  unfold chainTail at hc
  have := (List.mem_filter.1 hc).2
  simpa using this

/-- The transformer on a text in which the first `NFC` yields the rune `x` between the
results for `u` and `v`, where `x` becomes the starter `p` in the stages behind it. -/
theorem textChain_at (x p : Char) (w u v : List Char)
    (h1 : nfc w = nfc u ++ x :: nfc v)
    (h2 : ∀ a b, chainTail (a ++ x :: b) = chainTail a ++ p :: chainTail b)
    (hd : decompose p = [p]) (hc : ccc p = 0) (hn : ∀ x, combine x p = none)
    (hp : ∀ x z, combine p x = some z → isMn x = true ∧ ccc x ≠ 0) :
    textChain w = textChain u ++ p :: textChain v := by
  rw [textChain_eq, textChain_eq, textChain_eq, h1, h2,
    nfc_lead p _ _ hd hc hn hp (chainTail_not_mn _)]

theorem reorder_starters (s : List Char) (h : ∀ c ∈ s, ccc c = 0) : reorder s = s := by
  induction s with
  | nil => rfl
  | cons c cs ih =>
    have := reorder_append_starter [] cs c (h c (List.mem_cons_self _ _))
    rw [List.nil_append] at this
    rw [this, ih (fun x hx => h x (List.mem_cons_of_mem _ hx))]
    rfl

theorem composeFrom_plain (s : List Char) (st : Char)
    (h : ∀ c ∈ s, ccc c = 0 ∧ ∀ x, combine x c = none) : composeFrom st [] s = st :: s := by
  induction s generalizing st with
  | nil => rfl
  | cons c cs ih =>
    obtain ⟨hc, hn⟩ := h c (List.mem_cons_self _ _)
    rw [composeFrom]
    have h2 : (if blocked [] c = true then none else combine st c) = none := by
      split
      · rfl
      · exact hn st
    rw [h2]
    simp only
    rw [if_pos hc, ih c (fun x hx => h x (List.mem_cons_of_mem _ hx))]
    rfl

theorem compose_plain (s : List Char) (h : ∀ c ∈ s, ccc c = 0 ∧ ∀ x, combine x c = none) :
    compose s = s := by
  cases s with
  | nil => rfl
  | cons c cs =>
    rw [compose, if_pos (h c (List.mem_cons_self _ _)).1,
      composeFrom_plain cs c (fun x hx => h x (List.mem_cons_of_mem _ hx))]

theorem decomposeAll_ascii (s : List Char) (h : ∀ c ∈ s, c.toNat < 128) :
    decomposeAll s = s := by
  induction s with
  | nil => rfl
  | cons c cs ih =>
    rw [decomposeAll_cons, ascii_decompose c (h c (List.mem_cons_self _ _)),
      ih (fun x hx => h x (List.mem_cons_of_mem _ hx))]
    rfl

theorem nfd_ascii (s : List Char) (h : ∀ c ∈ s, c.toNat < 128) : nfd s = s := by
  unfold nfd
  rw [decomposeAll_ascii s h, reorder_starters s (fun c hc => ascii_ccc c (h c hc))]

theorem nfc_ascii (s : List Char) (h : ∀ c ∈ s, c.toNat < 128) : nfc s = s := by
  unfold nfc
  rw [nfd_ascii s h,
    compose_plain s (fun c hc => ⟨ascii_ccc c (h c hc), ascii_not_second c (h c hc)⟩)]

theorem toLower_ascii (c : Char) (h : c.toNat < 128) : (toLower c).toNat < 128 := by
  unfold toLower
  rw [if_pos (by omega)]
  split
  · rename_i hu
    have hx : c = Char.ofNat c.toNat := (Char.ofNat_toNat c).symm
    obtain ⟨h1, h2⟩ := hu
    generalize c.toNat = n at h1 h2 hx
    interval_cases n <;> decide
  · exact h

theorem replaceY_ascii (c : Char) (h : c.toNat < 128) : replaceY c = c := by
  unfold replaceY
  rw [if_neg]
  intro e
  rw [e] at h
  exact absurd h (by decide)

/-- On ASCII text the transformer is `unicode.ToLower`. -/
theorem textChain_ascii (s : List Char) (h : ∀ c ∈ s, c.toNat < 128) :
    textChain s = s.map toLower := by
  have hl : ∀ c ∈ s.map toLower, c.toNat < 128 := by
    intro c hc
    obtain ⟨d, hd, e⟩ := List.mem_map.1 hc
    rw [← e]
    exact toLower_ascii d (h d hd)
  have hy : (s.map toLower).map replaceY = s.map toLower := by
    conv_rhs => rw [← List.map_id (s.map toLower)]
    apply List.map_congr_left
    intro c hc
    exact replaceY_ascii c (hl c hc)
  have hf : (s.map toLower).filter (fun r => !isMn r) = s.map toLower := by
    rw [List.filter_eq_self]
    intro c hc
    rw [ascii_isMn c (hl c hc)]
    rfl
  rw [textChain_eq, nfc_ascii s h]
  unfold chainTail
  rw [hy, nfd_ascii _ hl, hf, nfc_ascii _ hl]

/-! ## The mapping loop of `translit` -/

theorem loopOut_shape (r : Char) :
    loopOut r = ['.'] ∨ ∀ c ∈ loopOut r, (isLower c || isDigit c) = true := by
  unfold loopOut
  split
  · rename_i h
    right
    intro c hc
    simp only [List.mem_singleton] at hc
    rw [hc]
    exact eng_shape r h.2
  · rcases ruseng_shape r with h | h
    · exact Or.inl h
    · right
      intro c hc
      simp only [Bool.or_eq_true]
      exact Or.inl (h c hc)

theorem loopOut_alnum (c : Char) (h : (isLower c || isDigit c) = true) : loopOut c = [c] := by
  simp only [isLower, isDigit, Bool.or_eq_true, Bool.and_eq_true, decide_eq_true_eq] at h
  have hx : c = Char.ofNat c.toNat := (Char.ofNat_toNat c).symm
  rcases h with ⟨h1, h2⟩ | ⟨h1, h2⟩
  · generalize c.toNat = n at h1 h2 hx
    interval_cases n <;> (rw [hx]; decide)
  · generalize c.toNat = n at h1 h2 hx
    interval_cases n <;> (rw [hx]; decide)

theorem alnum_ne (c : Char) (h : (isLower c || isDigit c) = true) : c ≠ '_' ∧ c ≠ '.' := by
  constructor <;>
    · intro e
      rw [e] at h
      revert h
      decide

theorem translitStep_alnum (st : Acc) (c : Char) (h : (isLower c || isDigit c) = true) :
    translitStep st c = { ret := st.ret ++ st.sep ++ [c], sep := [], underscore := ['_'] } := by
  rw [translitStep_eq, loopOut_alnum c h, if_neg (by simpa using (alnum_ne c h).2),
    if_neg (by simp)]

theorem translitStep_underscore (st : Acc) :
    translitStep st '_' = { st with sep := st.underscore } := rfl

theorem adj_cons_false (a b x : Char) (s : List Char) (h : adj a b (x :: s) = false) :
    adj a b s = false := by
  cases s with
  | nil => rfl
  | cons y ys =>
    rw [adj_cons_cons] at h
    simp only [Bool.or_eq_false_iff] at h
    exact h.2

theorem loop_tidy_text (n : Nat) : ∀ (s r : List Char), s.length ≤ n →
    (∀ c ∈ s, isSlugChar c = true) → (∀ c, s.getLast? = some c → c ≠ '_') →
    adj '_' '_' s = false →
    (s.foldl translitStep { ret := r, sep := [], underscore := ['_'] }).ret = r ++ s := by
  induction n with
  | zero =>
    intro s r hn _ _ _
    have hs : s = [] := List.length_eq_zero.1 (Nat.le_zero.1 hn)
    rw [hs]
    simp
  | succ n ih =>
    intro s r hn hslug hlast hadj
    cases s with
    | nil => simp
    | cons c cs =>
      by_cases hc : c = '_'
      · cases cs with
        | nil => exact absurd hc (hlast c rfl)
        | cons d ds =>
          have hd : d ≠ '_' := by
            intro e
            rw [hc, e] at hadj
            simp [adj_cons_cons] at hadj
          have hdal : (isLower d || isDigit d) = true := by
            have := hslug d (List.mem_cons_of_mem _ (List.mem_cons_self _ _))
            simpa [isSlugChar, hd] using this
          have hlen : ds.length ≤ n := by
            simp only [List.length_cons] at hn
            omega
          have hlast2 : ∀ x, ds.getLast? = some x → x ≠ '_' := by
            intro x hx
            cases ds with
            | nil => simp at hx
            | cons e es =>
              apply hlast x
              rw [List.getLast?_cons_cons, List.getLast?_cons_cons]
              exact hx
          have h3 := ih ds (r ++ ['_'] ++ [d]) hlen
            (fun x hx => hslug x (List.mem_cons_of_mem _ (List.mem_cons_of_mem _ hx)))
            hlast2 (adj_cons_false _ _ _ _ (adj_cons_false _ _ _ _ hadj))
          rw [hc, List.foldl_cons, List.foldl_cons, translitStep_underscore,
            translitStep_alnum _ d hdal]
          simp only at h3 ⊢
          rw [h3]
          simp
      · have hcal : (isLower c || isDigit c) = true := by
          have := hslug c (List.mem_cons_self _ _)
          simpa [isSlugChar, hc] using this
        have hlen : cs.length ≤ n := by
          simp only [List.length_cons] at hn
          omega
        have hlast2 : ∀ x, cs.getLast? = some x → x ≠ '_' := by
          intro x hx
          cases cs with
          | nil => simp at hx
          | cons e es =>
            apply hlast x
            rw [List.getLast?_cons_cons]
            exact hx
        have h3 := ih cs (r ++ [c]) hlen
          (fun x hx => hslug x (List.mem_cons_of_mem _ hx)) hlast2
          (adj_cons_false _ _ _ _ hadj)
        rw [List.foldl_cons, translitStep_alnum _ c hcal]
        simp only [List.append_nil] at h3 ⊢
        rw [h3]
        simp

theorem translitLoop_tidy_text (s : List Char)
    (hslug : ∀ c ∈ s, isSlugChar c = true)
    (hhead : ∀ c, s.head? = some c → (isLower c || isDigit c) = true)
    (hlast : ∀ c, s.getLast? = some c → c ≠ '_') (hadj : adj '_' '_' s = false) :
    translitLoop s = s := by
  cases s with
  | nil => rfl
  | cons c cs =>
    have hlast2 : ∀ x, cs.getLast? = some x → x ≠ '_' := by
      intro x hx
      cases cs with
      | nil => simp at hx
      | cons e es =>
        apply hlast x
        rw [List.getLast?_cons_cons]
        exact hx
    unfold translitLoop
    rw [List.foldl_cons, translitStep_alnum _ c (hhead c rfl)]
    exact loop_tidy_text cs.length cs [c] (Nat.le_refl _)
      (fun x hx => hslug x (List.mem_cons_of_mem _ hx)) hlast2
      (adj_cons_false _ _ _ _ hadj)

theorem adj_append (a b : Char) (s t : List Char) :
    adj a b (s ++ t) =
      (adj a b s || adj a b t || (s.getLast? == some a && t.head? == some b)) := by
  induction s with
  | nil => simp [adj]
  | cons x xs ih =>
    cases xs with
    | nil =>
      cases t with
      | nil => simp [adj]
      | cons y ys =>
        simp only [List.singleton_append, adj_cons_cons, adj, List.getLast?_singleton,
          List.head?_cons, Bool.false_or]
        by_cases hx : x = a <;> by_cases hy : y = b <;> simp [hx, hy, Bool.or_comm]
    | cons y ys =>
      rw [List.cons_append, List.cons_append, adj_cons_cons, ← List.cons_append, ih,
        adj_cons_cons, List.getLast?_cons_cons]
      simp only [Bool.or_assoc]

theorem adj_false_of_ne (a b : Char) (s : List Char) (h : ∀ c ∈ s, c ≠ a) :
    adj a b s = false := by
  have := adj_append_of_ne a b s [] h
  rw [List.append_nil] at this
  rw [this]
  rfl

theorem translitStep_tidy (st : Acc) (r : Char) (hok : st.ok) (h : st.tidy) :
    (translitStep st r).tidy := by
  obtain ⟨h1, h2⟩ := h
  obtain ⟨_, _, hsep, _⟩ := hok
  rw [translitStep_eq]
  split
  · exact ⟨h1, h2⟩
  · split
    · exact ⟨h1, h2⟩
    · rename_i hdot hne
      rcases loopOut_shape r with hs | hs
      · exact absurd hs hdot
      · have hxne : ∀ c ∈ loopOut r, c ≠ '_' := fun c hc => (alnum_ne c (hs c hc)).1
        have hhead : (loopOut r).head? ≠ some '_' := by
          intro e
          exact hxne '_' (List.mem_of_mem_head? e) rfl
        constructor
        · intro c hc
          simp only at hc
          rw [List.getLast?_append_of_ne_nil _ hne] at hc
          exact hxne c (List.mem_of_mem_getLast? hc)
        · simp only
          rw [adj_append, adj_append, h2, adj_false_of_ne _ _ _ hxne]
          have hsa : adj '_' '_' st.sep = false := by
            rcases hsep with hsep | ⟨hsep, _⟩ <;> (rw [hsep]; rfl)
          have hl : (st.ret.getLast? == some '_') = false := by
            cases hg : st.ret.getLast? with
            | none => rfl
            | some c =>
              have := h1 c hg
              simpa using this
          have hh : ((loopOut r).head? == some '_') = false := by
            simpa using hhead
          rw [hsa, hl, hh]
          simp

theorem translitLoop_tidy (src : List Char) :
    (∀ c, (translitLoop src).getLast? = some c → c ≠ '_') ∧
      adj '_' '_' (translitLoop src) = false := by
  have h0 : Acc.ok { ret := [], sep := [], underscore := [] } :=
    ⟨by simp, by simp, Or.inl rfl, Or.inl rfl⟩
  have ht0 : Acc.tidy { ret := [], sep := [], underscore := [] } :=
    ⟨by simp, rfl⟩
  have key : ∀ (l : List Char) (st : Acc), st.ok → st.tidy →
      (l.foldl translitStep st).tidy := by
    intro l
    induction l with
    | nil => exact fun st _ h => h
    | cons r rs ih =>
      intro st hok ht
      exact ih _ (translitStep_ok st r hok) (translitStep_tidy st r hok ht)
  exact key src _ h0 ht0

/-! ## Claims about `translit` -/

theorem toLower_toTitle (x : Char) (h : (isLower x || isDigit x) = true) :
    toLower (toTitle x) = x := by
  simp only [isLower, isDigit, Bool.or_eq_true, Bool.and_eq_true, decide_eq_true_eq] at h
  have hx : x = Char.ofNat x.toNat := (Char.ofNat_toNat x).symm
  rcases h with ⟨h1, h2⟩ | ⟨h1, h2⟩
  · generalize x.toNat = n at h1 h2 hx
    interval_cases n <;> (rw [hx]; decide)
  · generalize x.toNat = n at h1 h2 hx
    interval_cases n <;> (rw [hx]; decide)

theorem toLower_slugChar (x : Char) (h : isSlugChar x = true) : toLower x = x := by
  simp only [isSlugChar, isLower, isDigit, Bool.or_eq_true, Bool.and_eq_true,
    decide_eq_true_eq, beq_iff_eq] at h
  unfold toLower
  rcases h with (h | h) | h
  · rw [if_pos (by omega), if_neg (by omega)]
  · rw [if_pos (by omega), if_neg (by omega)]
  · rw [h]
    rfl

theorem toLower_alnum (x : Char) (h : isAlnum x = true) :
    (isLower (toLower x) || isDigit (toLower x)) = true := by
  simp only [isAlnum, isAlpha, isDigit, Bool.or_eq_true, Bool.and_eq_true,
    decide_eq_true_eq] at h
  have hx : x = Char.ofNat x.toNat := (Char.ofNat_toNat x).symm
  rcases h with ⟨h1, h2⟩ | ⟨h1, h2⟩ | ⟨h1, h2⟩
  · generalize x.toNat = n at h1 h2 hx
    interval_cases n <;> (rw [hx]; decide)
  · generalize x.toNat = n at h1 h2 hx
    interval_cases n <;> (rw [hx]; decide)
  · generalize x.toNat = n at h1 h2 hx
    interval_cases n <;> (rw [hx]; decide)

theorem alnum_ascii (x : Char) (h : isAlnum x = true) : x.toNat < 128 := by
  simp only [isAlnum, isAlpha, isDigit, Bool.or_eq_true, Bool.and_eq_true,
    decide_eq_true_eq] at h
  omega

theorem slugChar_of_alnum (x : Char) (h : (isLower x || isDigit x) = true) :
    isSlugChar x = true := by
  simp only [isSlugChar, Bool.or_eq_true]
  simp only [Bool.or_eq_true] at h
  exact Or.inl h

theorem translit_alnum (text : List Char) (h : ∀ c ∈ text, isAlnum c = true) :
    translit text =
      (match text.map toLower with
        | [] => []
        | c :: cs => toTitle c :: cs, none) := by
  have hl : ∀ c ∈ text.map toLower, (isLower c || isDigit c) = true := by
    intro c hc
    obtain ⟨d, hd, rfl⟩ := List.mem_map.1 hc
    exact toLower_alnum d (h d hd)
  have hloop : translitLoop (text.map toLower) = text.map toLower := by
    apply translitLoop_tidy_text
    · exact fun c hc => slugChar_of_alnum c (hl c hc)
    · exact fun c hc => hl c (List.mem_of_mem_head? hc)
    · exact fun c hc => (alnum_ne c (hl c (List.mem_of_mem_getLast? hc))).1
    · exact adj_false_of_ne _ _ _ (fun c hc => (alnum_ne c (hl c hc)).1)
  unfold translit translitWith
  rw [textChain_ascii text (fun c hc => alnum_ascii c (h c hc)), hloop]
  cases hm : text.map toLower with
  | nil => rfl
  | cons c cs =>
    rw [hm] at hl
    rw [title_slug c cs (fun x hx => slugChar_of_alnum x (hl x hx))]

/-- C13 (counterexample): the ASCII input `iPhone` is returned as `Iphone`: the letters
after the first are lowercased, not left unchanged. -/
theorem c13_uppercase_lowered :
    translit "iPhone".toList = ("Iphone".toList, none) ∧
      (translit "iPhone".toList).1 ≠ "IPhone".toList := by
  decide

/-- C13 (amended): for every input made of ASCII letters and digits only, `translit`
returns, with a nil error, the input with every letter lowercased and then its first
character title-cased (an uppercase letter if it is a letter, unchanged if a digit). -/
theorem c13_ascii_lowered (text : List Char) (h : ∀ c ∈ text, isAlnum c = true) :
    translit text =
      (match text.map toLower with
        | [] => []
        | c :: cs => toTitle c :: cs, none) :=
  translit_alnum text h

theorem c13_ascii_lowered_witness :
    translit "iPhone7".toList =
      (match "iPhone7".toList.map toLower with
        | [] => []
        | c :: cs => toTitle c :: cs, none) :=
  c13_ascii_lowered "iPhone7".toList (by decide)

theorem translit_idem (chain : List Char → List Char) (t : List Char) :
    translit (translitWith chain t).1 = ((translitWith chain t).1, none) := by
  obtain ⟨hslug, hhead⟩ := translitLoop_ok (chain t)
  obtain ⟨hlast, hadj⟩ := translitLoop_tidy (chain t)
  have hloop := translitLoop_tidy_text (translitLoop (chain t)) hslug hhead hlast hadj
  rcases translitWith_shape chain t with h | ⟨x, xs, hret, hs, hup, hxs⟩
  · rw [h]
    rfl
  · rw [hret] at hslug hhead hloop
    have hxal := hhead x rfl
    have hascii : ∀ c ∈ toTitle x :: xs, c.toNat < 128 := by
      intro c hc
      rcases List.mem_cons.1 hc with h1 | h1
      · have := toTitle_lowerOrDigit x hxal
        rw [← h1] at this
        simp only [isUpper, isDigit, Bool.or_eq_true, Bool.and_eq_true,
          decide_eq_true_eq] at this
        omega
      · have := hslug c (List.mem_cons_of_mem _ h1)
        simp only [isSlugChar, isLower, isDigit, Bool.or_eq_true, Bool.and_eq_true,
          decide_eq_true_eq, beq_iff_eq] at this
        rcases this with (h2 | h2) | h2
        · omega
        · omega
        · rw [h2]
          decide
    have hmap : (toTitle x :: xs).map toLower = x :: xs := by
      rw [List.map_cons, toLower_toTitle x hxal]
      congr 1
      conv_rhs => rw [← List.map_id xs]
      apply List.map_congr_left
      intro c hc
      exact toLower_slugChar c (hslug c (List.mem_cons_of_mem _ hc))
    rw [hs]
    unfold translit translitWith
    rw [textChain_ascii _ hascii, hmap, hloop, title_slug x xs hslug]

/-- C18: `translit` is idempotent on its own output: applied to the string it returned
for any text (whatever the text transformer yields for that text), it returns the same
string and a nil error. -/
theorem c18_translit_idempotent (chain : List Char → List Char) (t : List Char) :
    translit (translitWith chain t).1 = ((translitWith chain t).1, none) ∧
      translit (translit t).1 = ((translit t).1, none) :=
  ⟨translit_idem chain t, translit_idem textChain t⟩

/-- C16: the hard sign and the soft sign change nothing in the loop of `translit`: the
step for `ъ` or `ь` leaves `ret`, `sep` and `underscore` as they are, so for all `u` and
`v` the loop gives the same result with or without the sign between them, and so does
`translit` whenever the text transformer leaves both texts unchanged (texts already in
the form the loop receives). -/
theorem c16_merge_marker :
    (∀ st : Acc, translitStep st 'ь' = st ∧ translitStep st 'ъ' = st) ∧
    (∀ u v : List Char,
      translitLoop (u ++ 'ь' :: v) = translitLoop (u ++ v) ∧
      translitLoop (u ++ 'ъ' :: v) = translitLoop (u ++ v)) ∧
    (∀ (chain : List Char → List Char) (u v : List Char) (x : Char),
      x = 'ь' ∨ x = 'ъ' → chain (u ++ x :: v) = u ++ x :: v → chain (u ++ v) = u ++ v →
      translitWith chain (u ++ x :: v) = translitWith chain (u ++ v)) := by
  have hstep : ∀ st : Acc, translitStep st 'ь' = st ∧ translitStep st 'ъ' = st :=
    fun st => ⟨rfl, rfl⟩
  have hloop : ∀ u v : List Char,
      translitLoop (u ++ 'ь' :: v) = translitLoop (u ++ v) ∧
      translitLoop (u ++ 'ъ' :: v) = translitLoop (u ++ v) := by
    intro u v
    unfold translitLoop
    simp only [List.foldl_append, List.foldl_cons, (hstep _).1, (hstep _).2, and_self]
  refine ⟨hstep, hloop, ?_⟩
  intro chain u v x hx h1 h2
  unfold translitWith
  rw [h1, h2]
  rcases hx with hx | hx
  · rw [hx, (hloop u v).1]
  · rw [hx, (hloop u v).2]

theorem c16_merge_marker_witness :
    translitWith textChain ("под".toList ++ 'ъ' :: "езд".toList) =
      translitWith textChain ("под".toList ++ "езд".toList) :=
  c16_merge_marker.2.2 textChain "под".toList "езд".toList 'ъ' (Or.inr rfl)
    (by decide) (by decide)

theorem adj_of_pair_infix (a b : Char) (s : List Char) (h : [a, b] <:+: s) :
    adj a b s = true := by
  obtain ⟨u, w, hs⟩ := h
  apply adj_of_suffix a b (a :: b :: w) s
  · exact ⟨u, by rw [← hs]; simp⟩
  · rw [adj_cons_cons]
    simp

theorem foldl_unrecognised (run : List Char) (st : Acc) (hne : run ≠ [])
    (h : ∀ r ∈ run, loopOut r = []) :
    run.foldl translitStep st = { st with sep := st.underscore } := by
  have hstep : ∀ (s : Acc) (r : Char), loopOut r = [] →
      translitStep s r = { s with sep := s.underscore } := by
    intro s r hr
    rw [translitStep_eq, hr, if_neg (by simp), if_pos rfl]
  induction run generalizing st with
  | nil => exact absurd rfl hne
  | cons r rs ih =>
    rw [List.foldl_cons, hstep st r (h r (List.mem_cons_self _ _))]
    cases rs with
    | nil => rfl
    | cons r2 rs2 =>
      rw [ih _ (by simp) (fun x hx => h x (List.mem_cons_of_mem _ hx))]

/-- C15: whatever the text transformer yields, the string returned by `translit` holds
only ASCII letters, ASCII digits and underscores, does not begin and does not end with an
underscore and has no two adjacent underscores; in the loop a rune without output leaves
`ret` as it is, and a non-empty run of such runes between two runes with output yields
exactly one underscore between their outputs. -/
theorem c15_slug_shape :
    (∀ (chain : List Char → List Char) (text : List Char),
      (∀ c ∈ (translitWith chain text).1, (isAlpha c || isDigit c || c == '_') = true) ∧
      (translitWith chain text).1.head? ≠ some '_' ∧
      (translitWith chain text).1.getLast? ≠ some '_' ∧
      ¬ (['_', '_'] <:+: (translitWith chain text).1)) ∧
    (∀ (st : Acc) (r : Char), loopOut r = [] → (translitStep st r).ret = st.ret) ∧
    (∀ (p run : List Char) (a b : Char),
      loopOut a ≠ [] → loopOut a ≠ ['.'] → loopOut b ≠ [] → loopOut b ≠ ['.'] →
      run ≠ [] → (∀ r ∈ run, loopOut r = []) →
      translitLoop (p ++ a :: (run ++ [b])) =
        translitLoop (p ++ [a]) ++ '_' :: loopOut b) := by
  refine ⟨?_, ?_, ?_⟩
  · intro chain text
    obtain ⟨hslug, hhead⟩ := translitLoop_ok (chain text)
    obtain ⟨hlast, hadj⟩ := translitLoop_tidy (chain text)
    rcases translitWith_shape chain text with h | ⟨x, xs, hret, hs, hup, hxs⟩
    · rw [h]
      refine ⟨by simp, by simp, by simp, ?_⟩
      rintro ⟨u, w, huw⟩
      have := congrArg List.length huw
      simp at this
    · rw [hret] at hslug hhead hlast hadj
      have hxne : toTitle x ≠ '_' := by
        intro e
        rw [e] at hup
        revert hup
        decide
      rw [hs]
      refine ⟨?_, ?_, ?_, ?_⟩
      · intro c hc
        rcases List.mem_cons.1 hc with h1 | h1
        · rw [h1]
          simp only [isUpper, isAlpha, isDigit, Bool.or_eq_true, Bool.and_eq_true,
            decide_eq_true_eq, beq_iff_eq] at hup ⊢
          rcases hup with hup | hup
          · exact Or.inl (Or.inl (Or.inl hup))
          · exact Or.inl (Or.inr hup)
        · have := hxs c h1
          simp only [isLower, isAlpha, isDigit, Bool.or_eq_true, Bool.and_eq_true,
            decide_eq_true_eq, beq_iff_eq] at this ⊢
          rcases this with (h2 | h2) | h2
          · exact Or.inl (Or.inl (Or.inr h2))
          · exact Or.inl (Or.inr h2)
          · exact Or.inr h2
      · simpa using hxne
      · cases xs with
        | nil => simpa using hxne
        | cons y ys =>
          intro e
          rw [List.getLast?_cons_cons] at e
          exact hlast '_' (by rw [List.getLast?_cons_cons]; exact e) rfl
      · intro hin
        have h1 := adj_of_pair_infix '_' '_' _ hin
        rw [adj_cons_ne '_' '_' _ _ hxne] at h1
        rw [adj_cons_false _ _ _ _ hadj] at h1
        cases h1
  · intro st r hr
    rw [translitStep_eq, hr, if_neg (by simp), if_pos rfl]
  · intro p run a b ha1 ha2 hb1 hb2 hne hrun
    unfold translitLoop
    rw [List.foldl_append, List.foldl_cons, List.foldl_append, List.foldl_append,
      List.foldl_cons, List.foldl_nil, List.foldl_cons, List.foldl_nil,
      foldl_unrecognised run _ hne hrun]
    generalize List.foldl translitStep { ret := [], sep := [], underscore := [] } p = st0
    rw [translitStep_eq st0 a, if_neg ha2, if_neg ha1, translitStep_eq _ b, if_neg hb2,
      if_neg hb1]
    simp

theorem c15_slug_shape_witness :
    translitLoop ("мир".toList ++ 'а' :: (" - ".toList ++ ['б'])) =
      translitLoop ("мир".toList ++ ['а']) ++ '_' :: loopOut 'б' :=
  c15_slug_shape.2.2 "мир".toList " - ".toList 'а' 'б' (by decide) (by decide) (by decide)
    (by decide) (by decide) (by decide)

theorem row_cyr_i :
    compTable.find 0x438 = some (0x438,
      [(0x300, 0x45D), (0x304, 0x4E3), (0x306, 0x439), (0x308, 0x4E5)]) := by
  decide

theorem row_cyr_I :
    compTable.find 0x418 = some (0x418,
      [(0x300, 0x40D), (0x304, 0x4E2), (0x306, 0x419), (0x308, 0x4E4)]) := by
  decide

theorem row_cyr_e :
    compTable.find 0x435 = some (0x435,
      [(0x300, 0x450), (0x306, 0x4D7), (0x308, 0x451)]) := by
  decide

theorem row_cyr_E :
    compTable.find 0x415 = some (0x415,
      [(0x300, 0x400), (0x306, 0x4D6), (0x308, 0x401)]) := by
  decide

theorem row_y :
    compTable.find 0x79 = some (0x79,
      [(0x300, 0x1EF3), (0x301, 0xFD), (0x302, 0x177), (0x303, 0x1EF9), (0x304, 0x233),
       (0x307, 0x1E8F), (0x308, 0xFF), (0x309, 0x1EF7), (0x30A, 0x1E99), (0x323, 0x1EF5)]) := by
  decide

/-- A Cyrillic base letter `b` of й, Й, ё or Ё combines with no non-starter of a class
below 230. -/
theorem base_low (b : Char) (lo : Nat) (ps : List (Nat × Nat)) (d : Char)
    (hb : b.toNat < 0x1100) (hf : compTable.find b.toNat = some (lo, ps))
    (hps : ∀ e ∈ ps, ccc (Char.ofNat e.1) = 230) (hd : ccc d = 230) :
    ∀ x, ccc x ≠ 0 → ccc x < ccc d → combine b x = none := by
  intro x _ hx
  cases hc : combine b x with
  | none => rfl
  | some z =>
    have := combine_first b lo ps (fun x => ccc x = 230) hb hf hps x z hc
    omega

theorem nfc_short_i (u v : List Char) :
    nfc (u ++ 'й' :: v) = nfc u ++ 'й' :: nfc v ∧
      nfc (u ++ 'и' :: Char.ofNat 0x306 :: v) = nfc u ++ 'й' :: nfc v := by
  have hlow := base_low 'и' _ _ (Char.ofNat 0x306) (by decide) row_cyr_i (by decide)
    (by decide)
  have hbn := cyr_not_second 'и' (by decide)
  have hz := combine_first_none 'й' (by decide) (by decide)
  exact ⟨nfc_composite 'и' (Char.ofNat 0x306) 'й' u v (by decide) (by decide) hbn
      (by decide) hlow hz,
    nfc_pair 'и' (Char.ofNat 0x306) 'й' u v (by decide) (by decide) (by decide) hbn
      (by decide) hlow hz⟩

theorem nfc_short_i_upper (u v : List Char) :
    nfc (u ++ 'Й' :: v) = nfc u ++ 'Й' :: nfc v ∧
      nfc (u ++ 'И' :: Char.ofNat 0x306 :: v) = nfc u ++ 'Й' :: nfc v := by
  have hlow := base_low 'И' _ _ (Char.ofNat 0x306) (by decide) row_cyr_I (by decide)
    (by decide)
  have hbn := cyr_not_second 'И' (by decide)
  have hz := combine_first_none 'Й' (by decide) (by decide)
  exact ⟨nfc_composite 'И' (Char.ofNat 0x306) 'Й' u v (by decide) (by decide) hbn
      (by decide) hlow hz,
    nfc_pair 'И' (Char.ofNat 0x306) 'Й' u v (by decide) (by decide) (by decide) hbn
      (by decide) hlow hz⟩

theorem nfc_io (u v : List Char) :
    nfc (u ++ 'ё' :: v) = nfc u ++ 'ё' :: nfc v ∧
      nfc (u ++ 'е' :: Char.ofNat 0x308 :: v) = nfc u ++ 'ё' :: nfc v := by
  have hlow := base_low 'е' _ _ (Char.ofNat 0x308) (by decide) row_cyr_e (by decide)
    (by decide)
  have hbn := cyr_not_second 'е' (by decide)
  have hz := combine_first_none 'ё' (by decide) (by decide)
  exact ⟨nfc_composite 'е' (Char.ofNat 0x308) 'ё' u v (by decide) (by decide) hbn
      (by decide) hlow hz,
    nfc_pair 'е' (Char.ofNat 0x308) 'ё' u v (by decide) (by decide) (by decide) hbn
      (by decide) hlow hz⟩

theorem nfc_io_upper (u v : List Char) :
    nfc (u ++ 'Ё' :: v) = nfc u ++ 'Ё' :: nfc v ∧
      nfc (u ++ 'Е' :: Char.ofNat 0x308 :: v) = nfc u ++ 'Ё' :: nfc v := by
  have hlow := base_low 'Е' _ _ (Char.ofNat 0x308) (by decide) row_cyr_E (by decide)
    (by decide)
  have hbn := cyr_not_second 'Е' (by decide)
  have hz := combine_first_none 'Ё' (by decide) (by decide)
  exact ⟨nfc_composite 'Е' (Char.ofNat 0x308) 'Ё' u v (by decide) (by decide) hbn
      (by decide) hlow hz,
    nfc_pair 'Е' (Char.ofNat 0x308) 'Ё' u v (by decide) (by decide) (by decide) hbn
      (by decide) hlow hz⟩

/-- The transformer on a text in which the first `NFC` yields й or Й. -/
theorem textChain_short_i (x : Char) (hx : x = 'й' ∨ x = 'Й') (w u v : List Char)
    (h1 : nfc w = nfc u ++ x :: nfc v) :
    textChain w = textChain u ++ 'y' :: textChain v := by
  refine textChain_at x 'y' w u v h1 ?_ (by decide) (by decide)
    (ascii_not_second 'y' (by decide))
    (combine_first 'y' _ _ (fun x => isMn x = true ∧ ccc x ≠ 0) (by decide) row_y (by decide))
  intro a b
  rcases hx with hx | hx <;>
    · rw [hx]
      exact chainTail_plain _ 'y' a b (by decide) (by decide) (by decide) (by decide)

/-- The transformer on a text in which the first `NFC` yields ё or Ё. -/
theorem textChain_io (x : Char) (hx : x = 'ё' ∨ x = 'Ё') (w u v : List Char)
    (h1 : nfc w = nfc u ++ x :: nfc v) :
    textChain w = textChain u ++ 'е' :: textChain v := by
  refine textChain_at x 'е' w u v h1 ?_ (by decide) (by decide)
    (cyr_not_second 'е' (by decide))
    (combine_first 'е' _ _ (fun x => isMn x = true ∧ ccc x ≠ 0) (by decide) row_cyr_e
      (by decide))
  intro a b
  rcases hx with hx | hx <;>
    · rw [hx]
      exact chainTail_marked _ 'ё' 'е' (Char.ofNat 0x308) a b (by decide) (by decide)
        (by decide) (by decide) (by decide)

/-- C17: `translit("война")` is `Voyna`; in the text handed to the loop every `й`,
uppercase or lowercase, precomposed or written as `и` and a combining breve, has become
the Latin letter `y`, for which the loop emits `y` (for `и` itself it emits `i`); every
`ё` has become `е`, for which the loop emits `e`. -/
theorem c17_override_y :
    translit "война".toList = ("Voyna".toList, none) ∧
    (∀ u v : List Char,
      textChain (u ++ 'й' :: v) = textChain u ++ 'y' :: textChain v ∧
      textChain (u ++ 'Й' :: v) = textChain u ++ 'y' :: textChain v ∧
      textChain (u ++ 'и' :: Char.ofNat 0x306 :: v) = textChain u ++ 'y' :: textChain v ∧
      textChain (u ++ 'И' :: Char.ofNat 0x306 :: v) = textChain u ++ 'y' :: textChain v ∧
      textChain (u ++ 'ё' :: v) = textChain u ++ 'е' :: textChain v ∧
      textChain (u ++ 'Ё' :: v) = textChain u ++ 'е' :: textChain v) ∧
    (∀ st : Acc,
      translitStep st 'y' =
        { ret := st.ret ++ st.sep ++ ['y'], sep := [], underscore := ['_'] } ∧
      translitStep st 'и' =
        { ret := st.ret ++ st.sep ++ ['i'], sep := [], underscore := ['_'] } ∧
      translitStep st 'е' =
        { ret := st.ret ++ st.sep ++ ['e'], sep := [], underscore := ['_'] }) := by
  refine ⟨by decide, ?_, fun st => ⟨rfl, rfl, rfl⟩⟩
  intro u v
  exact ⟨textChain_short_i 'й' (Or.inl rfl) _ u v (nfc_short_i u v).1,
    textChain_short_i 'Й' (Or.inr rfl) _ u v (nfc_short_i_upper u v).1,
    textChain_short_i 'й' (Or.inl rfl) _ u v (nfc_short_i u v).2,
    textChain_short_i 'Й' (Or.inr rfl) _ u v (nfc_short_i_upper u v).2,
    textChain_io 'ё' (Or.inl rfl) _ u v (nfc_io u v).1,
    textChain_io 'Ё' (Or.inr rfl) _ u v (nfc_io_upper u v).1⟩

/-! ## Token extraction on the legacy form -/

theorem run_opt_seTag_some (s : List Char) (c : Caps) (k : Cont) (r : List Char × Caps)
    (h : Re.run (Re.opt (.grp 1 seTag)) s c k = some r) (hs : s.head? ≠ some 's') :
    k s c = some r := by
  have hnone : Re.run (.grp 1 seTag) s c k = none := by
    cases s with
    | nil => rfl
    | cons x xs =>
      have hx : x ≠ 's' := by
        intro e
        exact hs (by rw [e]; rfl)
      simp [Re.run, seTag, Re.seq, Re.chr, hx]
  rw [run_opt_none _ _ _ _ hnone] at h
  exact h

theorem run_opt_chr_prov (x : Char) (s : List Char) (c : Caps) (k : Cont)
    (r : List Char × Caps) (h : Re.run (Re.opt (Re.chr x)) s c k = some r) :
    ∃ t, t <:+ s ∧ k t c = some r := by
  cases hrun : Re.run (Re.chr x) s c k with
  | none =>
    rw [run_opt_none _ _ _ _ hrun] at h
    exact ⟨s, List.suffix_refl s, h⟩
  | some r1 =>
    rw [run_opt_some _ _ _ _ _ hrun] at h
    cases h
    cases s with
    | nil => simp [Re.chr, Re.run] at hrun
    | cons y ys =>
      rw [Re.chr, run_cls_cons] at hrun
      split at hrun
      · exact ⟨ys, List.suffix_cons y ys, hrun⟩
      · cases hrun

theorem idQ_front_plain (s id mid q tail : List Char) (r : List Char × Caps)
    (hid : id ≠ [])
    (hidd : ∀ x ∈ id, isDigit x = true) (hq : q ≠ [])
    (hqd : ∀ x ∈ q, isDigit x = true) (htail : ∀ x ∈ tail, isAny x = true)
    (hth : ∀ y, tail.head? = some y → isDigit y = false)
    (hmid : ∀ x ∈ mid, isAny x = true)
    (hmh : ∀ y, mid.head? = some y → isDigit y = false)
    (huq : ∀ t d r, t <:+ mid ++ '_' :: 'q' :: (q ++ tail) → t = '_' :: 'q' :: d :: r →
      isDigit d = true → t = '_' :: 'q' :: (q ++ tail))
    (huc : ∀ t d r, t <:+ s → t = 'c' :: 'o' :: 'i' :: 'd' :: d :: r → isDigit d = true →
      t = 'c' :: 'o' :: 'i' :: 'd' :: (id ++ (mid ++ '_' :: 'q' :: (q ++ tail))))
    (hs : s.head? ≠ some 's')
    (h : Re.run (Re.seq [Re.opt (.grp 1 seTag), Re.opt (Re.chr '_'), Re.lit "coid".toList,
        .grp 2 (Re.plus Re.digit), Re.anyStar, Re.lit "_q".toList,
        .grp 3 (Re.plus Re.digit), Re.anyStar]) s [] (fun s1 c1 => some (s1, c1)) = some r) :
    r = ([], [(3, q), (2, id)]) := by
  have h0 : Re.run (.cat (Re.opt (.grp 1 seTag)) (.cat (Re.opt (Re.chr '_'))
      (.cat (Re.lit ['c', 'o', 'i', 'd']) (.cat (.grp 2 (Re.plus (.cls isDigit)))
        (Re.seq [Re.anyStar, Re.lit "_q".toList, .grp 3 (Re.plus Re.digit),
          Re.anyStar]))))) s [] (fun s1 c1 => some (s1, c1)) = some r := h
  rw [run_cat] at h0
  have h1 := run_opt_seTag_some _ _ _ _ h0 hs
  rw [run_cat] at h1
  obtain ⟨t2, ht2, h2⟩ := run_opt_chr_prov _ _ _ _ _ h1
  rw [run_cat] at h2
  obtain ⟨t3, ht3, h3⟩ := run_lit_some _ _ _ _ _ h2
  obtain ⟨d, t4, ht4, hd⟩ := run_grp_plus_some 2 isDigit _ _ _ _ _ h3
  have hu := huc t2 d t4 ht2 (by rw [ht3, ht4]; rfl) hd
  rw [ht3] at hu
  have ht3' : t3 = id ++ (mid ++ '_' :: 'q' :: (q ++ tail)) := by
    simpa using hu
  rw [ht3'] at h3
  have hC := idQ_fromId id mid q tail [] hid hidd hq hqd htail hth hmid hmh huq
  have hC' : Re.run (.cat (.grp 2 (Re.plus (.cls isDigit)))
      (Re.seq [Re.anyStar, Re.lit "_q".toList, .grp 3 (Re.plus Re.digit), Re.anyStar]))
      (id ++ (mid ++ '_' :: 'q' :: (q ++ tail))) [] (fun s1 c1 => some (s1, c1)) =
        some ([], (3, q) :: (2, id) :: []) := hC
  rw [hC'] at h3
  cases h3
  rfl

theorem idQ_matchAt_plain (pre id mid q tail : List Char)
    (hpre : ∀ x ∈ pre, isAny x = true) (hid : id ≠ [])
    (hidd : ∀ x ∈ id, isDigit x = true) (hq : q ≠ [])
    (hqd : ∀ x ∈ q, isDigit x = true) (htail : ∀ x ∈ tail, isAny x = true)
    (hth : ∀ y, tail.head? = some y → isDigit y = false)
    (hmid : ∀ x ∈ mid, isAny x = true)
    (hmh : ∀ y, mid.head? = some y → isDigit y = false)
    (huq : ∀ t d r, t <:+ mid ++ '_' :: 'q' :: (q ++ tail) → t = '_' :: 'q' :: d :: r →
      isDigit d = true → t = '_' :: 'q' :: (q ++ tail))
    (huc : ∀ t d r,
      t <:+ pre ++ '_' :: 'c' :: 'o' :: 'i' :: 'd' :: (id ++ (mid ++ '_' :: 'q' :: (q ++ tail))) →
      t = 'c' :: 'o' :: 'i' :: 'd' :: d :: r → isDigit d = true →
      t = 'c' :: 'o' :: 'i' :: 'd' :: (id ++ (mid ++ '_' :: 'q' :: (q ++ tail))))
    (hnos : ∀ x ∈ pre ++ '_' :: 'c' :: 'o' :: 'i' :: 'd' ::
      (id ++ (mid ++ '_' :: 'q' :: (q ++ tail))), x ≠ 's') :
    idQ.matchAt
        (pre ++ '_' :: 'c' :: 'o' :: 'i' :: 'd' :: (id ++ (mid ++ '_' :: 'q' :: (q ++ tail)))) =
      some ([], [(3, q), (2, id)]) := by
  obtain ⟨caps, hm, _, _⟩ := idQ_matchAt pre id mid q tail hpre hid hidd hq hqd htail hth
    hmid hmh huq huc
  have hm2 := hm
  unfold Re.matchAt at hm2
  have hm3 : Re.run (.cat (.star false (.cls isAny)) (Re.seq [Re.opt (.grp 1 seTag),
      Re.opt (Re.chr '_'), Re.lit "coid".toList, .grp 2 (Re.plus Re.digit), Re.anyStar,
      Re.lit "_q".toList, .grp 3 (Re.plus Re.digit), Re.anyStar]))
      (pre ++ '_' :: 'c' :: 'o' :: 'i' :: 'd' :: (id ++ (mid ++ '_' :: 'q' :: (q ++ tail))))
      [] (fun s1 c1 => some (s1, c1)) = some ([], caps) := hm2
  rw [run_cat, run_star] at hm3
  obtain ⟨t, ht, hkt⟩ := loop_cls_prov _ _ _ _ _ _ _ hm3
  have hs : t.head? ≠ some 's' := by
    intro e
    exact hnos 's' (ht.subset (List.mem_of_mem_head? e)) rfl
  have hD := idQ_front_plain t id mid q tail ([], caps) hid hidd hq hqd htail hth hmid hmh
    huq (fun t1 d r h1 h2 h3 => huc t1 d r (h1.trans ht) h2 h3) hs hkt
  rw [hm, hD]

theorem extractTokens_legacy (i q : List Char) (hi : i ≠ [])
    (hid : ∀ x ∈ i, isDigit x = true) (hq : q ≠ []) (hqd : ∀ x ∈ q, isDigit x = true) :
    extractTokens ("film_coid".toList ++ i ++ "_q".toList ++ q ++ ".mp4".toList) =
      ([], i, q) := by
  have hI := fun x hx => numChar_facts x (Or.inl (hid x hx))
  have hQ := fun x hx => numChar_facts x (Or.inl (hqd x hx))
  have hds : ∀ x, isDigit x = true → x ≠ 's' := by
    intro x hx e
    rw [e] at hx
    revert hx
    decide
  have hname : "film_coid".toList ++ i ++ "_q".toList ++ q ++ ".mp4".toList =
      (['f', 'i', 'l', 'm'] ++ []) ++ '_' :: 'c' :: 'o' :: 'i' :: 'd' ::
        (i ++ ([] ++ '_' :: 'q' :: (q ++ ['.', 'm', 'p', '4']))) := by
    simp
  have htq : adj '_' 'q' ('q' :: (q ++ ['.', 'm', 'p', '4'])) = false := by
    rw [adj_cons_ne '_' 'q' 'q' _ (by decide),
      adj_append_of_ne _ _ _ _ (fun x hx => (hQ x hx).2.1)]
    rfl
  have huq : ∀ t d r, t <:+ [] ++ '_' :: 'q' :: (q ++ ['.', 'm', 'p', '4']) →
      t = '_' :: 'q' :: d :: r → isDigit d = true →
      t = '_' :: 'q' :: (q ++ ['.', 'm', 'p', '4']) :=
    fun t d r ht hshape _ => suffix_unique_pair '_' 'q' '_' t [] _ _ ht hshape rfl htq
  have hco : adj 'c' 'o' ('o' :: 'i' :: 'd' ::
      (i ++ ([] ++ '_' :: 'q' :: (q ++ ['.', 'm', 'p', '4'])))) = false := by
    apply adj_false_of_ne
    intro x hx
    simp only [List.mem_cons, List.mem_append, List.nil_append, List.not_mem_nil,
      or_false] at hx
    rcases hx with h | h | h | h | h | h | h | h | h | h | h <;>
      first
      | exact (hI x h).2.2.1
      | exact (hQ x h).2.2.1
      | (rw [h]; decide)
  have hslug : ∀ d, isDigit d = true → ¬ (['c', 'o', 'i', 'd', d] <:+: ['f', 'i', 'l', 'm']) := by
    rintro d _ ⟨u, w, h⟩
    have hc : 'c' ∈ ['f', 'i', 'l', 'm'] := by
      rw [← h]
      simp
    revert hc
    decide
  have huc : ∀ t d r, t <:+ (['f', 'i', 'l', 'm'] ++ []) ++ '_' :: 'c' :: 'o' :: 'i' :: 'd' ::
        (i ++ ([] ++ '_' :: 'q' :: (q ++ ['.', 'm', 'p', '4']))) →
      t = 'c' :: 'o' :: 'i' :: 'd' :: d :: r → isDigit d = true →
      t = 'c' :: 'o' :: 'i' :: 'd' ::
        (i ++ ([] ++ '_' :: 'q' :: (q ++ ['.', 'm', 'p', '4']))) :=
    fun t d r ht hshape hd =>
      coid_unique ['f', 'i', 'l', 'm'] [] i _ t r d hslug (Or.inl rfl) hco ht hshape hd
  have hnos : ∀ x ∈ (['f', 'i', 'l', 'm'] ++ []) ++ '_' :: 'c' :: 'o' :: 'i' :: 'd' ::
      (i ++ ([] ++ '_' :: 'q' :: (q ++ ['.', 'm', 'p', '4']))), x ≠ 's' := by
    intro x hx
    simp only [List.mem_cons, List.mem_append, List.nil_append, List.append_nil,
      List.not_mem_nil, or_false] at hx
    rcases hx with (h | h | h | h) | h | h | h | h | h | h | h | h | h | h | h | h | h <;>
      first
      | exact hds x (hid x h)
      | exact hds x (hqd x h)
      | (rw [h]; decide)
  have hm := idQ_matchAt_plain (['f', 'i', 'l', 'm'] ++ []) i [] q ['.', 'm', 'p', '4']
    (by decide) hi hid hq hqd (by decide) (by decide) (by simp) (by simp) huq huc hnos
  rw [← hname] at hm
  have hne : "film_coid".toList ++ i ++ "_q".toList ++ q ++ ".mp4".toList ≠ [] := by
    rw [hname]
    simp
  unfold extractTokens
  rw [if_pos (matchString_of_matchAt idQ _ _ _ hm hne),
    replaceAllString_full idQ _ _ 1 hm hne idQ_matchAt_nil,
    replaceAllString_full idQ _ _ 2 hm hne idQ_matchAt_nil,
    replaceAllString_full idQ _ _ 3 hm hne idQ_matchAt_nil]
  rfl

/-- C11: for all non-empty digit strings `i` and `q` the extraction of lines 179 to 188
applied to `film_coid` + i + `_q` + q + `.mp4` yields the season/episode tag `""`, the id
`i` and the quality `q`, and the test of line 189 does not skip the file; for a base name
that matches neither `idQ` nor `idQ2` the three tokens stay empty and the file is skipped
with `FileName is wrong.`. -/
theorem c11_legacy_tokens :
    (∀ i q : List Char, i ≠ [] → (∀ x ∈ i, isDigit x = true) → q ≠ [] →
      (∀ x ∈ q, isDigit x = true) →
      extractTokens ("film_coid".toList ++ i ++ "_q".toList ++ q ++ ".mp4".toList) =
          ([], i, q) ∧
        ∀ (kp : Bool) (f : FileInput),
          f.baseName = "film_coid".toList ++ i ++ "_q".toList ++ q ++ ".mp4".toList →
          pass kp f =
            ((catalogStep kp f.kpResult).1,
              [Line.plain ("INPUT:  ".toList ++ f.baseName)] ++
                (catalogStep kp f.kpResult).2 ++ probeStep f.probeErr ++
                streamsStep (catalogStep kp f.kpResult).1 f.baseName [] i q
                  f.kpResult f.probe)) ∧
    (∀ baseName : List Char, idQ.matchString baseName = false →
      idQ2.matchString baseName = false →
      extractTokens baseName = ([], [], []) ∧
        ∀ (kp : Bool) (f : FileInput), f.baseName = baseName →
          pass kp f =
            (kp, [Line.plain ("INPUT:  ".toList ++ f.baseName),
              Line.red "FileName is wrong.".toList,
              Line.plain "MUST BE: .*coid(\\d+)_q(\\d+).*".toList])) := by
  constructor
  · intro i q hi hid hq hqd
    have he := extractTokens_legacy i q hi hid hq hqd
    refine ⟨he, ?_⟩
    intro kp f hf
    have hlen : ∀ s : List Char,
        s ≠ "film_coid".toList ++ s ++ "_q".toList ++ q ++ ".mp4".toList ∧
        s ≠ "film_coid".toList ++ i ++ "_q".toList ++ s ++ ".mp4".toList := by
      intro s
      constructor <;>
        · intro e
          have := congrArg List.length e
          simp at this
          omega
    unfold pass
    rw [hf, he]
    simp only
    rw [if_neg]
    rintro (h | h | h | h)
    · exact (hlen i).1 h
    · exact hi h
    · exact (hlen q).2 h
    · exact hq h
  · intro baseName h1 h2
    have he : extractTokens baseName = ([], [], []) := by
      unfold extractTokens
      rw [h1, h2]
      rfl
    refine ⟨he, ?_⟩
    intro kp f hf
    unfold pass
    rw [hf, he]
    simp

theorem c11_legacy_tokens_witness :
    extractTokens "film_coid12345_q0.mp4".toList = ([], "12345".toList, "0".toList) :=
  (c11_legacy_tokens.1 "12345".toList "0".toList (by decide) (by decide) (by decide)
    (by decide)).1

/-! ## The pattern of the degraded mode -/

theorem isMeta_false (x : Char)
    (h : isDigit x = true ∨ isAlpha x = true ∨ x = '_' ∨ x = '-') : isMeta x = false := by
  cases hm : isMeta x with
  | false => rfl
  | true =>
    exfalso
    simp only [isMeta, decide_eq_true_eq] at hm
    have hall : ∀ y ∈ "\\.+*?()|[]\x7b\x7d^$".toList,
        ¬ (isDigit y = true ∨ isAlpha y = true ∨ y = '_' ∨ y = '-') := by decide
    exact hall x hm h

theorem isMeta_dot_star : isMeta '.' = true ∧ isMeta '*' = true := by decide

theorem compileAtoms_lits (s rest : List Char) (hs : ∀ c ∈ s, isMeta c = false)
    (hrest : rest.head? ≠ some '*') :
    compileAtoms (s ++ rest) = (compileAtoms rest).map (fun rs => s.map Re.chr ++ rs) := by
  induction s with
  | nil => simp
  | cons x xs ih =>
    have hx := hs x (List.mem_cons_self _ _)
    have hxd : x ≠ '.' := by
      intro e
      rw [e, isMeta_dot_star.1] at hx
      cases hx
    have ih2 := ih (fun c hc => hs c (List.mem_cons_of_mem _ hc))
    cases hrs : xs ++ rest with
    | nil =>
      have hxs : xs = [] := (List.append_eq_nil.1 hrs).1
      have hr : rest = [] := (List.append_eq_nil.1 hrs).2
      rw [hxs, hr]
      simp [compileAtoms, hxd, hx]
    | cons y t =>
      have hy : y ≠ '*' := by
        intro e
        cases xs with
        | nil =>
          rw [List.nil_append] at hrs
          rw [hrs, e] at hrest
          exact hrest rfl
        | cons z zs =>
          rw [List.cons_append] at hrs
          injection hrs with h1 _
          have := hs z (List.mem_cons_of_mem _ (List.mem_cons_self _ _))
          rw [h1, e, isMeta_dot_star.2] at this
          cases this
      rw [List.cons_append, hrs, compileAtoms]
      simp only [hy, if_false, hxd, hx, Bool.false_eq_true]
      rw [← hrs, ih2, Option.map_map]
      rfl

theorem compileAtoms_dot_star (rest : List Char) :
    compileAtoms ('.' :: '*' :: rest) =
      (compileAtoms rest).map (fun rs => Re.star true (.cls isAny) :: rs) := by
  rw [compileAtoms]
  simp

theorem run_seq_cons (a : Re) (as : List Re) (s : List Char) (c : Caps) (k : Cont) :
    Re.run (Re.seq (a :: as)) s c k =
      Re.run a s c (fun s1 c1 => Re.run (Re.seq as) s1 c1 k) := by
  cases as with
  | nil => rfl
  | cons b bs => rfl

theorem run_seq_lits (w : List Char) (as : List Re) (s : List Char) (c : Caps) (k : Cont) :
    Re.run (Re.seq (w.map Re.chr ++ as)) (w ++ s) c k = Re.run (Re.seq as) s c k := by
  induction w with
  | nil => rfl
  | cons x xs ih =>
    rw [List.map_cons, List.cons_append, List.cons_append, run_seq_cons, Re.chr,
      run_cls_cons]
    simpa using ih

theorem run_seq_anyStar (as : List Re) (pre rest : List Char) (c : Caps) (k : Cont)
    (r : List Char × Caps) (hpre : ∀ x ∈ pre, isAny x = true)
    (h : Re.run (Re.seq as) rest c k = some r) :
    ∃ r1, Re.run (Re.seq (Re.star true (.cls isAny) :: as)) (pre ++ rest) c k = some r1 := by
  rw [run_seq_cons, run_star]
  exact loop_cls_success isAny true pre rest _ c
    (fun s1 c1 => Re.run (Re.seq as) s1 c1 k) r hpre (by simp) h

theorem pattern_accepts (slug se id year q : List Char) (v : Video) (l : Char)
    (hany : ∀ x ∈ slug, isAny x = true)
    (hse : se = [] ∨ ∃ tag, se = '_' :: tag ∧
      ∀ x ∈ tag, x = 's' ∨ x = 'e' ∨ isDigit x = true)
    (hidd : ∀ x ∈ id, isDigit x = true) (hqd : ∀ x ∈ q, isDigit x = true)
    (hyear : ∀ x ∈ year, isDigit x = true ∨ x = '-')
    (hfps : ∀ x ∈ v.fps, isDigit x = true ∨ x = '.') (hl : isAlpha l = true) :
    ∃ re, compile (patternText se id q v l) = some re ∧
      re.matchString (exactName slug se id year q v l) = true := by
  have hnum : ∀ x, isDigit x = true ∨ x = '-' → isMeta x = false := by
    intro x hx
    rcases hx with hx | hx
    · exact isMeta_false x (Or.inl hx)
    · exact isMeta_false x (Or.inr (Or.inr (Or.inr hx)))
  have hsem : ∀ x ∈ se, isMeta x = false := by
    intro x hx
    rcases hse with h | ⟨tag, h, htag⟩
    · rw [h] at hx
      cases hx
    · rw [h] at hx
      rcases List.mem_cons.1 hx with h1 | h1
      · rw [h1]
        rfl
      · rcases htag x h1 with h2 | h2 | h2
        · rw [h2]
          rfl
        · rw [h2]
          rfl
        · exact isMeta_false x (Or.inl h2)
  obtain ⟨l1, hl1⟩ : ∃ l1, l1 = se ++ '_' :: 'c' :: 'o' :: 'i' :: 'd' :: (id ++ ['_']) :=
    ⟨_, rfl⟩
  obtain ⟨l2, hl2⟩ : ∃ l2, l2 = '_' :: '_' :: 'q' :: (q ++ '_' :: 'r' ::
      (itoa v.resolution.1 ++ 'x' :: (itoa v.resolution.2 ++ 'p' :: (fpsDigits v ++
        ['_', 'a', l, '2'])))) := ⟨_, rfl⟩
  have hm1 : ∀ x ∈ l1, isMeta x = false := by
    intro x hx
    rw [hl1] at hx
    simp only [List.mem_cons, List.mem_append, List.not_mem_nil, or_false] at hx
    rcases hx with h | h | h | h | h | h | h | h <;>
      first
      | exact hsem x h
      | exact isMeta_false x (Or.inl (hidd x h))
      | (rw [h]; rfl)
  have hm2 : ∀ x ∈ l2, isMeta x = false := by
    intro x hx
    rw [hl2] at hx
    simp only [List.mem_cons, List.mem_append, List.not_mem_nil, or_false] at hx
    rcases hx with h | h | h | h | h | h | h | h | h | h | h | h | h | h | h <;>
      first
      | exact isMeta_false x (Or.inl (hqd x h))
      | exact hnum x (itoa_chars _ x h)
      | exact isMeta_false x (Or.inl (fpsDigits_digits v hfps x h))
      | (rw [h]; exact isMeta_false l (Or.inr (Or.inl hl)))
      | (rw [h]; rfl)
  have hpat : patternText se id q v l =
      '.' :: '*' :: (l1 ++ '.' :: '*' :: (l2 ++ ['.', 'm', 'p', '4'])) := by
    rw [hl1, hl2]
    simp [patternText, techPart, byteString_alpha l hl, List.append_assoc]
  have hname : exactName slug se id year q v l =
      slug ++ (l1 ++ (year ++ (l2 ++ ['.', 'm', 'p', '4']))) := by
    rw [hl1, hl2]
    simp [exactName, techPart, byteString_alpha l hl, List.append_assoc]
  have hend : compileAtoms ['.', 'm', 'p', '4'] =
      some [Re.cls isAny, Re.chr 'm', Re.chr 'p', Re.chr '4'] := rfl
  have hatoms : compileAtoms (patternText se id q v l) =
      some (Re.star true (.cls isAny) :: (l1.map Re.chr ++
        (Re.star true (.cls isAny) :: (l2.map Re.chr ++
          [Re.cls isAny, Re.chr 'm', Re.chr 'p', Re.chr '4'])))) := by
    rw [hpat, compileAtoms_dot_star, compileAtoms_lits l1 _ hm1 (by simp),
      compileAtoms_dot_star, compileAtoms_lits l2 _ hm2 (by simp), hend]
    rfl
  refine ⟨_, by rw [compile, hatoms]; rfl, ?_⟩
  have h4 : Re.run (Re.seq [Re.cls isAny, Re.chr 'm', Re.chr 'p', Re.chr '4'])
      ['.', 'm', 'p', '4'] [] (fun s1 c1 => some (s1, c1)) = some ([], []) := rfl
  have h3 : Re.run (Re.seq (l2.map Re.chr ++
      [Re.cls isAny, Re.chr 'm', Re.chr 'p', Re.chr '4']))
      (l2 ++ ['.', 'm', 'p', '4']) [] (fun s1 c1 => some (s1, c1)) = some ([], []) := by
    rw [run_seq_lits]
    exact h4
  obtain ⟨r2, h2⟩ := run_seq_anyStar _ year _ [] _ _
    (fun x hx => (numChar_facts x (hyear x hx)).1) h3
  have h1 : Re.run (Re.seq (l1.map Re.chr ++ (Re.star true (.cls isAny) ::
      (l2.map Re.chr ++ [Re.cls isAny, Re.chr 'm', Re.chr 'p', Re.chr '4']))))
      (l1 ++ (year ++ (l2 ++ ['.', 'm', 'p', '4']))) [] (fun s1 c1 => some (s1, c1)) =
        some r2 := by
    rw [run_seq_lits]
    exact h2
  obtain ⟨r0, h0⟩ := run_seq_anyStar _ slug _ [] _ _ hany h1
  have hne : exactName slug se id year q v l ≠ [] := by
    rw [hname, hl1]
    simp
  rw [← hname] at h0
  exact matchString_of_matchAt _ _ r0.1 r0.2 h0 hne

/-- C19: for every slug returned by `translit`, every season/episode segment (empty, or
`_` and a tag of `s`, `e` and digits), all digit strings `id` and `q`, every year of
digits and `-`, every resolution, every fps text of digits and `.` and every audio
language starting with an ASCII letter, the pattern of line 308 compiles and matches the
exact-mode name of line 299 built from the same values; so in degraded mode a file that
carries this name is reported correct. -/
theorem c19_degraded_accepts_exact (chain : List Char → List Char)
    (text se id year q movieName movieYear : List Char) (v : Video) (a : Audio)
    (l : Char) (rest : List Char)
    (hse : se = [] ∨ ∃ tag, se = '_' :: tag ∧
      ∀ x ∈ tag, x = 's' ∨ x = 'e' ∨ isDigit x = true)
    (hidd : ∀ x ∈ id, isDigit x = true) (hqd : ∀ x ∈ q, isDigit x = true)
    (hyear : ∀ x ∈ year, isDigit x = true ∨ x = '-')
    (hfps : ∀ x ∈ v.fps, isDigit x = true ∨ x = '.')
    (hlang : a.lang = l :: rest) (hl : isAlpha l = true) :
    (∃ re, compile (patternText se id q v l) = some re ∧
      re.matchString (exactName (translitWith chain text).1 se id year q v l) = true) ∧
    compareName false (exactName (translitWith chain text).1 se id year q v l) se id q
        movieName movieYear v a =
      [Line.green "Video and audio parameters in input fileName are correct.".toList,
        Line.plain []] := by
  obtain ⟨re, hre, hm⟩ := pattern_accepts (translitWith chain text).1 se id year q v l
    (translitWith_isAny chain text) hse hidd hqd hyear hfps hl
  refine ⟨⟨re, hre, hm⟩, ?_⟩
  unfold compareName
  rw [hlang]
  simp only [Bool.false_eq_true, if_false, hre, hm, if_true]

theorem c19_degraded_accepts_exact_witness :
    (∃ re, compile (patternText "_s01e02".toList "12345".toList "0".toList videoF 'r') =
        some re ∧
      re.matchString (exactName (translitWith textChain "Матрица".toList).1
        "_s01e02".toList "12345".toList "1999".toList "0".toList videoF 'r') = true) ∧
    compareName false (exactName (translitWith textChain "Матрица".toList).1
        "_s01e02".toList "12345".toList "1999".toList "0".toList videoF 'r')
        "_s01e02".toList "12345".toList "0".toList [] [] videoF audioStereo =
      [Line.green "Video and audio parameters in input fileName are correct.".toList,
        Line.plain []] :=
  c19_degraded_accepts_exact textChain "Матрица".toList "_s01e02".toList "12345".toList
    "1999".toList "0".toList [] [] videoF audioStereo 'r' "us".toList
    (Or.inr ⟨"s01e02".toList, rfl, by decide⟩) (by decide) (by decide) (by decide)
    (by decide) rfl (by decide)

end Yachk
